import Mathlib

/-!
# amdgpu_metrics: field decoder, channel validator, core functionality detector

A shallow embedding of the common code in `amdgpu_metrics.h` and of the
snapshot cache, the initialisation and the hwmon callbacks in
`amdgpu_metrics.c`.

Conventions of the embedding:

* C arrays (`data[NCHANNELS_TEMP]`, the definition tables, ...) are maps from
  the index to the element; only indices below the array size are meaningful.
  The anonymous struct inside each `DEF_CHANNELS_*` union aliases `data[]`, so
  `temp.core[k]` is `temp.data[12 + k]`, `power.core[k]` is `power.data[4 + k]`
  and `freq.coreclk[k]` is `freq.data[22 + k]`.
* `union gpu_metrics` is its byte image, a list of bytes; bytes past the end of
  the list read as 0.
* The byte order of the machine is a parameter (`be = true`: big-endian).
* A C function returning `int` and storing through an out-pointer returns a
  pair: the return code and `some v` when `v` was stored, `none` when nothing
  was stored.
-/

namespace AmdgpuMetrics

/-! ## Constants -/

/-- errno `EINVAL`. -/
def EINVAL : Int := 22
/-- errno `ENODEV`. -/
def ENODEV : Int := 19
/-- errno `ENOSYS`. -/
def ENOSYS : Int := 38

/-- The constant `NCORES`. -/
def NCORES : Nat := 16
/-- The constant `NCHANNELS_TEMP`, the size of `amdgpu_metrics_labels_temp`. -/
def NCHANNELS_TEMP : Nat := 31
/-- The constant `NCHANNELS_POWER`, the size of `amdgpu_metrics_labels_power`. -/
def NCHANNELS_POWER : Nat := 24
/-- The constant `NCHANNELS_FREQ`, the size of `amdgpu_metrics_labels_freq`. -/
def NCHANNELS_FREQ : Nat := 43

/-- Index of `core[0]` inside `DEF_CHANNELS_TEMP(_t).data`:
edge, hotspot, mem, vrgfx, vrsoc, vrmem, hbm[4], gfx, soc come first. -/
def TEMP_CORE : Nat := 12
/-- Index of `core[0]` inside `DEF_CHANNELS_POWER(_t).data`:
socket, cpu, soc, gfx come first. -/
def POWER_CORE : Nat := 4
/-- Index of `coreclk[0]` inside `DEF_CHANNELS_FREQ(_t).data`:
gfxclk[8], socclk[4], uclk, vclk[4], dclk[4], fclk come first. -/
def FREQ_CORECLK : Nat := 22

/-- The enumerator `channel_null` of `enum channel_data_type`. -/
def channel_null : Nat := 0
/-- The enumerator `channel_u8` of `enum channel_data_type`. -/
def channel_u8 : Nat := 1
/-- The enumerator `channel_u16` of `enum channel_data_type`. -/
def channel_u16 : Nat := 2
/-- The enumerator `channel_u32` of `enum channel_data_type`. -/
def channel_u32 : Nat := 3
/-- The enumerator `channel_u64` of `enum channel_data_type`. -/
def channel_u64 : Nat := 4
/-- The enumerator `channel_invalid` of `enum channel_data_type`. -/
def channel_invalid : Nat := 5

/-- The constant `U8_MAX`. -/
def U8_MAX : Nat := 2 ^ 8 - 1
/-- The constant `U16_MAX`. -/
def U16_MAX : Nat := 2 ^ 16 - 1
/-- The constant `U32_MAX`. -/
def U32_MAX : Nat := 2 ^ 32 - 1
/-- The constant `U64_MAX`. -/
def U64_MAX : Nat := 2 ^ 64 - 1

/-- The macro `data_type_enum_to_size`; the last arm is `(WARN_ON(1), 0)`. -/
def data_type_enum_to_size (e : Nat) : Nat :=
  if e = channel_u8 then 1
  else if e = channel_u16 then 2
  else if e = channel_u32 then 4
  else if e = channel_u64 then 8
  else 0

/-! ## Data model -/

/-- The member `fb` of `channel_t` (13-bit offset, 3-bit type). -/
structure channel_fb where
  offset : Nat
  type : Nat

/-- The type `channel_t` (13-bit offset, 3-bit type, fallback). -/
structure channel_t where
  offset : Nat
  type : Nat
  fb : channel_fb

/-- The macro `is_channel_valid`. -/
def is_channel_valid (e : channel_t) : Bool :=
  decide (channel_null < e.type) && decide (e.type < channel_invalid)

/-- The type `struct amdgpu_metrics_def`. -/
structure amdgpu_metrics_def where
  metrics_size : Nat
  temp : Nat → channel_t
  power : Nat → channel_t
  freq : Nat → channel_t

/-- The type `remap_t` (`idx` is a 6-bit field). -/
structure remap_t where
  valid : Bool
  ext : Bool
  idx : Nat

/-- The type `struct amdgpu_metrics_labels_remap`. -/
structure amdgpu_metrics_labels_remap where
  temp : Nat → remap_t
  power : Nat → remap_t
  freq : Nat → remap_t

/-- The type `struct amdgpu_metrics_private_common`; `channels` is the table
entry the pointer refers to, `metrics` the bytes of `union gpu_metrics`. -/
structure amdgpu_metrics_private_common where
  channels : amdgpu_metrics_def
  remap : amdgpu_metrics_labels_remap
  has_per_core : Bool
  metrics : List Nat

/-! ## Loads from the snapshot -/

/-- The byte at index `i` of the snapshot. -/
def byte_at (m : List Nat) (i : Nat) : Nat :=
  m.getD i 0 % 256

/-- The native-endian unsigned integer of `w` bytes stored at offset `off`:
what `*(uintN_t *)p` reads for `p = (void *)&priv->metrics + off`. -/
def load (be : Bool) (m : List Nat) (off : Nat) : Nat → Nat
  | 0 => 0
  | w + 1 =>
    if be then byte_at m off * 256 ^ w + load be m (off + 1) w
    else byte_at m off + 256 * load be m (off + 1) w

/-! ## Field decoder -/

/-- Outcome of one pass through the body of the `while (1)` loop of
`amdgpu_metrics_get_val`: a `return`, or the next values of the loop
variables `offset`, `type`, `retrying`. -/
inductive pass_result where
  | ret (code : Int) (val : Option Nat)
  | again (offset : Nat) (type : Nat) (retrying : Bool)

/-- The `switch (type)` of `amdgpu_metrics_get_val`: the pair `(raw, max)`,
or `none` for the `default:` arm. -/
def read_raw (be : Bool) (m : List Nat) (p : Nat) (type : Nat) : Option (Nat × Nat) :=
  if type = channel_u8 then some (load be m p 1, U8_MAX)
  else if type = channel_u16 then some (load be m p 2, U16_MAX)
  else if type = channel_u32 then some (load be m p 4, U32_MAX)
  else if type = channel_u64 then some (load be m p 8, U64_MAX)
  else none

/-- One pass through the loop body of `amdgpu_metrics_get_val`. -/
def get_val_pass (be : Bool) (priv : amdgpu_metrics_private_common) (channel : channel_t)
    (offset type : Nat) (retrying : Bool) : pass_result :=
  if offset + data_type_enum_to_size type > priv.channels.metrics_size then
    .ret (-EINVAL) none
  else
    match read_raw be priv.metrics offset type with
    | none => .ret (-EINVAL) none
    | some (raw, max) =>
      if raw < max then .ret 0 (some raw)
      else if retrying || channel.fb.type == channel_null then .ret (-ENODEV) none
      else .again channel.fb.offset channel.fb.type true

/-- The `while (1)` loop of `amdgpu_metrics_get_val`, run for at most `fuel`
passes; `none` when the passes are used up before a `return`. -/
def get_val_loop (be : Bool) (priv : amdgpu_metrics_private_common) (channel : channel_t) :
    Nat → Nat → Nat → Bool → Option (Int × Option Nat)
  | 0, _, _, _ => none
  | fuel + 1, offset, type, retrying =>
    match get_val_pass be priv channel offset type retrying with
    | .ret code val => some (code, val)
    | .again offset1 type1 retrying1 => get_val_loop be priv channel fuel offset1 type1 retrying1

/-- The function `amdgpu_metrics_get_val`. The callers always pass a non-null
`val`, so the leading `WARN_ON(!val)` never fires. The loop returns within two
passes (`get_val_loop_fuel`), so the `none` arm is never taken. -/
def amdgpu_metrics_get_val (be : Bool) (priv : amdgpu_metrics_private_common)
    (channel : channel_t) : Int × Option Nat :=
  match get_val_loop be priv channel 2 channel.offset channel.type false with
  | some r => r
  | none => (-EINVAL, none)

/-! ## Channel validator -/

/-- Body of the `for` loop of `__amdgpu_metrics_validate_channels` for slot
`i`: the compound literal stored into `remaps[i]`. `err` and `val` are reset
to 0 at the top of the body, `.ext` is not named in the literal and so is
`false`, and `.idx = i` is truncated to the 6-bit field. -/
def validate_channel (be : Bool) (priv : amdgpu_metrics_private_common)
    (channels : Nat → channel_t) (zero_is_invalid : Bool) (i : Nat) : remap_t :=
  let r := amdgpu_metrics_get_val be priv (channels i)
  let err : Int := r.1
  let val : Nat := r.2.getD 0
  let valid : Bool :=
    if !is_channel_valid (channels i) then false
    else if err ≠ 0 then false
    else if zero_is_invalid && val == 0 then false
    else true
  { valid := valid, ext := false, idx := i % 64 }

/-- The function `__amdgpu_metrics_validate_channels`: the `remaps` array
after the iterations `i = 0, ..., size - 1`. The arguments `channel_group`
and `labels` only feed `pr_debug`. -/
def __amdgpu_metrics_validate_channels (be : Bool) (priv : amdgpu_metrics_private_common)
    (channels : Nat → channel_t) (remaps : Nat → remap_t) :
    (size : Nat) → (zero_is_invalid : Bool) → Nat → remap_t
  | 0, _ => remaps
  | size + 1, zero_is_invalid =>
    Function.update
      (__amdgpu_metrics_validate_channels be priv channels remaps size zero_is_invalid)
      size (validate_channel be priv channels zero_is_invalid size)

/-! ## Core functionality detector -/

/-- The local variables of `_amdgpu_metrics_validate_core` together with
`*priv`. `power` and `freq` are declared without an initialiser; they start
at 0 here and are read only right after `amdgpu_metrics_get_val` stored into
them. -/
structure core_state where
  priv : amdgpu_metrics_private_common
  temp_label_i : Nat
  power_label_i : Nat
  freq_label_i : Nat
  functional_cores : Nat
  dummy_cores : Nat
  power : Nat
  freq : Nat

/-- The right-hand sides of `err_power = ...` and `err_freq = ...` in
`_amdgpu_metrics_validate_core`, with the value stored through the out-pointer,
if any. `_GET_VAL` expands to an unparenthesised conditional expression, so
`!valid || GET_CORE_POWER(priv, i, &power)` is
`(!valid || i >= NCORES) ? -EINVAL : amdgpu_metrics_get_val(...)`. -/
def core_err (be : Bool) (priv : amdgpu_metrics_private_common) (valid : Bool) (i : Nat)
    (channel : channel_t) : Int × Option Nat :=
  if !valid || decide (i ≥ NCORES) then (-EINVAL, none)
  else amdgpu_metrics_get_val be priv channel

/-- The expression assigned to `core_functional`. -/
def core_functional (err_power : Int) (power : Nat) (err_freq : Int) (freq : Nat) : Bool :=
  ((err_power == 0 && decide (power > 0)) && (err_freq == 0 && decide (freq > 0)))
  || ((err_power == 0 && decide (power > 0)) && err_freq != 0)
  || (err_power != 0 && (err_freq == 0 && decide (freq > 0)))
  || (err_power != 0 && err_freq != 0)

/-- One iteration, for core `i`, of the `for` loop of
`_amdgpu_metrics_validate_core`. The label counters and the core counters are
`uint8_t`, `idx` is a 6-bit field. -/
def validate_core_pass (be : Bool) (s : core_state) (i : Nat) : core_state :=
  let temp := s.priv.remap.temp (TEMP_CORE + i)
  let power := s.priv.remap.power (POWER_CORE + i)
  let freq := s.priv.remap.freq (FREQ_CORECLK + i)
  if !temp.valid && !power.valid && !freq.valid then s
  else
    let rp := core_err be s.priv power.valid i (s.priv.channels.power (POWER_CORE + i))
    let rf := core_err be s.priv freq.valid i (s.priv.channels.freq (FREQ_CORECLK + i))
    let power_v : Nat := rp.2.getD s.power
    let freq_v : Nat := rf.2.getD s.freq
    if core_functional rp.1 power_v rf.1 freq_v then
      { priv := { s.priv with remap :=
          { temp := Function.update s.priv.remap.temp (TEMP_CORE + i)
              { temp with idx := s.temp_label_i % 64 }
            power := Function.update s.priv.remap.power (POWER_CORE + i)
              { power with idx := s.power_label_i % 64 }
            freq := Function.update s.priv.remap.freq (FREQ_CORECLK + i)
              { freq with idx := s.freq_label_i % 64 } } }
        temp_label_i := (s.temp_label_i + 1) % 256
        power_label_i := (s.power_label_i + 1) % 256
        freq_label_i := (s.freq_label_i + 1) % 256
        functional_cores := (s.functional_cores + 1) % 256
        dummy_cores := s.dummy_cores
        power := power_v
        freq := freq_v }
    else
      { priv := { s.priv with remap :=
          { temp := Function.update s.priv.remap.temp (TEMP_CORE + i)
              { temp with valid := false }
            power := Function.update s.priv.remap.power (POWER_CORE + i)
              { power with valid := false }
            freq := Function.update s.priv.remap.freq (FREQ_CORECLK + i)
              { freq with valid := false } } }
        temp_label_i := s.temp_label_i
        power_label_i := s.power_label_i
        freq_label_i := s.freq_label_i
        functional_cores := s.functional_cores
        dummy_cores := (s.dummy_cores + 1) % 256
        power := power_v
        freq := freq_v }

/-- The state of `_amdgpu_metrics_validate_core` after the iterations
`i = 0, ..., n - 1` of its `for` loop. -/
def validate_core_loop (be : Bool) (priv : amdgpu_metrics_private_common) : Nat → core_state
  | 0 =>
    { priv := priv
      temp_label_i := (priv.remap.temp TEMP_CORE).idx % 256
      power_label_i := (priv.remap.power POWER_CORE).idx % 256
      freq_label_i := (priv.remap.freq FREQ_CORECLK).idx % 256
      functional_cores := 0
      dummy_cores := 0
      power := 0
      freq := 0 }
  | n + 1 => validate_core_pass be (validate_core_loop be priv n) n

/-- The function `_amdgpu_metrics_validate_core`: return code and `*priv`. -/
def _amdgpu_metrics_validate_core (be : Bool) (priv : amdgpu_metrics_private_common) :
    Int × amdgpu_metrics_private_common :=
  let s := validate_core_loop be priv NCORES
  (if s.functional_cores ≠ 0 then 0 else -ENODEV, s.priv)

/-! ## Schema lookup and initialisation -/

/-- The three definition tables `amdgpu_metric_def_table_v1[9]`,
`amdgpu_metric_def_table_v2[5]` and `amdgpu_metric_def_table_v3[1]`. Their
entries are built from `offsetof` and `sizeof` of the vendor structs
`struct gpu_metrics_v*_*` (vendor/kgd_pp_interface.h), so the entries are a
parameter here; the array sizes are those of the source. -/
structure def_tables where
  v1 : Nat → amdgpu_metrics_def
  v2 : Nat → amdgpu_metrics_def
  v3 : Nat → amdgpu_metrics_def

/-- The function `amdgpu_metrics_get_channels`: return code and the value
stored into `*channels`, if any. -/
def amdgpu_metrics_get_channels (tables : def_tables) (fr cr : Nat) :
    Int × Option amdgpu_metrics_def :=
  if fr = 1 then
    if cr < 9 then (0, some (tables.v1 cr)) else (-ENOSYS, none)
  else if fr = 2 then
    if cr < 5 then (0, some (tables.v2 cr)) else (-ENOSYS, none)
  else if fr = 3 then
    if cr < 1 then (0, some (tables.v3 cr)) else (-ENOSYS, none)
  else (-ENOSYS, none)

/-- Offset and size in bytes of one member of `struct metrics_table_header`. -/
structure header_member where
  offset : Nat
  size : Nat

/-- Modelled from the spec: the layout of `struct metrics_table_header`, which
is declared in vendor/kgd_pp_interface.h and not in the sources at hand. The
spec names its three unsigned fields and leaves their offsets and widths to
the vendor header, so the layout is a parameter. -/
structure metrics_table_header where
  structure_size : header_member
  format_revision : header_member
  content_revision : header_member

/-- The value of a header member converted to `unsigned int`. -/
def header_field (be : Bool) (m : List Nat) (f : header_member) : Nat :=
  load be m f.offset f.size % 2 ^ 32

/-- The three `_amdgpu_metrics_validate_channels(priv, ..., ...)` statements of
`amdgpu_metrics_init_priv_common`, in order: temperatures with
`zero_is_invalid = true`, then power and frequency with `false`. -/
def validate_all_channels (be : Bool) (priv : amdgpu_metrics_private_common) :
    amdgpu_metrics_private_common :=
  let priv2 := { priv with remap := { priv.remap with
    temp := __amdgpu_metrics_validate_channels be priv priv.channels.temp
      priv.remap.temp NCHANNELS_TEMP true } }
  let priv3 := { priv2 with remap := { priv2.remap with
    power := __amdgpu_metrics_validate_channels be priv2 priv2.channels.power
      priv2.remap.power NCHANNELS_POWER false } }
  { priv3 with remap := { priv3.remap with
    freq := __amdgpu_metrics_validate_channels be priv3 priv3.channels.freq
      priv3.remap.freq NCHANNELS_FREQ false } }

/-- The function `amdgpu_metrics_init_priv_common`: return code and `*priv`. -/
def amdgpu_metrics_init_priv_common (be : Bool) (hdr : metrics_table_header)
    (tables : def_tables) (priv : amdgpu_metrics_private_common) :
    Int × amdgpu_metrics_private_common :=
  let r := amdgpu_metrics_get_channels tables
    (header_field be priv.metrics hdr.format_revision)
    (header_field be priv.metrics hdr.content_revision)
  let priv1 : amdgpu_metrics_private_common :=
    match r.2 with
    | some c => { priv with channels := c }
    | none => priv
  if r.1 ≠ 0 then (r.1, priv1)
  else
    let rc := _amdgpu_metrics_validate_core be (validate_all_channels be priv1)
    if rc.1 = -ENODEV then (0, { rc.2 with has_per_core := false })
    else if rc.1 ≠ 0 then (rc.1, rc.2)
    else (0, { rc.2 with has_per_core := true })

/-! ## Sample snapshots -/

/-- A descriptor left out of a designated initialiser: all fields zero. -/
def null_channel : channel_t :=
  { offset := 0, type := channel_null, fb := { offset := 0, type := channel_null } }

/-- A 12-byte snapshot (little-endian): header `0c 00 01 00`, a 16-bit field
holding the all-ones value at offset 4, a 16-bit field holding 800 at offset 6,
a 16-bit all-ones field at offset 8 and a 16-bit zero at offset 10. -/
def sample_metrics : List Nat :=
  [0x0c, 0x00, 0x01, 0x00, 0xff, 0xff, 0x20, 0x03, 0xff, 0xff, 0x00, 0x00]

/-- A schema of size 12 without any populated descriptor. -/
def sample_def : amdgpu_metrics_def :=
  { metrics_size := 12
    temp := fun _ => null_channel
    power := fun _ => null_channel
    freq := fun _ => null_channel }

/-- A remap table as zero-initialised memory. -/
def zero_remap : amdgpu_metrics_labels_remap :=
  { temp := fun _ => { valid := false, ext := false, idx := 0 }
    power := fun _ => { valid := false, ext := false, idx := 0 }
    freq := fun _ => { valid := false, ext := false, idx := 0 } }

/-- The sample snapshot under the sample schema. -/
def sample_priv : amdgpu_metrics_private_common :=
  { channels := sample_def, remap := zero_remap, has_per_core := false,
    metrics := sample_metrics }

/-- A 16-bit field at offset 6 (value 800), no fallback. -/
def sample_plain : channel_t :=
  { offset := 6, type := channel_u16, fb := { offset := 0, type := channel_null } }

/-- A 16-bit field at offset 4 (all-ones) with the 16-bit field at offset 6
(value 800) as fallback. -/
def sample_with_fb : channel_t :=
  { offset := 4, type := channel_u16, fb := { offset := 6, type := channel_u16 } }

/-- A 16-bit field at offset 4 (all-ones), no fallback. -/
def sample_no_fb : channel_t :=
  { offset := 4, type := channel_u16, fb := { offset := 0, type := channel_null } }

/-- A 16-bit field at offset 4 (all-ones) whose fallback at offset 8 is
all-ones too. -/
def sample_fb_sentinel : channel_t :=
  { offset := 4, type := channel_u16, fb := { offset := 8, type := channel_u16 } }

/-- A 16-bit field at offset 11: its second byte lies past the schema size. -/
def sample_oob : channel_t :=
  { offset := 11, type := channel_u16, fb := { offset := 0, type := channel_null } }

/-- A 16-bit field at offset 4 (all-ones) whose 32-bit fallback at offset 10
lies partly past the schema size. -/
def sample_fb_oob : channel_t :=
  { offset := 4, type := channel_u16, fb := { offset := 10, type := channel_u32 } }

/-- A 30-byte snapshot (little-endian): header `1e 00 03 00`; core 3 has
temperature 4200 at offset 4, power 0 at offset 6, frequency 0 at offset 8;
core 4 has temperature 4500 at offset 10, power 1000 at offset 12, frequency
800 at offset 14; the socket power at offset 16, the clock at offset 18 and
the edge temperature at offset 20 are 0; core 5 has temperature 0 at offset
22, power 500 at offset 24, frequency 1000 at offset 26; core 6 has
temperature 5000 at offset 28 and nothing else. -/
def sample_core_metrics : List Nat :=
  [0x1e, 0x00, 0x03, 0x00, 0x68, 0x10, 0x00, 0x00, 0x00, 0x00,
   0x94, 0x11, 0xe8, 0x03, 0x20, 0x03, 0x00, 0x00, 0x00, 0x00,
   0x00, 0x00, 0x00, 0x00, 0xf4, 0x01, 0xe8, 0x03, 0x88, 0x13]

/-- A 16-bit field at `offset` without fallback. -/
def u16_at (offset : Nat) : channel_t :=
  { offset := offset, type := channel_u16, fb := { offset := 0, type := channel_null } }

/-- A schema of size 30 that populates `temp.edge`, `power.socket`,
`freq.gfxclk[0]`, the temperature, power and frequency of the cores 3, 4
and 5, and the temperature of core 6. -/
def sample_core_def : amdgpu_metrics_def :=
  { metrics_size := 30
    temp := fun i =>
      if i = 0 then u16_at 20 else if i = 15 then u16_at 4 else if i = 16 then u16_at 10
      else if i = 17 then u16_at 22 else if i = 18 then u16_at 28 else null_channel
    power := fun i =>
      if i = 0 then u16_at 16 else if i = 7 then u16_at 6 else if i = 8 then u16_at 12
      else if i = 9 then u16_at 24 else null_channel
    freq := fun i =>
      if i = 0 then u16_at 18 else if i = 25 then u16_at 8 else if i = 26 then u16_at 14
      else if i = 27 then u16_at 26 else null_channel }

/-- The header layout `uint16_t structure_size; uint8_t format_revision;
uint8_t content_revision;`. -/
def sample_hdr : metrics_table_header :=
  { structure_size := { offset := 0, size := 2 }
    format_revision := { offset := 2, size := 1 }
    content_revision := { offset := 3, size := 1 } }

/-- Tables whose revision 3.0 is `sample_core_def`; every other entry is
`sample_def`. -/
def sample_tables : def_tables :=
  { v1 := fun _ => sample_def, v2 := fun _ => sample_def, v3 := fun _ => sample_core_def }

/-- The state before initialisation: zeroed but for the snapshot just read. -/
def sample_core_fresh : amdgpu_metrics_private_common :=
  { channels := sample_def, remap := zero_remap, has_per_core := false,
    metrics := sample_core_metrics }

/-- The 30-byte snapshot under `sample_core_def`, remap tables still zero. -/
def sample_core_unvalidated : amdgpu_metrics_private_common :=
  { channels := sample_core_def, remap := zero_remap, has_per_core := false,
    metrics := sample_core_metrics }

/-- The 30-byte snapshot under `sample_core_def` with the remap tables the
channel validator produces for it. -/
def sample_core_priv : amdgpu_metrics_private_common :=
  validate_all_channels false sample_core_unvalidated

/-- The result of initialising `sample_core_fresh`. -/
def sample_core_init : Int × amdgpu_metrics_private_common :=
  amdgpu_metrics_init_priv_common false sample_hdr sample_tables sample_core_fresh

/-! ## Vocabulary of the statements about the core detector -/

/-- At least one of the three per-core entries of core `k` is valid. -/
def any_core_entry_valid (priv : amdgpu_metrics_private_common) (k : Nat) : Bool :=
  (priv.remap.temp (TEMP_CORE + k)).valid || (priv.remap.power (POWER_CORE + k)).valid
    || (priv.remap.freq (FREQ_CORECLK + k)).valid

/-- In the words of the spec, `P` and `F`: the slot is valid and decodes to a
value greater than 0. -/
def slot_positive (be : Bool) (priv : amdgpu_metrics_private_common) (entry : remap_t)
    (channel : channel_t) : Bool :=
  entry.valid && (amdgpu_metrics_get_val be priv channel).1 == 0
    && (match (amdgpu_metrics_get_val be priv channel).2 with
        | some v => decide (v > 0)
        | none => false)

/-- In the words of the spec, `Pu` and `Fu`: the slot is marked invalid or
fails to decode. -/
def slot_unavailable (be : Bool) (priv : amdgpu_metrics_private_common) (entry : remap_t)
    (channel : channel_t) : Bool :=
  !entry.valid || (amdgpu_metrics_get_val be priv channel).1 != 0

/-- In the words of the spec: `(P and F) or (P and Fu) or (Pu and F) or
(Pu and Fu)` for core `k`. -/
def spec_core_functional (be : Bool) (priv : amdgpu_metrics_private_common) (k : Nat) : Bool :=
  let P := slot_positive be priv (priv.remap.power (POWER_CORE + k))
    (priv.channels.power (POWER_CORE + k))
  let F := slot_positive be priv (priv.remap.freq (FREQ_CORECLK + k))
    (priv.channels.freq (FREQ_CORECLK + k))
  let Pu := slot_unavailable be priv (priv.remap.power (POWER_CORE + k))
    (priv.channels.power (POWER_CORE + k))
  let Fu := slot_unavailable be priv (priv.remap.freq (FREQ_CORECLK + k))
    (priv.channels.freq (FREQ_CORECLK + k))
  (P && F) || (P && Fu) || (Pu && F) || (Pu && Fu)

/-- Core `k` has a valid entry and satisfies the condition of the spec. -/
def core_is_functional (be : Bool) (priv : amdgpu_metrics_private_common) (k : Nat) : Bool :=
  any_core_entry_valid priv k && spec_core_functional be priv k

/-- Core `k` has a valid entry and does not satisfy the condition of the spec. -/
def core_is_dummy (be : Bool) (priv : amdgpu_metrics_private_common) (k : Nat) : Bool :=
  any_core_entry_valid priv k && !spec_core_functional be priv k

/-- Number of cores `k < n` with `core_is_functional`. -/
def functional_below (be : Bool) (priv : amdgpu_metrics_private_common) : Nat → Nat
  | 0 => 0
  | n + 1 => functional_below be priv n + if core_is_functional be priv n then 1 else 0

/-- Number of cores `k < n` with `core_is_dummy`. -/
def dummy_below (be : Bool) (priv : amdgpu_metrics_private_common) : Nat → Nat
  | 0 => 0
  | n + 1 => dummy_below be priv n + if core_is_dummy be priv n then 1 else 0

/-- What the detector does: iteration `k` of the loop takes the branch that
counts core `k` in `functional_cores`. -/
def classified_functional (be : Bool) (priv : amdgpu_metrics_private_common) (k : Nat) : Bool :=
  decide ((validate_core_loop be priv (k + 1)).functional_cores
    = (validate_core_loop be priv k).functional_cores + 1)

/-- What the detector does: iteration `k` of the loop takes the branch that
counts core `k` in `dummy_cores`. -/
def classified_dummy (be : Bool) (priv : amdgpu_metrics_private_common) (k : Nat) : Bool :=
  decide ((validate_core_loop be priv (k + 1)).dummy_cores
    = (validate_core_loop be priv k).dummy_cores + 1)

/-- Number of cores below `k` that the detector counted as functional: the
position of core `k` among the functional cores in ascending order. -/
def functional_rank (be : Bool) (priv : amdgpu_metrics_private_common) (k : Nat) : Nat :=
  ((List.range k).filter (classified_functional be priv)).length

/-- A per-core entry `e` of core `k` after the detector ran, given the value
`label0` of the entry `core[0].idx` it started from. -/
def core_entry_after (be : Bool) (priv : amdgpu_metrics_private_common) (k : Nat)
    (e : remap_t) (label0 : Nat) : remap_t :=
  if core_is_functional be priv k then
    { e with idx := (label0 % 256 + functional_below be priv k) % 256 % 64 }
  else if core_is_dummy be priv k then { e with valid := false }
  else e

/-- The state of the detector after `n` iterations, described from the
input `priv` alone: the snapshot, the schema and `has_per_core` are those of
`priv`, the counters count the functional and the dummy cores below `n`, the
label counters have advanced by the number of functional cores, and the
per-core entries of the cores below `n` are as `core_entry_after` says while
every other entry is the one of `priv`. -/
def core_inv (be : Bool) (priv : amdgpu_metrics_private_common) (n : Nat) (s : core_state) :
    Prop :=
  s.priv.channels = priv.channels ∧ s.priv.metrics = priv.metrics
  ∧ s.priv.has_per_core = priv.has_per_core
  ∧ s.functional_cores = functional_below be priv n
  ∧ s.dummy_cores = dummy_below be priv n
  ∧ s.temp_label_i = ((priv.remap.temp TEMP_CORE).idx % 256 + functional_below be priv n) % 256
  ∧ s.power_label_i
      = ((priv.remap.power POWER_CORE).idx % 256 + functional_below be priv n) % 256
  ∧ s.freq_label_i
      = ((priv.remap.freq FREQ_CORECLK).idx % 256 + functional_below be priv n) % 256
  ∧ (∀ j, s.priv.remap.temp j
      = if TEMP_CORE ≤ j ∧ j < TEMP_CORE + n then
          core_entry_after be priv (j - TEMP_CORE) (priv.remap.temp j)
            (priv.remap.temp TEMP_CORE).idx
        else priv.remap.temp j)
  ∧ (∀ j, s.priv.remap.power j
      = if POWER_CORE ≤ j ∧ j < POWER_CORE + n then
          core_entry_after be priv (j - POWER_CORE) (priv.remap.power j)
            (priv.remap.power POWER_CORE).idx
        else priv.remap.power j)
  ∧ (∀ j, s.priv.remap.freq j
      = if FREQ_CORECLK ≤ j ∧ j < FREQ_CORECLK + n then
          core_entry_after be priv (j - FREQ_CORECLK) (priv.remap.freq j)
            (priv.remap.freq FREQ_CORECLK).idx
        else priv.remap.freq j)

/-! ## Vocabulary of the statements about the schema lookup -/

/-- In the words of the claim: the pair is `(1, cr)` with `cr <= 8`, `(2, cr)`
with `cr <= 4` or `(3, 0)`. -/
def registered_revision (fr cr : Nat) : Bool :=
  (fr == 1 && decide (cr ≤ 8)) || (fr == 2 && decide (cr ≤ 4)) || (fr == 3 && cr == 0)

/-- Entry `cr` of the table of the major line `fr`. -/
def table_entry (tables : def_tables) (fr cr : Nat) : amdgpu_metrics_def :=
  if fr = 1 then tables.v1 cr else if fr = 2 then tables.v2 cr else tables.v3 cr

/-- The 12-byte sample with the header changed to revision 1.9, one past the
last registered minor revision of the major line 1. -/
def sample_unregistered : amdgpu_metrics_private_common :=
  { channels := sample_def, remap := zero_remap, has_per_core := false,
    metrics := [0x0c, 0x00, 0x01, 0x09, 0xff, 0xff, 0x20, 0x03, 0xff, 0xff, 0x00, 0x00] }

/-! ## Snapshot cache (amdgpu_metrics.c)

The snapshot source is the file behind `path`. It is modelled as the sequence
of outcomes of the successive open-and-read operations together with the
number of reads made so far; reading advances the count. The reader-writer
semaphore is not modelled: the functions run one at a time. -/

/-- errno `EIO`. -/
def EIO : Int := 5
/-- errno `ENOMEM`. -/
def ENOMEM : Int := 12

/-- The constant `UPDATE_INTERVAL_MS`. -/
def UPDATE_INTERVAL_MS : Nat := 100

/-- The macro `UPDATE_INTERVAL_JIFFIES`, `UPDATE_INTERVAL_MS * HZ / 1000`, for
the tick rate `HZ` of the kernel configuration. -/
def UPDATE_INTERVAL_JIFFIES (HZ : Nat) : Nat :=
  UPDATE_INTERVAL_MS * HZ / 1000

/-- Width of `unsigned long`, the type of `jiffies`, on a 64-bit kernel. -/
def BITS_PER_LONG : Nat := 64

/-- The kernel macro `time_before(a, b)`, `(long)((a) - (b)) < 0`: the
difference of the two `unsigned long` values has its sign bit set. -/
def time_before (a b : Nat) : Bool :=
  decide (2 ^ (BITS_PER_LONG - 1)
    ≤ (a % 2 ^ BITS_PER_LONG + (2 ^ BITS_PER_LONG - b % 2 ^ BITS_PER_LONG)) % 2 ^ BITS_PER_LONG)

/-- The type `struct amdgpu_metrics_private`, without `path` (never changed
after registration) and `metrics_lock`. -/
structure amdgpu_metrics_private where
  common : amdgpu_metrics_private_common
  per_core_channel_remap : Nat → remap_t
  last_update_jiffies : Nat

/-- What one open-and-read of the snapshot file finds: `filp_open` or
`kernel_read` fails with the negative value `err`, or the file holds
`content`. -/
inductive source_result where
  | fail (err : Int)
  | file (content : List Nat)

/-- The snapshot source: the outcome of the read number `k`, for every `k`,
and the number of reads made so far. -/
structure snapshot_source where
  outcome : Nat → source_result
  reads : Nat

/-- Modelled from the spec: the two sizes `sizeof(struct metrics_table_header)`
and `sizeof(union gpu_metrics)`, fixed by vendor/kgd_pp_interface.h, which is
not in the sources at hand; they are a parameter. -/
structure vendor_sizes where
  header : Nat
  metrics : Nat

/-- Number of bytes `kernel_read` returns for a file holding `content` when
asked for `buf_size` bytes from the start of the file. -/
def bytes_returned (content : List Nat) (buf_size : Nat) : Nat :=
  min content.length buf_size

/-- The buffer after `kernel_read` stored the bytes it returned at its
start. -/
def buffer_after_read (content : List Nat) (buf_size : Nat) (metrics : List Nat) : List Nat :=
  content.take (bytes_returned content buf_size) ++ metrics.drop (bytes_returned content buf_size)

/-- The field `metrics->structure_size` of the header at the start of the
buffer. -/
def header_structure_size (be : Bool) (hdr : metrics_table_header) (metrics : List Nat) : Nat :=
  load be metrics hdr.structure_size.offset hdr.structure_size.size

/-- The function `amdgpu_metrics_read_gpu_metrics`: return value, the buffer
`metrics` points to afterwards, and the source afterwards. -/
def amdgpu_metrics_read_gpu_metrics (be : Bool) (hdr : metrics_table_header)
    (sizes : vendor_sizes) (source : snapshot_source) (metrics : List Nat) (buf_size : Nat) :
    Int × List Nat × snapshot_source :=
  let source1 : snapshot_source := { source with reads := source.reads + 1 }
  match source.outcome source.reads with
  | .fail err => (err, metrics, source1)
  | .file content =>
    let ret := bytes_returned content buf_size
    let metrics1 := buffer_after_read content buf_size metrics
    if ret < sizes.header then (- EIO, metrics1, source1)
    else if ret ≠ header_structure_size be hdr metrics1 then (- EIO, metrics1, source1)
    else ((ret : Int), metrics1, source1)

/-- The function `amdgpu_metrics_update_gpu_metrics` called when `jiffies` has
the given value: return value, `*priv` and the source afterwards. -/
def amdgpu_metrics_update_gpu_metrics (HZ : Nat) (be : Bool) (hdr : metrics_table_header)
    (sizes : vendor_sizes) (jiffies : Nat) (source : snapshot_source)
    (priv : amdgpu_metrics_private) : Int × amdgpu_metrics_private × snapshot_source :=
  if time_before jiffies
      ((priv.last_update_jiffies + UPDATE_INTERVAL_JIFFIES HZ) % 2 ^ BITS_PER_LONG) then
    (0, priv, source)
  else
    let r := amdgpu_metrics_read_gpu_metrics be hdr sizes source priv.common.metrics
      priv.common.channels.metrics_size
    let size := r.1
    let priv1 : amdgpu_metrics_private :=
      { priv with common := { priv.common with metrics := r.2.1 } }
    if size < 0 then (size, priv1, r.2.2)
    else if size ≠ (priv.common.channels.metrics_size : Int) then (- EIO, priv1, r.2.2)
    else (1, { priv1 with last_update_jiffies := jiffies }, r.2.2)

/-- The state of the `for` loop of `amdgpu_metrics_init_priv`: `*priv` and the
counter `core`. -/
structure init_priv_state where
  priv : amdgpu_metrics_private
  core : Nat

/-- One iteration, for core `i`, of the `for` loop of
`amdgpu_metrics_init_priv`. -/
def init_priv_pass (s : init_priv_state) (i : Nat) : init_priv_state :=
  let temp := s.priv.common.remap.temp (TEMP_CORE + i)
  let power := s.priv.common.remap.power (POWER_CORE + i)
  let freq := s.priv.common.remap.freq (FREQ_CORECLK + i)
  if !temp.valid && !power.valid && !freq.valid then s
  else
    { priv := { s.priv with
        common := { s.priv.common with remap :=
          { temp := Function.update s.priv.common.remap.temp (TEMP_CORE + i)
              { temp with ext := true }
            power := Function.update s.priv.common.remap.power (POWER_CORE + i)
              { power with ext := true }
            freq := Function.update s.priv.common.remap.freq (FREQ_CORECLK + i)
              { freq with ext := true } } }
        per_core_channel_remap := Function.update s.priv.per_core_channel_remap s.core
          { valid := true, ext := false, idx := i % 64 } }
      core := s.core + 1 }

/-- The state of `amdgpu_metrics_init_priv` after the iterations
`i = 0, ..., n - 1` of its `for` loop. -/
def init_priv_loop (priv : amdgpu_metrics_private) : Nat → init_priv_state
  | 0 => { priv := priv, core := 0 }
  | n + 1 => init_priv_pass (init_priv_loop priv n) n

/-- The loop `while (core < NCORES)` of `amdgpu_metrics_init_priv`, run for at
most `fuel` iterations. -/
def init_priv_fill : Nat → (Nat → remap_t) → Nat → Nat → remap_t
  | 0, remap, _ => remap
  | fuel + 1, remap, core =>
    if core < NCORES then
      init_priv_fill fuel
        (Function.update remap core { valid := false, ext := false, idx := 0 }) (core + 1)
    else remap

/-- The function `amdgpu_metrics_init_priv`: return code and `*priv`. The
`while` loop makes at most `NCORES` iterations, `core` never being
negative. -/
def amdgpu_metrics_init_priv (be : Bool) (hdr : metrics_table_header) (tables : def_tables)
    (priv : amdgpu_metrics_private) (separate_per_core : Bool) :
    Int × amdgpu_metrics_private :=
  let r := amdgpu_metrics_init_priv_common be hdr tables priv.common
  let priv1 : amdgpu_metrics_private := { priv with common := r.2 }
  if r.1 ≠ 0 then (r.1, priv1)
  else if !separate_per_core || !priv1.common.has_per_core then (0, priv1)
  else
    let s := init_priv_loop priv1 NCORES
    (0, { s.priv with
      per_core_channel_remap := init_priv_fill NCORES s.priv.per_core_channel_remap s.core })

/-- The schema `priv->common.channels` points to after `devm_kzalloc`: the
pointer is NULL, and nothing reads through it before
`amdgpu_metrics_init_priv_common` stores a table entry. -/
def null_def : amdgpu_metrics_def :=
  { metrics_size := 0
    temp := fun _ => null_channel
    power := fun _ => null_channel
    freq := fun _ => null_channel }

/-- The object `devm_kzalloc` returns: all bytes zero. -/
def zeroed_private (sizes : vendor_sizes) : amdgpu_metrics_private :=
  { common :=
      { channels := null_def, remap := zero_remap, has_per_core := false,
        metrics := List.replicate sizes.metrics 0 }
    per_core_channel_remap := fun _ => { valid := false, ext := false, idx := 0 }
    last_update_jiffies := 0 }

/-- Outcomes of the kernel services `amdgpu_metrics_register_path` calls:
whether `devm_kzalloc` returns memory, and `PTR_ERR_OR_ZERO` of the two
`devm_hwmon_device_register_with_info` calls. -/
structure register_env where
  alloc_ok : Bool
  register_main : Int
  register_per_core : Int

/-- The function `amdgpu_metrics_register_path`: return code, the private
data the registered devices keep (`none` when it was freed or never
allocated), and the source afterwards. -/
def amdgpu_metrics_register_path (be : Bool) (hdr : metrics_table_header)
    (sizes : vendor_sizes) (tables : def_tables) (separate_per_core : Bool)
    (env : register_env) (source : snapshot_source) :
    Int × Option amdgpu_metrics_private × snapshot_source :=
  if !env.alloc_ok then (-ENOMEM, none, source)
  else
    let priv := zeroed_private sizes
    let r := amdgpu_metrics_read_gpu_metrics be hdr sizes source priv.common.metrics
      sizes.metrics
    if r.1 < 0 then (r.1, none, r.2.2)
    else
      let priv1 : amdgpu_metrics_private :=
        { priv with common := { priv.common with metrics := r.2.1 } }
      let ri := amdgpu_metrics_init_priv be hdr tables priv1 separate_per_core
      if ri.1 ≠ 0 then (ri.1, none, r.2.2)
      else if env.register_main ≠ 0 then (env.register_main, none, r.2.2)
      else if !separate_per_core || !ri.2.common.has_per_core then (0, some ri.2, r.2.2)
      else if env.register_per_core ≠ 0 then (env.register_per_core, none, r.2.2)
      else (0, some ri.2, r.2.2)

/-! ## Sample refreshes -/

/-- The vendor sizes of the samples: a 4-byte header and a 64-byte union. -/
def sample_sizes : vendor_sizes :=
  { header := 4, metrics := 64 }

/-- The 30-byte sample cut to 29 bytes, its header declaring 29 bytes
(`1d 00`): one byte shorter than the schema of revision 3.0 in
`sample_tables`. -/
def sample_short_metrics : List Nat :=
  [0x1d, 0x00, 0x03, 0x00, 0x68, 0x10, 0x00, 0x00, 0x00, 0x00,
   0x94, 0x11, 0xe8, 0x03, 0x20, 0x03, 0x00, 0x00, 0x00, 0x00,
   0x00, 0x00, 0x00, 0x00, 0xf4, 0x01, 0xe8, 0x03, 0x88]

/-- A source whose file always holds the 30-byte sample. -/
def sample_source : snapshot_source :=
  { outcome := fun _ => .file sample_core_metrics, reads := 0 }

/-- A source whose file always holds the 29-byte sample. -/
def sample_short_source : snapshot_source :=
  { outcome := fun _ => .file sample_short_metrics, reads := 0 }

/-- The private data after the initialisation of the 30-byte sample, never
refreshed. -/
def sample_private : amdgpu_metrics_private :=
  { common := sample_core_init.2
    per_core_channel_remap := fun _ => { valid := false, ext := false, idx := 0 }
    last_update_jiffies := 0 }

/-- A successful refresh of `sample_private` at `jiffies = 5000` with
`HZ = 1000`. -/
def sample_refreshed : Int × amdgpu_metrics_private × snapshot_source :=
  amdgpu_metrics_update_gpu_metrics 1000 false sample_hdr sample_sizes 5000 sample_source
    sample_private

/-- The environment in which every kernel service succeeds. -/
def sample_env : register_env :=
  { alloc_ok := true, register_main := 0, register_per_core := 0 }

/-! ## Definition tables

The tables are built from `offsetof` and `sizeof` of the vendor structs
`struct gpu_metrics_v*_*`. The macros are translated as they stand; the
layout of the vendor structs is a parameter. -/

/-- The members of the vendor structs that the `DEF_CHANNEL*` macros name. -/
inductive vendor_mbr where
  | temperature_edge | temperature_hotspot | temperature_mem
  | temperature_vrgfx | temperature_vrsoc | temperature_vrmem
  | temperature_hbm | temperature_gfx | temperature_soc
  | temperature_core | temperature_l3 | temperature_skin
  | average_socket_power | curr_socket_power | average_cpu_power
  | average_soc_power | average_gfx_power | average_core_power
  | average_ipu_power | average_apu_power | average_dgpu_power
  | average_all_core_power | average_sys_power
  | current_gfxclk | current_socclk | current_uclk
  | current_vclk0 | current_vclk1 | current_dclk0 | current_dclk1
  | current_fclk | current_vclk | current_dclk
  | current_coreclk | current_l3clk
  | average_gfxclk_frequency | average_socclk_frequency | average_uclk_frequency
  | average_vclk0_frequency | average_dclk0_frequency
  | average_vclk1_frequency | average_dclk1_frequency
  | average_fclk_frequency | average_vclk_frequency | average_dclk_frequency
  | average_vpeclk_frequency | average_ipuclk_frequency | average_mpipu_frequency
  deriving DecidableEq

/-- The vendor structs `struct gpu_metrics_v1_0`, ..., `struct gpu_metrics_v3_0`
the tables refer to. -/
inductive gpu_metrics_version where
  | v1_0 | v1_1 | v1_2 | v1_3 | v1_4 | v1_5 | v1_6 | v1_7 | v1_8
  | v2_0 | v2_1 | v2_2 | v2_3 | v2_4
  | v3_0
  deriving DecidableEq

/-- Modelled from the spec: a member of a vendor struct, which
vendor/kgd_pp_interface.h declares and the sources at hand do not contain:
`offsetof` of the member (of its element 0 for an array) and
`to_data_type_enum` of the member (of an element for an array). -/
structure vendor_member where
  offset : Nat
  type : Nat

/-- Modelled from the spec: a vendor struct `struct gpu_metrics_v*_*` of
vendor/kgd_pp_interface.h: its `sizeof` and its members. -/
structure vendor_struct where
  size : Nat
  member : vendor_mbr → vendor_member

/-- Slot of `edge` in `DEF_CHANNELS_TEMP(_t).data`. -/
def TEMP_EDGE : Nat := 0
/-- Slot of `hotspot` in `DEF_CHANNELS_TEMP(_t).data`. -/
def TEMP_HOTSPOT : Nat := 1
/-- Slot of `mem` in `DEF_CHANNELS_TEMP(_t).data`. -/
def TEMP_MEM : Nat := 2
/-- Slot of `vrgfx` in `DEF_CHANNELS_TEMP(_t).data`. -/
def TEMP_VRGFX : Nat := 3
/-- Slot of `vrsoc` in `DEF_CHANNELS_TEMP(_t).data`. -/
def TEMP_VRSOC : Nat := 4
/-- Slot of `vrmem` in `DEF_CHANNELS_TEMP(_t).data`. -/
def TEMP_VRMEM : Nat := 5
/-- Slot of `hbm[0]` in `DEF_CHANNELS_TEMP(_t).data`. -/
def TEMP_HBM : Nat := 6
/-- Slot of `gfx` in `DEF_CHANNELS_TEMP(_t).data`. -/
def TEMP_GFX : Nat := 10
/-- Slot of `soc` in `DEF_CHANNELS_TEMP(_t).data`. -/
def TEMP_SOC : Nat := 11
/-- Slot of `l3[0]` in `DEF_CHANNELS_TEMP(_t).data`. -/
def TEMP_L3 : Nat := 28
/-- Slot of `skin` in `DEF_CHANNELS_TEMP(_t).data`. -/
def TEMP_SKIN : Nat := 30

/-- Slot of `socket` in `DEF_CHANNELS_POWER(_t).data`. -/
def POWER_SOCKET : Nat := 0
/-- Slot of `cpu` in `DEF_CHANNELS_POWER(_t).data`. -/
def POWER_CPU : Nat := 1
/-- Slot of `soc` in `DEF_CHANNELS_POWER(_t).data`. -/
def POWER_SOC : Nat := 2
/-- Slot of `gfx` in `DEF_CHANNELS_POWER(_t).data`. -/
def POWER_GFX : Nat := 3
/-- Slot of `ipu` in `DEF_CHANNELS_POWER(_t).data`. -/
def POWER_IPU : Nat := 20
/-- Slot of `apu` in `DEF_CHANNELS_POWER(_t).data`. -/
def POWER_APU : Nat := 21
/-- Slot of `dgpu` in `DEF_CHANNELS_POWER(_t).data`. -/
def POWER_DGPU : Nat := 22
/-- Slot of `sys` in `DEF_CHANNELS_POWER(_t).data`. -/
def POWER_SYS : Nat := 23

/-- Slot of `gfxclk[0]` in `DEF_CHANNELS_FREQ(_t).data`. -/
def FREQ_GFXCLK : Nat := 0
/-- Slot of `socclk[0]` in `DEF_CHANNELS_FREQ(_t).data`. -/
def FREQ_SOCCLK : Nat := 8
/-- Slot of `uclk` in `DEF_CHANNELS_FREQ(_t).data`. -/
def FREQ_UCLK : Nat := 12
/-- Slot of `vclk[0]` in `DEF_CHANNELS_FREQ(_t).data`. -/
def FREQ_VCLK : Nat := 13
/-- Slot of `dclk[0]` in `DEF_CHANNELS_FREQ(_t).data`. -/
def FREQ_DCLK : Nat := 17
/-- Slot of `fclk` in `DEF_CHANNELS_FREQ(_t).data`. -/
def FREQ_FCLK : Nat := 21
/-- Slot of `l3clk[0]` in `DEF_CHANNELS_FREQ(_t).data`. -/
def FREQ_L3CLK : Nat := 38
/-- Slot of `vpeclk` in `DEF_CHANNELS_FREQ(_t).data`. -/
def FREQ_VPECLK : Nat := 40
/-- Slot of `ipuclk` in `DEF_CHANNELS_FREQ(_t).data`. -/
def FREQ_IPUCLK : Nat := 41
/-- Slot of `mpipuclk` in `DEF_CHANNELS_FREQ(_t).data`. -/
def FREQ_MPIPUCLK : Nat := 42

/-- One pair of designated initialisers `._channel.offset = offsetof(_t, _mbr),
._channel.type = mbr_to_data_type_enum(_t, _mbr)`, with the fallback pair of
`_DEF_CHANNEL_FB` when there is one: the slot of `_channel` in `data[]`, the
member `_mbr`, its element index (0 for a member that is not indexed) and the
fallback member. -/
structure channel_init where
  slot : Nat
  mbr : vendor_mbr
  elem : Nat
  fb : Option vendor_mbr

/-- The macro `DEF_CHANNEL`. -/
def DEF_CHANNEL (slot : Nat) (mbr : vendor_mbr) : List channel_init :=
  [{ slot := slot, mbr := mbr, elem := 0, fb := none }]

/-- The macro `DEF_CHANNEL_FB`. -/
def DEF_CHANNEL_FB (slot : Nat) (mbr fb_mbr : vendor_mbr) : List channel_init :=
  [{ slot := slot, mbr := mbr, elem := 0, fb := some fb_mbr }]

/-- The macro `DEF_CHANNEL_ARR_ELEM`: `_channel[_n]` from `_mbr[_n]`. -/
def DEF_CHANNEL_ARR_ELEM (slot : Nat) (mbr : vendor_mbr) (n : Nat) : List channel_init :=
  [{ slot := slot + n, mbr := mbr, elem := n, fb := none }]

/-- The macro `DEF_CHANNEL_ARR2`. -/
def DEF_CHANNEL_ARR2 (slot : Nat) (mbr : vendor_mbr) (off : Nat) : List channel_init :=
  DEF_CHANNEL_ARR_ELEM slot mbr (0 + off) ++ DEF_CHANNEL_ARR_ELEM slot mbr (1 + off)

/-- The macro `DEF_CHANNEL_ARR4`. -/
def DEF_CHANNEL_ARR4 (slot : Nat) (mbr : vendor_mbr) (off : Nat) : List channel_init :=
  DEF_CHANNEL_ARR2 slot mbr (0 + off) ++ DEF_CHANNEL_ARR2 slot mbr (2 + off)

/-- The macro `DEF_CHANNEL_ARR8`. -/
def DEF_CHANNEL_ARR8 (slot : Nat) (mbr : vendor_mbr) (off : Nat) : List channel_init :=
  DEF_CHANNEL_ARR4 slot mbr (0 + off) ++ DEF_CHANNEL_ARR4 slot mbr (4 + off)

/-- The macro `DEF_CHANNEL_ARR16`. -/
def DEF_CHANNEL_ARR16 (slot : Nat) (mbr : vendor_mbr) (off : Nat) : List channel_init :=
  DEF_CHANNEL_ARR8 slot mbr (0 + off) ++ DEF_CHANNEL_ARR8 slot mbr (8 + off)

/-- The macro `DEF_CHANNEL_TEMP_V1_COMMON1`. -/
def DEF_CHANNEL_TEMP_V1_COMMON1 : List channel_init :=
  DEF_CHANNEL TEMP_HOTSPOT .temperature_hotspot
  ++ DEF_CHANNEL TEMP_MEM .temperature_mem
  ++ DEF_CHANNEL TEMP_VRSOC .temperature_vrsoc

/-- The macro `DEF_CHANNEL_TEMP_V1_COMMON2`. -/
def DEF_CHANNEL_TEMP_V1_COMMON2 : List channel_init :=
  DEF_CHANNEL TEMP_EDGE .temperature_edge
  ++ DEF_CHANNEL TEMP_VRGFX .temperature_vrgfx
  ++ DEF_CHANNEL TEMP_VRMEM .temperature_vrmem

/-- The macro `DEF_CHANNEL_TEMP_V1_0`. -/
def DEF_CHANNEL_TEMP_V1_0 : List channel_init :=
  DEF_CHANNEL_TEMP_V1_COMMON1 ++ DEF_CHANNEL_TEMP_V1_COMMON2

/-- The macro `DEF_CHANNEL_POWER_V1_0`. -/
def DEF_CHANNEL_POWER_V1_0 : List channel_init :=
  DEF_CHANNEL POWER_SOCKET .average_socket_power

/-- The macro `DEF_CHANNEL_FREQ_V1_0`. -/
def DEF_CHANNEL_FREQ_V1_0 : List channel_init :=
  DEF_CHANNEL_FB (FREQ_GFXCLK + 0) .current_gfxclk .average_gfxclk_frequency
  ++ DEF_CHANNEL_FB (FREQ_SOCCLK + 0) .current_socclk .average_socclk_frequency
  ++ DEF_CHANNEL_FB FREQ_UCLK .current_uclk .average_uclk_frequency
  ++ DEF_CHANNEL_FB (FREQ_VCLK + 0) .current_vclk0 .average_vclk0_frequency
  ++ DEF_CHANNEL_FB (FREQ_VCLK + 1) .current_vclk1 .average_dclk0_frequency
  ++ DEF_CHANNEL_FB (FREQ_DCLK + 0) .current_dclk0 .average_vclk1_frequency
  ++ DEF_CHANNEL_FB (FREQ_DCLK + 1) .current_dclk1 .average_dclk1_frequency

/-- The macro `DEF_CHANNEL_TEMP_V1_1`. -/
def DEF_CHANNEL_TEMP_V1_1 : List channel_init :=
  DEF_CHANNEL_TEMP_V1_0 ++ DEF_CHANNEL_ARR4 TEMP_HBM .temperature_hbm 0

/-- The macro `DEF_CHANNEL_POWER_V1_4`. -/
def DEF_CHANNEL_POWER_V1_4 : List channel_init :=
  DEF_CHANNEL POWER_SOCKET .curr_socket_power

/-- The macro `DEF_CHANNEL_FREQ_V1_4`. -/
def DEF_CHANNEL_FREQ_V1_4 : List channel_init :=
  DEF_CHANNEL_ARR8 FREQ_GFXCLK .current_gfxclk 0
  ++ DEF_CHANNEL_ARR4 FREQ_SOCCLK .current_socclk 0
  ++ DEF_CHANNEL FREQ_UCLK .current_uclk
  ++ DEF_CHANNEL_ARR4 FREQ_VCLK .current_vclk0 0
  ++ DEF_CHANNEL_ARR4 FREQ_DCLK .current_dclk0 0

/-- The macro `DEF_CHANNEL_TEMP_V2`. -/
def DEF_CHANNEL_TEMP_V2 : List channel_init :=
  DEF_CHANNEL TEMP_GFX .temperature_gfx
  ++ DEF_CHANNEL TEMP_SOC .temperature_soc
  ++ DEF_CHANNEL_ARR8 TEMP_CORE .temperature_core 0
  ++ DEF_CHANNEL_ARR2 TEMP_L3 .temperature_l3 0

/-- The macro `DEF_CHANNEL_POWER_V2`. -/
def DEF_CHANNEL_POWER_V2 : List channel_init :=
  DEF_CHANNEL POWER_SOCKET .average_socket_power
  ++ DEF_CHANNEL POWER_CPU .average_cpu_power
  ++ DEF_CHANNEL POWER_SOC .average_soc_power
  ++ DEF_CHANNEL POWER_GFX .average_gfx_power
  ++ DEF_CHANNEL_ARR8 POWER_CORE .average_core_power 0

/-- The macro `DEF_CHANNEL_FREQ_V2`. -/
def DEF_CHANNEL_FREQ_V2 : List channel_init :=
  DEF_CHANNEL_FB (FREQ_GFXCLK + 0) .current_gfxclk .average_gfxclk_frequency
  ++ DEF_CHANNEL_FB (FREQ_SOCCLK + 0) .current_socclk .average_socclk_frequency
  ++ DEF_CHANNEL_FB FREQ_UCLK .current_uclk .average_uclk_frequency
  ++ DEF_CHANNEL_FB FREQ_FCLK .current_fclk .average_fclk_frequency
  ++ DEF_CHANNEL_FB (FREQ_VCLK + 0) .current_vclk .average_vclk_frequency
  ++ DEF_CHANNEL_FB (FREQ_DCLK + 0) .current_dclk .average_dclk_frequency
  ++ DEF_CHANNEL_ARR8 FREQ_CORECLK .current_coreclk 0
  ++ DEF_CHANNEL_ARR2 FREQ_L3CLK .current_l3clk 0

/-- The macro `DEF_CHANNEL_TEMP_V3`. -/
def DEF_CHANNEL_TEMP_V3 : List channel_init :=
  DEF_CHANNEL TEMP_GFX .temperature_gfx
  ++ DEF_CHANNEL TEMP_SOC .temperature_soc
  ++ DEF_CHANNEL_ARR16 TEMP_CORE .temperature_core 0
  ++ DEF_CHANNEL TEMP_SKIN .temperature_skin

/-- The macro `DEF_CHANNEL_POWER_V3`. -/
def DEF_CHANNEL_POWER_V3 : List channel_init :=
  DEF_CHANNEL POWER_SOCKET .average_socket_power
  ++ DEF_CHANNEL POWER_IPU .average_ipu_power
  ++ DEF_CHANNEL POWER_APU .average_apu_power
  ++ DEF_CHANNEL POWER_GFX .average_gfx_power
  ++ DEF_CHANNEL POWER_DGPU .average_dgpu_power
  ++ DEF_CHANNEL POWER_CPU .average_all_core_power
  ++ DEF_CHANNEL_ARR16 POWER_CORE .average_core_power 0
  ++ DEF_CHANNEL POWER_SYS .average_sys_power

/-- The macro `DEF_CHANNEL_FREQ_V3`. -/
def DEF_CHANNEL_FREQ_V3 : List channel_init :=
  DEF_CHANNEL (FREQ_GFXCLK + 0) .average_gfxclk_frequency
  ++ DEF_CHANNEL (FREQ_SOCCLK + 0) .average_socclk_frequency
  ++ DEF_CHANNEL FREQ_VPECLK .average_vpeclk_frequency
  ++ DEF_CHANNEL FREQ_IPUCLK .average_ipuclk_frequency
  ++ DEF_CHANNEL FREQ_FCLK .average_fclk_frequency
  ++ DEF_CHANNEL (FREQ_VCLK + 0) .average_vclk_frequency
  ++ DEF_CHANNEL FREQ_UCLK .average_uclk_frequency
  ++ DEF_CHANNEL_ARR16 FREQ_CORECLK .current_coreclk 0
  ++ DEF_CHANNEL FREQ_MPIPUCLK .average_mpipu_frequency

/-- The three macro arguments `_temp`, `_power`, `_freq` of `DEF_CHANNELS`. -/
structure channel_defs where
  temp : List channel_init
  power : List channel_init
  freq : List channel_init

/-- The arguments `DEF_CHANNELS_V1_0` passes to `DEF_CHANNELS`. -/
def channel_defs_V1_0 : channel_defs :=
  { temp := DEF_CHANNEL_TEMP_V1_0, power := DEF_CHANNEL_POWER_V1_0,
    freq := DEF_CHANNEL_FREQ_V1_0 }

/-- The arguments `DEF_CHANNELS_V1_1` passes to `DEF_CHANNELS`. -/
def channel_defs_V1_1 : channel_defs :=
  { temp := DEF_CHANNEL_TEMP_V1_1, power := DEF_CHANNEL_POWER_V1_0,
    freq := DEF_CHANNEL_FREQ_V1_0 }

/-- The arguments `DEF_CHANNELS_V1_4` passes to `DEF_CHANNELS`. -/
def channel_defs_V1_4 : channel_defs :=
  { temp := DEF_CHANNEL_TEMP_V1_COMMON1, power := DEF_CHANNEL_POWER_V1_4,
    freq := DEF_CHANNEL_FREQ_V1_4 }

/-- The arguments `DEF_CHANNELS_V2_0` passes to `DEF_CHANNELS`. -/
def channel_defs_V2_0 : channel_defs :=
  { temp := DEF_CHANNEL_TEMP_V2, power := DEF_CHANNEL_POWER_V2, freq := DEF_CHANNEL_FREQ_V2 }

/-- The arguments `DEF_CHANNELS_V3_0` passes to `DEF_CHANNELS`. -/
def channel_defs_V3_0 : channel_defs :=
  { temp := DEF_CHANNEL_TEMP_V3, power := DEF_CHANNEL_POWER_V3, freq := DEF_CHANNEL_FREQ_V3 }

/-- The descriptor one initialiser stores: `offsetof(_t, _mbr[_n])` is the
offset of the member plus `_n` elements; the offset goes into a 13-bit field
and the type into a 3-bit field. -/
def channel_of_init (S : vendor_struct) (c : channel_init) : channel_t :=
  { offset :=
      ((S.member c.mbr).offset + c.elem * data_type_enum_to_size (S.member c.mbr).type) % 2 ^ 13
    type := (S.member c.mbr).type % 2 ^ 3
    fb :=
      match c.fb with
      | none => { offset := 0, type := channel_null }
      | some m => { offset := (S.member m).offset % 2 ^ 13, type := (S.member m).type % 2 ^ 3 } }

/-- An array `data[]` of descriptors initialised by a list of designated
initialisers: slots not named are zero, a later initialiser of a slot
overrides an earlier one. -/
def channels_of (S : vendor_struct) (inits : List channel_init) : Nat → channel_t :=
  inits.foldl (fun f c => Function.update f c.slot (channel_of_init S c)) (fun _ => null_channel)

/-- The macro `DEF_CHANNELS`; `metrics_size` is a `uint16_t`. -/
def DEF_CHANNELS (S : vendor_struct) (d : channel_defs) : amdgpu_metrics_def :=
  { metrics_size := S.size % 2 ^ 16
    temp := channels_of S d.temp
    power := channels_of S d.power
    freq := channels_of S d.freq }

/-- The table `amdgpu_metric_def_table_v1`. -/
def amdgpu_metric_def_table_v1 (L : gpu_metrics_version → vendor_struct) (cr : Nat) :
    amdgpu_metrics_def :=
  match cr with
  | 0 => DEF_CHANNELS (L .v1_0) channel_defs_V1_0
  | 1 => DEF_CHANNELS (L .v1_1) channel_defs_V1_1
  | 2 => DEF_CHANNELS (L .v1_2) channel_defs_V1_1
  | 3 => DEF_CHANNELS (L .v1_3) channel_defs_V1_1
  | 4 => DEF_CHANNELS (L .v1_4) channel_defs_V1_4
  | 5 => DEF_CHANNELS (L .v1_5) channel_defs_V1_4
  | 6 => DEF_CHANNELS (L .v1_6) channel_defs_V1_4
  | 7 => DEF_CHANNELS (L .v1_7) channel_defs_V1_4
  | 8 => DEF_CHANNELS (L .v1_8) channel_defs_V1_4
  | _ => null_def

/-- The table `amdgpu_metric_def_table_v2`. -/
def amdgpu_metric_def_table_v2 (L : gpu_metrics_version → vendor_struct) (cr : Nat) :
    amdgpu_metrics_def :=
  match cr with
  | 0 => DEF_CHANNELS (L .v2_0) channel_defs_V2_0
  | 1 => DEF_CHANNELS (L .v2_1) channel_defs_V2_0
  | 2 => DEF_CHANNELS (L .v2_2) channel_defs_V2_0
  | 3 => DEF_CHANNELS (L .v2_3) channel_defs_V2_0
  | 4 => DEF_CHANNELS (L .v2_4) channel_defs_V2_0
  | _ => null_def

/-- The table `amdgpu_metric_def_table_v3`. -/
def amdgpu_metric_def_table_v3 (L : gpu_metrics_version → vendor_struct) (cr : Nat) :
    amdgpu_metrics_def :=
  match cr with
  | 0 => DEF_CHANNELS (L .v3_0) channel_defs_V3_0
  | _ => null_def

/-- The three tables of the source over a vendor layout. -/
def amdgpu_metric_def_tables (L : gpu_metrics_version → vendor_struct) : def_tables :=
  { v1 := amdgpu_metric_def_table_v1 L
    v2 := amdgpu_metric_def_table_v2 L
    v3 := amdgpu_metric_def_table_v3 L }

/-- The registered revisions: major, minor, the vendor struct and the macro
arguments of the table entry. -/
def registered_schemas : List (Nat × Nat × gpu_metrics_version × channel_defs) :=
  [(1, 0, .v1_0, channel_defs_V1_0), (1, 1, .v1_1, channel_defs_V1_1),
   (1, 2, .v1_2, channel_defs_V1_1), (1, 3, .v1_3, channel_defs_V1_1),
   (1, 4, .v1_4, channel_defs_V1_4), (1, 5, .v1_5, channel_defs_V1_4),
   (1, 6, .v1_6, channel_defs_V1_4), (1, 7, .v1_7, channel_defs_V1_4),
   (1, 8, .v1_8, channel_defs_V1_4),
   (2, 0, .v2_0, channel_defs_V2_0), (2, 1, .v2_1, channel_defs_V2_0),
   (2, 2, .v2_2, channel_defs_V2_0), (2, 3, .v2_3, channel_defs_V2_0),
   (2, 4, .v2_4, channel_defs_V2_0),
   (3, 0, .v3_0, channel_defs_V3_0)]

/-- Modelled from the spec: the invariant `offset + byte_width(width_class) <=
schema.declared_size` for one initialiser against a vendor struct, which
vendor/kgd_pp_interface.h declares and the sources at hand do not contain:
the member has one of the types u8/u16/u32/u64 (the static assertion of
`mbr_to_data_type_enum`), the element named lies inside the struct, and the
same holds for the fallback member when there is one. -/
def init_ok (S : vendor_struct) (c : channel_init) : Bool :=
  decide (channel_null < (S.member c.mbr).type) && decide ((S.member c.mbr).type < channel_invalid)
  && decide ((S.member c.mbr).offset
      + (c.elem + 1) * data_type_enum_to_size (S.member c.mbr).type ≤ S.size)
  && (match c.fb with
      | none => true
      | some m =>
        decide (channel_null < (S.member m).type) && decide ((S.member m).type < channel_invalid)
        && decide ((S.member m).offset + data_type_enum_to_size (S.member m).type ≤ S.size))

/-- Modelled from the spec: the vendor layout respects the invariant of the
spec for every registered revision: the struct size fits the 16-bit
`metrics_size` field and every initialiser of the revision satisfies
`init_ok`. -/
def vendor_ok (L : gpu_metrics_version → vendor_struct) : Bool :=
  registered_schemas.all fun r =>
    decide ((L r.2.2.1).size < 2 ^ 16)
    && (r.2.2.2.temp.all (init_ok (L r.2.2.1))
      && r.2.2.2.power.all (init_ok (L r.2.2.1))
      && r.2.2.2.freq.all (init_ok (L r.2.2.1)))

/-- In the words of the claim: the primary field of the descriptor and, where
a fallback is attached, the fallback field lie within `metrics_size`. -/
def descriptor_in_bounds (d : amdgpu_metrics_def) (c : channel_t) : Prop :=
  c.offset + data_type_enum_to_size c.type ≤ d.metrics_size
  ∧ (c.fb.type ≠ channel_null →
      c.fb.offset + data_type_enum_to_size c.fb.type ≤ d.metrics_size)

/-- A vendor layout for the samples: every struct has 1540 bytes, a 4-byte
header followed by the members in the order of `vendor_mbr`, each an array of
16 `uint16_t`. -/
def sample_layout : gpu_metrics_version → vendor_struct :=
  fun _ =>
    { size := 1540
      member := fun m => { offset := 4 + 32 * m.toCtorIdx, type := channel_u16 } }

/-- A snapshot of revision 1.0 under `sample_layout`: the header `04 06 01 00`
and 1536 bytes `0x11`. -/
def sample_v1_0_priv : amdgpu_metrics_private_common :=
  { channels := amdgpu_metric_def_table_v1 sample_layout 0
    remap := zero_remap
    has_per_core := false
    metrics := [0x04, 0x06, 0x01, 0x00] ++ List.replicate 1536 0x11 }

/-! ## Channel reads (amdgpu_metrics.c) -/

/-- errno `EOPNOTSUPP`. -/
def EOPNOTSUPP : Int := 95

/-- The kernel type `enum hwmon_sensor_types` (linux/hwmon.h). -/
inductive hwmon_sensor_types where
  | hwmon_chip | hwmon_temp | hwmon_in | hwmon_curr | hwmon_power | hwmon_energy
  | hwmon_humidity | hwmon_fan | hwmon_pwm | hwmon_intrusion | hwmon_max
  deriving DecidableEq

/-- The macro `hwmon_magic_freq`: the sensor type `hwmon_intrusion` stands for
the frequency channels. -/
def hwmon_magic_freq : hwmon_sensor_types := .hwmon_intrusion

/-- The macro `hwmon_magic_freq_input`. -/
def hwmon_magic_freq_input : Nat := 0x8D8D8D8D

/-- The macro `hwmon_magic_freq_label`. -/
def hwmon_magic_freq_label : Nat := 0x0D0D0D0D

/-- The attribute numbers `hwmon_temp_input`, `hwmon_temp_label`,
`hwmon_power_input` and `hwmon_power_label` of linux/hwmon.h, a kernel header;
they are a parameter. -/
structure hwmon_attributes where
  hwmon_temp_input : Nat
  hwmon_temp_label : Nat
  hwmon_power_input : Nat
  hwmon_power_label : Nat

/-- The macro `GET_MULTIPLIER`. -/
def GET_MULTIPLIER (hwmon_type : hwmon_sensor_types) : Nat :=
  if hwmon_type = .hwmon_temp then 10
  else if hwmon_type = .hwmon_power then 1000
  else if hwmon_type = hwmon_magic_freq then 1000000
  else 0

/-- An `int` converted to `size_t` (64 bits), as the usual arithmetic
conversions do when an `int` is compared with an `ARRAY_SIZE(...)`. -/
def int_to_size_t (x : Int) : Nat :=
  (x % 2 ^ BITS_PER_LONG).toNat

/-- A `uint64_t` converted to `long` (64 bits, two's complement). -/
def u64_to_long (x : Nat) : Int :=
  if x % 2 ^ 64 < 2 ^ 63 then (x % 2 ^ 64 : Nat) else (x % 2 ^ 64 : Nat) - 2 ^ 64

/-- The macro `_GET_VAL` for a group `data[]` with an `int` index and
`_idx_max` one of `NCHANNELS_TEMP`, `NCHANNELS_POWER`, `NCHANNELS_FREQ`, which
are `ARRAY_SIZE(...)` expressions of type `size_t`: the comparison
`_idx >= _idx_max` is made on `size_t`, so a negative index compares as a large
number. -/
def _GET_VAL (be : Bool) (priv : amdgpu_metrics_private_common) (idx : Int) (idx_max : Nat)
    (channel_group : Nat → channel_t) : Int × Option Nat :=
  if int_to_size_t idx ≥ idx_max then (-EINVAL, none)
  else amdgpu_metrics_get_val be priv (channel_group idx.toNat)

/-- The macro `GET_TEMP`. -/
def GET_TEMP (be : Bool) (priv : amdgpu_metrics_private_common) (idx : Int) : Int × Option Nat :=
  _GET_VAL be priv idx NCHANNELS_TEMP priv.channels.temp

/-- The macro `GET_POWER`. -/
def GET_POWER (be : Bool) (priv : amdgpu_metrics_private_common) (idx : Int) :
    Int × Option Nat :=
  _GET_VAL be priv idx NCHANNELS_POWER priv.channels.power

/-- The macro `GET_FREQ`. -/
def GET_FREQ (be : Bool) (priv : amdgpu_metrics_private_common) (idx : Int) : Int × Option Nat :=
  _GET_VAL be priv idx NCHANNELS_FREQ priv.channels.freq

/-- The macros `GET_CORE_TEMP`, `GET_CORE_POWER` and `GET_CORE_FREQ` for an
index that is not negative: `_GET_VAL` with `_idx_max = NCORES` on the per-core
part of a group, which starts at slot `base` of `data[]`. -/
def _GET_CORE_VAL (be : Bool) (priv : amdgpu_metrics_private_common) (idx : Nat) (base : Nat)
    (channel_group : Nat → channel_t) : Int × Option Nat :=
  if idx ≥ NCORES then (-EINVAL, none)
  else amdgpu_metrics_get_val be priv (channel_group (base + idx))

/-- The macro `GET_CORE_TEMP`. -/
def GET_CORE_TEMP (be : Bool) (priv : amdgpu_metrics_private_common) (idx : Nat) :
    Int × Option Nat :=
  _GET_CORE_VAL be priv idx TEMP_CORE priv.channels.temp

/-- The macro `GET_CORE_POWER`. -/
def GET_CORE_POWER (be : Bool) (priv : amdgpu_metrics_private_common) (idx : Nat) :
    Int × Option Nat :=
  _GET_CORE_VAL be priv idx POWER_CORE priv.channels.power

/-- The macro `GET_CORE_FREQ`. -/
def GET_CORE_FREQ (be : Bool) (priv : amdgpu_metrics_private_common) (idx : Nat) :
    Int × Option Nat :=
  _GET_CORE_VAL be priv idx FREQ_CORECLK priv.channels.freq

/-- The tail shared by `amdgpu_metrics_hwmon_read` and
`amdgpu_metrics_per_core_read`: `if (err) return err; *val = raw * multiplier;
return 0;`. The product is computed in `uint64_t` (`raw` is a `uint64_t`,
`multiplier` a `uint32_t`) and stored into a `long`; `raw` holds what
`amdgpu_metrics_get_val` stored. -/
def read_result (r : Int × Option Nat) (multiplier : Nat) : Int × Option Int :=
  if r.1 ≠ 0 then (r.1, none)
  else (0, r.2.map fun raw => u64_to_long (raw * multiplier % 2 ^ 64))

/-- The function `amdgpu_metrics_hwmon_read` called when `jiffies` has the
given value: return code, the value stored into `*val` if any, `*priv` and the
source afterwards. -/
def amdgpu_metrics_hwmon_read (HZ : Nat) (be : Bool) (hdr : metrics_table_header)
    (sizes : vendor_sizes) (A : hwmon_attributes) (jiffies : Nat) (source : snapshot_source)
    (priv : amdgpu_metrics_private) (type : hwmon_sensor_types) (attr : Nat) (channel : Int) :
    Int × Option Int × amdgpu_metrics_private × snapshot_source :=
  let multiplier := GET_MULTIPLIER type
  if multiplier = 0 then (-EOPNOTSUPP, none, priv, source)
  else
    let u := amdgpu_metrics_update_gpu_metrics HZ be hdr sizes jiffies source priv
    if u.1 < 0 then (- EIO, none, u.2.1, u.2.2)
    else
      let r : Int × Option Nat :=
        if type = .hwmon_temp ∧ attr = A.hwmon_temp_input then GET_TEMP be u.2.1.common channel
        else if type = .hwmon_power ∧ attr = A.hwmon_power_input then
          GET_POWER be u.2.1.common channel
        else if type = hwmon_magic_freq ∧ attr = hwmon_magic_freq_input then
          GET_FREQ be u.2.1.common channel
        else (-EOPNOTSUPP, none)
      ((read_result r multiplier).1, (read_result r multiplier).2, u.2.1, u.2.2)

/-- The function `amdgpu_metrics_per_core_read` called when `jiffies` has the
given value, for a `channel` that is not negative (the hwmon core passes the
index of a channel of `amdgpu_metrics_per_core_info`, the shim passes
`nr - 1` with `nr` from 1 to 16): return code, the value stored into `*val` if
any, `*priv` and the source afterwards. -/
def amdgpu_metrics_per_core_read (HZ : Nat) (be : Bool) (hdr : metrics_table_header)
    (sizes : vendor_sizes) (A : hwmon_attributes) (jiffies : Nat) (source : snapshot_source)
    (priv : amdgpu_metrics_private) (type : hwmon_sensor_types) (attr : Nat) (channel : Nat) :
    Int × Option Int × amdgpu_metrics_private × snapshot_source :=
  let multiplier := GET_MULTIPLIER type
  if multiplier = 0 ∨ channel ≥ NCORES then (-EOPNOTSUPP, none, priv, source)
  else
    let u := amdgpu_metrics_update_gpu_metrics HZ be hdr sizes jiffies source priv
    if u.1 < 0 then (- EIO, none, u.2.1, u.2.2)
    else
      let channel1 := (u.2.1.per_core_channel_remap channel).idx
      let r : Int × Option Nat :=
        if type = .hwmon_temp ∧ attr = A.hwmon_temp_input then
          GET_CORE_TEMP be u.2.1.common channel1
        else if type = .hwmon_power ∧ attr = A.hwmon_power_input then
          GET_CORE_POWER be u.2.1.common channel1
        else if type = hwmon_magic_freq ∧ attr = hwmon_magic_freq_input then
          GET_CORE_FREQ be u.2.1.common channel1
        else (-EOPNOTSUPP, none)
      ((read_result r multiplier).1, (read_result r multiplier).2, u.2.1, u.2.2)

/-- The mode `0444` a visible attribute gets. -/
def S_0444 : Nat := 0o444

/-- The function `amdgpu_metrics_hwmon_is_visible`; `attr` is not used. The
comparisons `channel < NCHANNELS_*` are made on `size_t`, and `&&` evaluates
`data[channel]` only when the comparison holds. -/
def amdgpu_metrics_hwmon_is_visible (priv : amdgpu_metrics_private) (type : hwmon_sensor_types)
    (channel : Int) : Nat :=
  let visible : Bool :=
    if type = .hwmon_temp then
      decide (int_to_size_t channel < NCHANNELS_TEMP)
        && (priv.common.remap.temp channel.toNat).valid
        && !(priv.common.remap.temp channel.toNat).ext
    else if type = .hwmon_power then
      decide (int_to_size_t channel < NCHANNELS_POWER)
        && (priv.common.remap.power channel.toNat).valid
        && !(priv.common.remap.power channel.toNat).ext
    else if type = hwmon_magic_freq then
      decide (int_to_size_t channel < NCHANNELS_FREQ)
        && (priv.common.remap.freq channel.toNat).valid
        && !(priv.common.remap.freq channel.toNat).ext
    else false
  if visible then S_0444 else 0

/-- The attribute numbers of a kernel in which `hwmon_temp_input` is 1,
`hwmon_temp_label` 21, `hwmon_power_input` 9 and `hwmon_power_label` 22. -/
def sample_attrs : hwmon_attributes :=
  { hwmon_temp_input := 1, hwmon_temp_label := 21, hwmon_power_input := 9,
    hwmon_power_label := 22 }

/-- errno `ENOENT`. -/
def ENOENT : Int := 2

/-- A source whose file cannot be opened: `filp_open` fails with `-ENOENT`. -/
def sample_missing_source : snapshot_source :=
  { outcome := fun _ => .fail (-ENOENT), reads := 0 }

/-- A later 30-byte snapshot of the same device: as `sample_core_metrics`, but
core 3 now has power 700 at offset 6 and frequency 900 at offset 8, and the
edge temperature at offset 20 is 4000. -/
def sample_warm_metrics : List Nat :=
  [0x1e, 0x00, 0x03, 0x00, 0x68, 0x10, 0xbc, 0x02, 0x84, 0x03,
   0x94, 0x11, 0xe8, 0x03, 0x20, 0x03, 0x00, 0x00, 0x00, 0x00,
   0xa0, 0x0f, 0x00, 0x00, 0xf4, 0x01, 0xe8, 0x03, 0x88, 0x13]

/-- A source whose file always holds `sample_warm_metrics`. -/
def sample_warm_source : snapshot_source :=
  { outcome := fun _ => .file sample_warm_metrics, reads := 0 }

/-- In the words of the claim: the remap tables obtained by running the
channel validator and then the core functionality detector on the snapshot
`priv` holds. -/
def revalidated_remap (be : Bool) (priv : amdgpu_metrics_private_common) :
    amdgpu_metrics_labels_remap :=
  (_amdgpu_metrics_validate_core be (validate_all_channels be priv)).2.remap

/-- A run of refreshes, one at each of the given values of `jiffies` in turn:
`*priv` and the source after the last one. -/
def update_sequence (HZ : Nat) (be : Bool) (hdr : metrics_table_header) (sizes : vendor_sizes) :
    List Nat → snapshot_source → amdgpu_metrics_private →
    amdgpu_metrics_private × snapshot_source
  | [], source, priv => (priv, source)
  | jiffies :: rest, source, priv =>
    update_sequence HZ be hdr sizes rest
      (amdgpu_metrics_update_gpu_metrics HZ be hdr sizes jiffies source priv).2.2
      (amdgpu_metrics_update_gpu_metrics HZ be hdr sizes jiffies source priv).2.1

/-- The value fits the C type `int` (32 bits). -/
def is_int (x : Int) : Prop :=
  -2 ^ 31 ≤ x ∧ x < 2 ^ 31

/-- In the words of the claim: the type is temperature, power or frequency,
the channel number is a slot of that category and the remap entry of the slot
is valid and not marked `ext`. -/
def spec_visible (priv : amdgpu_metrics_private) (type : hwmon_sensor_types) (channel : Int) :
    Bool :=
  (decide (type = .hwmon_temp) && decide (0 ≤ channel) && decide (channel < 31)
      && (priv.common.remap.temp channel.toNat).valid
      && !(priv.common.remap.temp channel.toNat).ext)
  || (decide (type = .hwmon_power) && decide (0 ≤ channel) && decide (channel < 24)
      && (priv.common.remap.power channel.toNat).valid
      && !(priv.common.remap.power channel.toNat).ext)
  || (decide (type = hwmon_magic_freq) && decide (0 ≤ channel) && decide (channel < 43)
      && (priv.common.remap.freq channel.toNat).valid
      && !(priv.common.remap.freq channel.toNat).ext)

/-- The private data `amdgpu_metrics_init_priv` leaves for the 30-byte sample
when the per-core channels go to a device of their own. -/
def sample_separated : amdgpu_metrics_private :=
  (amdgpu_metrics_init_priv false sample_hdr sample_tables
    { common := sample_core_fresh
      per_core_channel_remap := fun _ => { valid := false, ext := false, idx := 0 }
      last_update_jiffies := 0 } true).2

/-! ## Label tables and the layout of the channel groups -/

/-- The constant `NHBM`. -/
def NHBM : Nat := 4
/-- The constant `NL3`. -/
def NL3 : Nat := 2
/-- The constant `NGFXCLK`. -/
def NGFXCLK : Nat := 8
/-- The constant `NSOCCLK`. -/
def NSOCCLK : Nat := 4
/-- The constant `NVCLK`. -/
def NVCLK : Nat := 4
/-- The constant `NDCLK`. -/
def NDCLK : Nat := 4

/-- The array `amdgpu_metrics_labels_temp`. -/
def amdgpu_metrics_labels_temp : List String :=
  ["Edge", "Hotspot", "Mem",
   "VRGFX", "VRSoC", "VRMem",
   "HBM 0", "HBM 1", "HBM 2", "HBM 3",
   "GFX", "SoC",
   "Core 0", "Core 1", "Core 2", "Core 3",
   "Core 4", "Core 5", "Core 6", "Core 7",
   "Core 8", "Core 9", "Core 10", "Core 11",
   "Core 12", "Core 13", "Core 14", "Core 15",
   "L3 0", "L3 1",
   "Skin"]

/-- The array `amdgpu_metrics_labels_power`. -/
def amdgpu_metrics_labels_power : List String :=
  ["Socket", "CPU", "SoC", "GFX",
   "Core 0", "Core 1", "Core 2", "Core 3",
   "Core 4", "Core 5", "Core 6", "Core 7",
   "Core 8", "Core 9", "Core 10", "Core 11",
   "Core 12", "Core 13", "Core 14", "Core 15",
   "IPU", "APU", "dGPU", "Sys"]

/-- The array `amdgpu_metrics_labels_freq`. -/
def amdgpu_metrics_labels_freq : List String :=
  ["GFXCLK 0", "GFXCLK 1", "GFXCLK 2", "GFXCLK 3",
   "GFXCLK 4", "GFXCLK 5", "GFXCLK 6", "GFXCLK 7",
   "SoCCLK 0", "SoCCLK 1", "SoCCLK 2", "SoCCLK 3",
   "UCLK",
   "VCLK 0", "VCLK 1", "VCLK 2", "VCLK 3",
   "DCLK 0", "DCLK 1", "DCLK 2", "DCLK 3",
   "FCLK",
   "CoreCLK 0", "CoreCLK 1", "CoreCLK 2", "CoreCLK 3",
   "CoreCLK 4", "CoreCLK 5", "CoreCLK 6", "CoreCLK 7",
   "CoreCLK 8", "CoreCLK 9", "CoreCLK 10", "CoreCLK 11",
   "CoreCLK 12", "CoreCLK 13", "CoreCLK 14", "CoreCLK 15",
   "L3CLK 0", "L3CLK 1",
   "VPECLK", "IPUCLK", "MPIPUCLK"]

/-- The members of the anonymous struct of the macro `DEF_CHANNELS_TEMP`, in
order, each with its number of elements (1 for a member that is not an
array). -/
def DEF_CHANNELS_TEMP : List (String × Nat) :=
  [("edge", 1), ("hotspot", 1), ("mem", 1), ("vrgfx", 1), ("vrsoc", 1), ("vrmem", 1),
   ("hbm", NHBM), ("gfx", 1), ("soc", 1), ("core", NCORES), ("l3", NL3), ("skin", 1)]

/-- The members of the anonymous struct of the macro `DEF_CHANNELS_POWER`. -/
def DEF_CHANNELS_POWER : List (String × Nat) :=
  [("socket", 1), ("cpu", 1), ("soc", 1), ("gfx", 1), ("core", NCORES),
   ("ipu", 1), ("apu", 1), ("dgpu", 1), ("sys", 1)]

/-- The members of the anonymous struct of the macro `DEF_CHANNELS_FREQ`. -/
def DEF_CHANNELS_FREQ : List (String × Nat) :=
  [("gfxclk", NGFXCLK), ("socclk", NSOCCLK), ("uclk", 1), ("vclk", NVCLK), ("dclk", NDCLK),
   ("fclk", 1), ("coreclk", NCORES), ("l3clk", NL3), ("vpeclk", 1), ("ipuclk", 1),
   ("mpipuclk", 1)]

/-- The slot of `data[]` that element 0 of the member `name` of the anonymous
struct shares: all members have the same element type, so it is the number of
elements of the members declared before it. -/
def member_slot : List (String × Nat) → String → Option Nat
  | [], _ => none
  | (n, count) :: rest, name =>
    if n = name then some 0 else (member_slot rest name).map (count + ·)

/-- The number of elements of the anonymous struct. -/
def struct_slots (members : List (String × Nat)) : Nat :=
  (members.map (·.2)).sum

/-- The label of a per-core channel: a word followed by the core number in
decimal. -/
def core_label (word : String) (k : Nat) : String :=
  word ++ " " ++ toString k

/-! ## Vocabulary of the statements about the definition tables -/

/-- The vendor struct and the macro arguments of the table entry of a
registered revision. -/
def registered_defs (fr cr : Nat) : Option (gpu_metrics_version × channel_defs) :=
  (registered_schemas.find? fun r => r.1 == fr && r.2.1 == cr).map fun r => r.2.2

/-- The temperature slots the initialisers of a registered revision name. -/
def temp_slot_names (fr cr : Nat) : List Nat :=
  match registered_defs fr cr with
  | some r => r.2.temp.map fun c => c.slot
  | none => []

/-- In the words of the claim: the temperature slot `i` is populated by the
revision, its descriptor in the table entry is not the null descriptor. -/
def temp_populated (L : gpu_metrics_version → vendor_struct) (fr cr i : Nat) : Bool :=
  is_channel_valid ((table_entry (amdgpu_metric_def_tables L) fr cr).temp i)

/-! ## Loops with a counted number of passes -/

/-- A loop `for (i = ...; i < bound; i++) body` started at the given value of
`i` and run for at most `fuel` executions of its body: the state at the exit,
or `none` when the executions are used up while `i < bound` still holds. -/
def for_loop {σ : Type} (bound : Nat) (body : σ → Nat → σ) : Nat → Nat → σ → Option σ
  | 0, i, s => if i < bound then none else some s
  | fuel + 1, i, s =>
    if i < bound then for_loop bound body fuel (i + 1) (body s i) else some s

/-- The body of the `for` loop of `__amdgpu_metrics_validate_channels` as a
step on the array `remaps`: the statement `remaps[i] = (remap_t) { ... }`. -/
def validate_channels_body (be : Bool) (priv : amdgpu_metrics_private_common)
    (channels : Nat → channel_t) (zero_is_invalid : Bool) (remaps : Nat → remap_t) (i : Nat) :
    Nat → remap_t :=
  Function.update remaps i (validate_channel be priv channels zero_is_invalid i)

/-! ## Lock and source operations of a refresh -/

/-- The operations on `metrics_lock` and on the snapshot source: acquiring and
releasing the semaphore for writing, and the open-and-read number `k` of the
source. -/
inductive cache_event where
  | down_write
  | up_write
  | source_read (k : Nat)
  deriving DecidableEq

/-- The operations `amdgpu_metrics_update_gpu_metrics` performs, in program
order, when `jiffies` has the given value: before the interval has elapsed it
returns at once; otherwise `guard(rwsem_write)(&priv->metrics_lock)` acquires
the semaphore, then `amdgpu_metrics_read_gpu_metrics` opens and reads the
source, and the guard releases the semaphore when the function returns, on
each of its three return paths. -/
def update_gpu_metrics_events (HZ : Nat) (jiffies : Nat) (source : snapshot_source)
    (priv : amdgpu_metrics_private) : List cache_event :=
  if time_before jiffies
      ((priv.last_update_jiffies + UPDATE_INTERVAL_JIFFIES HZ) % 2 ^ BITS_PER_LONG) then
    []
  else [.down_write, .source_read source.reads, .up_write]

/-- In the words of the claim: no read of the source happens while the
semaphore is held for writing; `held` tells whether it is held at the start of
the trace. -/
def reads_outside_write_lock : List cache_event → Bool → Bool
  | [], _ => true
  | .down_write :: rest, _ => reads_outside_write_lock rest true
  | .up_write :: rest, _ => reads_outside_write_lock rest false
  | .source_read _ :: rest, held => !held && reads_outside_write_lock rest held

/-- The number of reads of the source in a trace. -/
def source_reads : List cache_event → Nat
  | [] => 0
  | .source_read _ :: rest => source_reads rest + 1
  | _ :: rest => source_reads rest

/-- A 30-byte snapshot (little-endian) for the schema `sample_core_def`:
header `1e 00 03 00`; core 3 has temperature 4200, power 0 and frequency 900;
core 4 has temperature 4500, power 1000 and frequency 0; core 5 has
temperature 3000, power 0 and the all-ones value as frequency; core 6 has
temperature 5000; the socket power, the clock and the edge temperature
are 0. -/
def sample_gated_metrics : List Nat :=
  [0x1e, 0x00, 0x03, 0x00, 0x68, 0x10, 0x00, 0x00, 0x84, 0x03,
   0x94, 0x11, 0xe8, 0x03, 0x00, 0x00, 0x00, 0x00, 0x00, 0x00,
   0x00, 0x00, 0xb8, 0x0b, 0x00, 0x00, 0xff, 0xff, 0x88, 0x13]

/-- The state before initialisation holding `sample_gated_metrics`. -/
def sample_gated_fresh : amdgpu_metrics_private_common :=
  { channels := sample_def, remap := zero_remap, has_per_core := false,
    metrics := sample_gated_metrics }

/-- The result of initialising `sample_gated_fresh`. -/
def sample_gated_init : Int × amdgpu_metrics_private_common :=
  amdgpu_metrics_init_priv_common false sample_hdr sample_tables sample_gated_fresh

/-! ## Labels and the per-core device (amdgpu_metrics.c) -/

/-- The function `amdgpu_metrics_hwmon_read_string` for a `channel` that is
not negative (the hwmon core passes the index of a channel of
`amdgpu_metrics_hwmon_info`, the shim passes `nr - 1` with `nr` from 1 to 43):
return code and the string stored into `*str`, if any. The function indexes
the label array with the `idx` of the remap entry without a test; a return
code 0 with `none` stands for an index past the end of the array. -/
def amdgpu_metrics_hwmon_read_string (A : hwmon_attributes) (priv : amdgpu_metrics_private)
    (type : hwmon_sensor_types) (attr : Nat) (channel : Nat) : Int × Option String :=
  if type = .hwmon_temp ∧ attr = A.hwmon_temp_label then
    (0, amdgpu_metrics_labels_temp.get? (priv.common.remap.temp channel).idx)
  else if type = .hwmon_power ∧ attr = A.hwmon_power_label then
    (0, amdgpu_metrics_labels_power.get? (priv.common.remap.power channel).idx)
  else if type = hwmon_magic_freq ∧ attr = hwmon_magic_freq_label then
    (0, amdgpu_metrics_labels_freq.get? (priv.common.remap.freq channel).idx)
  else (-EOPNOTSUPP, none)

/-- The function `amdgpu_metrics_per_core_is_visible` for a `channel` that is
not negative; `attr` is not used. -/
def amdgpu_metrics_per_core_is_visible (priv : amdgpu_metrics_private)
    (type : hwmon_sensor_types) (channel : Nat) : Nat :=
  let visible : Bool :=
    if channel ≥ NCORES ∨ (priv.per_core_channel_remap channel).valid = false then false
    else
      let channel1 := (priv.per_core_channel_remap channel).idx
      if type = .hwmon_temp then (priv.common.remap.temp (TEMP_CORE + channel1)).valid
      else if type = .hwmon_power then (priv.common.remap.power (POWER_CORE + channel1)).valid
      else if type = hwmon_magic_freq then
        (priv.common.remap.freq (FREQ_CORECLK + channel1)).valid
      else false
  if visible then S_0444 else 0

/-! ## Vocabulary of the statements about the per-core device -/

/-- Number of cores `k < n` with at least one valid per-core entry: the value
of the counter `core` of `amdgpu_metrics_init_priv` after `n` iterations. -/
def cores_below (c : amdgpu_metrics_private_common) : Nat → Nat
  | 0 => 0
  | n + 1 => cores_below c n + if any_core_entry_valid c n then 1 else 0

/-- A per-core entry after the loop of `amdgpu_metrics_init_priv` went over
core `k`: marked `ext` when the core has a valid entry. -/
def ext_marked (c : amdgpu_metrics_private_common) (k : Nat) (e : remap_t) : remap_t :=
  if any_core_entry_valid c k then { e with ext := true } else e

/-- The state of the loop of `amdgpu_metrics_init_priv` after `n` iterations,
described from the input `priv` alone: the counter counts the cores below `n`
with a valid entry, the per-core entries of those cores are marked `ext` and
no other entry of the three tables changed, the core `k` with a valid entry is
recorded at position `cores_below k` of `per_core_channel_remap` and the
positions from the counter on are as before. -/
def separate_inv (priv : amdgpu_metrics_private) (n : Nat) (s : init_priv_state) : Prop :=
  s.core = cores_below priv.common n
  ∧ s.priv.common.channels = priv.common.channels
  ∧ s.priv.common.metrics = priv.common.metrics
  ∧ s.priv.common.has_per_core = priv.common.has_per_core
  ∧ s.priv.last_update_jiffies = priv.last_update_jiffies
  ∧ (∀ x, s.priv.common.remap.temp x
      = if TEMP_CORE ≤ x ∧ x < TEMP_CORE + n then
          ext_marked priv.common (x - TEMP_CORE) (priv.common.remap.temp x)
        else priv.common.remap.temp x)
  ∧ (∀ x, s.priv.common.remap.power x
      = if POWER_CORE ≤ x ∧ x < POWER_CORE + n then
          ext_marked priv.common (x - POWER_CORE) (priv.common.remap.power x)
        else priv.common.remap.power x)
  ∧ (∀ x, s.priv.common.remap.freq x
      = if FREQ_CORECLK ≤ x ∧ x < FREQ_CORECLK + n then
          ext_marked priv.common (x - FREQ_CORECLK) (priv.common.remap.freq x)
        else priv.common.remap.freq x)
  ∧ (∀ k, k < n → any_core_entry_valid priv.common k = true →
      s.priv.per_core_channel_remap (cores_below priv.common k)
        = { valid := true, ext := false, idx := k % 64 })
  ∧ (∀ j, cores_below priv.common n ≤ j →
      s.priv.per_core_channel_remap j = priv.per_core_channel_remap j)

/-- In the words of the claim: the valid per-core entry `e` of core `i`, at
slot `base + i` of the category `type`, is exposed by exactly one of the two
devices: it is marked `ext`, so `amdgpu_metrics_hwmon_is_visible` returns 0
for its slot, and there is exactly one `j < NCORES` whose entry of
`per_core_channel_remap` is valid with `idx = i`, for which
`amdgpu_metrics_per_core_is_visible` returns `0444`. -/
def exposed_once (P : amdgpu_metrics_private) (type : hwmon_sensor_types) (base i : Nat)
    (e : remap_t) : Prop :=
  e.ext = true
  ∧ amdgpu_metrics_hwmon_is_visible P type ((base + i : Nat) : Int) = 0
  ∧ ∃ j, (j < NCORES ∧ (P.per_core_channel_remap j).valid = true
      ∧ (P.per_core_channel_remap j).idx = i
      ∧ amdgpu_metrics_per_core_is_visible P type j = 0o444)
    ∧ ∀ j2, j2 < NCORES → (P.per_core_channel_remap j2).valid = true →
        (P.per_core_channel_remap j2).idx = i → j2 = j

/-- The private data before `amdgpu_metrics_init_priv`, holding the 30-byte
sample just read. -/
def sample_fresh_private : amdgpu_metrics_private :=
  { common := sample_core_fresh
    per_core_channel_remap := fun _ => { valid := false, ext := false, idx := 0 }
    last_update_jiffies := 0 }

/-- In the words of the claim: the average-frequency member of the same clock
as a current-clock member of the revisions 1.0 to 1.3. -/
def same_clock_average : vendor_mbr → Option vendor_mbr
  | .current_gfxclk => some .average_gfxclk_frequency
  | .current_socclk => some .average_socclk_frequency
  | .current_uclk => some .average_uclk_frequency
  | .current_vclk0 => some .average_vclk0_frequency
  | .current_vclk1 => some .average_vclk1_frequency
  | .current_dclk0 => some .average_dclk0_frequency
  | .current_dclk1 => some .average_dclk1_frequency
  | _ => none

/-- A snapshot of revision 1.0 under `sample_layout` (little-endian): the
header `04 06 01 00`; `current_vclk1` at offset 868 and `current_dclk0` at
offset 900 hold the all-ones value `0xffff`; `average_dclk0_frequency` at
offset 1252 holds 400 and `average_vclk1_frequency` at offset 1284 holds 600;
every other byte is `0x11`. -/
def sample_clock_metrics : List Nat :=
  (List.range 1540).map fun i =>
    if i = 0 then 0x04 else if i = 1 then 0x06 else if i = 2 then 0x01 else if i = 3 then 0x00
    else if i = 868 ∨ i = 869 then 0xff
    else if i = 900 ∨ i = 901 then 0xff
    else if i = 1252 then 0x90 else if i = 1253 then 0x01
    else if i = 1284 then 0x58 else if i = 1285 then 0x02
    else 0x11

/-- The state before initialisation holding `sample_clock_metrics`. -/
def sample_clock_fresh : amdgpu_metrics_private_common :=
  { channels := null_def, remap := zero_remap, has_per_core := false,
    metrics := sample_clock_metrics }

/-- The result of initialising `sample_clock_fresh` against the tables of the
source over `sample_layout`. -/
def sample_clock_init : Int × amdgpu_metrics_private_common :=
  amdgpu_metrics_init_priv_common false sample_hdr (amdgpu_metric_def_tables sample_layout)
    sample_clock_fresh

/-- The private data after the initialisation of `sample_clock_fresh`, never
refreshed. -/
def sample_clock_private : amdgpu_metrics_private :=
  { common := sample_clock_init.2
    per_core_channel_remap := fun _ => { valid := false, ext := false, idx := 0 }
    last_update_jiffies := 0 }

/-- A source whose file always holds `sample_clock_metrics`. -/
def sample_clock_source : snapshot_source :=
  { outcome := fun _ => .file sample_clock_metrics, reads := 0 }

/-- The vendor sizes under `sample_layout`: a 4-byte header and a union of
1540 bytes. -/
def sample_layout_sizes : vendor_sizes :=
  { header := 4, metrics := 1540 }

theorem byte_at_lt (m : List Nat) (i : Nat) : byte_at m i < 256 := by
  unfold byte_at
  exact Nat.mod_lt _ (by decide)

theorem load_lt (be : Bool) (m : List Nat) (w : Nat) :
    ∀ off, load be m off w < 256 ^ w := by
  induction w with
  | zero => intro off; simp [load]
  | succ w ih =>
    intro off
    have hb := byte_at_lt m off
    have hr := ih (off + 1)
    have hp : 0 < 256 ^ w := by positivity
    unfold load
    rw [pow_succ]
    split
    · nlinarith
    · nlinarith

/-- A pass that starts with `retrying` set always returns. -/
theorem get_val_pass_retrying (be : Bool) (priv : amdgpu_metrics_private_common)
    (channel : channel_t) (offset type : Nat) :
    ∃ code val, get_val_pass be priv channel offset type true = .ret code val := by
  unfold get_val_pass
  split
  · exact ⟨_, _, rfl⟩
  · split
    · exact ⟨_, _, rfl⟩
    · split
      · exact ⟨_, _, rfl⟩
      · simp

/-- A pass asks for another one only with `retrying` set. -/
theorem get_val_pass_again (be : Bool) (priv : amdgpu_metrics_private_common)
    (channel : channel_t) (offset type : Nat) (retrying : Bool) (o t : Nat) (r : Bool)
    (h : get_val_pass be priv channel offset type retrying = .again o t r) : r = true := by
  unfold get_val_pass at h
  split at h
  · cases h
  · split at h
    · cases h
    · split at h
      · cases h
      · split at h
        · cases h
        · cases h; rfl

/-- Two passes are enough: with any fuel of at least 2 the loop returns, and
what it returns is the result of `amdgpu_metrics_get_val`. -/
theorem get_val_loop_fuel (be : Bool) (priv : amdgpu_metrics_private_common)
    (channel : channel_t) (fuel : Nat) (h : 2 ≤ fuel) :
    get_val_loop be priv channel fuel channel.offset channel.type false
      = some (amdgpu_metrics_get_val be priv channel) := by
  obtain ⟨n, rfl⟩ : ∃ n, fuel = n + 2 := ⟨fuel - 2, by omega⟩
  unfold amdgpu_metrics_get_val
  simp only [get_val_loop]
  cases h1 : get_val_pass be priv channel channel.offset channel.type false with
  | ret code val => simp
  | again o t r =>
    have hr := get_val_pass_again be priv channel _ _ _ o t r h1
    subst hr
    obtain ⟨c, v, h2⟩ := get_val_pass_retrying be priv channel o t
    simp [h2]

/-! ## Field decoder: one pass -/

/-- The types with a width are exactly `channel_u8`, ..., `channel_u64`. -/
theorem typed_cases (t : Nat) (h : channel_null < t ∧ t < channel_invalid) :
    t = channel_u8 ∨ t = channel_u16 ∨ t = channel_u32 ∨ t = channel_u64 := by
  simp only [channel_null, channel_invalid, channel_u8, channel_u16, channel_u32,
    channel_u64] at *
  omega

theorem is_channel_valid_iff (e : channel_t) :
    is_channel_valid e = true ↔ channel_null < e.type ∧ e.type < channel_invalid := by
  simp [is_channel_valid]

/-- For a type with a width, the `switch` reads the field of that width and
`max` is the all-ones value of that width. -/
theorem read_raw_typed (be : Bool) (m : List Nat) (p t : Nat)
    (h : channel_null < t ∧ t < channel_invalid) :
    read_raw be m p t
      = some (load be m p (data_type_enum_to_size t), 2 ^ (8 * data_type_enum_to_size t) - 1) := by
  rcases typed_cases t h with rfl | rfl | rfl | rfl <;>
    simp [read_raw, data_type_enum_to_size, channel_u8, channel_u16, channel_u32, channel_u64,
      U8_MAX, U16_MAX, U32_MAX, U64_MAX]

/-- A field never exceeds the all-ones value of its width. -/
theorem load_le_max (be : Bool) (m : List Nat) (off w : Nat) :
    load be m off w ≤ 2 ^ (8 * w) - 1 := by
  have h := load_lt be m w off
  have e : (256 : Nat) ^ w = 2 ^ (8 * w) := by
    rw [pow_mul]; norm_num
  rw [e] at h
  omega

theorem size_le_eight (t : Nat) : data_type_enum_to_size t ≤ 8 := by
  unfold data_type_enum_to_size
  split_ifs <;> omega

/-- Every field read by the decoder fits in 64 bits. -/
theorem load_lt_two_pow_64 (be : Bool) (m : List Nat) (off t : Nat) :
    load be m off (data_type_enum_to_size t) < 2 ^ 64 := by
  have h := load_lt be m (data_type_enum_to_size t) off
  have h8 := size_le_eight t
  have : (256 : Nat) ^ data_type_enum_to_size t ≤ 256 ^ 8 :=
    Nat.pow_le_pow_right (by decide) h8
  have e : (256 : Nat) ^ 8 = 2 ^ 64 := by norm_num
  omega

/-- A pass over an out-of-bounds field returns `-EINVAL`. -/
theorem get_val_pass_oob (be : Bool) (priv : amdgpu_metrics_private_common)
    (channel : channel_t) (offset type : Nat) (retrying : Bool)
    (h : offset + data_type_enum_to_size type > priv.channels.metrics_size) :
    get_val_pass be priv channel offset type retrying = .ret (-EINVAL) none := by
  unfold get_val_pass
  rw [if_pos h]

/-- A pass over an in-bounds typed field that is not all-ones returns it. -/
theorem get_val_pass_value (be : Bool) (priv : amdgpu_metrics_private_common)
    (channel : channel_t) (offset type : Nat) (retrying : Bool)
    (hty : channel_null < type ∧ type < channel_invalid)
    (hb : offset + data_type_enum_to_size type ≤ priv.channels.metrics_size)
    (hs : load be priv.metrics offset (data_type_enum_to_size type)
      ≠ 2 ^ (8 * data_type_enum_to_size type) - 1) :
    get_val_pass be priv channel offset type retrying
      = .ret 0 (some (load be priv.metrics offset (data_type_enum_to_size type))) := by
  have hle := load_le_max be priv.metrics offset (data_type_enum_to_size type)
  unfold get_val_pass
  rw [if_neg (by omega), read_raw_typed be priv.metrics offset type hty]
  simp only
  rw [if_pos (by omega)]

/-- A pass over an in-bounds typed field that is all-ones. -/
theorem get_val_pass_sentinel (be : Bool) (priv : amdgpu_metrics_private_common)
    (channel : channel_t) (offset type : Nat) (retrying : Bool)
    (hty : channel_null < type ∧ type < channel_invalid)
    (hb : offset + data_type_enum_to_size type ≤ priv.channels.metrics_size)
    (hs : load be priv.metrics offset (data_type_enum_to_size type)
      = 2 ^ (8 * data_type_enum_to_size type) - 1) :
    get_val_pass be priv channel offset type retrying
      = if retrying || channel.fb.type == channel_null then .ret (-ENODEV) none
        else .again channel.fb.offset channel.fb.type true := by
  unfold get_val_pass
  rw [if_neg (by omega), read_raw_typed be priv.metrics offset type hty]
  simp only
  rw [if_neg (by omega)]

/-- The decoder in two passes. -/
theorem get_val_two_passes (be : Bool) (priv : amdgpu_metrics_private_common)
    (channel : channel_t) :
    amdgpu_metrics_get_val be priv channel
      = match get_val_pass be priv channel channel.offset channel.type false with
        | .ret code val => (code, val)
        | .again o t r =>
          match get_val_pass be priv channel o t r with
          | .ret code val => (code, val)
          | .again _ _ _ => (-EINVAL, none) := by
  unfold amdgpu_metrics_get_val
  simp only [get_val_loop]
  cases get_val_pass be priv channel channel.offset channel.type false with
  | ret code val => rfl
  | again o t r =>
    simp only
    cases get_val_pass be priv channel o t r with
    | ret code val => rfl
    | again _ _ _ => rfl

/-! ## Field decoder: the three outcomes -/

/-- A field that differs from the all-ones value of the width of its type has
a type with a width: for every other type the width is 0 and the empty field
reads 0, the all-ones value of width 0. -/
theorem typed_of_not_sentinel (be : Bool) (m : List Nat) (off t : Nat)
    (h : load be m off (data_type_enum_to_size t) ≠ 2 ^ (8 * data_type_enum_to_size t) - 1) :
    channel_null < t ∧ t < channel_invalid := by
  by_contra hn
  have hz : data_type_enum_to_size t = 0 := by
    unfold data_type_enum_to_size
    simp only [channel_null, channel_invalid, channel_u8, channel_u16, channel_u32,
      channel_u64] at *
    rw [if_neg (by omega), if_neg (by omega), if_neg (by omega), if_neg (by omega)]
  rw [hz] at h
  exact h (by simp [load])

/-- The primary field is returned when it is typed, in bounds and not
all-ones. -/
theorem decode_primary (be : Bool) (priv : amdgpu_metrics_private_common) (channel : channel_t)
    (hty : is_channel_valid channel = true)
    (hb : channel.offset + data_type_enum_to_size channel.type ≤ priv.channels.metrics_size)
    (hs : load be priv.metrics channel.offset (data_type_enum_to_size channel.type)
      ≠ 2 ^ (8 * data_type_enum_to_size channel.type) - 1) :
    amdgpu_metrics_get_val be priv channel
      = (0, some (load be priv.metrics channel.offset (data_type_enum_to_size channel.type))) := by
  rw [get_val_two_passes,
    get_val_pass_value be priv channel _ _ false ((is_channel_valid_iff channel).1 hty) hb hs]

/-- The fallback field is returned when the primary is all-ones and the
fallback is typed, in bounds and not all-ones. -/
theorem decode_fallback (be : Bool) (priv : amdgpu_metrics_private_common) (channel : channel_t)
    (hty : is_channel_valid channel = true)
    (hb : channel.offset + data_type_enum_to_size channel.type ≤ priv.channels.metrics_size)
    (hs : load be priv.metrics channel.offset (data_type_enum_to_size channel.type)
      = 2 ^ (8 * data_type_enum_to_size channel.type) - 1)
    (hfty : channel_null < channel.fb.type ∧ channel.fb.type < channel_invalid)
    (hfb : channel.fb.offset + data_type_enum_to_size channel.fb.type
      ≤ priv.channels.metrics_size)
    (hfs : load be priv.metrics channel.fb.offset (data_type_enum_to_size channel.fb.type)
      ≠ 2 ^ (8 * data_type_enum_to_size channel.fb.type) - 1) :
    amdgpu_metrics_get_val be priv channel
      = (0, some (load be priv.metrics channel.fb.offset
          (data_type_enum_to_size channel.fb.type))) := by
  have hnn : (channel.fb.type == channel_null) = false := by
    have := hfty.1
    simp only [channel_null] at this ⊢
    simp only [beq_eq_false_iff_ne, ne_eq]
    omega
  rw [get_val_two_passes,
    get_val_pass_sentinel be priv channel _ _ false ((is_channel_valid_iff channel).1 hty) hb hs]
  simp only [hnn, Bool.or_self, Bool.false_eq_true, if_false]
  rw [get_val_pass_value be priv channel _ _ true hfty hfb hfs]

/-- The channel is unavailable when the primary is all-ones and there is no
fallback or the fallback is all-ones too. -/
theorem decode_unavailable (be : Bool) (priv : amdgpu_metrics_private_common)
    (channel : channel_t)
    (hty : is_channel_valid channel = true)
    (hb : channel.offset + data_type_enum_to_size channel.type ≤ priv.channels.metrics_size)
    (hs : load be priv.metrics channel.offset (data_type_enum_to_size channel.type)
      = 2 ^ (8 * data_type_enum_to_size channel.type) - 1)
    (hf : channel.fb.type = channel_null
      ∨ ((channel_null < channel.fb.type ∧ channel.fb.type < channel_invalid)
        ∧ channel.fb.offset + data_type_enum_to_size channel.fb.type
            ≤ priv.channels.metrics_size
        ∧ load be priv.metrics channel.fb.offset (data_type_enum_to_size channel.fb.type)
            = 2 ^ (8 * data_type_enum_to_size channel.fb.type) - 1)) :
    amdgpu_metrics_get_val be priv channel = (-ENODEV, none) := by
  rw [get_val_two_passes,
    get_val_pass_sentinel be priv channel _ _ false ((is_channel_valid_iff channel).1 hty) hb hs]
  rcases hf with h0 | ⟨hfty, hfb, hfs⟩
  · simp [h0]
  · have hnn : (channel.fb.type == channel_null) = false := by
      have := hfty.1
      simp only [channel_null] at this ⊢
      simp only [beq_eq_false_iff_ne, ne_eq]
      omega
    simp only [hnn, Bool.or_self, Bool.false_eq_true, if_false]
    rw [get_val_pass_sentinel be priv channel _ _ true hfty hfb hfs]
    simp

/-! ## Field decoder: claims -/

/-- C1: for a descriptor of type u8/u16/u32/u64 whose field lies within
`metrics_size`, if the native-endian unsigned integer stored at the offset is
not the all-ones value of the width, `amdgpu_metrics_get_val` returns 0 and
stores exactly that integer, which fits in 64 bits; the fallback part of the
descriptor is arbitrary. -/
theorem get_val_primary (be : Bool) (priv : amdgpu_metrics_private_common) (channel : channel_t)
    (hty : is_channel_valid channel = true)
    (hb : channel.offset + data_type_enum_to_size channel.type ≤ priv.channels.metrics_size)
    (hs : load be priv.metrics channel.offset (data_type_enum_to_size channel.type)
      ≠ 2 ^ (8 * data_type_enum_to_size channel.type) - 1) :
    amdgpu_metrics_get_val be priv channel
        = (0, some (load be priv.metrics channel.offset (data_type_enum_to_size channel.type)))
      ∧ load be priv.metrics channel.offset (data_type_enum_to_size channel.type) < 2 ^ 64 :=
  ⟨decode_primary be priv channel hty hb hs, load_lt_two_pow_64 be priv.metrics _ _⟩

/-- C1 at the 12-byte sample: the 16-bit field at offset 6 decodes to 800. -/
theorem get_val_primary_witness :
    is_channel_valid sample_plain = true
    ∧ sample_plain.offset + data_type_enum_to_size sample_plain.type
        ≤ sample_priv.channels.metrics_size
    ∧ load false sample_priv.metrics sample_plain.offset
        (data_type_enum_to_size sample_plain.type)
        ≠ 2 ^ (8 * data_type_enum_to_size sample_plain.type) - 1
    ∧ amdgpu_metrics_get_val false sample_priv sample_plain = (0, some 800) :=
  ⟨by decide, by decide, by decide,
    (get_val_primary false sample_priv sample_plain (by decide) (by decide) (by decide)).1⟩

/-- C2: for a typed in-bounds descriptor with a fallback attached (fallback
type not `channel_null`) and in bounds, if the primary field holds the
all-ones value of its width and the fallback field does not hold the all-ones
value of the fallback width, `amdgpu_metrics_get_val` returns 0 and stores the
fallback field. -/
theorem get_val_fallback (be : Bool) (priv : amdgpu_metrics_private_common) (channel : channel_t)
    (hty : is_channel_valid channel = true)
    (hb : channel.offset + data_type_enum_to_size channel.type ≤ priv.channels.metrics_size)
    (hs : load be priv.metrics channel.offset (data_type_enum_to_size channel.type)
      = 2 ^ (8 * data_type_enum_to_size channel.type) - 1)
    (_hfn : channel.fb.type ≠ channel_null)
    (hfb : channel.fb.offset + data_type_enum_to_size channel.fb.type
      ≤ priv.channels.metrics_size)
    (hfs : load be priv.metrics channel.fb.offset (data_type_enum_to_size channel.fb.type)
      ≠ 2 ^ (8 * data_type_enum_to_size channel.fb.type) - 1) :
    amdgpu_metrics_get_val be priv channel
      = (0, some (load be priv.metrics channel.fb.offset
          (data_type_enum_to_size channel.fb.type))) :=
  decode_fallback be priv channel hty hb hs
    (typed_of_not_sentinel be priv.metrics _ _ hfs) hfb hfs

/-- C2 at the 12-byte sample: primary 0xFFFF with fallback 800 yields 800. -/
theorem get_val_fallback_witness :
    is_channel_valid sample_with_fb = true
    ∧ sample_with_fb.offset + data_type_enum_to_size sample_with_fb.type
        ≤ sample_priv.channels.metrics_size
    ∧ load false sample_priv.metrics sample_with_fb.offset
        (data_type_enum_to_size sample_with_fb.type) = 0xFFFF
    ∧ sample_with_fb.fb.type ≠ channel_null
    ∧ sample_with_fb.fb.offset + data_type_enum_to_size sample_with_fb.fb.type
        ≤ sample_priv.channels.metrics_size
    ∧ load false sample_priv.metrics sample_with_fb.fb.offset
        (data_type_enum_to_size sample_with_fb.fb.type) = 800
    ∧ amdgpu_metrics_get_val false sample_priv sample_with_fb = (0, some 800) :=
  ⟨by decide, by decide, by decide, by decide, by decide, by decide,
    get_val_fallback false sample_priv sample_with_fb (by decide) (by decide) (by decide)
      (by decide) (by decide) (by decide)⟩

/-- C3: for a typed in-bounds descriptor whose primary field holds the
all-ones value of its width, if no fallback is attached (fallback type
`channel_null`) or the typed in-bounds fallback field holds the all-ones value
of its own width, `amdgpu_metrics_get_val` returns `-ENODEV` and stores
nothing. -/
theorem get_val_unavailable (be : Bool) (priv : amdgpu_metrics_private_common)
    (channel : channel_t)
    (hty : is_channel_valid channel = true)
    (hb : channel.offset + data_type_enum_to_size channel.type ≤ priv.channels.metrics_size)
    (hs : load be priv.metrics channel.offset (data_type_enum_to_size channel.type)
      = 2 ^ (8 * data_type_enum_to_size channel.type) - 1)
    (hf : channel.fb.type = channel_null
      ∨ ((channel_null < channel.fb.type ∧ channel.fb.type < channel_invalid)
        ∧ channel.fb.offset + data_type_enum_to_size channel.fb.type
            ≤ priv.channels.metrics_size
        ∧ load be priv.metrics channel.fb.offset (data_type_enum_to_size channel.fb.type)
            = 2 ^ (8 * data_type_enum_to_size channel.fb.type) - 1)) :
    amdgpu_metrics_get_val be priv channel = (-ENODEV, none) :=
  decode_unavailable be priv channel hty hb hs hf

/-- C3 at the 12-byte sample: an all-ones primary without fallback, and an
all-ones primary whose fallback is all-ones too, are unavailable. -/
theorem get_val_unavailable_witness :
    is_channel_valid sample_fb_sentinel = true
    ∧ sample_fb_sentinel.offset + data_type_enum_to_size sample_fb_sentinel.type
        ≤ sample_priv.channels.metrics_size
    ∧ load false sample_priv.metrics sample_fb_sentinel.offset
        (data_type_enum_to_size sample_fb_sentinel.type) = 0xFFFF
    ∧ sample_fb_sentinel.fb.type ≠ channel_null
    ∧ load false sample_priv.metrics sample_fb_sentinel.fb.offset
        (data_type_enum_to_size sample_fb_sentinel.fb.type) = 0xFFFF
    ∧ amdgpu_metrics_get_val false sample_priv sample_fb_sentinel = (-ENODEV, none)
    ∧ sample_no_fb.fb.type = channel_null
    ∧ amdgpu_metrics_get_val false sample_priv sample_no_fb = (-ENODEV, none) :=
  ⟨by decide, by decide, by decide, by decide, by decide,
    get_val_unavailable false sample_priv sample_fb_sentinel (by decide) (by decide)
      (by decide) (Or.inr (by decide)),
    by decide,
    get_val_unavailable false sample_priv sample_no_fb (by decide) (by decide)
      (by decide) (Or.inl (by decide))⟩

/-- C4: (1) if the primary field has `offset + width > metrics_size`,
`amdgpu_metrics_get_val` returns `-EINVAL` and stores nothing, whatever the
snapshot holds; (2) the same when the primary is typed, in bounds and
all-ones and the attached fallback has `offset + width > metrics_size`; (3)
`-EINVAL` differs from `-ENODEV`; (4) when the primary is typed and in bounds
and the fallback, if it gets consulted, is typed and in bounds, the return
code is not `-EINVAL`. -/
theorem get_val_malformed (be : Bool) (priv : amdgpu_metrics_private_common) :
    (∀ c : channel_t,
      c.offset + data_type_enum_to_size c.type > priv.channels.metrics_size →
      amdgpu_metrics_get_val be priv c = (-EINVAL, none))
    ∧ (∀ c : channel_t, is_channel_valid c = true →
      c.offset + data_type_enum_to_size c.type ≤ priv.channels.metrics_size →
      load be priv.metrics c.offset (data_type_enum_to_size c.type)
        = 2 ^ (8 * data_type_enum_to_size c.type) - 1 →
      c.fb.type ≠ channel_null →
      c.fb.offset + data_type_enum_to_size c.fb.type > priv.channels.metrics_size →
      amdgpu_metrics_get_val be priv c = (-EINVAL, none))
    ∧ -EINVAL ≠ -ENODEV
    ∧ (∀ c : channel_t, is_channel_valid c = true →
      c.offset + data_type_enum_to_size c.type ≤ priv.channels.metrics_size →
      (load be priv.metrics c.offset (data_type_enum_to_size c.type)
          = 2 ^ (8 * data_type_enum_to_size c.type) - 1 →
        c.fb.type ≠ channel_null →
        (channel_null < c.fb.type ∧ c.fb.type < channel_invalid)
          ∧ c.fb.offset + data_type_enum_to_size c.fb.type ≤ priv.channels.metrics_size) →
      (amdgpu_metrics_get_val be priv c).1 ≠ -EINVAL) := by
  refine ⟨?_, ?_, by decide, ?_⟩
  · intro c1 h1
    rw [get_val_two_passes, get_val_pass_oob be priv c1 _ _ false h1]
  · intro c2 h2ty h2b h2s h2f h2o
    have hnn : (c2.fb.type == channel_null) = false := by
      simpa using h2f
    rw [get_val_two_passes,
      get_val_pass_sentinel be priv c2 _ _ false ((is_channel_valid_iff c2).1 h2ty) h2b h2s]
    simp only [hnn, Bool.or_self, Bool.false_eq_true, if_false]
    rw [get_val_pass_oob be priv c2 _ _ true h2o]
  · intro c3 h3ty h3b h3f
    by_cases hs : load be priv.metrics c3.offset (data_type_enum_to_size c3.type)
        = 2 ^ (8 * data_type_enum_to_size c3.type) - 1
    · by_cases hn : c3.fb.type = channel_null
      · rw [decode_unavailable be priv c3 h3ty h3b hs (Or.inl hn)]
        decide
      · obtain ⟨hfty, hfb⟩ := h3f hs hn
        by_cases hfs : load be priv.metrics c3.fb.offset (data_type_enum_to_size c3.fb.type)
            = 2 ^ (8 * data_type_enum_to_size c3.fb.type) - 1
        · rw [decode_unavailable be priv c3 h3ty h3b hs (Or.inr ⟨hfty, hfb, hfs⟩)]
          decide
        · rw [decode_fallback be priv c3 h3ty h3b hs hfty hfb hfs]
          show (0 : Int) ≠ -EINVAL
          decide
    · rw [decode_primary be priv c3 h3ty h3b hs]
      show (0 : Int) ≠ -EINVAL
      decide

/-- C4 at the 12-byte sample: a field straddling the end of the schema, an
all-ones primary with a fallback straddling the end, and a well-formed
descriptor with a fallback. -/
theorem get_val_malformed_witness :
    sample_oob.offset + data_type_enum_to_size sample_oob.type
        > sample_priv.channels.metrics_size
    ∧ sample_fb_oob.fb.offset + data_type_enum_to_size sample_fb_oob.fb.type
        > sample_priv.channels.metrics_size
    ∧ amdgpu_metrics_get_val false sample_priv sample_oob = (-EINVAL, none)
    ∧ amdgpu_metrics_get_val false sample_priv sample_fb_oob = (-EINVAL, none)
    ∧ -EINVAL ≠ -ENODEV
    ∧ (amdgpu_metrics_get_val false sample_priv sample_with_fb).1 ≠ -EINVAL :=
  have h := get_val_malformed false sample_priv
  ⟨by decide, by decide, h.1 sample_oob (by decide),
    h.2.1 sample_fb_oob (by decide) (by decide) (by decide) (by decide) (by decide),
    h.2.2.1,
    h.2.2.2 sample_with_fb (by decide) (by decide) (fun _ _ => by decide)⟩

/-! ## Field decoder: shape of the result -/

/-- A pass returns `-EINVAL` or `-ENODEV` without a value, or 0 with a value,
or asks for the retry pass. -/
theorem get_val_pass_cases (be : Bool) (priv : amdgpu_metrics_private_common)
    (channel : channel_t) (offset type : Nat) (retrying : Bool) :
    get_val_pass be priv channel offset type retrying = .ret (-EINVAL) none
    ∨ get_val_pass be priv channel offset type retrying = .ret (-ENODEV) none
    ∨ (∃ v, get_val_pass be priv channel offset type retrying = .ret 0 (some v))
    ∨ ∃ o t, get_val_pass be priv channel offset type retrying = .again o t true := by
  unfold get_val_pass
  split
  · exact Or.inl rfl
  · split
    · exact Or.inl rfl
    · split
      · exact Or.inr (Or.inr (Or.inl ⟨_, rfl⟩))
      · split
        · exact Or.inr (Or.inl rfl)
        · exact Or.inr (Or.inr (Or.inr ⟨_, _, rfl⟩))

/-- The decoder returns `-EINVAL` or `-ENODEV` and stores nothing, or returns
0 and stores a value. -/
theorem get_val_cases (be : Bool) (priv : amdgpu_metrics_private_common) (channel : channel_t) :
    amdgpu_metrics_get_val be priv channel = (-EINVAL, none)
    ∨ amdgpu_metrics_get_val be priv channel = (-ENODEV, none)
    ∨ ∃ v, amdgpu_metrics_get_val be priv channel = (0, some v) := by
  rw [get_val_two_passes]
  rcases get_val_pass_cases be priv channel channel.offset channel.type false with
    h | h | ⟨v, h⟩ | ⟨o, t, h⟩
  · rw [h]; exact Or.inl rfl
  · rw [h]; exact Or.inr (Or.inl rfl)
  · rw [h]; exact Or.inr (Or.inr ⟨v, rfl⟩)
  · rw [h]
    simp only
    obtain ⟨c, w, h2⟩ := get_val_pass_retrying be priv channel o t
    rcases get_val_pass_cases be priv channel o t true with
      g | g | ⟨v, g⟩ | ⟨o2, t2, g⟩
    · rw [g]; exact Or.inl rfl
    · rw [g]; exact Or.inr (Or.inl rfl)
    · rw [g]; exact Or.inr (Or.inr ⟨v, rfl⟩)
    · rw [g] at h2; cases h2

/-- The decoder looks only at the schema size and the snapshot bytes. -/
theorem get_val_congr (be : Bool) (p q : amdgpu_metrics_private_common) (channel : channel_t)
    (hs : q.channels.metrics_size = p.channels.metrics_size) (hm : q.metrics = p.metrics) :
    amdgpu_metrics_get_val be q channel = amdgpu_metrics_get_val be p channel := by
  have hp : ∀ o t r, get_val_pass be q channel o t r = get_val_pass be p channel o t r := by
    intro o t r
    unfold get_val_pass
    rw [hs, hm]
  rw [get_val_two_passes, get_val_two_passes, hp]
  cases get_val_pass be p channel channel.offset channel.type false with
  | ret code val => rfl
  | again o t r => simp only [hp]

/-- A successful decode of a descriptor means the descriptor has a type with a
width. -/
theorem get_val_ok_typed (be : Bool) (priv : amdgpu_metrics_private_common)
    (channel : channel_t) (h : (amdgpu_metrics_get_val be priv channel).1 = 0) :
    is_channel_valid channel = true := by
  by_contra hv
  have hnone : read_raw be priv.metrics channel.offset channel.type = none := by
    have hv2 : ¬ (channel_null < channel.type ∧ channel.type < channel_invalid) :=
      fun c => hv ((is_channel_valid_iff channel).2 c)
    unfold read_raw
    simp only [channel_null, channel_invalid, channel_u8, channel_u16, channel_u32,
      channel_u64] at *
    rw [if_neg (by omega), if_neg (by omega), if_neg (by omega), if_neg (by omega)]
  have hpass : get_val_pass be priv channel channel.offset channel.type false
      = .ret (-EINVAL) none := by
    unfold get_val_pass
    split
    · rfl
    · rw [hnone]
  rw [get_val_two_passes, hpass] at h
  simp [EINVAL] at h

/-! ## Channel validator -/

/-- After the validator ran over `size` slots, slot `i < size` holds what the
loop body computes for `i`, and the slots from `size` on are untouched. -/
theorem validate_channels_apply (be : Bool) (priv : amdgpu_metrics_private_common)
    (channels : Nat → channel_t) (remaps : Nat → remap_t) (zero_is_invalid : Bool)
    (size i : Nat) :
    __amdgpu_metrics_validate_channels be priv channels remaps size zero_is_invalid i
      = if i < size then validate_channel be priv channels zero_is_invalid i else remaps i := by
  induction size with
  | zero => simp [__amdgpu_metrics_validate_channels]
  | succ n ih =>
    unfold __amdgpu_metrics_validate_channels
    by_cases h : i = n
    · subst h
      simp
    · rw [Function.update_noteq h, ih]
      by_cases h2 : i < n
      · rw [if_pos h2, if_pos (by omega)]
      · rw [if_neg h2, if_neg (by omega)]

/-- The `valid` flag computed by the loop body of the validator. -/
theorem validate_channel_valid (be : Bool) (priv : amdgpu_metrics_private_common)
    (channels : Nat → channel_t) (zero_is_invalid : Bool) (i : Nat) :
    (validate_channel be priv channels zero_is_invalid i).valid = true
      ↔ (is_channel_valid (channels i) = true
        ∧ (amdgpu_metrics_get_val be priv (channels i)).1 = 0
        ∧ ¬ (zero_is_invalid = true
            ∧ (amdgpu_metrics_get_val be priv (channels i)).2 = some 0)) := by
  unfold validate_channel
  rcases get_val_cases be priv (channels i) with h | h | ⟨v, h⟩
  · rw [h]
    simp [EINVAL]
  · rw [h]
    simp [ENODEV]
  · rw [h]
    cases hv : is_channel_valid (channels i) <;> cases zero_is_invalid <;> simp

/-- C5: for every snapshot, schema array and zero policy,
`__amdgpu_metrics_validate_channels` marks slot `i` valid if and only if the
descriptor of the slot is populated (`is_channel_valid`),
`amdgpu_metrics_get_val` on it returns 0, and it is not the case that
`zero_is_invalid` is set and the stored value is 0; a `channel_null`
descriptor, an `-ENODEV` result and an `-EINVAL` result each give an invalid
entry. -/
theorem validate_channels_valid_iff (be : Bool) (priv : amdgpu_metrics_private_common)
    (channels : Nat → channel_t) (remaps : Nat → remap_t) (size : Nat)
    (zero_is_invalid : Bool) (i : Nat) (hi : i < size) :
    ((__amdgpu_metrics_validate_channels be priv channels remaps size zero_is_invalid i).valid
        = true
      ↔ (is_channel_valid (channels i) = true
        ∧ (amdgpu_metrics_get_val be priv (channels i)).1 = 0
        ∧ ¬ (zero_is_invalid = true
            ∧ (amdgpu_metrics_get_val be priv (channels i)).2 = some 0)))
    ∧ ((channels i).type = channel_null →
        (__amdgpu_metrics_validate_channels be priv channels remaps size zero_is_invalid i).valid
          = false)
    ∧ ((amdgpu_metrics_get_val be priv (channels i)).1 = -ENODEV →
        (__amdgpu_metrics_validate_channels be priv channels remaps size zero_is_invalid i).valid
          = false)
    ∧ ((amdgpu_metrics_get_val be priv (channels i)).1 = -EINVAL →
        (__amdgpu_metrics_validate_channels be priv channels remaps size zero_is_invalid i).valid
          = false) := by
  rw [validate_channels_apply, if_pos hi]
  have key := validate_channel_valid be priv channels zero_is_invalid i
  refine ⟨key, ?_, ?_, ?_⟩
  · intro h0
    rw [Bool.eq_false_iff]
    intro hv
    have h1 := (is_channel_valid_iff _).1 (key.1 hv).1
    rw [h0] at h1
    exact absurd h1.1 (lt_irrefl _)
  · intro h0
    rw [Bool.eq_false_iff]
    intro hv
    have h1 := (key.1 hv).2.1
    rw [h0] at h1
    revert h1
    decide
  · intro h0
    rw [Bool.eq_false_iff]
    intro hv
    have h1 := (key.1 hv).2.1
    rw [h0] at h1
    revert h1
    decide

/-- C5 at the 30-byte sample: the temperature slot 15 is populated and decodes
to 4200, so the validator marks it valid; slot 1 is `channel_null`, so it is
invalid; slot 0 decodes to 0 under `zero_is_invalid`, so it is invalid. -/
theorem validate_channels_valid_iff_witness :
    15 < NCHANNELS_TEMP
    ∧ amdgpu_metrics_get_val false sample_core_unvalidated (sample_core_def.temp 15)
        = (0, some 4200)
    ∧ (__amdgpu_metrics_validate_channels false sample_core_unvalidated sample_core_def.temp
        zero_remap.temp NCHANNELS_TEMP true 15).valid = true
    ∧ (sample_core_def.temp 1).type = channel_null
    ∧ (__amdgpu_metrics_validate_channels false sample_core_unvalidated sample_core_def.temp
        zero_remap.temp NCHANNELS_TEMP true 1).valid = false
    ∧ amdgpu_metrics_get_val false sample_core_unvalidated (sample_core_def.temp 0)
        = (0, some 0)
    ∧ ¬ (__amdgpu_metrics_validate_channels false sample_core_unvalidated sample_core_def.temp
        zero_remap.temp NCHANNELS_TEMP true 0).valid = true :=
  ⟨by decide, by decide,
    (validate_channels_valid_iff false sample_core_unvalidated sample_core_def.temp
      zero_remap.temp NCHANNELS_TEMP true 15 (by decide)).1.2 (by decide),
    by decide,
    (validate_channels_valid_iff false sample_core_unvalidated sample_core_def.temp
      zero_remap.temp NCHANNELS_TEMP true 1 (by decide)).2.1 (by decide),
    by decide,
    fun hv => ((validate_channels_valid_iff false sample_core_unvalidated sample_core_def.temp
      zero_remap.temp NCHANNELS_TEMP true 0 (by decide)).1.1 hv).2.2 (by decide)⟩

/-! ## Core functionality detector: the loop -/

theorem functional_below_le (be : Bool) (priv : amdgpu_metrics_private_common) (n : Nat) :
    functional_below be priv n ≤ n := by
  induction n with
  | zero => simp [functional_below]
  | succ n ih =>
    unfold functional_below
    split <;> omega

theorem dummy_below_le (be : Bool) (priv : amdgpu_metrics_private_common) (n : Nat) :
    dummy_below be priv n ≤ n := by
  induction n with
  | zero => simp [dummy_below]
  | succ n ih =>
    unfold dummy_below
    split <;> omega

/-- The verdict computed in iteration `k < NCORES` from a state that agrees
with `priv` on the schema, the snapshot and the entries of core `k` is the
condition of the spec. -/
theorem core_functional_eq_spec (be : Bool) (priv q : amdgpu_metrics_private_common)
    (k x y : Nat) (hk : k < NCORES)
    (hc : q.channels = priv.channels) (hm : q.metrics = priv.metrics)
    (hp : q.remap.power (POWER_CORE + k) = priv.remap.power (POWER_CORE + k))
    (hf : q.remap.freq (FREQ_CORECLK + k) = priv.remap.freq (FREQ_CORECLK + k)) :
    core_functional
      (core_err be q (q.remap.power (POWER_CORE + k)).valid k
        (q.channels.power (POWER_CORE + k))).1
      ((core_err be q (q.remap.power (POWER_CORE + k)).valid k
        (q.channels.power (POWER_CORE + k))).2.getD x)
      (core_err be q (q.remap.freq (FREQ_CORECLK + k)).valid k
        (q.channels.freq (FREQ_CORECLK + k))).1
      ((core_err be q (q.remap.freq (FREQ_CORECLK + k)).valid k
        (q.channels.freq (FREQ_CORECLK + k))).2.getD y)
    = spec_core_functional be priv k := by
  have hg : ∀ c, amdgpu_metrics_get_val be q c = amdgpu_metrics_get_val be priv c :=
    fun c => get_val_congr be priv q c (by rw [hc]) hm
  have hk2 : decide (k ≥ NCORES) = false := by
    simp only [decide_eq_false_iff_not]; omega
  unfold core_err spec_core_functional slot_positive slot_unavailable
  rw [hp, hf, hc, hk2]
  simp only [hg]
  rcases get_val_cases be priv (priv.channels.power (POWER_CORE + k)) with a | a | ⟨v, a⟩ <;>
  rcases get_val_cases be priv (priv.channels.freq (FREQ_CORECLK + k)) with b | b | ⟨w, b⟩ <;>
  rw [a, b] <;>
  cases (priv.remap.power (POWER_CORE + k)).valid <;>
  cases (priv.remap.freq (FREQ_CORECLK + k)).valid <;>
  simp [core_functional, EINVAL, ENODEV]

theorem core_inv_zero (be : Bool) (priv : amdgpu_metrics_private_common) :
    core_inv be priv 0 (validate_core_loop be priv 0) := by
  unfold core_inv validate_core_loop
  refine ⟨rfl, rfl, rfl, rfl, rfl, ?_, ?_, ?_, ?_, ?_, ?_⟩
  · simp [functional_below]
  · simp [functional_below]
  · simp [functional_below]
  · intro j; rw [if_neg (by omega)]
  · intro j; rw [if_neg (by omega)]
  · intro j; rw [if_neg (by omega)]

/-- Writing the final entry of core `n` extends the description of the
entries from the cores below `n` to the cores below `n + 1`. -/
theorem core_entries_step (be : Bool) (priv : amdgpu_metrics_private_common)
    (base n label0 : Nat) (f orig : Nat → remap_t) (e : remap_t)
    (hf : ∀ j, f j = if base ≤ j ∧ j < base + n then
        core_entry_after be priv (j - base) (orig j) label0 else orig j)
    (he : e = core_entry_after be priv n (orig (base + n)) label0) :
    ∀ j, Function.update f (base + n) e j = if base ≤ j ∧ j < base + (n + 1) then
        core_entry_after be priv (j - base) (orig j) label0 else orig j := by
  intro j
  by_cases hj : j = base + n
  · subst hj
    rw [Function.update_same, if_pos (by omega), Nat.add_sub_cancel_left, he]
  · rw [Function.update_noteq hj, hf j]
    by_cases hc : base ≤ j ∧ j < base + n
    · rw [if_pos hc, if_pos (by omega)]
    · rw [if_neg hc, if_neg (by omega)]

/-- Leaving the entry of core `n` alone, for a core that is neither functional
nor dummy. -/
theorem core_entries_skip (be : Bool) (priv : amdgpu_metrics_private_common)
    (base n label0 : Nat) (f orig : Nat → remap_t)
    (hf : ∀ j, f j = if base ≤ j ∧ j < base + n then
        core_entry_after be priv (j - base) (orig j) label0 else orig j)
    (h1 : core_is_functional be priv n = false) (h2 : core_is_dummy be priv n = false) :
    ∀ j, f j = if base ≤ j ∧ j < base + (n + 1) then
        core_entry_after be priv (j - base) (orig j) label0 else orig j := by
  intro j
  by_cases hj : j = base + n
  · subst hj
    rw [hf, if_neg (by omega), if_pos (by omega), Nat.add_sub_cancel_left]
    unfold core_entry_after
    simp [h1, h2]
  · rw [hf j]
    by_cases hc : base ≤ j ∧ j < base + n
    · rw [if_pos hc, if_pos (by omega)]
    · rw [if_neg hc, if_neg (by omega)]

theorem core_inv_step (be : Bool) (priv : amdgpu_metrics_private_common) (n : Nat)
    (s : core_state) (hn : n < NCORES) (h : core_inv be priv n s) :
    core_inv be priv (n + 1) (validate_core_pass be s n) := by
  obtain ⟨hc, hm, hh, hfc, hdc, htl, hpl, hfl, ht, hp, hf⟩ := h
  have et : s.priv.remap.temp (TEMP_CORE + n) = priv.remap.temp (TEMP_CORE + n) := by
    rw [ht, if_neg (by omega)]
  have ep : s.priv.remap.power (POWER_CORE + n) = priv.remap.power (POWER_CORE + n) := by
    rw [hp, if_neg (by omega)]
  have ef : s.priv.remap.freq (FREQ_CORECLK + n) = priv.remap.freq (FREQ_CORECLK + n) := by
    rw [hf, if_neg (by omega)]
  have hspec := core_functional_eq_spec be priv s.priv n s.power s.freq hn hc hm ep ef
  have hle := functional_below_le be priv n
  have hdle := dummy_below_le be priv n
  have hany : (!(s.priv.remap.temp (TEMP_CORE + n)).valid
      && !(s.priv.remap.power (POWER_CORE + n)).valid
      && !(s.priv.remap.freq (FREQ_CORECLK + n)).valid) = !any_core_entry_valid priv n := by
    rw [et, ep, ef]
    unfold any_core_entry_valid
    cases (priv.remap.temp (TEMP_CORE + n)).valid <;>
    cases (priv.remap.power (POWER_CORE + n)).valid <;>
    cases (priv.remap.freq (FREQ_CORECLK + n)).valid <;> rfl
  simp only [NCORES] at hn
  unfold validate_core_pass
  simp only
  rw [hany, hspec]
  split_ifs with h1 h2
  · have hav : any_core_entry_valid priv n = false := by simpa using h1
    have k1 : core_is_functional be priv n = false := by simp [core_is_functional, hav]
    have k2 : core_is_dummy be priv n = false := by simp [core_is_dummy, hav]
    unfold core_inv
    refine ⟨hc, hm, hh, ?_, ?_, ?_, ?_, ?_, ?_, ?_, ?_⟩
    · rw [hfc]; simp [functional_below, k1]
    · rw [hdc]; simp [dummy_below, k2]
    · rw [htl]; simp [functional_below, k1]
    · rw [hpl]; simp [functional_below, k1]
    · rw [hfl]; simp [functional_below, k1]
    · exact core_entries_skip be priv _ n _ _ _ ht k1 k2
    · exact core_entries_skip be priv _ n _ _ _ hp k1 k2
    · exact core_entries_skip be priv _ n _ _ _ hf k1 k2
  · have hav : any_core_entry_valid priv n = true := by simpa using h1
    have k1 : core_is_functional be priv n = true := by simp [core_is_functional, hav, h2]
    have k2 : core_is_dummy be priv n = false := by simp [core_is_dummy, hav, h2]
    have kf : functional_below be priv (n + 1) = functional_below be priv n + 1 := by
      simp [functional_below, k1]
    have kd : dummy_below be priv (n + 1) = dummy_below be priv n := by
      simp [dummy_below, k2]
    unfold core_inv
    refine ⟨hc, hm, hh, ?_, ?_, ?_, ?_, ?_, ?_, ?_, ?_⟩
    · show (s.functional_cores + 1) % 256 = _
      rw [kf, hfc]; omega
    · show s.dummy_cores = _
      rw [kd, hdc]
    · show (s.temp_label_i + 1) % 256 = _
      rw [kf, htl]; omega
    · show (s.power_label_i + 1) % 256 = _
      rw [kf, hpl]; omega
    · show (s.freq_label_i + 1) % 256 = _
      rw [kf, hfl]; omega
    · refine core_entries_step be priv _ n _ _ _ _ ht ?_
      rw [et, htl]; unfold core_entry_after; rw [if_pos k1]
    · refine core_entries_step be priv _ n _ _ _ _ hp ?_
      rw [ep, hpl]; unfold core_entry_after; rw [if_pos k1]
    · refine core_entries_step be priv _ n _ _ _ _ hf ?_
      rw [ef, hfl]; unfold core_entry_after; rw [if_pos k1]
  · have hav : any_core_entry_valid priv n = true := by simpa using h1
    have h2f : spec_core_functional be priv n = false := by simpa using h2
    have k1 : core_is_functional be priv n = false := by simp [core_is_functional, hav, h2f]
    have k2 : core_is_dummy be priv n = true := by simp [core_is_dummy, hav, h2f]
    have kf : functional_below be priv (n + 1) = functional_below be priv n := by
      simp [functional_below, k1]
    have kd : dummy_below be priv (n + 1) = dummy_below be priv n + 1 := by
      simp [dummy_below, k2]
    unfold core_inv
    refine ⟨hc, hm, hh, ?_, ?_, ?_, ?_, ?_, ?_, ?_, ?_⟩
    · show s.functional_cores = _
      rw [kf, hfc]
    · show (s.dummy_cores + 1) % 256 = _
      rw [kd, hdc]; omega
    · show s.temp_label_i = _
      rw [kf, htl]
    · show s.power_label_i = _
      rw [kf, hpl]
    · show s.freq_label_i = _
      rw [kf, hfl]
    · refine core_entries_step be priv _ n _ _ _ _ ht ?_
      rw [et]; unfold core_entry_after; rw [if_neg (by simp [k1]), if_pos k2]
    · refine core_entries_step be priv _ n _ _ _ _ hp ?_
      rw [ep]; unfold core_entry_after; rw [if_neg (by simp [k1]), if_pos k2]
    · refine core_entries_step be priv _ n _ _ _ _ hf ?_
      rw [ef]; unfold core_entry_after; rw [if_neg (by simp [k1]), if_pos k2]

/-- The state of the detector after `n ≤ NCORES` iterations. -/
theorem validate_core_loop_inv (be : Bool) (priv : amdgpu_metrics_private_common) (n : Nat)
    (hn : n ≤ NCORES) : core_inv be priv n (validate_core_loop be priv n) := by
  induction n with
  | zero => exact core_inv_zero be priv
  | succ n ih =>
    exact core_inv_step be priv n _ (by omega) (ih (by omega))

/-- The counter reading that defines `classified_functional` agrees with the
description of the core from the input. -/
theorem classified_functional_iff (be : Bool) (priv : amdgpu_metrics_private_common) (k : Nat)
    (hk : k < NCORES) :
    classified_functional be priv k = core_is_functional be priv k := by
  have h1 := (validate_core_loop_inv be priv k (by omega)).2.2.2.1
  have h2 := (validate_core_loop_inv be priv (k + 1) (by omega)).2.2.2.1
  have e : functional_below be priv (k + 1)
      = functional_below be priv k + if core_is_functional be priv k then 1 else 0 := rfl
  unfold classified_functional
  rw [h1, h2, e]
  cases core_is_functional be priv k <;> simp

/-- The counter reading that defines `classified_dummy` agrees with the
description of the core from the input. -/
theorem classified_dummy_iff (be : Bool) (priv : amdgpu_metrics_private_common) (k : Nat)
    (hk : k < NCORES) :
    classified_dummy be priv k = core_is_dummy be priv k := by
  have h1 := (validate_core_loop_inv be priv k (by omega)).2.2.2.2.1
  have h2 := (validate_core_loop_inv be priv (k + 1) (by omega)).2.2.2.2.1
  have e : dummy_below be priv (k + 1)
      = dummy_below be priv k + if core_is_dummy be priv k then 1 else 0 := rfl
  unfold classified_dummy
  rw [h1, h2, e]
  cases core_is_dummy be priv k <;> simp

/-- The rank of core `k` among the functional cores is the number of cores
below `k` that satisfy `core_is_functional`. -/
theorem functional_rank_eq (be : Bool) (priv : amdgpu_metrics_private_common) (k : Nat)
    (hk : k ≤ NCORES) : functional_rank be priv k = functional_below be priv k := by
  induction k with
  | zero => simp [functional_rank, functional_below]
  | succ n ih =>
    have ih2 := ih (by omega)
    unfold functional_rank at ih2 ⊢
    have e : functional_below be priv (n + 1)
        = functional_below be priv n + if core_is_functional be priv n then 1 else 0 := rfl
    have c := classified_functional_iff be priv n (by omega)
    rw [List.range_succ, List.filter_append, List.length_append, ih2, e]
    cases hf : core_is_functional be priv n <;> rw [hf] at c <;> simp [List.filter, c]

/-- The detector leaves the schema and the snapshot alone. -/
theorem validate_core_frame (be : Bool) (priv : amdgpu_metrics_private_common) :
    (_amdgpu_metrics_validate_core be priv).2.channels = priv.channels
    ∧ (_amdgpu_metrics_validate_core be priv).2.metrics = priv.metrics
    ∧ (_amdgpu_metrics_validate_core be priv).2.has_per_core = priv.has_per_core := by
  have h := validate_core_loop_inv be priv NCORES (le_refl _)
  exact ⟨h.1, h.2.1, h.2.2.1⟩

/-- The temperature entries after the detector. -/
theorem validate_core_temp (be : Bool) (priv : amdgpu_metrics_private_common) (j : Nat) :
    (_amdgpu_metrics_validate_core be priv).2.remap.temp j
      = if TEMP_CORE ≤ j ∧ j < TEMP_CORE + NCORES then
          core_entry_after be priv (j - TEMP_CORE) (priv.remap.temp j)
            (priv.remap.temp TEMP_CORE).idx
        else priv.remap.temp j :=
  (validate_core_loop_inv be priv NCORES (le_refl _)).2.2.2.2.2.2.2.2.1 j

/-- The power entries after the detector. -/
theorem validate_core_power (be : Bool) (priv : amdgpu_metrics_private_common) (j : Nat) :
    (_amdgpu_metrics_validate_core be priv).2.remap.power j
      = if POWER_CORE ≤ j ∧ j < POWER_CORE + NCORES then
          core_entry_after be priv (j - POWER_CORE) (priv.remap.power j)
            (priv.remap.power POWER_CORE).idx
        else priv.remap.power j :=
  (validate_core_loop_inv be priv NCORES (le_refl _)).2.2.2.2.2.2.2.2.2.1 j

/-- The frequency entries after the detector. -/
theorem validate_core_freq (be : Bool) (priv : amdgpu_metrics_private_common) (j : Nat) :
    (_amdgpu_metrics_validate_core be priv).2.remap.freq j
      = if FREQ_CORECLK ≤ j ∧ j < FREQ_CORECLK + NCORES then
          core_entry_after be priv (j - FREQ_CORECLK) (priv.remap.freq j)
            (priv.remap.freq FREQ_CORECLK).idx
        else priv.remap.freq j :=
  (validate_core_loop_inv be priv NCORES (le_refl _)).2.2.2.2.2.2.2.2.2.2 j

/-- The detector never turns an invalid entry into a valid one. -/
theorem core_entry_after_valid (be : Bool) (priv : amdgpu_metrics_private_common) (k : Nat)
    (e : remap_t) (label0 : Nat) (h : (core_entry_after be priv k e label0).valid = true) :
    e.valid = true := by
  unfold core_entry_after at h
  split_ifs at h
  all_goals exact h

/-! ## Core functionality detector: claims -/

/-- C8, as stated, fails: in the 20-byte sample core 0 has no valid entry, so
its power and frequency slots are both unavailable and the condition
`(P and F) or (P and Fu) or (Pu and F) or (Pu and Fu)` holds, yet the detector
does not count core 0 as functional. -/
theorem core_functional_iff_spec_counterexample :
    ¬ (classified_functional false sample_core_priv 0 = true
        ↔ spec_core_functional false sample_core_priv 0 = true) := by
  decide

/-- C8, amended: for every core `k < NCORES`, the detector counts core `k` as
functional if and only if at least one of its temperature, power and frequency
entries is valid and `(P and F) or (P and Fu) or (Pu and F) or (Pu and Fu)`
holds; a core none of whose three entries is valid is skipped, counted neither
as functional nor as dummy, and its entries stay as they were; a core whose
power and frequency slots are both unavailable is counted as functional if
and only if at least one of its three entries is valid. -/
theorem core_functional_iff (be : Bool) (priv : amdgpu_metrics_private_common) (k : Nat)
    (hk : k < NCORES) :
    (classified_functional be priv k = true
      ↔ (any_core_entry_valid priv k = true ∧ spec_core_functional be priv k = true))
    ∧ (any_core_entry_valid priv k = false →
        classified_functional be priv k = false ∧ classified_dummy be priv k = false
        ∧ (_amdgpu_metrics_validate_core be priv).2.remap.temp (TEMP_CORE + k)
            = priv.remap.temp (TEMP_CORE + k)
        ∧ (_amdgpu_metrics_validate_core be priv).2.remap.power (POWER_CORE + k)
            = priv.remap.power (POWER_CORE + k)
        ∧ (_amdgpu_metrics_validate_core be priv).2.remap.freq (FREQ_CORECLK + k)
            = priv.remap.freq (FREQ_CORECLK + k))
    ∧ (slot_unavailable be priv (priv.remap.power (POWER_CORE + k))
          (priv.channels.power (POWER_CORE + k)) = true →
        slot_unavailable be priv (priv.remap.freq (FREQ_CORECLK + k))
          (priv.channels.freq (FREQ_CORECLK + k)) = true →
        (classified_functional be priv k = true ↔ any_core_entry_valid priv k = true)) := by
  rw [classified_functional_iff be priv k hk, classified_dummy_iff be priv k hk]
  refine ⟨by simp [core_is_functional], ?_, ?_⟩
  · intro h
    have k1 : core_is_functional be priv k = false := by simp [core_is_functional, h]
    have k2 : core_is_dummy be priv k = false := by simp [core_is_dummy, h]
    refine ⟨k1, k2, ?_, ?_, ?_⟩
    · rw [validate_core_temp, if_pos (by omega), Nat.add_sub_cancel_left]
      simp [core_entry_after, k1, k2]
    · rw [validate_core_power, if_pos (by omega), Nat.add_sub_cancel_left]
      simp [core_entry_after, k1, k2]
    · rw [validate_core_freq, if_pos (by omega), Nat.add_sub_cancel_left]
      simp [core_entry_after, k1, k2]
  · intro hp hf
    have hs : spec_core_functional be priv k = true := by
      unfold spec_core_functional
      simp [hp, hf]
    simp [core_is_functional, hs]

/-- C8, amended, at the 30-byte sample: core 4 (power 1000, frequency 800) is
counted as functional; core 0, without a valid entry, is skipped; core 6,
with a valid temperature only, is counted as functional. -/
theorem core_functional_iff_witness :
    4 < NCORES
    ∧ any_core_entry_valid sample_core_priv 4 = true
    ∧ spec_core_functional false sample_core_priv 4 = true
    ∧ classified_functional false sample_core_priv 4 = true
    ∧ any_core_entry_valid sample_core_priv 0 = false
    ∧ classified_functional false sample_core_priv 0 = false
    ∧ slot_unavailable false sample_core_priv (sample_core_priv.remap.power (POWER_CORE + 6))
        (sample_core_priv.channels.power (POWER_CORE + 6)) = true
    ∧ slot_unavailable false sample_core_priv (sample_core_priv.remap.freq (FREQ_CORECLK + 6))
        (sample_core_priv.channels.freq (FREQ_CORECLK + 6)) = true
    ∧ any_core_entry_valid sample_core_priv 6 = true
    ∧ classified_functional false sample_core_priv 6 = true :=
  ⟨by decide, by decide, by decide,
    (core_functional_iff false sample_core_priv 4 (by decide)).1.2 ⟨by decide, by decide⟩,
    by decide,
    ((core_functional_iff false sample_core_priv 0 (by decide)).2.1 (by decide)).1,
    by decide, by decide, by decide,
    ((core_functional_iff false sample_core_priv 6 (by decide)).2.2 (by decide)
      (by decide)).2 (by decide)⟩

/-- C9: for every core `k < NCORES` that has at least one valid per-core entry
and that the detector does not count as functional, the detector counts it as
dummy and its temperature, power and frequency entries are all invalid after
`_amdgpu_metrics_validate_core`. -/
theorem dummy_core_invalidated (be : Bool) (priv : amdgpu_metrics_private_common) (k : Nat)
    (hk : k < NCORES) (hv : any_core_entry_valid priv k = true)
    (hn : classified_functional be priv k = false) :
    classified_dummy be priv k = true
    ∧ ((_amdgpu_metrics_validate_core be priv).2.remap.temp (TEMP_CORE + k)).valid = false
    ∧ ((_amdgpu_metrics_validate_core be priv).2.remap.power (POWER_CORE + k)).valid = false
    ∧ ((_amdgpu_metrics_validate_core be priv).2.remap.freq (FREQ_CORECLK + k)).valid = false := by
  rw [classified_functional_iff be priv k hk] at hn
  rw [classified_dummy_iff be priv k hk]
  have hs : spec_core_functional be priv k = false := by
    simpa [core_is_functional, hv] using hn
  have k2 : core_is_dummy be priv k = true := by simp [core_is_dummy, hv, hs]
  refine ⟨k2, ?_, ?_, ?_⟩
  · rw [validate_core_temp, if_pos (by omega), Nat.add_sub_cancel_left]
    simp [core_entry_after, hn, k2]
  · rw [validate_core_power, if_pos (by omega), Nat.add_sub_cancel_left]
    simp [core_entry_after, hn, k2]
  · rw [validate_core_freq, if_pos (by omega), Nat.add_sub_cancel_left]
    simp [core_entry_after, hn, k2]

/-- C9 at the 20-byte sample: core 3 decodes power 0, frequency 0 and
temperature 4200, the validator marked its three entries valid, and after the
detector all three are invalid. -/
theorem dummy_core_invalidated_witness :
    amdgpu_metrics_get_val false sample_core_priv (sample_core_priv.channels.temp (TEMP_CORE + 3))
        = (0, some 4200)
    ∧ amdgpu_metrics_get_val false sample_core_priv
        (sample_core_priv.channels.power (POWER_CORE + 3)) = (0, some 0)
    ∧ amdgpu_metrics_get_val false sample_core_priv
        (sample_core_priv.channels.freq (FREQ_CORECLK + 3)) = (0, some 0)
    ∧ (sample_core_priv.remap.temp (TEMP_CORE + 3)).valid = true
    ∧ (sample_core_priv.remap.power (POWER_CORE + 3)).valid = true
    ∧ (sample_core_priv.remap.freq (FREQ_CORECLK + 3)).valid = true
    ∧ classified_functional false sample_core_priv 3 = false
    ∧ classified_dummy false sample_core_priv 3 = true
    ∧ ((_amdgpu_metrics_validate_core false sample_core_priv).2.remap.temp
        (TEMP_CORE + 3)).valid = false
    ∧ ((_amdgpu_metrics_validate_core false sample_core_priv).2.remap.power
        (POWER_CORE + 3)).valid = false
    ∧ ((_amdgpu_metrics_validate_core false sample_core_priv).2.remap.freq
        (FREQ_CORECLK + 3)).valid = false :=
  ⟨by decide, by decide, by decide, by decide, by decide, by decide, by decide,
    dummy_core_invalidated false sample_core_priv 3 (by decide) (by decide) (by decide)⟩

/-- C10: when the entries `core[0]` of the three tables carry the label
indices the validator gives them (12, 4 and 22), every core `k < NCORES` that
the detector counts as functional ends with label index `12 + j` in the
temperature table, `4 + j` in the power table and `22 + j` in the frequency
table, where `j` is the number of cores below `k` counted as functional; `j`
does not advance over a core that is not counted as functional. -/
theorem functional_core_labels (be : Bool) (priv : amdgpu_metrics_private_common) (k : Nat)
    (hk : k < NCORES)
    (ht : (priv.remap.temp TEMP_CORE).idx = TEMP_CORE)
    (hp : (priv.remap.power POWER_CORE).idx = POWER_CORE)
    (hf : (priv.remap.freq FREQ_CORECLK).idx = FREQ_CORECLK)
    (hc : classified_functional be priv k = true) :
    ((_amdgpu_metrics_validate_core be priv).2.remap.temp (TEMP_CORE + k)).idx
        = 12 + functional_rank be priv k
    ∧ ((_amdgpu_metrics_validate_core be priv).2.remap.power (POWER_CORE + k)).idx
        = 4 + functional_rank be priv k
    ∧ ((_amdgpu_metrics_validate_core be priv).2.remap.freq (FREQ_CORECLK + k)).idx
        = 22 + functional_rank be priv k
    ∧ functional_rank be priv k ≤ k
    ∧ (∀ i, i < NCORES → classified_functional be priv i = false →
        functional_rank be priv (i + 1) = functional_rank be priv i) := by
  have hr := functional_rank_eq be priv k (by omega)
  have hle := functional_below_le be priv k
  rw [classified_functional_iff be priv k hk] at hc
  rw [hr]
  simp only [NCORES] at hk
  refine ⟨?_, ?_, ?_, hle, ?_⟩
  · rw [validate_core_temp, if_pos (by simp only [NCORES]; omega), Nat.add_sub_cancel_left]
    unfold core_entry_after
    rw [if_pos hc, ht]
    simp only [TEMP_CORE]
    omega
  · rw [validate_core_power, if_pos (by simp only [NCORES]; omega), Nat.add_sub_cancel_left]
    unfold core_entry_after
    rw [if_pos hc, hp]
    simp only [POWER_CORE]
    omega
  · rw [validate_core_freq, if_pos (by simp only [NCORES]; omega), Nat.add_sub_cancel_left]
    unfold core_entry_after
    rw [if_pos hc, hf]
    simp only [FREQ_CORECLK]
    omega
  · intro i hi hci
    rw [functional_rank_eq be priv (i + 1) (by omega), functional_rank_eq be priv i (by omega)]
    rw [classified_functional_iff be priv i hi] at hci
    have e : functional_below be priv (i + 1)
        = functional_below be priv i + if core_is_functional be priv i then 1 else 0 := rfl
    rw [e, hci]
    simp

/-- C10 at the 20-byte sample: cores 0 to 2 have no valid entry and core 3 is
a dummy, so core 4 is the first functional core and takes the label indices
12, 4 and 22, the ones core 3 would have had. -/
theorem functional_core_labels_witness :
    (sample_core_priv.remap.temp TEMP_CORE).idx = TEMP_CORE
    ∧ (sample_core_priv.remap.power POWER_CORE).idx = POWER_CORE
    ∧ (sample_core_priv.remap.freq FREQ_CORECLK).idx = FREQ_CORECLK
    ∧ classified_functional false sample_core_priv 3 = false
    ∧ classified_functional false sample_core_priv 4 = true
    ∧ functional_rank false sample_core_priv 4 = 0
    ∧ ((_amdgpu_metrics_validate_core false sample_core_priv).2.remap.temp (TEMP_CORE + 4)).idx
        = 12
    ∧ ((_amdgpu_metrics_validate_core false sample_core_priv).2.remap.power
        (POWER_CORE + 4)).idx = 4
    ∧ ((_amdgpu_metrics_validate_core false sample_core_priv).2.remap.freq
        (FREQ_CORECLK + 4)).idx = 22 :=
  have h := functional_core_labels false sample_core_priv 4 (by decide) (by decide) (by decide)
    (by decide) (by decide)
  ⟨by decide, by decide, by decide, by decide, by decide, by decide,
    h.1.trans (by decide), h.2.1.trans (by decide), h.2.2.1.trans (by decide)⟩


/-! ## Initialisation -/

/-- The loop body of the validator looks only at the schema size and the
snapshot bytes. -/
theorem validate_channel_congr (be : Bool) (p q : amdgpu_metrics_private_common)
    (channels : Nat → channel_t) (zero_is_invalid : Bool) (i : Nat)
    (hs : q.channels.metrics_size = p.channels.metrics_size) (hm : q.metrics = p.metrics) :
    validate_channel be q channels zero_is_invalid i
      = validate_channel be p channels zero_is_invalid i := by
  unfold validate_channel
  rw [get_val_congr be p q (channels i) hs hm]

/-- The schema, the snapshot and `has_per_core` after the three validator
runs. -/
theorem validate_all_frame (be : Bool) (priv : amdgpu_metrics_private_common) :
    (validate_all_channels be priv).channels = priv.channels
    ∧ (validate_all_channels be priv).metrics = priv.metrics
    ∧ (validate_all_channels be priv).has_per_core = priv.has_per_core :=
  ⟨rfl, rfl, rfl⟩

/-- The temperature table after the three validator runs. -/
theorem validate_all_temp (be : Bool) (priv : amdgpu_metrics_private_common) (i : Nat) :
    (validate_all_channels be priv).remap.temp i
      = if i < NCHANNELS_TEMP then validate_channel be priv priv.channels.temp true i
        else priv.remap.temp i := by
  unfold validate_all_channels
  simp only
  rw [validate_channels_apply]

/-- The power table after the three validator runs. -/
theorem validate_all_power (be : Bool) (priv : amdgpu_metrics_private_common) (i : Nat) :
    (validate_all_channels be priv).remap.power i
      = if i < NCHANNELS_POWER then validate_channel be priv priv.channels.power false i
        else priv.remap.power i := by
  unfold validate_all_channels
  simp only
  rw [validate_channels_apply]
  split
  · exact validate_channel_congr be priv _ _ _ _ rfl rfl
  · rfl

/-- The frequency table after the three validator runs. -/
theorem validate_all_freq (be : Bool) (priv : amdgpu_metrics_private_common) (i : Nat) :
    (validate_all_channels be priv).remap.freq i
      = if i < NCHANNELS_FREQ then validate_channel be priv priv.channels.freq false i
        else priv.remap.freq i := by
  unfold validate_all_channels
  simp only
  rw [validate_channels_apply]
  split
  · exact validate_channel_congr be priv _ _ _ _ rfl rfl
  · rfl

/-- The lookup returns 0 with a table entry or `-ENOSYS` without one. -/
theorem get_channels_cases (tables : def_tables) (fr cr : Nat) :
    (∃ c, amdgpu_metrics_get_channels tables fr cr = (0, some c))
    ∨ amdgpu_metrics_get_channels tables fr cr = (-ENOSYS, none) := by
  unfold amdgpu_metrics_get_channels
  split_ifs
  all_goals first | exact Or.inr rfl | exact Or.inl ⟨_, rfl⟩

/-- The detector returns 0 or `-ENODEV`. -/
theorem validate_core_ret (be : Bool) (priv : amdgpu_metrics_private_common) :
    (_amdgpu_metrics_validate_core be priv).1 = 0
    ∨ (_amdgpu_metrics_validate_core be priv).1 = -ENODEV := by
  unfold _amdgpu_metrics_validate_core
  simp only
  split_ifs
  · exact Or.inl rfl
  · exact Or.inr rfl

/-- A successful initialisation: the lookup found the schema `P.channels`, the
snapshot is untouched, and the remap tables are those of the detector run on
the output of the three validator runs. -/
theorem init_success (be : Bool) (hdr : metrics_table_header) (tables : def_tables)
    (priv P : amdgpu_metrics_private_common)
    (h : amdgpu_metrics_init_priv_common be hdr tables priv = (0, P)) :
    amdgpu_metrics_get_channels tables (header_field be priv.metrics hdr.format_revision)
        (header_field be priv.metrics hdr.content_revision) = (0, some P.channels)
    ∧ P.metrics = priv.metrics
    ∧ P.remap = (_amdgpu_metrics_validate_core be
        (validate_all_channels be { priv with channels := P.channels })).2.remap := by
  unfold amdgpu_metrics_init_priv_common at h
  rcases get_channels_cases tables (header_field be priv.metrics hdr.format_revision)
      (header_field be priv.metrics hdr.content_revision) with ⟨c, hc⟩ | hc
  · rw [hc] at h ⊢
    simp only [ne_eq, not_true_eq_false, if_false] at h
    have fr := validate_core_frame be (validate_all_channels be { priv with channels := c })
    have key : ∀ X : amdgpu_metrics_private_common, X = P →
        X.channels = c → X.metrics = priv.metrics →
        X.remap = (_amdgpu_metrics_validate_core be
          (validate_all_channels be { priv with channels := c })).2.remap →
        (0, some c) = ((0 : Int), some P.channels) ∧ P.metrics = priv.metrics
        ∧ P.remap = (_amdgpu_metrics_validate_core be
            (validate_all_channels be { priv with channels := P.channels })).2.remap := by
      intro X hX h1 h2 h3
      subst hX
      rw [h1]
      exact ⟨rfl, h2, h3⟩
    split_ifs at h with h1 h2
    · exact key _ (Prod.mk.inj h).2 fr.1 fr.2.1 rfl
    · exact key _ (Prod.mk.inj h).2 fr.1 fr.2.1 rfl
    · exact key _ (Prod.mk.inj h).2 fr.1 fr.2.1 rfl
  · rw [hc] at h
    simp [ENOSYS] at h

/-- C6: after `amdgpu_metrics_init_priv_common` returned 0, every temperature
slot, per-core or not, whose descriptor decodes to exactly 0 on the snapshot
is marked invalid. -/
theorem temp_zero_invalid (be : Bool) (hdr : metrics_table_header) (tables : def_tables)
    (priv P : amdgpu_metrics_private_common) (i : Nat)
    (h : amdgpu_metrics_init_priv_common be hdr tables priv = (0, P))
    (hi : i < NCHANNELS_TEMP)
    (hz : amdgpu_metrics_get_val be P (P.channels.temp i) = (0, some 0)) :
    (P.remap.temp i).valid = false := by
  obtain ⟨_, hm, hr⟩ := init_success be hdr tables priv P h
  have hz2 : amdgpu_metrics_get_val be { priv with channels := P.channels } (P.channels.temp i)
      = (0, some 0) := by
    rw [← hz]
    exact get_val_congr be P _ _ rfl hm.symm
  have hq : ((validate_all_channels be { priv with channels := P.channels }).remap.temp i).valid
      = false := by
    rw [validate_all_temp, if_pos hi, Bool.eq_false_iff]
    intro hv
    have := ((validate_channel_valid be _ _ true i).1 hv).2.2
    exact this ⟨rfl, by rw [hz2]⟩
  rw [hr, validate_core_temp, Bool.eq_false_iff]
  intro hv
  split_ifs at hv
  · rw [core_entry_after_valid be _ _ _ _ hv] at hq
    cases hq
  · rw [hv] at hq
    cases hq

/-- C6 at the 30-byte sample: the edge temperature (slot 0) and the
temperature of core 5 (slot 17) decode to 0 and are invalid after
initialisation, although core 5 is functional. -/
theorem temp_zero_invalid_witness :
    sample_core_init.1 = 0
    ∧ amdgpu_metrics_get_val false sample_core_init.2 (sample_core_init.2.channels.temp 0)
        = (0, some 0)
    ∧ (sample_core_init.2.remap.temp 0).valid = false
    ∧ amdgpu_metrics_get_val false sample_core_init.2 (sample_core_init.2.channels.temp 17)
        = (0, some 0)
    ∧ (sample_core_init.2.remap.temp 17).valid = false :=
  ⟨by decide, by decide,
    temp_zero_invalid false sample_hdr sample_tables sample_core_fresh sample_core_init.2 0
      (Prod.ext (by decide) rfl) (by decide) (by decide),
    by decide,
    temp_zero_invalid false sample_hdr sample_tables sample_core_fresh sample_core_init.2 17
      (Prod.ext (by decide) rfl) (by decide) (by decide)⟩

/-- A per-core entry that was valid before the detector and is invalid after
it belongs to a core counted as dummy. -/
theorem core_entry_invalid_dummy (be : Bool) (Q : amdgpu_metrics_private_common) (k : Nat)
    (e : remap_t) (label0 : Nat) (hk : k < NCORES) (he : e.valid = true)
    (hany : any_core_entry_valid Q k = true)
    (h : (core_entry_after be Q k e label0).valid = false) :
    classified_dummy be Q k = true := by
  rw [classified_dummy_iff be Q k hk]
  unfold core_entry_after at h
  by_cases hf : core_is_functional be Q k = true
  · rw [if_pos hf] at h
    simp only at h
    rw [he] at h
    cases h
  · have hs : spec_core_functional be Q k = false := by
      simpa [core_is_functional, hany] using hf
    simp [core_is_dummy, hany, hs]

/-- C7: after `amdgpu_metrics_init_priv_common` returned 0, (1) every non-core
power slot (0 to 3 and 20 to 23) whose descriptor decodes to exactly 0 is
marked valid, not external, with label index equal to its slot number; (2)
the same for every non-core frequency slot (0 to 21 and 38 to 42); (3) a
per-core power slot that decodes to 0 and is invalid belongs to a core that
the detector counted as dummy; (4) the same for a per-core frequency slot. -/
theorem power_freq_zero_valid (be : Bool) (hdr : metrics_table_header) (tables : def_tables)
    (priv P : amdgpu_metrics_private_common)
    (h : amdgpu_metrics_init_priv_common be hdr tables priv = (0, P)) :
    (∀ i, (i < 4 ∨ (20 ≤ i ∧ i < 24)) →
      amdgpu_metrics_get_val be P (P.channels.power i) = (0, some 0) →
      P.remap.power i = { valid := true, ext := false, idx := i })
    ∧ (∀ i, (i < 22 ∨ (38 ≤ i ∧ i < 43)) →
      amdgpu_metrics_get_val be P (P.channels.freq i) = (0, some 0) →
      P.remap.freq i = { valid := true, ext := false, idx := i })
    ∧ (∀ k, k < NCORES →
      amdgpu_metrics_get_val be P (P.channels.power (POWER_CORE + k)) = (0, some 0) →
      (P.remap.power (POWER_CORE + k)).valid = false →
      classified_dummy be (validate_all_channels be { priv with channels := P.channels }) k
        = true)
    ∧ (∀ k, k < NCORES →
      amdgpu_metrics_get_val be P (P.channels.freq (FREQ_CORECLK + k)) = (0, some 0) →
      (P.remap.freq (FREQ_CORECLK + k)).valid = false →
      classified_dummy be (validate_all_channels be { priv with channels := P.channels }) k
        = true) := by
  obtain ⟨_, hm, hr⟩ := init_success be hdr tables priv P h
  have hg : ∀ c, amdgpu_metrics_get_val be { priv with channels := P.channels } c
      = amdgpu_metrics_get_val be P c := fun c => get_val_congr be P _ c rfl hm.symm
  have hvc : ∀ (channels : Nat → channel_t) (i : Nat),
      amdgpu_metrics_get_val be P (channels i) = (0, some 0) →
      validate_channel be { priv with channels := P.channels } channels false i
        = { valid := true, ext := false, idx := i % 64 } := by
    intro channels i hz
    have hty := get_val_ok_typed be P (channels i) (by rw [hz])
    unfold validate_channel
    rw [hg, hz, hty]
    simp
  refine ⟨?_, ?_, ?_, ?_⟩
  · intro i hi hz
    rw [hr, validate_core_power, if_neg (by simp only [POWER_CORE, NCORES]; omega),
      validate_all_power, if_pos (by simp only [NCHANNELS_POWER]; omega), hvc _ i hz,
      Nat.mod_eq_of_lt (by omega)]
  · intro i hi hz
    rw [hr, validate_core_freq, if_neg (by simp only [FREQ_CORECLK, NCORES]; omega),
      validate_all_freq, if_pos (by simp only [NCHANNELS_FREQ]; omega), hvc _ i hz,
      Nat.mod_eq_of_lt (by omega)]
  · intro k hk hz hv
    have hk2 : k < 16 := hk
    have hq : (validate_all_channels be { priv with channels := P.channels }).remap.power
        (POWER_CORE + k) = { valid := true, ext := false, idx := (POWER_CORE + k) % 64 } := by
      rw [validate_all_power, if_pos (by simp only [NCHANNELS_POWER, POWER_CORE]; omega)]
      exact hvc _ _ hz
    rw [hr, validate_core_power, if_pos (by simp only [NCORES]; omega),
      Nat.add_sub_cancel_left] at hv
    refine core_entry_invalid_dummy be _ k _ _ hk (by rw [hq]) ?_ hv
    unfold any_core_entry_valid
    rw [hq]
    simp
  · intro k hk hz hv
    have hk2 : k < 16 := hk
    have hq : (validate_all_channels be { priv with channels := P.channels }).remap.freq
        (FREQ_CORECLK + k) = { valid := true, ext := false, idx := (FREQ_CORECLK + k) % 64 } := by
      rw [validate_all_freq, if_pos (by simp only [NCHANNELS_FREQ, FREQ_CORECLK]; omega)]
      exact hvc _ _ hz
    rw [hr, validate_core_freq, if_pos (by simp only [NCORES]; omega),
      Nat.add_sub_cancel_left] at hv
    refine core_entry_invalid_dummy be _ k _ _ hk (by rw [hq]) ?_ hv
    unfold any_core_entry_valid
    rw [hq]
    simp

/-- C7 at the 30-byte sample: the socket power (slot 0) and the clock in slot
0 decode to 0 and stay valid with label index 0; the power and the frequency
of core 3 decode to 0 and are invalid, and core 3 was counted as dummy. -/
theorem power_freq_zero_valid_witness :
    sample_core_init.1 = 0
    ∧ amdgpu_metrics_get_val false sample_core_init.2 (sample_core_init.2.channels.power 0)
        = (0, some 0)
    ∧ sample_core_init.2.remap.power 0 = { valid := true, ext := false, idx := 0 }
    ∧ amdgpu_metrics_get_val false sample_core_init.2 (sample_core_init.2.channels.freq 0)
        = (0, some 0)
    ∧ sample_core_init.2.remap.freq 0 = { valid := true, ext := false, idx := 0 }
    ∧ amdgpu_metrics_get_val false sample_core_init.2
        (sample_core_init.2.channels.power (POWER_CORE + 3)) = (0, some 0)
    ∧ (sample_core_init.2.remap.power (POWER_CORE + 3)).valid = false
    ∧ amdgpu_metrics_get_val false sample_core_init.2
        (sample_core_init.2.channels.freq (FREQ_CORECLK + 3)) = (0, some 0)
    ∧ (sample_core_init.2.remap.freq (FREQ_CORECLK + 3)).valid = false
    ∧ classified_dummy false
        (validate_all_channels false
          { sample_core_fresh with channels := sample_core_init.2.channels }) 3 = true :=
  have h := power_freq_zero_valid false sample_hdr sample_tables sample_core_fresh
    sample_core_init.2 (Prod.ext (by decide) rfl)
  ⟨by decide, by decide, h.1 0 (by decide) (by decide),
    by decide, h.2.1 0 (by decide) (by decide),
    by decide, by decide, by decide, by decide,
    h.2.2.1 3 (by decide) (by decide) (by decide)⟩


/-! ## Core functionality detector: frame and return code -/

/-- A final per-core entry of a functional core keeps its valid flag. -/
theorem core_entry_after_functional (be : Bool) (priv : amdgpu_metrics_private_common) (k : Nat)
    (e : remap_t) (label0 : Nat) (h : core_is_functional be priv k = true) :
    (core_entry_after be priv k e label0).valid = e.valid := by
  unfold core_entry_after
  rw [if_pos h]

/-- A core without any functional core below it. -/
theorem functional_below_eq_zero (be : Bool) (priv : amdgpu_metrics_private_common) (n : Nat) :
    functional_below be priv n = 0 ↔ ∀ k, k < n → core_is_functional be priv k = false := by
  induction n with
  | zero => simp [functional_below]
  | succ n ih =>
    have e : functional_below be priv (n + 1)
        = functional_below be priv n + if core_is_functional be priv n then 1 else 0 := rfl
    rw [e]
    constructor
    · intro h k hk
      have h1 : functional_below be priv n = 0 := by omega
      by_cases hkn : k = n
      · subst hkn
        by_contra hc
        simp only [Bool.not_eq_false] at hc
        rw [hc] at h
        simp at h
      · exact ih.1 h1 k (by omega)
    · intro h
      rw [ih.2 (fun k hk => h k (by omega)), h n (by omega)]
      simp

/-- The number of functional cores is monotone in the bound. -/
theorem functional_below_mono (be : Bool) (priv : amdgpu_metrics_private_common) (a b : Nat)
    (h : a ≤ b) : functional_below be priv a ≤ functional_below be priv b := by
  induction b with
  | zero =>
    have : a = 0 := by omega
    subst this
    exact le_refl _
  | succ n ih =>
    by_cases hab : a = n + 1
    · subst hab
      exact le_refl _
    · have e : functional_below be priv (n + 1)
          = functional_below be priv n + if core_is_functional be priv n then 1 else 0 := rfl
      have := ih (by omega)
      omega

/-- A functional core has a strictly smaller rank than every later core. -/
theorem functional_below_lt (be : Bool) (priv : amdgpu_metrics_private_common) (a b : Nat)
    (h : a < b) (hf : core_is_functional be priv a = true) :
    functional_below be priv a < functional_below be priv b := by
  have e : functional_below be priv (a + 1)
      = functional_below be priv a + if core_is_functional be priv a then 1 else 0 := rfl
  rw [hf] at e
  simp only [if_true] at e
  have := functional_below_mono be priv (a + 1) b (by omega)
  omega

/-- The return code of the detector in terms of the input. -/
theorem validate_core_ret_eq (be : Bool) (priv : amdgpu_metrics_private_common) :
    (_amdgpu_metrics_validate_core be priv).1
      = if functional_below be priv NCORES ≠ 0 then 0 else -ENODEV := by
  have h := (validate_core_loop_inv be priv NCORES (le_refl _)).2.2.2.1
  unfold _amdgpu_metrics_validate_core
  simp only
  rw [h]

/-- The detector returns `-ENODEV` exactly when no core is functional. -/
theorem validate_core_enodev_iff (be : Bool) (priv : amdgpu_metrics_private_common) :
    (_amdgpu_metrics_validate_core be priv).1 = -ENODEV
      ↔ ∀ k, k < NCORES → classified_functional be priv k = false := by
  rw [validate_core_ret_eq]
  have hz := functional_below_eq_zero be priv NCORES
  constructor
  · intro h k hk
    rw [classified_functional_iff be priv k hk]
    by_cases h0 : functional_below be priv NCORES = 0
    · exact hz.1 h0 k hk
    · rw [if_pos h0] at h
      exact absurd h (by decide)
  · intro h
    have h0 : functional_below be priv NCORES = 0 :=
      hz.2 (fun k hk => by rw [← classified_functional_iff be priv k hk]; exact h k hk)
    rw [if_neg (by simp [h0])]

/-- The detector returns 0 exactly when some core is functional. -/
theorem validate_core_zero_iff (be : Bool) (priv : amdgpu_metrics_private_common) :
    (_amdgpu_metrics_validate_core be priv).1 = 0
      ↔ ∃ k, k < NCORES ∧ classified_functional be priv k = true := by
  have h1 := validate_core_enodev_iff be priv
  rcases validate_core_ret be priv with h | h
  · constructor
    · intro _
      by_contra hn
      have : ∀ k, k < NCORES → classified_functional be priv k = false := by
        intro k hk
        by_contra hc
        exact hn ⟨k, hk, by simpa using hc⟩
      have := h1.2 this
      rw [h] at this
      revert this
      decide
    · intro _
      exact h
  · constructor
    · intro h0
      rw [h] at h0
      exact absurd h0 (by decide)
    · rintro ⟨k, hk, hc⟩
      have := h1.1 h k hk
      rw [hc] at this
      cases this

/-- Initialisation once the lookup found a schema: it returns 0, and
`has_per_core` records whether the detector returned 0. -/
theorem init_lookup_ok (be : Bool) (hdr : metrics_table_header) (tables : def_tables)
    (priv : amdgpu_metrics_private_common) (c : amdgpu_metrics_def)
    (hc : amdgpu_metrics_get_channels tables (header_field be priv.metrics hdr.format_revision)
        (header_field be priv.metrics hdr.content_revision) = (0, some c)) :
    amdgpu_metrics_init_priv_common be hdr tables priv
      = (0, { (_amdgpu_metrics_validate_core be
                (validate_all_channels be { priv with channels := c })).2 with
              has_per_core := decide ((_amdgpu_metrics_validate_core be
                (validate_all_channels be { priv with channels := c })).1 = 0) }) := by
  unfold amdgpu_metrics_init_priv_common
  rw [hc]
  simp only [ne_eq, not_true_eq_false, if_false]
  rcases validate_core_ret be (validate_all_channels be { priv with channels := c }) with h | h
  · rw [h]
    simp [ENODEV]
  · rw [h]
    simp [ENODEV]

/-- Initialisation when the lookup fails: the error is returned and `*priv` is
as before. -/
theorem init_lookup_fail (be : Bool) (hdr : metrics_table_header) (tables : def_tables)
    (priv : amdgpu_metrics_private_common)
    (hc : amdgpu_metrics_get_channels tables (header_field be priv.metrics hdr.format_revision)
        (header_field be priv.metrics hdr.content_revision) = (-ENOSYS, none)) :
    amdgpu_metrics_init_priv_common be hdr tables priv = (-ENOSYS, priv) := by
  unfold amdgpu_metrics_init_priv_common
  rw [hc]
  simp [ENOSYS]

/-- A valid final per-core entry belongs to a functional core. -/
theorem core_entry_valid_functional (be : Bool) (Q : amdgpu_metrics_private_common) (k : Nat)
    (e : remap_t) (label0 : Nat)
    (hany : e.valid = true → any_core_entry_valid Q k = true)
    (h : (core_entry_after be Q k e label0).valid = true) :
    core_is_functional be Q k = true := by
  have he := core_entry_after_valid be Q k e label0 h
  have ha := hany he
  by_contra hf
  have hf2 : core_is_functional be Q k = false := by simpa using hf
  have hs : spec_core_functional be Q k = false := by
    simpa [core_is_functional, ha] using hf2
  have hd : core_is_dummy be Q k = true := by simp [core_is_dummy, ha, hs]
  unfold core_entry_after at h
  rw [if_neg hf, if_pos hd] at h
  cases h

/-- In a table whose entries carry their slot number before the detector, the
label indices of the valid entries after the detector increase strictly with
the slot. -/
theorem labels_increasing (be : Bool) (Q : amdgpu_metrics_private_common) (base size : Nat)
    (orig final : Nat → remap_t) (hbase : base + NCORES ≤ size) (hsize : size ≤ 64)
    (horig : ∀ j, j < size → (orig j).idx = j)
    (hany : ∀ k, k < NCORES → (orig (base + k)).valid = true → any_core_entry_valid Q k = true)
    (hfinal : ∀ j, final j = if base ≤ j ∧ j < base + NCORES then
        core_entry_after be Q (j - base) (orig j) (orig base).idx else orig j)
    (i j : Nat) (hij : i < j) (hj : j < size)
    (hvi : (final i).valid = true) (hvj : (final j).valid = true) :
    (final i).idx < (final j).idx := by
  simp only [NCORES] at hbase hany hfinal
  have hb0 : (orig base).idx = base := horig base (by omega)
  -- the label index of a valid final entry
  have key : ∀ x, x < size → (final x).valid = true →
      (¬ (base ≤ x ∧ x < base + 16) ∧ (final x).idx = x)
      ∨ ((base ≤ x ∧ x < base + 16) ∧ core_is_functional be Q (x - base) = true
          ∧ (final x).idx = base + functional_below be Q (x - base)) := by
    intro x hx hv
    rw [hfinal x] at hv ⊢
    by_cases hc : base ≤ x ∧ x < base + 16
    · rw [if_pos hc] at hv ⊢
      have hf := core_entry_valid_functional be Q (x - base) (orig x) _
        (fun h => hany (x - base) (by omega) (by
          rw [show base + (x - base) = x by omega]; exact h)) hv
      refine Or.inr ⟨hc, hf, ?_⟩
      have hle := functional_below_le be Q (x - base)
      unfold core_entry_after
      rw [if_pos hf, hb0]
      simp only
      omega
    · rw [if_neg hc] at hv ⊢
      exact Or.inl ⟨hc, horig x hx⟩
  rcases key i (by omega) hvi with ⟨hci, hi⟩ | ⟨hci, hfi, hi⟩ <;>
  rcases key j hj hvj with ⟨hcj, hjj⟩ | ⟨hcj, hfj, hjj⟩
  · omega
  · omega
  · have := functional_below_le be Q (i - base)
    omega
  · have := functional_below_lt be Q (i - base) (j - base) (by omega) hfi
    omega

/-! ## Claims about the detector and the initialisation -/

/-- C11: after `amdgpu_metrics_init_priv_common` returned 0, in each of the
three remap tables the label indices of the valid entries increase strictly
with the slot, also between a non-core slot and a renumbered per-core slot;
so they are pairwise distinct. -/
theorem valid_labels_increasing (be : Bool) (hdr : metrics_table_header) (tables : def_tables)
    (priv P : amdgpu_metrics_private_common)
    (h : amdgpu_metrics_init_priv_common be hdr tables priv = (0, P)) :
    (∀ i j, i < j → j < NCHANNELS_TEMP →
      (P.remap.temp i).valid = true → (P.remap.temp j).valid = true →
      (P.remap.temp i).idx < (P.remap.temp j).idx)
    ∧ (∀ i j, i < j → j < NCHANNELS_POWER →
      (P.remap.power i).valid = true → (P.remap.power j).valid = true →
      (P.remap.power i).idx < (P.remap.power j).idx)
    ∧ (∀ i j, i < j → j < NCHANNELS_FREQ →
      (P.remap.freq i).valid = true → (P.remap.freq j).valid = true →
      (P.remap.freq i).idx < (P.remap.freq j).idx) := by
  obtain ⟨_, _, hr⟩ := init_success be hdr tables priv P h
  rw [hr]
  refine ⟨?_, ?_, ?_⟩
  · intro i j hij hj hvi hvj
    refine labels_increasing be (validate_all_channels be { priv with channels := P.channels })
      TEMP_CORE NCHANNELS_TEMP _ _ (by decide) (by decide) ?_ ?_
      (validate_core_temp be _) i j hij hj hvi hvj
    · intro x hx
      rw [validate_all_temp, if_pos hx]
      simp only [validate_channel, NCHANNELS_TEMP] at hx ⊢
      omega
    · intro k _ hv
      unfold any_core_entry_valid
      rw [hv]
      rfl
  · intro i j hij hj hvi hvj
    refine labels_increasing be (validate_all_channels be { priv with channels := P.channels })
      POWER_CORE NCHANNELS_POWER _ _ (by decide) (by decide) ?_ ?_
      (validate_core_power be _) i j hij hj hvi hvj
    · intro x hx
      rw [validate_all_power, if_pos hx]
      simp only [validate_channel, NCHANNELS_POWER] at hx ⊢
      omega
    · intro k _ hv
      unfold any_core_entry_valid
      rw [hv]
      simp
  · intro i j hij hj hvi hvj
    refine labels_increasing be (validate_all_channels be { priv with channels := P.channels })
      FREQ_CORECLK NCHANNELS_FREQ _ _ (by decide) (by decide) ?_ ?_
      (validate_core_freq be _) i j hij hj hvi hvj
    · intro x hx
      rw [validate_all_freq, if_pos hx]
      simp only [validate_channel, NCHANNELS_FREQ] at hx ⊢
      omega
    · intro k _ hv
      unfold any_core_entry_valid
      rw [hv]
      simp

/-- C11 at the 30-byte sample: the valid temperature entries are the slots 16
(core 4, label 12) and 18 (core 6, label 14), the valid power entries the
slots 0 (label 0), 8 (core 4, label 4) and 9 (core 5, label 5). -/
theorem valid_labels_increasing_witness :
    sample_core_init.1 = 0
    ∧ (sample_core_init.2.remap.temp 16).valid = true
    ∧ (sample_core_init.2.remap.temp 18).valid = true
    ∧ (sample_core_init.2.remap.temp 16).idx = 12
    ∧ (sample_core_init.2.remap.temp 18).idx = 14
    ∧ (sample_core_init.2.remap.temp 16).idx < (sample_core_init.2.remap.temp 18).idx
    ∧ (sample_core_init.2.remap.power 0).idx < (sample_core_init.2.remap.power 8).idx
    ∧ (sample_core_init.2.remap.power 8).idx < (sample_core_init.2.remap.power 9).idx :=
  have h := valid_labels_increasing false sample_hdr sample_tables sample_core_fresh
    sample_core_init.2 (Prod.ext (by decide) rfl)
  ⟨by decide, by decide, by decide, by decide, by decide,
    h.1 16 18 (by decide) (by decide) (by decide) (by decide),
    h.2.1 0 8 (by decide) (by decide) (by decide) (by decide),
    h.2.1 8 9 (by decide) (by decide) (by decide) (by decide)⟩


/-- C12: `_amdgpu_metrics_validate_core` returns `-ENODEV` if and only if no
core is counted as functional, and 0 if some core is; after
`amdgpu_metrics_init_priv_common` returned 0, `has_per_core` is true exactly
when the detector counted some core as functional; and when the lookup
succeeds and the detector returns `-ENODEV`, initialisation still returns 0,
with `has_per_core` false. -/
theorem detector_return_code (be : Bool) (hdr : metrics_table_header) (tables : def_tables)
    (priv : amdgpu_metrics_private_common) :
    ((_amdgpu_metrics_validate_core be priv).1 = -ENODEV
      ↔ ∀ k, k < NCORES → classified_functional be priv k = false)
    ∧ ((_amdgpu_metrics_validate_core be priv).1 = 0
      ↔ ∃ k, k < NCORES ∧ classified_functional be priv k = true)
    ∧ (∀ P, amdgpu_metrics_init_priv_common be hdr tables priv = (0, P) →
        (P.has_per_core = true
          ↔ ∃ k, k < NCORES ∧ classified_functional be
              (validate_all_channels be { priv with channels := P.channels }) k = true))
    ∧ (∀ c, amdgpu_metrics_get_channels tables
          (header_field be priv.metrics hdr.format_revision)
          (header_field be priv.metrics hdr.content_revision) = (0, some c) →
        (_amdgpu_metrics_validate_core be
          (validate_all_channels be { priv with channels := c })).1 = -ENODEV →
        (amdgpu_metrics_init_priv_common be hdr tables priv).1 = 0
        ∧ (amdgpu_metrics_init_priv_common be hdr tables priv).2.has_per_core = false) := by
  refine ⟨validate_core_enodev_iff be priv, validate_core_zero_iff be priv, ?_, ?_⟩
  · intro P h
    obtain ⟨hc, _, _⟩ := init_success be hdr tables priv P h
    have e := init_lookup_ok be hdr tables priv P.channels hc
    rw [h] at e
    have e2 := congrArg (fun x => x.2.has_per_core) e
    simp only at e2
    rw [e2, decide_eq_true_iff]
    exact validate_core_zero_iff be _
  · intro c hc hd
    rw [init_lookup_ok be hdr tables priv c hc]
    refine ⟨rfl, ?_⟩
    simp only
    rw [hd]
    decide

/-- C12 at two samples: in the 12-byte sample under the schema without
descriptors no core is functional, the detector returns `-ENODEV` and the
initialisation of a revision 1.0 snapshot still returns 0 with `has_per_core`
false; in the 30-byte sample core 4 is functional and `has_per_core` is
true. -/
theorem detector_return_code_witness :
    (_amdgpu_metrics_validate_core false sample_priv).1 = -ENODEV
    ∧ (amdgpu_metrics_init_priv_common false sample_hdr sample_tables sample_priv).1 = 0
    ∧ (amdgpu_metrics_init_priv_common false sample_hdr sample_tables sample_priv).2.has_per_core
        = false
    ∧ sample_core_init.1 = 0
    ∧ classified_functional false
        (validate_all_channels false
          { sample_core_fresh with channels := sample_core_init.2.channels }) 4 = true
    ∧ sample_core_init.2.has_per_core = true :=
  have h1 := detector_return_code false sample_hdr sample_tables sample_priv
  have h2 := detector_return_code false sample_hdr sample_tables sample_core_fresh
  ⟨h1.1.2 (fun k hk => by
      have hk2 : k < 16 := hk
      interval_cases k <;> decide),
    (h1.2.2.2 sample_def rfl (by decide)).1,
    (h1.2.2.2 sample_def rfl (by decide)).2,
    by decide, by decide,
    (h2.2.2.1 sample_core_init.2 (Prod.ext (by decide) rfl)).2 ⟨4, by decide, by decide⟩⟩

/-- C13: `_amdgpu_metrics_validate_core` leaves every entry outside the 16
per-core slots of each table as it was, never turns an invalid entry into a
valid one, clears the valid flag of a per-core entry only for a core it counts
as dummy, and leaves the valid flags of the cores it counts as functional as
they were. -/
theorem detector_frame (be : Bool) (priv : amdgpu_metrics_private_common) :
    (∀ j, ¬ (TEMP_CORE ≤ j ∧ j < TEMP_CORE + NCORES) →
      (_amdgpu_metrics_validate_core be priv).2.remap.temp j = priv.remap.temp j)
    ∧ (∀ j, ¬ (POWER_CORE ≤ j ∧ j < POWER_CORE + NCORES) →
      (_amdgpu_metrics_validate_core be priv).2.remap.power j = priv.remap.power j)
    ∧ (∀ j, ¬ (FREQ_CORECLK ≤ j ∧ j < FREQ_CORECLK + NCORES) →
      (_amdgpu_metrics_validate_core be priv).2.remap.freq j = priv.remap.freq j)
    ∧ (∀ j, ((_amdgpu_metrics_validate_core be priv).2.remap.temp j).valid = true →
      (priv.remap.temp j).valid = true)
    ∧ (∀ j, ((_amdgpu_metrics_validate_core be priv).2.remap.power j).valid = true →
      (priv.remap.power j).valid = true)
    ∧ (∀ j, ((_amdgpu_metrics_validate_core be priv).2.remap.freq j).valid = true →
      (priv.remap.freq j).valid = true)
    ∧ (∀ k, k < NCORES →
      ((priv.remap.temp (TEMP_CORE + k)).valid = true
          ∧ ((_amdgpu_metrics_validate_core be priv).2.remap.temp (TEMP_CORE + k)).valid = false
        ∨ (priv.remap.power (POWER_CORE + k)).valid = true
          ∧ ((_amdgpu_metrics_validate_core be priv).2.remap.power (POWER_CORE + k)).valid = false
        ∨ (priv.remap.freq (FREQ_CORECLK + k)).valid = true
          ∧ ((_amdgpu_metrics_validate_core be priv).2.remap.freq (FREQ_CORECLK + k)).valid
              = false) →
      classified_dummy be priv k = true)
    ∧ (∀ k, k < NCORES → classified_functional be priv k = true →
      ((_amdgpu_metrics_validate_core be priv).2.remap.temp (TEMP_CORE + k)).valid
          = (priv.remap.temp (TEMP_CORE + k)).valid
      ∧ ((_amdgpu_metrics_validate_core be priv).2.remap.power (POWER_CORE + k)).valid
          = (priv.remap.power (POWER_CORE + k)).valid
      ∧ ((_amdgpu_metrics_validate_core be priv).2.remap.freq (FREQ_CORECLK + k)).valid
          = (priv.remap.freq (FREQ_CORECLK + k)).valid) := by
  refine ⟨?_, ?_, ?_, ?_, ?_, ?_, ?_, ?_⟩
  · intro j hj
    rw [validate_core_temp, if_neg hj]
  · intro j hj
    rw [validate_core_power, if_neg hj]
  · intro j hj
    rw [validate_core_freq, if_neg hj]
  · intro j hv
    rw [validate_core_temp] at hv
    split_ifs at hv
    · exact core_entry_after_valid be priv _ _ _ hv
    · exact hv
  · intro j hv
    rw [validate_core_power] at hv
    split_ifs at hv
    · exact core_entry_after_valid be priv _ _ _ hv
    · exact hv
  · intro j hv
    rw [validate_core_freq] at hv
    split_ifs at hv
    · exact core_entry_after_valid be priv _ _ _ hv
    · exact hv
  · intro k hk h
    rcases h with ⟨h1, h2⟩ | ⟨h1, h2⟩ | ⟨h1, h2⟩
    · rw [validate_core_temp, if_pos (by omega), Nat.add_sub_cancel_left] at h2
      exact core_entry_invalid_dummy be priv k _ _ hk h1
        (by unfold any_core_entry_valid; rw [h1]; rfl) h2
    · rw [validate_core_power, if_pos (by omega), Nat.add_sub_cancel_left] at h2
      exact core_entry_invalid_dummy be priv k _ _ hk h1
        (by unfold any_core_entry_valid; rw [h1]; simp) h2
    · rw [validate_core_freq, if_pos (by omega), Nat.add_sub_cancel_left] at h2
      exact core_entry_invalid_dummy be priv k _ _ hk h1
        (by unfold any_core_entry_valid; rw [h1]; simp) h2
  · intro k hk hc
    rw [classified_functional_iff be priv k hk] at hc
    refine ⟨?_, ?_, ?_⟩
    · rw [validate_core_temp, if_pos (by omega), Nat.add_sub_cancel_left]
      exact core_entry_after_functional be priv k _ _ hc
    · rw [validate_core_power, if_pos (by omega), Nat.add_sub_cancel_left]
      exact core_entry_after_functional be priv k _ _ hc
    · rw [validate_core_freq, if_pos (by omega), Nat.add_sub_cancel_left]
      exact core_entry_after_functional be priv k _ _ hc

/-- C13 at the 30-byte sample: the socket power entry (slot 0) is untouched,
the temperature entry of core 3 was valid and is cleared, core 3 being a
dummy, and the temperature entry of the functional core 5, invalid because it
decodes to 0, stays invalid. -/
theorem detector_frame_witness :
    (_amdgpu_metrics_validate_core false sample_core_priv).2.remap.power 0
        = sample_core_priv.remap.power 0
    ∧ (sample_core_priv.remap.temp (TEMP_CORE + 3)).valid = true
    ∧ ((_amdgpu_metrics_validate_core false sample_core_priv).2.remap.temp (TEMP_CORE + 3)).valid
        = false
    ∧ classified_dummy false sample_core_priv 3 = true
    ∧ classified_functional false sample_core_priv 5 = true
    ∧ (sample_core_priv.remap.temp (TEMP_CORE + 5)).valid = false
    ∧ ((_amdgpu_metrics_validate_core false sample_core_priv).2.remap.temp (TEMP_CORE + 5)).valid
        = (sample_core_priv.remap.temp (TEMP_CORE + 5)).valid :=
  have h := detector_frame false sample_core_priv
  ⟨h.2.1 0 (by decide), by decide, by decide,
    h.2.2.2.2.2.2.1 3 (by decide) (Or.inl ⟨by decide, by decide⟩),
    by decide, by decide,
    (h.2.2.2.2.2.2.2 5 (by decide) (by decide)).1⟩

/-! ## Claims about the lookup and the validator runs -/

/-- The lookup in closed form. -/
theorem get_channels_eq (tables : def_tables) (fr cr : Nat) :
    amdgpu_metrics_get_channels tables fr cr
      = if registered_revision fr cr = true then (0, some (table_entry tables fr cr))
        else (-ENOSYS, none) := by
  unfold amdgpu_metrics_get_channels registered_revision table_entry
  by_cases h1 : fr = 1
  · subst h1
    by_cases hc : cr < 9
    · have : cr ≤ 8 := by omega
      simp [hc, this]
    · have : ¬ cr ≤ 8 := by omega
      simp [hc, this]
  · by_cases h2 : fr = 2
    · subst h2
      by_cases hc : cr < 5
      · have : cr ≤ 4 := by omega
        simp [hc, this]
      · have : ¬ cr ≤ 4 := by omega
        simp [hc, this]
    · by_cases h3 : fr = 3
      · subst h3
        by_cases hc : cr < 1
        · have : cr = 0 := by omega
          simp [this]
        · have : ¬ cr = 0 := by omega
          simp [hc, this]
      · simp [h1, h2, h3]

/-- C14: `amdgpu_metrics_get_channels` returns 0 and stores entry `cr` of the
table of the major line `fr` when `fr = 1` and `cr <= 8`, or `fr = 2` and
`cr <= 4`, or `fr = 3` and `cr = 0`; for every other pair it returns
`-ENOSYS` and stores nothing; so it returns 0 exactly for the registered
pairs. -/
theorem get_channels_registered (tables : def_tables) (fr cr : Nat) :
    (registered_revision fr cr = true →
      amdgpu_metrics_get_channels tables fr cr = (0, some (table_entry tables fr cr)))
    ∧ (registered_revision fr cr = false →
      amdgpu_metrics_get_channels tables fr cr = (-ENOSYS, none))
    ∧ ((amdgpu_metrics_get_channels tables fr cr).1 = 0 ↔ registered_revision fr cr = true) := by
  rw [get_channels_eq]
  refine ⟨?_, ?_, ?_⟩
  · intro h
    rw [if_pos h]
  · intro h
    rw [if_neg (by simp [h])]
  · by_cases h : registered_revision fr cr = true
    · rw [if_pos h]
      simp [h]
    · rw [if_neg h]
      simp [h, ENOSYS]

/-- C14 at the sample tables: revision 1.8 and revision 3.0 are found; the
pairs (1, 9), (2, 5) and (3, 1), one past the last minor revision, and the
major lines 0 and 4 are not. -/
theorem get_channels_registered_witness :
    (amdgpu_metrics_get_channels sample_tables 1 8).1 = 0
    ∧ (amdgpu_metrics_get_channels sample_tables 3 0).1 = 0
    ∧ amdgpu_metrics_get_channels sample_tables 1 9 = (-ENOSYS, none)
    ∧ amdgpu_metrics_get_channels sample_tables 2 5 = (-ENOSYS, none)
    ∧ amdgpu_metrics_get_channels sample_tables 3 1 = (-ENOSYS, none)
    ∧ amdgpu_metrics_get_channels sample_tables 0 0 = (-ENOSYS, none)
    ∧ amdgpu_metrics_get_channels sample_tables 4 0 = (-ENOSYS, none) :=
  ⟨(get_channels_registered sample_tables 1 8).2.2.2 (by decide),
    (get_channels_registered sample_tables 3 0).2.2.2 (by decide),
    (get_channels_registered sample_tables 1 9).2.1 (by decide),
    (get_channels_registered sample_tables 2 5).2.1 (by decide),
    (get_channels_registered sample_tables 3 1).2.1 (by decide),
    (get_channels_registered sample_tables 0 0).2.1 (by decide),
    (get_channels_registered sample_tables 4 0).2.1 (by decide)⟩

/-- C15: when the header of the snapshot carries a pair that is not
registered, `amdgpu_metrics_init_priv_common` returns `-ENOSYS` and `*priv` is
as it was: the three remap tables and `has_per_core` are not modified. -/
theorem init_unregistered (be : Bool) (hdr : metrics_table_header) (tables : def_tables)
    (priv : amdgpu_metrics_private_common)
    (h : registered_revision (header_field be priv.metrics hdr.format_revision)
      (header_field be priv.metrics hdr.content_revision) = false) :
    amdgpu_metrics_init_priv_common be hdr tables priv = (-ENOSYS, priv) := by
  apply init_lookup_fail
  rw [get_channels_eq, if_neg (by simp [h])]

/-- C15 at the sample with the header of revision 1.9: initialisation returns
`-ENOSYS` and no temperature, power or frequency entry is valid afterwards. -/
theorem init_unregistered_witness :
    header_field false sample_unregistered.metrics sample_hdr.format_revision = 1
    ∧ header_field false sample_unregistered.metrics sample_hdr.content_revision = 9
    ∧ (amdgpu_metrics_init_priv_common false sample_hdr sample_tables sample_unregistered).1
        = -ENOSYS
    ∧ (amdgpu_metrics_init_priv_common false sample_hdr sample_tables sample_unregistered).2
        = sample_unregistered :=
  have h := init_unregistered false sample_hdr sample_tables sample_unregistered (by decide)
  ⟨by decide, by decide, congrArg Prod.fst h, congrArg Prod.snd h⟩

/-- C17: for every schema and every snapshot, the three validator runs write
the slots 0 to 30 of the temperature table, 0 to 23 of the power table and 0
to 42 of the frequency table, each with label index equal to the slot number
and `ext` false, whether valid or not, and leave every entry past these slots
as it was. -/
theorem validate_all_writes (be : Bool) (priv : amdgpu_metrics_private_common) :
    (∀ i, i < NCHANNELS_TEMP →
      ((validate_all_channels be priv).remap.temp i).idx = i
      ∧ ((validate_all_channels be priv).remap.temp i).ext = false)
    ∧ (∀ i, NCHANNELS_TEMP ≤ i →
      (validate_all_channels be priv).remap.temp i = priv.remap.temp i)
    ∧ (∀ i, i < NCHANNELS_POWER →
      ((validate_all_channels be priv).remap.power i).idx = i
      ∧ ((validate_all_channels be priv).remap.power i).ext = false)
    ∧ (∀ i, NCHANNELS_POWER ≤ i →
      (validate_all_channels be priv).remap.power i = priv.remap.power i)
    ∧ (∀ i, i < NCHANNELS_FREQ →
      ((validate_all_channels be priv).remap.freq i).idx = i
      ∧ ((validate_all_channels be priv).remap.freq i).ext = false)
    ∧ (∀ i, NCHANNELS_FREQ ≤ i →
      (validate_all_channels be priv).remap.freq i = priv.remap.freq i)
    ∧ NCHANNELS_TEMP = 31 ∧ NCHANNELS_POWER = 24 ∧ NCHANNELS_FREQ = 43 := by
  refine ⟨?_, ?_, ?_, ?_, ?_, ?_, rfl, rfl, rfl⟩
  · intro i hi
    rw [validate_all_temp, if_pos hi]
    simp only [validate_channel, NCHANNELS_TEMP] at hi ⊢
    exact ⟨by omega, trivial⟩
  · intro i hi
    rw [validate_all_temp, if_neg (by omega)]
  · intro i hi
    rw [validate_all_power, if_pos hi]
    simp only [validate_channel, NCHANNELS_POWER] at hi ⊢
    exact ⟨by omega, trivial⟩
  · intro i hi
    rw [validate_all_power, if_neg (by omega)]
  · intro i hi
    rw [validate_all_freq, if_pos hi]
    simp only [validate_channel, NCHANNELS_FREQ] at hi ⊢
    exact ⟨by omega, trivial⟩
  · intro i hi
    rw [validate_all_freq, if_neg (by omega)]

/-- C17 at the 30-byte sample: the last temperature slot 30, not populated,
is written with label index 30, and the entry past the table is untouched. -/
theorem validate_all_writes_witness :
    ((validate_all_channels false sample_core_unvalidated).remap.temp 30).idx = 30
    ∧ ((validate_all_channels false sample_core_unvalidated).remap.temp 30).valid = false
    ∧ ((validate_all_channels false sample_core_unvalidated).remap.temp 16).idx = 16
    ∧ ((validate_all_channels false sample_core_unvalidated).remap.temp 16).valid = true
    ∧ (validate_all_channels false sample_core_unvalidated).remap.temp 31
        = sample_core_unvalidated.remap.temp 31 :=
  have h := validate_all_writes false sample_core_unvalidated
  ⟨(h.1 30 (by decide)).1, by decide, (h.1 16 (by decide)).1, by decide,
    h.2.1 31 (by decide)⟩


/-! ## Snapshot cache -/

/-- The reader on a file: the value it returns and the buffer it leaves. -/
theorem read_gpu_metrics_file (be : Bool) (hdr : metrics_table_header) (sizes : vendor_sizes)
    (source : snapshot_source) (metrics : List Nat) (buf_size : Nat) (content : List Nat)
    (hsrc : source.outcome source.reads = .file content) :
    amdgpu_metrics_read_gpu_metrics be hdr sizes source metrics buf_size
      = (if bytes_returned content buf_size < sizes.header
            ∨ bytes_returned content buf_size
                ≠ header_structure_size be hdr (buffer_after_read content buf_size metrics)
          then - EIO else (bytes_returned content buf_size : Int),
         buffer_after_read content buf_size metrics,
         { source with reads := source.reads + 1 }) := by
  unfold amdgpu_metrics_read_gpu_metrics
  rw [hsrc]
  simp only
  by_cases h1 : bytes_returned content buf_size < sizes.header
  · rw [if_pos h1, if_pos (Or.inl h1)]
  · rw [if_neg h1]
    by_cases h2 : bytes_returned content buf_size
        ≠ header_structure_size be hdr (buffer_after_read content buf_size metrics)
    · rw [if_pos h2, if_pos (Or.inr h2)]
    · rw [if_neg h2, if_neg (by tauto)]

/-- The refresh past the staleness gate on a file: the return value. -/
theorem update_file_ret (HZ : Nat) (be : Bool) (hdr : metrics_table_header)
    (sizes : vendor_sizes) (jiffies : Nat) (source : snapshot_source)
    (priv : amdgpu_metrics_private) (content : List Nat)
    (hgate : time_before jiffies
      ((priv.last_update_jiffies + UPDATE_INTERVAL_JIFFIES HZ) % 2 ^ BITS_PER_LONG) = false)
    (hsrc : source.outcome source.reads = .file content) :
    amdgpu_metrics_update_gpu_metrics HZ be hdr sizes jiffies source priv
      = if bytes_returned content priv.common.channels.metrics_size < sizes.header
            ∨ bytes_returned content priv.common.channels.metrics_size
                ≠ header_structure_size be hdr
                    (buffer_after_read content priv.common.channels.metrics_size
                      priv.common.metrics)
            ∨ bytes_returned content priv.common.channels.metrics_size
                ≠ priv.common.channels.metrics_size
        then (- EIO,
          { priv with common := { priv.common with
              metrics := buffer_after_read content priv.common.channels.metrics_size
                priv.common.metrics } },
          { source with reads := source.reads + 1 })
        else (1,
          { priv with
            common := { priv.common with
              metrics := buffer_after_read content priv.common.channels.metrics_size
                priv.common.metrics }
            last_update_jiffies := jiffies },
          { source with reads := source.reads + 1 }) := by
  unfold amdgpu_metrics_update_gpu_metrics
  rw [hgate, read_gpu_metrics_file be hdr sizes source _ _ content hsrc]
  simp only [Bool.false_eq_true, if_false]
  by_cases h1 : bytes_returned content priv.common.channels.metrics_size < sizes.header
      ∨ bytes_returned content priv.common.channels.metrics_size
          ≠ header_structure_size be hdr
              (buffer_after_read content priv.common.channels.metrics_size priv.common.metrics)
  · have hall : bytes_returned content priv.common.channels.metrics_size < sizes.header
        ∨ bytes_returned content priv.common.channels.metrics_size
            ≠ header_structure_size be hdr
                (buffer_after_read content priv.common.channels.metrics_size
                  priv.common.metrics)
        ∨ bytes_returned content priv.common.channels.metrics_size
            ≠ priv.common.channels.metrics_size := by tauto
    simp only [if_pos h1, if_pos hall]
    rw [if_pos (by decide)]
  · simp only [if_neg h1]
    rw [if_neg (by omega)]
    by_cases h2 : bytes_returned content priv.common.channels.metrics_size
        ≠ priv.common.channels.metrics_size
    · rw [if_pos (by exact_mod_cast h2), if_pos (by tauto)]
    · rw [if_neg (by exact_mod_cast h2), if_neg (by tauto)]

/-- C18: in a refresh past the staleness gate whose read returns the bytes of
a file, if the number of bytes returned is smaller than the header, differs
from the `structure_size` of the header just read, or differs from the
`metrics_size` of the selected schema, `amdgpu_metrics_update_gpu_metrics`
returns `-EIO`, a negative value, and leaves `last_update_jiffies` as it was;
it returns 1 exactly when the number of bytes is at least the header size and
equals both `structure_size` and `metrics_size`, and then
`last_update_jiffies` is the current `jiffies`. -/
theorem refresh_lengths (HZ : Nat) (be : Bool) (hdr : metrics_table_header)
    (sizes : vendor_sizes) (jiffies : Nat) (source : snapshot_source)
    (priv : amdgpu_metrics_private) (content : List Nat)
    (hgate : time_before jiffies
      ((priv.last_update_jiffies + UPDATE_INTERVAL_JIFFIES HZ) % 2 ^ BITS_PER_LONG) = false)
    (hsrc : source.outcome source.reads = .file content) :
    ((bytes_returned content priv.common.channels.metrics_size < sizes.header
        ∨ bytes_returned content priv.common.channels.metrics_size
            ≠ header_structure_size be hdr
                (buffer_after_read content priv.common.channels.metrics_size
                  priv.common.metrics)
        ∨ bytes_returned content priv.common.channels.metrics_size
            ≠ priv.common.channels.metrics_size) →
      (amdgpu_metrics_update_gpu_metrics HZ be hdr sizes jiffies source priv).1 = - EIO
      ∧ (- EIO : Int) < 0
      ∧ (amdgpu_metrics_update_gpu_metrics HZ be hdr sizes jiffies source priv).2.1.last_update_jiffies
          = priv.last_update_jiffies)
    ∧ ((amdgpu_metrics_update_gpu_metrics HZ be hdr sizes jiffies source priv).1 = 1
      ↔ (sizes.header ≤ bytes_returned content priv.common.channels.metrics_size
        ∧ bytes_returned content priv.common.channels.metrics_size
            = header_structure_size be hdr
                (buffer_after_read content priv.common.channels.metrics_size
                  priv.common.metrics)
        ∧ bytes_returned content priv.common.channels.metrics_size
            = priv.common.channels.metrics_size))
    ∧ ((amdgpu_metrics_update_gpu_metrics HZ be hdr sizes jiffies source priv).1 = 1 →
      (amdgpu_metrics_update_gpu_metrics HZ be hdr sizes jiffies source priv).2.1.last_update_jiffies
          = jiffies) := by
  rw [update_file_ret HZ be hdr sizes jiffies source priv content hgate hsrc]
  by_cases h : bytes_returned content priv.common.channels.metrics_size < sizes.header
      ∨ bytes_returned content priv.common.channels.metrics_size
          ≠ header_structure_size be hdr
              (buffer_after_read content priv.common.channels.metrics_size priv.common.metrics)
      ∨ bytes_returned content priv.common.channels.metrics_size
          ≠ priv.common.channels.metrics_size
  · rw [if_pos h]
    refine ⟨fun _ => ⟨rfl, by decide, rfl⟩, ?_, ?_⟩
    · constructor
      · intro h1
        have h1b : (- EIO : Int) = 1 := h1
        exact absurd h1b (by decide)
      · intro ⟨a, b, c⟩
        rcases h with h | h | h
        · omega
        · exact absurd b h
        · exact absurd c h
    · intro h1
      have h1b : (- EIO : Int) = 1 := h1
      exact absurd h1b (by decide)
  · rw [if_neg h]
    refine ⟨fun h1 => absurd h1 h, ?_, fun _ => rfl⟩
    constructor
    · intro _
      refine ⟨?_, ?_, ?_⟩
      · by_contra hc
        exact h (Or.inl (by omega))
      · by_contra hc
        exact h (Or.inr (Or.inl hc))
      · by_contra hc
        exact h (Or.inr (Or.inr hc))
    · intro _
      rfl

set_option maxRecDepth 100000 in
/-- C18 at the samples, with `HZ = 1000` and `jiffies = 5000`: the 29-byte
file agrees with its header but not with the schema size 30, the refresh
returns `-EIO` and the time stamp stays 0; the 30-byte file agrees with both,
the refresh returns 1 and the time stamp becomes 5000. -/
theorem refresh_lengths_witness :
    time_before 5000
        ((sample_private.last_update_jiffies + UPDATE_INTERVAL_JIFFIES 1000)
          % 2 ^ BITS_PER_LONG) = false
    ∧ bytes_returned sample_short_metrics sample_private.common.channels.metrics_size = 29
    ∧ header_structure_size false sample_hdr
        (buffer_after_read sample_short_metrics sample_private.common.channels.metrics_size
          sample_private.common.metrics) = 29
    ∧ sample_private.common.channels.metrics_size = 30
    ∧ (amdgpu_metrics_update_gpu_metrics 1000 false sample_hdr sample_sizes 5000
        sample_short_source sample_private).1 = - EIO
    ∧ (amdgpu_metrics_update_gpu_metrics 1000 false sample_hdr sample_sizes 5000
        sample_short_source sample_private).2.1.last_update_jiffies = 0
    ∧ sample_refreshed.1 = 1
    ∧ sample_refreshed.2.1.last_update_jiffies = 5000 :=
  have h1 := refresh_lengths 1000 false sample_hdr sample_sizes 5000 sample_short_source
    sample_private sample_short_metrics (by decide) rfl
  have h2 := refresh_lengths 1000 false sample_hdr sample_sizes 5000 sample_source
    sample_private sample_core_metrics (by decide) rfl
  ⟨by decide, by decide, by decide, by decide,
    (h1.1 (Or.inr (Or.inr (by decide)))).1,
    (h1.1 (Or.inr (Or.inr (by decide)))).2.2,
    by unfold sample_refreshed; exact h2.2.1.2 ⟨by decide, by decide, by decide⟩,
    by unfold sample_refreshed; exact h2.2.2 (h2.2.1.2 ⟨by decide, by decide, by decide⟩)⟩

/-- The staleness test in plain numbers: `d` ticks after the last refresh the
gate is closed for `d` below the interval and open from the interval up to
`2 ^ 63` ticks. -/
theorem time_before_elapsed (last d interval : Nat) (hi : interval ≤ 2 ^ 63) :
    (d < interval →
      time_before ((last + d) % 2 ^ BITS_PER_LONG) ((last + interval) % 2 ^ BITS_PER_LONG)
        = true)
    ∧ (interval ≤ d → d < 2 ^ 63 →
      time_before ((last + d) % 2 ^ BITS_PER_LONG) ((last + interval) % 2 ^ BITS_PER_LONG)
        = false) := by
  unfold time_before
  simp only [BITS_PER_LONG, decide_eq_true_eq, decide_eq_false_iff_not]
  norm_num at hi ⊢
  constructor
  · intro h
    omega
  · intro h1 h2
    omega

/-- C20: if `jiffies` is before `last_update_jiffies + UPDATE_INTERVAL_JIFFIES`
(`time_before`), `amdgpu_metrics_update_gpu_metrics` returns 0, the source is
not read and `*priv`, with its snapshot and time stamp, is unchanged;
otherwise the source is read once. In plain numbers, `d` ticks after the last
refresh the first case holds for `d` below the interval and the second from
the interval on (up to `2 ^ 63` ticks). -/
theorem refresh_gate (HZ : Nat) (be : Bool) (hdr : metrics_table_header)
    (sizes : vendor_sizes) (jiffies : Nat) (source : snapshot_source)
    (priv : amdgpu_metrics_private) :
    (time_before jiffies
        ((priv.last_update_jiffies + UPDATE_INTERVAL_JIFFIES HZ) % 2 ^ BITS_PER_LONG) = true →
      amdgpu_metrics_update_gpu_metrics HZ be hdr sizes jiffies source priv
        = (0, priv, source))
    ∧ (time_before jiffies
        ((priv.last_update_jiffies + UPDATE_INTERVAL_JIFFIES HZ) % 2 ^ BITS_PER_LONG) = false →
      (amdgpu_metrics_update_gpu_metrics HZ be hdr sizes jiffies source priv).2.2.reads
        = source.reads + 1)
    ∧ (∀ d, jiffies = (priv.last_update_jiffies + d) % 2 ^ BITS_PER_LONG →
      UPDATE_INTERVAL_JIFFIES HZ ≤ 2 ^ 63 →
      (d < UPDATE_INTERVAL_JIFFIES HZ →
        amdgpu_metrics_update_gpu_metrics HZ be hdr sizes jiffies source priv
          = (0, priv, source))
      ∧ (UPDATE_INTERVAL_JIFFIES HZ ≤ d → d < 2 ^ 63 →
        (amdgpu_metrics_update_gpu_metrics HZ be hdr sizes jiffies source priv).2.2.reads
          = source.reads + 1)) := by
  have open_gate : time_before jiffies
        ((priv.last_update_jiffies + UPDATE_INTERVAL_JIFFIES HZ) % 2 ^ BITS_PER_LONG) = false →
      (amdgpu_metrics_update_gpu_metrics HZ be hdr sizes jiffies source priv).2.2.reads
        = source.reads + 1 := by
    intro h
    unfold amdgpu_metrics_update_gpu_metrics
    rw [h]
    simp only [Bool.false_eq_true, if_false]
    have hr : (amdgpu_metrics_read_gpu_metrics be hdr sizes source priv.common.metrics
        priv.common.channels.metrics_size).2.2 = { source with reads := source.reads + 1 } := by
      unfold amdgpu_metrics_read_gpu_metrics
      simp only
      split
      · rfl
      · split_ifs <;> rfl
    split_ifs <;> simp only [hr]
  have closed_gate : time_before jiffies
        ((priv.last_update_jiffies + UPDATE_INTERVAL_JIFFIES HZ) % 2 ^ BITS_PER_LONG) = true →
      amdgpu_metrics_update_gpu_metrics HZ be hdr sizes jiffies source priv
        = (0, priv, source) := by
    intro h
    unfold amdgpu_metrics_update_gpu_metrics
    rw [h]
    simp
  refine ⟨closed_gate, open_gate, ?_⟩
  intro d hj hi
  have ht := time_before_elapsed priv.last_update_jiffies d (UPDATE_INTERVAL_JIFFIES HZ) hi
  rw [← hj] at ht
  exact ⟨fun h => closed_gate (ht.1 h), fun h1 h2 => open_gate (ht.2 h1 h2)⟩

set_option maxRecDepth 100000 in
/-- C20 with `HZ = 1000`, one tick per millisecond: after the refresh at
`jiffies = 5000`, a call at 5050 returns 0 without a read and the edge
temperature slot decodes as before; a call at 5150 reads the source again. -/
theorem refresh_gate_witness :
    sample_refreshed.1 = 1
    ∧ sample_refreshed.2.1.last_update_jiffies = 5000
    ∧ sample_refreshed.2.2.reads = 1
    ∧ UPDATE_INTERVAL_JIFFIES 1000 = 100
    ∧ (amdgpu_metrics_update_gpu_metrics 1000 false sample_hdr sample_sizes 5050
        sample_refreshed.2.2 sample_refreshed.2.1).1 = 0
    ∧ (amdgpu_metrics_update_gpu_metrics 1000 false sample_hdr sample_sizes 5050
        sample_refreshed.2.2 sample_refreshed.2.1).2.2.reads = 1
    ∧ amdgpu_metrics_get_val false
        (amdgpu_metrics_update_gpu_metrics 1000 false sample_hdr sample_sizes 5050
          sample_refreshed.2.2 sample_refreshed.2.1).2.1.common
        (sample_core_def.temp 16)
        = amdgpu_metrics_get_val false sample_refreshed.2.1.common (sample_core_def.temp 16)
    ∧ (amdgpu_metrics_update_gpu_metrics 1000 false sample_hdr sample_sizes 5150
        sample_refreshed.2.2 sample_refreshed.2.1).2.2.reads = 2 :=
  have h50 := (refresh_gate 1000 false sample_hdr sample_sizes 5050 sample_refreshed.2.2
    sample_refreshed.2.1).2.2 50 (by decide) (by decide)
  have h150 := (refresh_gate 1000 false sample_hdr sample_sizes 5150 sample_refreshed.2.2
    sample_refreshed.2.1).2.2 150 (by decide) (by decide)
  ⟨by decide, by decide, by decide, by decide,
    by rw [h50.1 (by decide)],
    by rw [h50.1 (by decide)]; decide,
    by rw [h50.1 (by decide)],
    by rw [h150.2 (by decide) (by decide)]; decide⟩


/-! ## Registration -/

set_option maxRecDepth 100000 in
/-- C19, the code at the failing input: the file holds 29 bytes and its header
declares 29 bytes and revision 3.0, whose schema in `sample_tables` declares
30 bytes. `amdgpu_metrics_register_path` returns 0 and keeps the private
data, in which the temperature of core 4 (slot 16) and the socket power
(slot 0) are valid; `has_per_core` is set. The first refresh of that private
data from the same file fails with `-EIO`. -/
theorem register_path_short_snapshot :
    sample_short_metrics.length = 29
    ∧ header_structure_size false sample_hdr sample_short_metrics = 29
    ∧ header_field false sample_short_metrics sample_hdr.format_revision = 3
    ∧ header_field false sample_short_metrics sample_hdr.content_revision = 0
    ∧ (table_entry sample_tables 3 0).metrics_size = 30
    ∧ (amdgpu_metrics_register_path false sample_hdr sample_sizes sample_tables true
        sample_env sample_short_source).1 = 0
    ∧ (amdgpu_metrics_register_path false sample_hdr sample_sizes sample_tables true
        sample_env sample_short_source).2.1.map
          (fun p => (p.common.remap.temp 16).valid) = some true
    ∧ (amdgpu_metrics_register_path false sample_hdr sample_sizes sample_tables true
        sample_env sample_short_source).2.1.map
          (fun p => (p.common.remap.power 0).valid) = some true
    ∧ (amdgpu_metrics_register_path false sample_hdr sample_sizes sample_tables true
        sample_env sample_short_source).2.1.map
          (fun p => p.common.has_per_core) = some true
    ∧ (amdgpu_metrics_register_path false sample_hdr sample_sizes sample_tables true
        sample_env sample_short_source).2.1.map
          (fun p => (amdgpu_metrics_update_gpu_metrics 1000 false sample_hdr sample_sizes 5000
            sample_short_source p).1) = some (- EIO) := by
  refine ⟨by decide, by decide, by decide, by decide, by decide, by decide, by decide,
    by decide, by decide, by decide⟩


/-! ## Definition tables -/

/-- The decoder does not return `-EINVAL` for a typed in-bounds descriptor
whose fallback, if attached, is typed and in bounds. -/
theorem decode_not_einval (be : Bool) (priv : amdgpu_metrics_private_common) (c : channel_t)
    (hty : is_channel_valid c = true)
    (hb : c.offset + data_type_enum_to_size c.type ≤ priv.channels.metrics_size)
    (hf : c.fb.type ≠ channel_null →
      (channel_null < c.fb.type ∧ c.fb.type < channel_invalid)
        ∧ c.fb.offset + data_type_enum_to_size c.fb.type ≤ priv.channels.metrics_size) :
    (amdgpu_metrics_get_val be priv c).1 ≠ -EINVAL := by
  by_cases hs : load be priv.metrics c.offset (data_type_enum_to_size c.type)
      = 2 ^ (8 * data_type_enum_to_size c.type) - 1
  · by_cases hn : c.fb.type = channel_null
    · rw [decode_unavailable be priv c hty hb hs (Or.inl hn)]
      decide
    · obtain ⟨hfty, hfb⟩ := hf hn
      by_cases hfs : load be priv.metrics c.fb.offset (data_type_enum_to_size c.fb.type)
          = 2 ^ (8 * data_type_enum_to_size c.fb.type) - 1
      · rw [decode_unavailable be priv c hty hb hs (Or.inr ⟨hfty, hfb, hfs⟩)]
        decide
      · rw [decode_fallback be priv c hty hb hs hfty hfb hfs]
        show (0 : Int) ≠ -EINVAL
        decide
  · rw [decode_primary be priv c hty hb hs]
    show (0 : Int) ≠ -EINVAL
    decide

/-- Folding initialisers into an array keeps every slot either zero or the
descriptor of one of the initialisers. -/
theorem channels_fold_cases (S : vendor_struct) (all : List channel_init) :
    ∀ (inits : List channel_init) (f : Nat → channel_t),
      (∀ c, c ∈ inits → c ∈ all) →
      (∀ i, f i = null_channel ∨ ∃ c, c ∈ all ∧ f i = channel_of_init S c) →
      ∀ i, inits.foldl (fun f c => Function.update f c.slot (channel_of_init S c)) f i
            = null_channel
          ∨ ∃ c, c ∈ all ∧
            inits.foldl (fun f c => Function.update f c.slot (channel_of_init S c)) f i
              = channel_of_init S c := by
  intro inits
  induction inits with
  | nil =>
    intro f _ hf i
    exact hf i
  | cons a rest ih =>
    intro f hsub hf i
    rw [List.foldl_cons]
    apply ih
    · intro c hc
      exact hsub c (List.mem_cons_of_mem _ hc)
    · intro j
      by_cases hj : j = a.slot
      · subst hj
        rw [Function.update_same]
        exact Or.inr ⟨a, hsub a (List.mem_cons_self _ _), rfl⟩
      · rw [Function.update_noteq hj]
        exact hf j

/-- Every slot of an initialised array is zero or the descriptor of one of
its initialisers. -/
theorem channels_of_cases (S : vendor_struct) (inits : List channel_init) (i : Nat) :
    channels_of S inits i = null_channel
    ∨ ∃ c, c ∈ inits ∧ channels_of S inits i = channel_of_init S c :=
  channels_fold_cases S inits inits _ (fun _ h => h) (fun _ => Or.inl rfl) i

/-- The descriptor of an initialiser that respects the invariant is typed and
lies inside the struct, and so does its fallback when there is one. -/
theorem init_ok_bounds (S : vendor_struct) (c : channel_init) (h : init_ok S c = true) :
    is_channel_valid (channel_of_init S c) = true
    ∧ (channel_of_init S c).offset + data_type_enum_to_size (channel_of_init S c).type ≤ S.size
    ∧ ((channel_of_init S c).fb.type ≠ channel_null →
        (channel_null < (channel_of_init S c).fb.type
          ∧ (channel_of_init S c).fb.type < channel_invalid)
        ∧ (channel_of_init S c).fb.offset
            + data_type_enum_to_size (channel_of_init S c).fb.type ≤ S.size) := by
  unfold init_ok at h
  simp only [Bool.and_eq_true, decide_eq_true_eq] at h
  obtain ⟨⟨⟨h1, h2⟩, h3⟩, h4⟩ := h
  have ht : (S.member c.mbr).type % 2 ^ 3 = (S.member c.mbr).type := by
    simp only [channel_invalid] at h2
    omega
  have hmod : ((S.member c.mbr).offset
      + c.elem * data_type_enum_to_size (S.member c.mbr).type) % 2 ^ 13
      ≤ (S.member c.mbr).offset + c.elem * data_type_enum_to_size (S.member c.mbr).type :=
    Nat.mod_le _ _
  have hexp : (c.elem + 1) * data_type_enum_to_size (S.member c.mbr).type
      = c.elem * data_type_enum_to_size (S.member c.mbr).type
        + data_type_enum_to_size (S.member c.mbr).type := by ring
  refine ⟨?_, ?_, ?_⟩
  · rw [is_channel_valid_iff]
    show channel_null < (S.member c.mbr).type % 2 ^ 3
      ∧ (S.member c.mbr).type % 2 ^ 3 < channel_invalid
    rw [ht]
    exact ⟨h1, h2⟩
  · show ((S.member c.mbr).offset
        + c.elem * data_type_enum_to_size (S.member c.mbr).type) % 2 ^ 13
      + data_type_enum_to_size ((S.member c.mbr).type % 2 ^ 3) ≤ S.size
    rw [ht]
    omega
  · cases hfb : c.fb with
    | none =>
      intro hn
      exfalso
      apply hn
      simp [channel_of_init, hfb]
    | some m =>
      intro _
      rw [hfb] at h4
      simp only [Bool.and_eq_true, decide_eq_true_eq] at h4
      obtain ⟨⟨g1, g2⟩, g3⟩ := h4
      have gt : (S.member m).type % 2 ^ 3 = (S.member m).type := by
        simp only [channel_invalid] at g2
        omega
      have gmod : (S.member m).offset % 2 ^ 13 ≤ (S.member m).offset := Nat.mod_le _ _
      simp only [channel_of_init, hfb]
      rw [gt]
      exact ⟨⟨g1, g2⟩, by omega⟩

/-- Every populated slot of an array built from initialisers that respect the
invariant is in bounds of the schema built over the same struct. -/
theorem channels_of_in_bounds (S : vendor_struct) (d : channel_defs)
    (inits : List channel_init) (hs : S.size < 2 ^ 16)
    (hok : inits.all (init_ok S) = true) (i : Nat)
    (hv : is_channel_valid (channels_of S inits i) = true) :
    (channels_of S inits i).offset + data_type_enum_to_size (channels_of S inits i).type
        ≤ (DEF_CHANNELS S d).metrics_size
    ∧ ((channels_of S inits i).fb.type ≠ channel_null →
        (channel_null < (channels_of S inits i).fb.type
          ∧ (channels_of S inits i).fb.type < channel_invalid)
        ∧ (channels_of S inits i).fb.offset
            + data_type_enum_to_size (channels_of S inits i).fb.type
            ≤ (DEF_CHANNELS S d).metrics_size) := by
  have hms : (DEF_CHANNELS S d).metrics_size = S.size := by
    show S.size % 2 ^ 16 = S.size
    exact Nat.mod_eq_of_lt hs
  rw [hms]
  rcases channels_of_cases S inits i with h0 | ⟨c, hc, h1⟩
  · rw [h0] at hv
    exact absurd hv (by decide)
  · rw [h1]
    have hc2 := (List.all_eq_true.1 hok) c hc
    have hb := init_ok_bounds S c hc2
    exact ⟨hb.2.1, hb.2.2⟩

/-- What `vendor_ok` says about one registered revision. -/
theorem vendor_ok_elem (L : gpu_metrics_version → vendor_struct) (h : vendor_ok L = true)
    (r : Nat × Nat × gpu_metrics_version × channel_defs) (hr : r ∈ registered_schemas) :
    (L r.2.2.1).size < 2 ^ 16
    ∧ r.2.2.2.temp.all (init_ok (L r.2.2.1)) = true
    ∧ r.2.2.2.power.all (init_ok (L r.2.2.1)) = true
    ∧ r.2.2.2.freq.all (init_ok (L r.2.2.1)) = true := by
  have h1 := (List.all_eq_true.1 h) r hr
  simp only [Bool.and_eq_true, decide_eq_true_eq] at h1
  exact ⟨h1.1, h1.2.1.1, h1.2.1.2, h1.2.2⟩

/-- The table entry of a registered revision is `DEF_CHANNELS` over a struct
and macro arguments for which `vendor_ok` holds. -/
theorem registered_entry (L : gpu_metrics_version → vendor_struct) (h : vendor_ok L = true)
    (fr cr : Nat) (hr : registered_revision fr cr = true) :
    ∃ S d, table_entry (amdgpu_metric_def_tables L) fr cr = DEF_CHANNELS S d
      ∧ S.size < 2 ^ 16
      ∧ d.temp.all (init_ok S) = true
      ∧ d.power.all (init_ok S) = true
      ∧ d.freq.all (init_ok S) = true := by
  unfold registered_revision at hr
  simp only [Bool.or_eq_true, Bool.and_eq_true, beq_iff_eq, decide_eq_true_eq] at hr
  rcases hr with (⟨rfl, hc⟩ | ⟨rfl, hc⟩) | ⟨rfl, rfl⟩
  · interval_cases cr
    · exact ⟨_, _, rfl, vendor_ok_elem L h (1, 0, .v1_0, channel_defs_V1_0)
        (by simp [registered_schemas])⟩
    · exact ⟨_, _, rfl, vendor_ok_elem L h (1, 1, .v1_1, channel_defs_V1_1)
        (by simp [registered_schemas])⟩
    · exact ⟨_, _, rfl, vendor_ok_elem L h (1, 2, .v1_2, channel_defs_V1_1)
        (by simp [registered_schemas])⟩
    · exact ⟨_, _, rfl, vendor_ok_elem L h (1, 3, .v1_3, channel_defs_V1_1)
        (by simp [registered_schemas])⟩
    · exact ⟨_, _, rfl, vendor_ok_elem L h (1, 4, .v1_4, channel_defs_V1_4)
        (by simp [registered_schemas])⟩
    · exact ⟨_, _, rfl, vendor_ok_elem L h (1, 5, .v1_5, channel_defs_V1_4)
        (by simp [registered_schemas])⟩
    · exact ⟨_, _, rfl, vendor_ok_elem L h (1, 6, .v1_6, channel_defs_V1_4)
        (by simp [registered_schemas])⟩
    · exact ⟨_, _, rfl, vendor_ok_elem L h (1, 7, .v1_7, channel_defs_V1_4)
        (by simp [registered_schemas])⟩
    · exact ⟨_, _, rfl, vendor_ok_elem L h (1, 8, .v1_8, channel_defs_V1_4)
        (by simp [registered_schemas])⟩
  · interval_cases cr
    · exact ⟨_, _, rfl, vendor_ok_elem L h (2, 0, .v2_0, channel_defs_V2_0)
        (by simp [registered_schemas])⟩
    · exact ⟨_, _, rfl, vendor_ok_elem L h (2, 1, .v2_1, channel_defs_V2_0)
        (by simp [registered_schemas])⟩
    · exact ⟨_, _, rfl, vendor_ok_elem L h (2, 2, .v2_2, channel_defs_V2_0)
        (by simp [registered_schemas])⟩
    · exact ⟨_, _, rfl, vendor_ok_elem L h (2, 3, .v2_3, channel_defs_V2_0)
        (by simp [registered_schemas])⟩
    · exact ⟨_, _, rfl, vendor_ok_elem L h (2, 4, .v2_4, channel_defs_V2_0)
        (by simp [registered_schemas])⟩
  · exact ⟨_, _, rfl, vendor_ok_elem L h (3, 0, .v3_0, channel_defs_V3_0)
      (by simp [registered_schemas])⟩

/-- A conditional statement, the vendor structs not being at hand: over a
vendor layout that respects the invariant of the spec, for each of the 15
registered revisions and every populated descriptor of its
temperature, power and frequency arrays, the primary field and, where a
fallback is attached, the fallback field satisfy `offset + width <=
metrics_size`; and `amdgpu_metrics_get_val` under that schema does not return
`-EINVAL` for such a descriptor, whatever the snapshot holds. -/
theorem registered_descriptors_in_bounds (L : gpu_metrics_version → vendor_struct)
    (hL : vendor_ok L = true) (fr cr : Nat) (hr : registered_revision fr cr = true) :
    (∀ i, is_channel_valid ((table_entry (amdgpu_metric_def_tables L) fr cr).temp i) = true →
      descriptor_in_bounds (table_entry (amdgpu_metric_def_tables L) fr cr)
        ((table_entry (amdgpu_metric_def_tables L) fr cr).temp i))
    ∧ (∀ i, is_channel_valid ((table_entry (amdgpu_metric_def_tables L) fr cr).power i) = true →
      descriptor_in_bounds (table_entry (amdgpu_metric_def_tables L) fr cr)
        ((table_entry (amdgpu_metric_def_tables L) fr cr).power i))
    ∧ (∀ i, is_channel_valid ((table_entry (amdgpu_metric_def_tables L) fr cr).freq i) = true →
      descriptor_in_bounds (table_entry (amdgpu_metric_def_tables L) fr cr)
        ((table_entry (amdgpu_metric_def_tables L) fr cr).freq i))
    ∧ (∀ (be : Bool) (priv : amdgpu_metrics_private_common),
      priv.channels = table_entry (amdgpu_metric_def_tables L) fr cr →
      ∀ i,
        (is_channel_valid (priv.channels.temp i) = true →
          (amdgpu_metrics_get_val be priv (priv.channels.temp i)).1 ≠ -EINVAL)
        ∧ (is_channel_valid (priv.channels.power i) = true →
          (amdgpu_metrics_get_val be priv (priv.channels.power i)).1 ≠ -EINVAL)
        ∧ (is_channel_valid (priv.channels.freq i) = true →
          (amdgpu_metrics_get_val be priv (priv.channels.freq i)).1 ≠ -EINVAL))
    ∧ registered_schemas.length = 15 := by
  obtain ⟨S, d, he, hs, ht, hp, hf⟩ := registered_entry L hL fr cr hr
  rw [he]
  refine ⟨?_, ?_, ?_, ?_, rfl⟩
  · intro i hv
    have hb := channels_of_in_bounds S d d.temp hs ht i hv
    exact ⟨hb.1, fun hn => (hb.2 hn).2⟩
  · intro i hv
    have hb := channels_of_in_bounds S d d.power hs hp i hv
    exact ⟨hb.1, fun hn => (hb.2 hn).2⟩
  · intro i hv
    have hb := channels_of_in_bounds S d d.freq hs hf i hv
    exact ⟨hb.1, fun hn => (hb.2 hn).2⟩
  · intro be priv hc i
    rw [hc]
    refine ⟨?_, ?_, ?_⟩
    · intro hv
      have hb := channels_of_in_bounds S d d.temp hs ht i hv
      exact decode_not_einval be priv _ hv (by rw [hc]; exact hb.1)
        (fun hn => by rw [hc]; exact hb.2 hn)
    · intro hv
      have hb := channels_of_in_bounds S d d.power hs hp i hv
      exact decode_not_einval be priv _ hv (by rw [hc]; exact hb.1)
        (fun hn => by rw [hc]; exact hb.2 hn)
    · intro hv
      have hb := channels_of_in_bounds S d d.freq hs hf i hv
      exact decode_not_einval be priv _ hv (by rw [hc]; exact hb.1)
        (fun hn => by rw [hc]; exact hb.2 hn)

set_option maxRecDepth 100000 in
/-- The conditional statement at the sample layout, revision 1.0: the hotspot temperature (slot 1)
is a 16-bit field at offset 36 of 1540 bytes, the clock in frequency slot 0 is
a 16-bit field at offset 740 with its fallback at offset 1124, and neither
decodes to `-EINVAL` on the sample snapshot. -/
theorem registered_descriptors_in_bounds_witness :
    vendor_ok sample_layout = true
    ∧ registered_revision 1 0 = true
    ∧ is_channel_valid ((table_entry (amdgpu_metric_def_tables sample_layout) 1 0).temp 1) = true
    ∧ (table_entry (amdgpu_metric_def_tables sample_layout) 1 0).metrics_size = 1540
    ∧ ((table_entry (amdgpu_metric_def_tables sample_layout) 1 0).temp 1).offset = 36
    ∧ ((table_entry (amdgpu_metric_def_tables sample_layout) 1 0).freq 0).offset = 740
    ∧ ((table_entry (amdgpu_metric_def_tables sample_layout) 1 0).freq 0).fb.offset = 1124
    ∧ descriptor_in_bounds (table_entry (amdgpu_metric_def_tables sample_layout) 1 0)
        ((table_entry (amdgpu_metric_def_tables sample_layout) 1 0).temp 1)
    ∧ descriptor_in_bounds (table_entry (amdgpu_metric_def_tables sample_layout) 1 0)
        ((table_entry (amdgpu_metric_def_tables sample_layout) 1 0).freq 0)
    ∧ (amdgpu_metrics_get_val false sample_v1_0_priv (sample_v1_0_priv.channels.temp 1)).1
        ≠ -EINVAL
    ∧ (amdgpu_metrics_get_val false sample_v1_0_priv (sample_v1_0_priv.channels.freq 0)).1
        ≠ -EINVAL :=
  have h := registered_descriptors_in_bounds sample_layout (by decide) 1 0 (by decide)
  ⟨by decide, by decide, by decide, by decide, by decide, by decide, by decide,
    h.1 1 (by decide), h.2.2.1 0 (by decide),
    (h.2.2.2.1 false sample_v1_0_priv rfl 1).1 (by decide),
    (h.2.2.2.1 false sample_v1_0_priv rfl 0).2.2 (by decide)⟩

/-! ## Channel reads: the refresh step -/

/-- Before the interval has elapsed the refresh returns 0 and changes nothing. -/
theorem update_gate_closed (HZ : Nat) (be : Bool) (hdr : metrics_table_header)
    (sizes : vendor_sizes) (jiffies : Nat) (source : snapshot_source)
    (priv : amdgpu_metrics_private)
    (h : time_before jiffies
      ((priv.last_update_jiffies + UPDATE_INTERVAL_JIFFIES HZ) % 2 ^ BITS_PER_LONG) = true) :
    amdgpu_metrics_update_gpu_metrics HZ be hdr sizes jiffies source priv = (0, priv, source) := by
  unfold amdgpu_metrics_update_gpu_metrics
  rw [h]
  simp

/-- The reader advances the read count by one, whatever it finds. -/
theorem read_gpu_metrics_reads (be : Bool) (hdr : metrics_table_header) (sizes : vendor_sizes)
    (source : snapshot_source) (metrics : List Nat) (buf_size : Nat) :
    (amdgpu_metrics_read_gpu_metrics be hdr sizes source metrics buf_size).2.2
      = { source with reads := source.reads + 1 } := by
  unfold amdgpu_metrics_read_gpu_metrics
  simp only
  split
  · rfl
  · split_ifs <;> rfl

/-- Once the interval has elapsed the refresh reads the source once. -/
theorem update_reads_open (HZ : Nat) (be : Bool) (hdr : metrics_table_header)
    (sizes : vendor_sizes) (jiffies : Nat) (source : snapshot_source)
    (priv : amdgpu_metrics_private)
    (h : time_before jiffies
      ((priv.last_update_jiffies + UPDATE_INTERVAL_JIFFIES HZ) % 2 ^ BITS_PER_LONG) = false) :
    (amdgpu_metrics_update_gpu_metrics HZ be hdr sizes jiffies source priv).2.2
      = { source with reads := source.reads + 1 } := by
  unfold amdgpu_metrics_update_gpu_metrics
  rw [h]
  simp only [Bool.false_eq_true, if_false]
  split_ifs <;> simp only [read_gpu_metrics_reads]

/-- A refresh that returns a negative value was made after the interval had
elapsed. -/
theorem update_neg_open (HZ : Nat) (be : Bool) (hdr : metrics_table_header)
    (sizes : vendor_sizes) (jiffies : Nat) (source : snapshot_source)
    (priv : amdgpu_metrics_private)
    (h : (amdgpu_metrics_update_gpu_metrics HZ be hdr sizes jiffies source priv).1 < 0) :
    time_before jiffies
      ((priv.last_update_jiffies + UPDATE_INTERVAL_JIFFIES HZ) % 2 ^ BITS_PER_LONG) = false := by
  by_contra hc
  have ht : time_before jiffies
      ((priv.last_update_jiffies + UPDATE_INTERVAL_JIFFIES HZ) % 2 ^ BITS_PER_LONG) = true := by
    simpa using hc
  rw [update_gate_closed HZ be hdr sizes jiffies source priv ht] at h
  have h0 : (0 : Int) < 0 := h
  exact absurd h0 (by decide)

/-- The refresh changes the time stamp only when it returns 1, and then to the
current `jiffies`. -/
theorem update_stamp (HZ : Nat) (be : Bool) (hdr : metrics_table_header)
    (sizes : vendor_sizes) (jiffies : Nat) (source : snapshot_source)
    (priv : amdgpu_metrics_private) :
    (amdgpu_metrics_update_gpu_metrics HZ be hdr sizes jiffies source priv).2.1.last_update_jiffies
      = if (amdgpu_metrics_update_gpu_metrics HZ be hdr sizes jiffies source priv).1 = 1
        then jiffies else priv.last_update_jiffies := by
  have hio : (- EIO : Int) ≠ 1 := by decide
  have h01 : (0 : Int) ≠ 1 := by decide
  unfold amdgpu_metrics_update_gpu_metrics
  simp only
  split_ifs with h1 h2 h3 h4 h5
  all_goals first
    | rfl
    | exact absurd h2 h01
    | exact absurd h4 hio
    | exact absurd h5 hio
    | (exfalso; omega)

/-- The refresh changes nothing of `*priv` but the snapshot bytes and the time
stamp. -/
theorem update_frame (HZ : Nat) (be : Bool) (hdr : metrics_table_header)
    (sizes : vendor_sizes) (jiffies : Nat) (source : snapshot_source)
    (priv : amdgpu_metrics_private) :
    (amdgpu_metrics_update_gpu_metrics HZ be hdr sizes jiffies source priv).2.1.common.channels
        = priv.common.channels
    ∧ (amdgpu_metrics_update_gpu_metrics HZ be hdr sizes jiffies source priv).2.1.common.remap
        = priv.common.remap
    ∧ (amdgpu_metrics_update_gpu_metrics HZ be hdr sizes jiffies source priv).2.1.common.has_per_core
        = priv.common.has_per_core
    ∧ (amdgpu_metrics_update_gpu_metrics HZ be hdr sizes jiffies source
        priv).2.1.per_core_channel_remap = priv.per_core_channel_remap := by
  unfold amdgpu_metrics_update_gpu_metrics
  simp only
  split_ifs <;> exact ⟨rfl, rfl, rfl, rfl⟩

/-- The refresh after the interval when the source cannot be opened or read: the
error is returned and `*priv` is as before. -/
theorem update_fail_ret (HZ : Nat) (be : Bool) (hdr : metrics_table_header)
    (sizes : vendor_sizes) (jiffies : Nat) (source : snapshot_source)
    (priv : amdgpu_metrics_private) (err : Int)
    (hgate : time_before jiffies
      ((priv.last_update_jiffies + UPDATE_INTERVAL_JIFFIES HZ) % 2 ^ BITS_PER_LONG) = false)
    (hsrc : source.outcome source.reads = .fail err) (herr : err < 0) :
    amdgpu_metrics_update_gpu_metrics HZ be hdr sizes jiffies source priv
      = (err, priv, { source with reads := source.reads + 1 }) := by
  unfold amdgpu_metrics_update_gpu_metrics
  rw [hgate]
  simp only [Bool.false_eq_true, if_false]
  have hr : amdgpu_metrics_read_gpu_metrics be hdr sizes source priv.common.metrics
      priv.common.channels.metrics_size
      = (err, priv.common.metrics, { source with reads := source.reads + 1 }) := by
    unfold amdgpu_metrics_read_gpu_metrics
    rw [hsrc]
  rw [hr]
  simp only [if_pos herr]

/-! ## Channel reads: claims -/

/-- C21: a refresh fails, that is `amdgpu_metrics_update_gpu_metrics` returns
a negative value, when the source cannot be opened or read and when a length
disagrees. Whenever the refresh made by a channel read fails,
`amdgpu_metrics_hwmon_read` (for a temperature, power or frequency type) and
`amdgpu_metrics_per_core_read` (for such a type and a channel below `NCORES`)
return `-EIO` and store nothing, whatever the channel and the snapshot held
before; the time stamp is not advanced, so the staleness test that let this
read refresh lets the next one refresh too, and it reads the source again. -/
theorem failed_refresh_read (HZ : Nat) (be : Bool) (hdr : metrics_table_header)
    (sizes : vendor_sizes) (A : hwmon_attributes) (jiffies : Nat) (source : snapshot_source)
    (priv : amdgpu_metrics_private) (type : hwmon_sensor_types) (attr : Nat) :
    (∀ err : Int,
      time_before jiffies
        ((priv.last_update_jiffies + UPDATE_INTERVAL_JIFFIES HZ) % 2 ^ BITS_PER_LONG) = false →
      source.outcome source.reads = .fail err → err < 0 →
      (amdgpu_metrics_update_gpu_metrics HZ be hdr sizes jiffies source priv).1 < 0)
    ∧ (∀ content : List Nat,
      time_before jiffies
        ((priv.last_update_jiffies + UPDATE_INTERVAL_JIFFIES HZ) % 2 ^ BITS_PER_LONG) = false →
      source.outcome source.reads = .file content →
      (bytes_returned content priv.common.channels.metrics_size < sizes.header
        ∨ bytes_returned content priv.common.channels.metrics_size
            ≠ header_structure_size be hdr
                (buffer_after_read content priv.common.channels.metrics_size
                  priv.common.metrics)
        ∨ bytes_returned content priv.common.channels.metrics_size
            ≠ priv.common.channels.metrics_size) →
      (amdgpu_metrics_update_gpu_metrics HZ be hdr sizes jiffies source priv).1 < 0)
    ∧ ((amdgpu_metrics_update_gpu_metrics HZ be hdr sizes jiffies source priv).1 < 0 →
      (GET_MULTIPLIER type ≠ 0 → ∀ channel : Int,
        amdgpu_metrics_hwmon_read HZ be hdr sizes A jiffies source priv type attr channel
          = (- EIO, none,
              (amdgpu_metrics_update_gpu_metrics HZ be hdr sizes jiffies source priv).2.1,
              (amdgpu_metrics_update_gpu_metrics HZ be hdr sizes jiffies source priv).2.2))
      ∧ (GET_MULTIPLIER type ≠ 0 → ∀ channel : Nat, channel < NCORES →
        amdgpu_metrics_per_core_read HZ be hdr sizes A jiffies source priv type attr channel
          = (- EIO, none,
              (amdgpu_metrics_update_gpu_metrics HZ be hdr sizes jiffies source priv).2.1,
              (amdgpu_metrics_update_gpu_metrics HZ be hdr sizes jiffies source priv).2.2))
      ∧ (amdgpu_metrics_update_gpu_metrics HZ be hdr sizes jiffies source
            priv).2.1.last_update_jiffies = priv.last_update_jiffies
      ∧ (amdgpu_metrics_update_gpu_metrics HZ be hdr sizes jiffies source priv).2.2.reads
          = source.reads + 1
      ∧ time_before jiffies
          ((priv.last_update_jiffies + UPDATE_INTERVAL_JIFFIES HZ) % 2 ^ BITS_PER_LONG) = false
      ∧ (∀ next : Nat,
        time_before next
          ((priv.last_update_jiffies + UPDATE_INTERVAL_JIFFIES HZ) % 2 ^ BITS_PER_LONG) = false →
        (amdgpu_metrics_update_gpu_metrics HZ be hdr sizes next
          (amdgpu_metrics_update_gpu_metrics HZ be hdr sizes jiffies source priv).2.2
          (amdgpu_metrics_update_gpu_metrics HZ be hdr sizes jiffies source priv).2.1).2.2.reads
          = source.reads + 2)) := by
  refine ⟨?_, ?_, ?_⟩
  · intro err hgate hsrc herr
    rw [update_fail_ret HZ be hdr sizes jiffies source priv err hgate hsrc herr]
    exact herr
  · intro content hgate hsrc hbad
    rw [update_file_ret HZ be hdr sizes jiffies source priv content hgate hsrc, if_pos hbad]
    show (- EIO : Int) < 0
    decide
  · intro hfail
    have hgate := update_neg_open HZ be hdr sizes jiffies source priv hfail
    have hne : (amdgpu_metrics_update_gpu_metrics HZ be hdr sizes jiffies source priv).1 ≠ 1 := by
      omega
    have hstamp : (amdgpu_metrics_update_gpu_metrics HZ be hdr sizes jiffies source
        priv).2.1.last_update_jiffies = priv.last_update_jiffies := by
      rw [update_stamp, if_neg hne]
    have hreads := update_reads_open HZ be hdr sizes jiffies source priv hgate
    refine ⟨?_, ?_, hstamp, ?_, hgate, ?_⟩
    · intro hm channel
      unfold amdgpu_metrics_hwmon_read
      simp only [if_neg hm, if_pos hfail]
    · intro hm channel hc
      unfold amdgpu_metrics_per_core_read
      have hn : ¬ (GET_MULTIPLIER type = 0 ∨ channel ≥ NCORES) := by
        rintro (h | h)
        · exact hm h
        · omega
      simp only [if_neg hn, if_pos hfail]
    · rw [hreads]
    · intro next hnext
      rw [← hstamp] at hnext
      rw [update_reads_open HZ be hdr sizes next _ _ hnext, hreads]

set_option maxRecDepth 100000 in
/-- C21 at the samples, with `HZ = 1000`: the private data holds the 30-byte
snapshot, from which the temperature of core 4 (slot 16) decodes to 4500.
At `jiffies = 5000` the file holds 29 bytes: the refresh returns `-EIO`, the
temperature read of slot 16 and the per-core temperature read of channel 0
return `-EIO` and store nothing, the time stamp stays 0 and a second read at
`jiffies = 5001` reads the source again. -/
theorem failed_refresh_read_witness :
    amdgpu_metrics_get_val false sample_private.common (sample_private.common.channels.temp 16)
        = (0, some 4500)
    ∧ (amdgpu_metrics_update_gpu_metrics 1000 false sample_hdr sample_sizes 5000
        sample_short_source sample_private).1 = - EIO
    ∧ GET_MULTIPLIER .hwmon_temp ≠ 0
    ∧ (amdgpu_metrics_hwmon_read 1000 false sample_hdr sample_sizes sample_attrs 5000
        sample_short_source sample_private .hwmon_temp 1 16).1 = - EIO
    ∧ (amdgpu_metrics_hwmon_read 1000 false sample_hdr sample_sizes sample_attrs 5000
        sample_short_source sample_private .hwmon_temp 1 16).2.1 = none
    ∧ (amdgpu_metrics_per_core_read 1000 false sample_hdr sample_sizes sample_attrs 5000
        sample_short_source sample_private .hwmon_temp 1 0).1 = - EIO
    ∧ (amdgpu_metrics_per_core_read 1000 false sample_hdr sample_sizes sample_attrs 5000
        sample_short_source sample_private .hwmon_temp 1 0).2.1 = none
    ∧ (amdgpu_metrics_update_gpu_metrics 1000 false sample_hdr sample_sizes 5000
        sample_short_source sample_private).2.1.last_update_jiffies = 0
    ∧ (amdgpu_metrics_update_gpu_metrics 1000 false sample_hdr sample_sizes 5001
        (amdgpu_metrics_update_gpu_metrics 1000 false sample_hdr sample_sizes 5000
          sample_short_source sample_private).2.2
        (amdgpu_metrics_update_gpu_metrics 1000 false sample_hdr sample_sizes 5000
          sample_short_source sample_private).2.1).2.2.reads = 2 :=
  have hneg : (amdgpu_metrics_update_gpu_metrics 1000 false sample_hdr sample_sizes 5000
      sample_short_source sample_private).1 < 0 := by decide
  have h := (failed_refresh_read 1000 false sample_hdr sample_sizes sample_attrs 5000
    sample_short_source sample_private .hwmon_temp 1).2.2 hneg
  ⟨by decide, by decide, by decide,
    by rw [h.1 (by decide) 16],
    by rw [h.1 (by decide) 16],
    by rw [h.2.1 (by decide) 0 (by decide)],
    by rw [h.2.1 (by decide) 0 (by decide)],
    h.2.2.1,
    h.2.2.2.2.2 5001 (by decide)⟩

/-! ## Failed and successful refreshes -/

/-- The buffer after a read: its first `bytes_returned` bytes are those of the
file, the bytes from there on are those it held before. -/
theorem buffer_after_read_parts (content : List Nat) (buf_size : Nat) (metrics : List Nat) :
    (buffer_after_read content buf_size metrics).take (bytes_returned content buf_size)
        = content.take (bytes_returned content buf_size)
    ∧ (buffer_after_read content buf_size metrics).drop (bytes_returned content buf_size)
        = metrics.drop (bytes_returned content buf_size) := by
  have hlen : (content.take (bytes_returned content buf_size)).length
      = bytes_returned content buf_size := by
    rw [List.length_take]
    unfold bytes_returned
    omega
  unfold buffer_after_read
  constructor
  · rw [List.take_append_of_le_length (by omega), List.take_take, Nat.min_self]
  · rw [List.drop_append_of_le_length (by omega), List.drop_of_length_le (by omega),
      List.nil_append]

set_option maxRecDepth 100000 in
/-- C22, as stated, fails: with `HZ = 1000` at `jiffies = 5000` the private
data holds the 30-byte snapshot and the file holds 29 bytes, one byte less than
the schema size; the refresh fails with `-EIO`, and the stored buffer now
starts with the 29 bytes of the file: its first byte is `0x1d`, it was `0x1e`. -/
theorem failed_refresh_buffer_spec_counterexample :
    (amdgpu_metrics_update_gpu_metrics 1000 false sample_hdr sample_sizes 5000
        sample_short_source sample_private).1 = - EIO
    ∧ (- EIO : Int) < 0
    ∧ sample_private.common.metrics.head? = some 0x1e
    ∧ (amdgpu_metrics_update_gpu_metrics 1000 false sample_hdr sample_sizes 5000
        sample_short_source sample_private).2.1.common.metrics.head? = some 0x1d
    ∧ ¬ ((amdgpu_metrics_update_gpu_metrics 1000 false sample_hdr sample_sizes 5000
          sample_short_source sample_private).1 < 0 →
        (amdgpu_metrics_update_gpu_metrics 1000 false sample_hdr sample_sizes 5000
          sample_short_source sample_private).2.1.common.metrics
          = sample_private.common.metrics) := by
  refine ⟨by decide, by decide, by decide, by decide, by decide⟩

/-- C22, amended: a refresh that fails because the source cannot be opened or
read leaves `*priv`, and with it the stored snapshot buffer, as it was. A
refresh that fails because a length disagrees returns `-EIO` after the read
stored its bytes into the buffer: the first `n` bytes of the buffer are the
first `n` bytes of the file, where `n` is the number of bytes read, the
smaller of the file length and `metrics_size`, and the bytes from `n` on are
as before. In both cases the time stamp is as before. -/
theorem failed_refresh_buffer (HZ : Nat) (be : Bool) (hdr : metrics_table_header)
    (sizes : vendor_sizes) (jiffies : Nat) (source : snapshot_source)
    (priv : amdgpu_metrics_private) :
    (∀ err : Int,
      time_before jiffies
        ((priv.last_update_jiffies + UPDATE_INTERVAL_JIFFIES HZ) % 2 ^ BITS_PER_LONG) = false →
      source.outcome source.reads = .fail err → err < 0 →
      (amdgpu_metrics_update_gpu_metrics HZ be hdr sizes jiffies source priv).1 = err
      ∧ (amdgpu_metrics_update_gpu_metrics HZ be hdr sizes jiffies source priv).2.1 = priv
      ∧ (amdgpu_metrics_update_gpu_metrics HZ be hdr sizes jiffies source
          priv).2.1.common.metrics = priv.common.metrics)
    ∧ (∀ content : List Nat,
      time_before jiffies
        ((priv.last_update_jiffies + UPDATE_INTERVAL_JIFFIES HZ) % 2 ^ BITS_PER_LONG) = false →
      source.outcome source.reads = .file content →
      (bytes_returned content priv.common.channels.metrics_size < sizes.header
        ∨ bytes_returned content priv.common.channels.metrics_size
            ≠ header_structure_size be hdr
                (buffer_after_read content priv.common.channels.metrics_size
                  priv.common.metrics)
        ∨ bytes_returned content priv.common.channels.metrics_size
            ≠ priv.common.channels.metrics_size) →
      (amdgpu_metrics_update_gpu_metrics HZ be hdr sizes jiffies source priv).1 = - EIO
      ∧ bytes_returned content priv.common.channels.metrics_size
          = min content.length priv.common.channels.metrics_size
      ∧ (amdgpu_metrics_update_gpu_metrics HZ be hdr sizes jiffies source
          priv).2.1.common.metrics.take
            (bytes_returned content priv.common.channels.metrics_size)
          = content.take (bytes_returned content priv.common.channels.metrics_size)
      ∧ (amdgpu_metrics_update_gpu_metrics HZ be hdr sizes jiffies source
          priv).2.1.common.metrics.drop
            (bytes_returned content priv.common.channels.metrics_size)
          = priv.common.metrics.drop (bytes_returned content priv.common.channels.metrics_size)
      ∧ (amdgpu_metrics_update_gpu_metrics HZ be hdr sizes jiffies source
          priv).2.1.last_update_jiffies = priv.last_update_jiffies) := by
  constructor
  · intro err hgate hsrc herr
    rw [update_fail_ret HZ be hdr sizes jiffies source priv err hgate hsrc herr]
    exact ⟨rfl, rfl, rfl⟩
  · intro content hgate hsrc hbad
    rw [update_file_ret HZ be hdr sizes jiffies source priv content hgate hsrc, if_pos hbad]
    have hp := buffer_after_read_parts content priv.common.channels.metrics_size
      priv.common.metrics
    exact ⟨rfl, rfl, hp.1, hp.2, rfl⟩

set_option maxRecDepth 100000 in
/-- C22, amended, at the samples, with `HZ = 1000` and `jiffies = 5000`: when
the file cannot be opened the refresh returns `-ENOENT` and the buffer is the
30-byte snapshot as before; when the file holds 29 bytes the refresh returns
`-EIO`, the buffer holds the 29 bytes of the file followed by the last byte
it held before, and the time stamp stays 0. -/
theorem failed_refresh_buffer_witness :
    time_before 5000
        ((sample_private.last_update_jiffies + UPDATE_INTERVAL_JIFFIES 1000)
          % 2 ^ BITS_PER_LONG) = false
    ∧ (amdgpu_metrics_update_gpu_metrics 1000 false sample_hdr sample_sizes 5000
        sample_missing_source sample_private).1 = -ENOENT
    ∧ (amdgpu_metrics_update_gpu_metrics 1000 false sample_hdr sample_sizes 5000
        sample_missing_source sample_private).2.1.common.metrics = sample_core_metrics
    ∧ (amdgpu_metrics_update_gpu_metrics 1000 false sample_hdr sample_sizes 5000
        sample_short_source sample_private).1 = - EIO
    ∧ bytes_returned sample_short_metrics sample_private.common.channels.metrics_size = 29
    ∧ (amdgpu_metrics_update_gpu_metrics 1000 false sample_hdr sample_sizes 5000
        sample_short_source sample_private).2.1.common.metrics.take 29 = sample_short_metrics
    ∧ (amdgpu_metrics_update_gpu_metrics 1000 false sample_hdr sample_sizes 5000
        sample_short_source sample_private).2.1.common.metrics.drop 29 = [0x13]
    ∧ (amdgpu_metrics_update_gpu_metrics 1000 false sample_hdr sample_sizes 5000
        sample_short_source sample_private).2.1.last_update_jiffies = 0 :=
  have h := failed_refresh_buffer 1000 false sample_hdr sample_sizes 5000
  have h1 := (h sample_missing_source sample_private).1 (-ENOENT) (by decide) rfl (by decide)
  have h2 := (h sample_short_source sample_private).2 sample_short_metrics (by decide) rfl
    (Or.inr (Or.inr (by decide)))
  ⟨by decide, h1.1, h1.2.2.trans (by decide), h2.1, by decide, h2.2.2.1.trans (by decide),
    h2.2.2.2.1.trans (by decide), h2.2.2.2.2⟩

/-- A run of refreshes changes nothing of `*priv` but the snapshot bytes and
the time stamp. -/
theorem update_sequence_frame (HZ : Nat) (be : Bool) (hdr : metrics_table_header)
    (sizes : vendor_sizes) (js : List Nat) (source : snapshot_source)
    (priv : amdgpu_metrics_private) :
    (update_sequence HZ be hdr sizes js source priv).1.common.channels = priv.common.channels
    ∧ (update_sequence HZ be hdr sizes js source priv).1.common.remap = priv.common.remap
    ∧ (update_sequence HZ be hdr sizes js source priv).1.common.has_per_core
        = priv.common.has_per_core
    ∧ (update_sequence HZ be hdr sizes js source priv).1.per_core_channel_remap
        = priv.per_core_channel_remap := by
  induction js generalizing source priv with
  | nil => exact ⟨rfl, rfl, rfl, rfl⟩
  | cons j rest ih =>
    have h := update_frame HZ be hdr sizes j source priv
    have h2 := ih (amdgpu_metrics_update_gpu_metrics HZ be hdr sizes j source priv).2.2
      (amdgpu_metrics_update_gpu_metrics HZ be hdr sizes j source priv).2.1
    show (update_sequence HZ be hdr sizes rest _ _).1.common.channels = _
      ∧ (update_sequence HZ be hdr sizes rest _ _).1.common.remap = _
      ∧ (update_sequence HZ be hdr sizes rest _ _).1.common.has_per_core = _
      ∧ (update_sequence HZ be hdr sizes rest _ _).1.per_core_channel_remap = _
    exact ⟨h2.1.trans h.1, h2.2.1.trans h.2.1, h2.2.2.1.trans h.2.2.1, h2.2.2.2.trans h.2.2.2⟩

set_option maxRecDepth 100000 in
/-- C23, as stated, fails: the private data was initialised from the 30-byte
snapshot, in which the edge temperature is 0 and core 3 has power 0 and
frequency 0; with `HZ = 1000` at `jiffies = 5000` the refresh succeeds and
installs a snapshot in which the edge temperature is 4000 and core 3 has power
700 and frequency 900. Running the validator and the detector on the new
snapshot marks the edge temperature and the power of core 3 valid, while the
installed remap tables still mark them invalid. -/
theorem refresh_revalidates_spec_counterexample :
    (amdgpu_metrics_update_gpu_metrics 1000 false sample_hdr sample_sizes 5000
        sample_warm_source sample_private).1 = 1
    ∧ (amdgpu_metrics_update_gpu_metrics 1000 false sample_hdr sample_sizes 5000
        sample_warm_source sample_private).2.1.common.metrics = sample_warm_metrics
    ∧ ((amdgpu_metrics_update_gpu_metrics 1000 false sample_hdr sample_sizes 5000
        sample_warm_source sample_private).2.1.common.remap.temp TEMP_EDGE).valid = false
    ∧ ((revalidated_remap false
        (amdgpu_metrics_update_gpu_metrics 1000 false sample_hdr sample_sizes 5000
          sample_warm_source sample_private).2.1.common).temp TEMP_EDGE).valid = true
    ∧ ((amdgpu_metrics_update_gpu_metrics 1000 false sample_hdr sample_sizes 5000
        sample_warm_source sample_private).2.1.common.remap.power (POWER_CORE + 3)).valid = false
    ∧ ((revalidated_remap false
        (amdgpu_metrics_update_gpu_metrics 1000 false sample_hdr sample_sizes 5000
          sample_warm_source sample_private).2.1.common).power (POWER_CORE + 3)).valid = true
    ∧ ¬ ((amdgpu_metrics_update_gpu_metrics 1000 false sample_hdr sample_sizes 5000
          sample_warm_source sample_private).2.1.common.remap
        = revalidated_remap false
            (amdgpu_metrics_update_gpu_metrics 1000 false sample_hdr sample_sizes 5000
              sample_warm_source sample_private).2.1.common) := by
  refine ⟨by decide, by decide, by decide, by decide, by decide, by decide, ?_⟩
  intro h
  exact absurd (congrArg (fun r => (r.temp TEMP_EDGE).valid) h) (by decide)

/-- C23, amended: a refresh never runs the channel validator or the core
functionality detector. After every refresh, successful or not, and after
every run of refreshes, the schema pointer, the remap tables of the three
categories, `has_per_core` and the per-core remap table are the ones `*priv`
held before, those the initialisation installed; a successful refresh (return
value 1) of a file replaces the snapshot bytes by the bytes read, as many as
the schema declares, and sets the time stamp to `jiffies`. -/
theorem refresh_keeps_remap (HZ : Nat) (be : Bool) (hdr : metrics_table_header)
    (sizes : vendor_sizes) (jiffies : Nat) (source : snapshot_source)
    (priv : amdgpu_metrics_private) :
    ((amdgpu_metrics_update_gpu_metrics HZ be hdr sizes jiffies source priv).2.1.common.remap
        = priv.common.remap
      ∧ (amdgpu_metrics_update_gpu_metrics HZ be hdr sizes jiffies source
          priv).2.1.common.channels = priv.common.channels
      ∧ (amdgpu_metrics_update_gpu_metrics HZ be hdr sizes jiffies source
          priv).2.1.common.has_per_core = priv.common.has_per_core
      ∧ (amdgpu_metrics_update_gpu_metrics HZ be hdr sizes jiffies source
          priv).2.1.per_core_channel_remap = priv.per_core_channel_remap)
    ∧ (∀ js : List Nat,
      (update_sequence HZ be hdr sizes js source priv).1.common.remap = priv.common.remap
      ∧ (update_sequence HZ be hdr sizes js source priv).1.common.channels
          = priv.common.channels
      ∧ (update_sequence HZ be hdr sizes js source priv).1.common.has_per_core
          = priv.common.has_per_core
      ∧ (update_sequence HZ be hdr sizes js source priv).1.per_core_channel_remap
          = priv.per_core_channel_remap)
    ∧ (∀ content : List Nat, source.outcome source.reads = .file content →
      (amdgpu_metrics_update_gpu_metrics HZ be hdr sizes jiffies source priv).1 = 1 →
      bytes_returned content priv.common.channels.metrics_size
          = priv.common.channels.metrics_size
      ∧ (amdgpu_metrics_update_gpu_metrics HZ be hdr sizes jiffies source
          priv).2.1.common.metrics.take priv.common.channels.metrics_size
          = content.take priv.common.channels.metrics_size
      ∧ (amdgpu_metrics_update_gpu_metrics HZ be hdr sizes jiffies source
          priv).2.1.last_update_jiffies = jiffies) := by
  have hf := update_frame HZ be hdr sizes jiffies source priv
  refine ⟨⟨hf.2.1, hf.1, hf.2.2.1, hf.2.2.2⟩, ?_, ?_⟩
  · intro js
    have hs := update_sequence_frame HZ be hdr sizes js source priv
    exact ⟨hs.2.1, hs.1, hs.2.2.1, hs.2.2.2⟩
  · intro content hsrc hone
    have hstamp := update_stamp HZ be hdr sizes jiffies source priv
    rw [if_pos hone] at hstamp
    have hgate : time_before jiffies
        ((priv.last_update_jiffies + UPDATE_INTERVAL_JIFFIES HZ) % 2 ^ BITS_PER_LONG)
          = false := by
      by_contra hc
      have ht : time_before jiffies
          ((priv.last_update_jiffies + UPDATE_INTERVAL_JIFFIES HZ) % 2 ^ BITS_PER_LONG)
            = true := by
        simpa using hc
      rw [update_gate_closed HZ be hdr sizes jiffies source priv ht] at hone
      have h0 : (0 : Int) = 1 := hone
      exact absurd h0 (by decide)
    rw [update_file_ret HZ be hdr sizes jiffies source priv content hgate hsrc] at hone ⊢
    split_ifs at hone ⊢ with hbad
    · have h0 : (- EIO : Int) = 1 := hone
      exact absurd h0 (by decide)
    · have hn : bytes_returned content priv.common.channels.metrics_size
          = priv.common.channels.metrics_size := by
        by_contra hc
        exact hbad (Or.inr (Or.inr hc))
      have hp := buffer_after_read_parts content priv.common.channels.metrics_size
        priv.common.metrics
      rw [hn] at hp
      exact ⟨hn, hp.1, rfl⟩

set_option maxRecDepth 100000 in
/-- C23, amended, at the samples, with `HZ = 1000`: the refresh at
`jiffies = 5000` installs the new snapshot and the time stamp 5000, and the
entry of the edge temperature is the invalid entry it was before. -/
theorem refresh_keeps_remap_witness :
    sample_warm_source.outcome sample_warm_source.reads = .file sample_warm_metrics
    ∧ (amdgpu_metrics_update_gpu_metrics 1000 false sample_hdr sample_sizes 5000
        sample_warm_source sample_private).1 = 1
    ∧ (amdgpu_metrics_update_gpu_metrics 1000 false sample_hdr sample_sizes 5000
        sample_warm_source sample_private).2.1.common.metrics.take 30 = sample_warm_metrics
    ∧ (amdgpu_metrics_update_gpu_metrics 1000 false sample_hdr sample_sizes 5000
        sample_warm_source sample_private).2.1.last_update_jiffies = 5000
    ∧ ((amdgpu_metrics_update_gpu_metrics 1000 false sample_hdr sample_sizes 5000
        sample_warm_source sample_private).2.1.common.remap.temp TEMP_EDGE).valid = false :=
  have h := refresh_keeps_remap 1000 false sample_hdr sample_sizes 5000 sample_warm_source
    sample_private
  have h3 := h.2.2 sample_warm_metrics rfl (by decide)
  ⟨rfl, by decide, h3.2.1.trans (by decide), h3.2.2,
    (congrArg (fun r => (r.temp TEMP_EDGE).valid) h.1.1).trans (by decide)⟩

/-! ## Visibility -/

/-- The comparison of an `int` with a small `size_t` bound, made on `size_t`:
it holds exactly for the values from 0 up to the bound. -/
theorem int_to_size_t_lt (x : Int) (n : Nat) (hx : is_int x) (hn : n ≤ 2 ^ 32) :
    int_to_size_t x < n ↔ (0 ≤ x ∧ x < n) := by
  unfold is_int at hx
  unfold int_to_size_t
  simp only [BITS_PER_LONG]
  norm_num at hx hn ⊢
  omega

/-- C24: for every `int` channel number, `amdgpu_metrics_hwmon_is_visible`
returns the mode `0444` if and only if the type is temperature, power or
frequency (`hwmon_intrusion`), the channel number is a slot of that category
(from 0 and below 31, 24 or 43 respectively) and the remap entry of the slot is
valid and not marked `ext`; in every other case it returns 0. -/
theorem hwmon_is_visible_iff (priv : amdgpu_metrics_private) (type : hwmon_sensor_types)
    (channel : Int) (hc : is_int channel) :
    (amdgpu_metrics_hwmon_is_visible priv type channel = 0o444
      ↔ spec_visible priv type channel = true)
    ∧ (spec_visible priv type channel = false →
      amdgpu_metrics_hwmon_is_visible priv type channel = 0)
    ∧ NCHANNELS_TEMP = 31 ∧ NCHANNELS_POWER = 24 ∧ NCHANNELS_FREQ = 43 := by
  have ht := int_to_size_t_lt channel NCHANNELS_TEMP hc (by decide)
  have hp := int_to_size_t_lt channel NCHANNELS_POWER hc (by decide)
  have hf := int_to_size_t_lt channel NCHANNELS_FREQ hc (by decide)
  have key : amdgpu_metrics_hwmon_is_visible priv type channel
      = if spec_visible priv type channel = true then 0o444 else 0 := by
    unfold amdgpu_metrics_hwmon_is_visible spec_visible
    simp only [NCHANNELS_TEMP, NCHANNELS_POWER, NCHANNELS_FREQ, Nat.cast_ofNat] at ht hp hf ⊢
    cases type <;>
      simp [hwmon_magic_freq, S_0444, ht, hp, hf, and_assoc]
  rw [key]
  refine ⟨?_, ?_, rfl, rfl, rfl⟩
  · by_cases h : spec_visible priv type channel = true
    · simp [h]
    · simp [h]
  · intro h
    rw [h]
    rfl

set_option maxRecDepth 100000 in
/-- C24 at the 30-byte sample initialised with a separate per-core device:
the socket power (power slot 0) is valid and not `ext`, so it is visible; the
temperature of core 4 (temperature slot 16) is valid and marked `ext`, the edge
temperature (slot 0) is invalid, slot 31 does not exist, channel -1 is no slot
and `hwmon_fan` is no category: all of these are hidden. -/
theorem hwmon_is_visible_iff_witness :
    is_int 0 ∧ is_int 16 ∧ is_int 31 ∧ is_int (-1)
    ∧ amdgpu_metrics_hwmon_is_visible sample_separated .hwmon_power 0 = 0o444
    ∧ (sample_separated.common.remap.temp 16).valid = true
    ∧ (sample_separated.common.remap.temp 16).ext = true
    ∧ amdgpu_metrics_hwmon_is_visible sample_separated .hwmon_temp 16 = 0
    ∧ amdgpu_metrics_hwmon_is_visible sample_separated .hwmon_temp 0 = 0
    ∧ amdgpu_metrics_hwmon_is_visible sample_separated .hwmon_temp 31 = 0
    ∧ amdgpu_metrics_hwmon_is_visible sample_separated .hwmon_temp (-1) = 0
    ∧ amdgpu_metrics_hwmon_is_visible sample_separated .hwmon_fan 0 = 0 :=
  have i0 : is_int 0 := by unfold is_int; decide
  have i16 : is_int 16 := by unfold is_int; decide
  have i31 : is_int 31 := by unfold is_int; decide
  have im1 : is_int (-1) := by unfold is_int; decide
  ⟨i0, i16, i31, im1,
    (hwmon_is_visible_iff sample_separated .hwmon_power 0 i0).1.2 (by decide),
    by decide, by decide,
    (hwmon_is_visible_iff sample_separated .hwmon_temp 16 i16).2.1 (by decide),
    (hwmon_is_visible_iff sample_separated .hwmon_temp 0 i0).2.1 (by decide),
    (hwmon_is_visible_iff sample_separated .hwmon_temp 31 i31).2.1 (by decide),
    (hwmon_is_visible_iff sample_separated .hwmon_temp (-1) im1).2.1 (by decide),
    (hwmon_is_visible_iff sample_separated .hwmon_fan 0 i0).2.1 (by decide)⟩

/-! ## Channel reads: the scaled value -/

/-- The macro `_GET_VAL` on a slot of the group is the decoder on the
descriptor of the slot. -/
theorem GET_VAL_in_range (be : Bool) (priv : amdgpu_metrics_private_common) (idx : Int)
    (idx_max : Nat) (channel_group : Nat → channel_t) (h0 : 0 ≤ idx) (h1 : idx < idx_max)
    (hmax : idx_max ≤ 2 ^ 32) :
    _GET_VAL be priv idx idx_max channel_group
      = amdgpu_metrics_get_val be priv (channel_group idx.toNat) := by
  unfold _GET_VAL
  have h : ¬ int_to_size_t idx ≥ idx_max := by
    unfold int_to_size_t
    simp only [BITS_PER_LONG]
    norm_num at hmax ⊢
    omega
  rw [if_neg h]

/-- The conversion to `long` of a product below `2 ^ 63` is the product. -/
theorem u64_to_long_small (x : Nat) (h : x < 2 ^ 63) : u64_to_long (x % 2 ^ 64) = (x : Int) := by
  unfold u64_to_long
  have e : x % 2 ^ 64 = x := Nat.mod_eq_of_lt (by omega)
  simp only [Nat.mod_mod, e]
  rw [if_pos h]

/-- The tail of the read functions on a decoder result. -/
theorem read_result_eq (r : Int × Option Nat) (multiplier : Nat) :
    (∀ v, r = (0, some v) →
      read_result r multiplier = (0, some (u64_to_long (v * multiplier % 2 ^ 64))))
    ∧ (r.1 ≠ 0 → read_result r multiplier = (r.1, none)) := by
  constructor
  · intro v h
    rw [h]
    rfl
  · intro h
    unfold read_result
    rw [if_pos h]

/-- The main read past the refresh step, for each of the three inputs: the
tail of the function applied to the decoder result of the slot. -/
theorem hwmon_read_decoded (HZ : Nat) (be : Bool) (hdr : metrics_table_header)
    (sizes : vendor_sizes) (A : hwmon_attributes) (jiffies : Nat) (source : snapshot_source)
    (priv : amdgpu_metrics_private) (channel : Int) (ret : Int) (U : amdgpu_metrics_private)
    (src : snapshot_source)
    (hU : amdgpu_metrics_update_gpu_metrics HZ be hdr sizes jiffies source priv = (ret, U, src))
    (hok : 0 ≤ ret) (h0 : 0 ≤ channel) :
    (channel < 31 →
      amdgpu_metrics_hwmon_read HZ be hdr sizes A jiffies source priv .hwmon_temp
          A.hwmon_temp_input channel
        = ((read_result (amdgpu_metrics_get_val be U.common
              (U.common.channels.temp channel.toNat)) 10).1,
           (read_result (amdgpu_metrics_get_val be U.common
              (U.common.channels.temp channel.toNat)) 10).2, U, src))
    ∧ (channel < 24 →
      amdgpu_metrics_hwmon_read HZ be hdr sizes A jiffies source priv .hwmon_power
          A.hwmon_power_input channel
        = ((read_result (amdgpu_metrics_get_val be U.common
              (U.common.channels.power channel.toNat)) 1000).1,
           (read_result (amdgpu_metrics_get_val be U.common
              (U.common.channels.power channel.toNat)) 1000).2, U, src))
    ∧ (channel < 43 →
      amdgpu_metrics_hwmon_read HZ be hdr sizes A jiffies source priv hwmon_magic_freq
          hwmon_magic_freq_input channel
        = ((read_result (amdgpu_metrics_get_val be U.common
              (U.common.channels.freq channel.toNat)) 1000000).1,
           (read_result (amdgpu_metrics_get_val be U.common
              (U.common.channels.freq channel.toNat)) 1000000).2, U, src)) := by
  have hneg : ¬ ret < 0 := by omega
  refine ⟨?_, ?_, ?_⟩
  · intro h1
    have hg := GET_VAL_in_range be U.common channel NCHANNELS_TEMP U.common.channels.temp h0
      (by simpa [NCHANNELS_TEMP] using h1) (by decide)
    have hm : GET_MULTIPLIER .hwmon_temp = 10 := rfl
    unfold amdgpu_metrics_hwmon_read
    rw [hU]
    simp [hm, hneg, GET_TEMP, hg]
  · intro h1
    have hg := GET_VAL_in_range be U.common channel NCHANNELS_POWER U.common.channels.power h0
      (by simpa [NCHANNELS_POWER] using h1) (by decide)
    have hm : GET_MULTIPLIER .hwmon_power = 1000 := rfl
    unfold amdgpu_metrics_hwmon_read
    rw [hU]
    simp [hm, hneg, GET_POWER, hg]
  · intro h1
    have hg := GET_VAL_in_range be U.common channel NCHANNELS_FREQ U.common.channels.freq h0
      (by simpa [NCHANNELS_FREQ] using h1) (by decide)
    have hm : GET_MULTIPLIER .hwmon_intrusion = 1000000 := rfl
    unfold amdgpu_metrics_hwmon_read
    rw [hU]
    simp [hm, hneg, GET_FREQ, hg, hwmon_magic_freq]

/-- The main read on any private data: when the refresh step does not fail
(its return value `ret` is not negative; `U` is `*priv` after it) and the
decoder succeeds on the requested in-range slot with the raw value `v`,
`amdgpu_metrics_hwmon_read` returns 0 and stores the product of `v` and the
multiplier, 10 for a temperature input, 1000 for a power input and 1000000
for a frequency input, computed in `uint64_t` and converted to `long`; the
value stored is the product itself whenever the product is below `2 ^ 63`. A
decoder error is returned as it is and nothing is stored. -/
theorem hwmon_read_product (HZ : Nat) (be : Bool) (hdr : metrics_table_header)
    (sizes : vendor_sizes) (A : hwmon_attributes) (jiffies : Nat) (source : snapshot_source)
    (priv : amdgpu_metrics_private) (channel : Int) (ret : Int) (U : amdgpu_metrics_private)
    (src : snapshot_source)
    (hU : amdgpu_metrics_update_gpu_metrics HZ be hdr sizes jiffies source priv = (ret, U, src))
    (hok : 0 ≤ ret) (h0 : 0 ≤ channel) :
    (channel < 31 →
      (∀ v, amdgpu_metrics_get_val be U.common (U.common.channels.temp channel.toNat)
          = (0, some v) →
        amdgpu_metrics_hwmon_read HZ be hdr sizes A jiffies source priv .hwmon_temp
            A.hwmon_temp_input channel
          = (0, some (u64_to_long (v * 10 % 2 ^ 64)), U, src)
        ∧ (v * 10 < 2 ^ 63 →
          amdgpu_metrics_hwmon_read HZ be hdr sizes A jiffies source priv .hwmon_temp
              A.hwmon_temp_input channel
            = (0, some ((v * 10 : Nat) : Int), U, src)))
      ∧ ((amdgpu_metrics_get_val be U.common (U.common.channels.temp channel.toNat)).1 ≠ 0 →
        amdgpu_metrics_hwmon_read HZ be hdr sizes A jiffies source priv .hwmon_temp
            A.hwmon_temp_input channel
          = ((amdgpu_metrics_get_val be U.common (U.common.channels.temp channel.toNat)).1,
              none, U, src)))
    ∧ (channel < 24 →
      (∀ v, amdgpu_metrics_get_val be U.common (U.common.channels.power channel.toNat)
          = (0, some v) →
        amdgpu_metrics_hwmon_read HZ be hdr sizes A jiffies source priv .hwmon_power
            A.hwmon_power_input channel
          = (0, some (u64_to_long (v * 1000 % 2 ^ 64)), U, src)
        ∧ (v * 1000 < 2 ^ 63 →
          amdgpu_metrics_hwmon_read HZ be hdr sizes A jiffies source priv .hwmon_power
              A.hwmon_power_input channel
            = (0, some ((v * 1000 : Nat) : Int), U, src)))
      ∧ ((amdgpu_metrics_get_val be U.common (U.common.channels.power channel.toNat)).1 ≠ 0 →
        amdgpu_metrics_hwmon_read HZ be hdr sizes A jiffies source priv .hwmon_power
            A.hwmon_power_input channel
          = ((amdgpu_metrics_get_val be U.common (U.common.channels.power channel.toNat)).1,
              none, U, src)))
    ∧ (channel < 43 →
      (∀ v, amdgpu_metrics_get_val be U.common (U.common.channels.freq channel.toNat)
          = (0, some v) →
        amdgpu_metrics_hwmon_read HZ be hdr sizes A jiffies source priv hwmon_magic_freq
            hwmon_magic_freq_input channel
          = (0, some (u64_to_long (v * 1000000 % 2 ^ 64)), U, src)
        ∧ (v * 1000000 < 2 ^ 63 →
          amdgpu_metrics_hwmon_read HZ be hdr sizes A jiffies source priv hwmon_magic_freq
              hwmon_magic_freq_input channel
            = (0, some ((v * 1000000 : Nat) : Int), U, src)))
      ∧ ((amdgpu_metrics_get_val be U.common (U.common.channels.freq channel.toNat)).1 ≠ 0 →
        amdgpu_metrics_hwmon_read HZ be hdr sizes A jiffies source priv hwmon_magic_freq
            hwmon_magic_freq_input channel
          = ((amdgpu_metrics_get_val be U.common (U.common.channels.freq channel.toNat)).1,
              none, U, src))) := by
  have hd := hwmon_read_decoded HZ be hdr sizes A jiffies source priv channel ret U src hU hok h0
  refine ⟨fun h1 => ⟨?_, ?_⟩, fun h1 => ⟨?_, ?_⟩, fun h1 => ⟨?_, ?_⟩⟩
  · intro v hv
    have e := (read_result_eq _ 10).1 v hv
    refine ⟨?_, ?_⟩
    · rw [hd.1 h1, e]
    · intro hs
      rw [hd.1 h1, e, u64_to_long_small _ hs]
  · intro he
    rw [hd.1 h1, (read_result_eq _ 10).2 he]
  · intro v hv
    have e := (read_result_eq _ 1000).1 v hv
    refine ⟨?_, ?_⟩
    · rw [hd.2.1 h1, e]
    · intro hs
      rw [hd.2.1 h1, e, u64_to_long_small _ hs]
  · intro he
    rw [hd.2.1 h1, (read_result_eq _ 1000).2 he]
  · intro v hv
    have e := (read_result_eq _ 1000000).1 v hv
    refine ⟨?_, ?_⟩
    · rw [hd.2.2 h1, e]
    · intro hs
      rw [hd.2.2 h1, e, u64_to_long_small _ hs]
  · intro he
    rw [hd.2.2 h1, (read_result_eq _ 1000000).2 he]

/-! ## Label tables -/

set_option maxRecDepth 100000 in
/-- C26: the label tables have 31, 24 and 43 entries, the sizes
`NCHANNELS_TEMP`, `NCHANNELS_POWER` and `NCHANNELS_FREQ` of the groups; in
the three groups the member `core[]` (`coreclk[]` for the frequencies) has 16
elements and starts at slot 12, 4 and 22 of `data[]`, the bases `TEMP_CORE`,
`POWER_CORE` and `FREQ_CORECLK` of the per-core entries; and for every
`k < 16` the label at position `12 + k` of the temperature table and at
position `4 + k` of the power table is `Core k`, the label at position
`22 + k` of the frequency table is `CoreCLK k`. -/
theorem core_labels_layout :
    (amdgpu_metrics_labels_temp.length = 31 ∧ amdgpu_metrics_labels_power.length = 24
      ∧ amdgpu_metrics_labels_freq.length = 43)
    ∧ (NCHANNELS_TEMP = amdgpu_metrics_labels_temp.length
      ∧ NCHANNELS_POWER = amdgpu_metrics_labels_power.length
      ∧ NCHANNELS_FREQ = amdgpu_metrics_labels_freq.length)
    ∧ (struct_slots DEF_CHANNELS_TEMP = 31 ∧ struct_slots DEF_CHANNELS_POWER = 24
      ∧ struct_slots DEF_CHANNELS_FREQ = 43)
    ∧ (member_slot DEF_CHANNELS_TEMP "core" = some 12 ∧ TEMP_CORE = 12
      ∧ member_slot DEF_CHANNELS_POWER "core" = some 4 ∧ POWER_CORE = 4
      ∧ member_slot DEF_CHANNELS_FREQ "coreclk" = some 22 ∧ FREQ_CORECLK = 22
      ∧ NCORES = 16)
    ∧ (∀ k, k < 16 →
      amdgpu_metrics_labels_temp.get? (12 + k) = some (core_label "Core" k)
      ∧ amdgpu_metrics_labels_power.get? (4 + k) = some (core_label "Core" k)
      ∧ amdgpu_metrics_labels_freq.get? (22 + k) = some (core_label "CoreCLK" k)) := by
  refine ⟨by decide, by decide, by decide, by decide, ?_⟩
  intro k hk
  interval_cases k <;> decide

/-- C26 at core 5: position 17 of the temperature table and position 9 of the
power table hold `Core 5`, position 27 of the frequency table holds
`CoreCLK 5`. -/
theorem core_labels_layout_witness :
    5 < 16
    ∧ amdgpu_metrics_labels_temp.get? 17 = some "Core 5"
    ∧ amdgpu_metrics_labels_power.get? 9 = some "Core 5"
    ∧ amdgpu_metrics_labels_freq.get? 27 = some "CoreCLK 5" :=
  have h := core_labels_layout.2.2.2.2 5 (by decide)
  ⟨by decide, h.1.trans (by decide), h.2.1.trans (by decide), h.2.2.trans (by decide)⟩

/-! ## Definition tables: the populated slots -/

/-- A slot that no initialiser names keeps its value through the fold. -/
theorem channels_fold_unnamed (S : vendor_struct) (i : Nat) :
    ∀ (inits : List channel_init) (f : Nat → channel_t),
      (∀ c, c ∈ inits → c.slot ≠ i) →
      inits.foldl (fun f c => Function.update f c.slot (channel_of_init S c)) f i = f i := by
  intro inits
  induction inits with
  | nil =>
    intro f _
    rfl
  | cons a rest ih =>
    intro f h
    rw [List.foldl_cons, ih _ (fun c hc => h c (List.mem_cons_of_mem _ hc))]
    exact Function.update_noteq (Ne.symm (h a (List.mem_cons_self _ _))) _ _

/-- A slot that some initialiser names ends as the descriptor of an
initialiser that names it. -/
theorem channels_fold_named (S : vendor_struct) (i : Nat) :
    ∀ (inits : List channel_init) (f : Nat → channel_t),
      (∃ c, c ∈ inits ∧ c.slot = i) →
      ∃ c, c ∈ inits ∧ c.slot = i
        ∧ inits.foldl (fun f c => Function.update f c.slot (channel_of_init S c)) f i
            = channel_of_init S c := by
  intro inits
  induction inits with
  | nil =>
    intro f h
    obtain ⟨c, hc, _⟩ := h
    exact absurd hc (List.not_mem_nil c)
  | cons a rest ih =>
    intro f h
    rw [List.foldl_cons]
    by_cases hr : ∃ c, c ∈ rest ∧ c.slot = i
    · obtain ⟨c, hc, hs, he⟩ := ih (Function.update f a.slot (channel_of_init S a)) hr
      exact ⟨c, List.mem_cons_of_mem _ hc, hs, he⟩
    · have hrest : ∀ c, c ∈ rest → c.slot ≠ i := fun c hc hs => hr ⟨c, hc, hs⟩
      obtain ⟨c, hc, hs⟩ := h
      have ha : a.slot = i := by
        rcases List.mem_cons.1 hc with rfl | hc2
        · exact hs
        · exact absurd hs (hrest c hc2)
      refine ⟨a, List.mem_cons_self _ _, ha, ?_⟩
      rw [channels_fold_unnamed S i rest _ hrest, ← ha, Function.update_same]

/-- Over initialisers that respect the invariant, a slot is populated exactly
when an initialiser names it. -/
theorem channels_of_populated (S : vendor_struct) (inits : List channel_init)
    (hok : inits.all (init_ok S) = true) (i : Nat) :
    is_channel_valid (channels_of S inits i) = true ↔ i ∈ inits.map (fun c => c.slot) := by
  constructor
  · intro hv
    by_contra hn
    have hun : ∀ c, c ∈ inits → c.slot ≠ i := by
      intro c hc hs
      exact hn (List.mem_map.2 ⟨c, hc, hs⟩)
    have e : channels_of S inits i = null_channel :=
      channels_fold_unnamed S i inits _ hun
    rw [e] at hv
    exact absurd hv (by decide)
  · intro hm
    obtain ⟨c, hc, hs⟩ := List.mem_map.1 hm
    obtain ⟨c2, hc2, _, he⟩ := channels_fold_named S i inits (fun _ => null_channel) ⟨c, hc, hs⟩
    have e : channels_of S inits i = channel_of_init S c2 := he
    rw [e]
    exact (init_ok_bounds S c2 ((List.all_eq_true.1 hok) c2 hc2)).1

/-- The temperature slots a registered revision populates are those its
initialisers name. -/
theorem temp_populated_iff (L : gpu_metrics_version → vendor_struct) (hL : vendor_ok L = true)
    (fr cr : Nat) (hr : registered_revision fr cr = true) (i : Nat) :
    temp_populated L fr cr i = true ↔ i ∈ temp_slot_names fr cr := by
  have key : ∀ (v : gpu_metrics_version) (d : channel_defs),
      (fr, cr, v, d) ∈ registered_schemas →
      table_entry (amdgpu_metric_def_tables L) fr cr = DEF_CHANNELS (L v) d →
      temp_slot_names fr cr = d.temp.map (fun c => c.slot) →
      (temp_populated L fr cr i = true ↔ i ∈ temp_slot_names fr cr) := by
    intro v d hmem he hs
    unfold temp_populated
    rw [he, hs]
    exact channels_of_populated (L v) d.temp (vendor_ok_elem L hL _ hmem).2.1 i
  unfold registered_revision at hr
  simp only [Bool.or_eq_true, Bool.and_eq_true, beq_iff_eq, decide_eq_true_eq] at hr
  rcases hr with (⟨rfl, hc⟩ | ⟨rfl, hc⟩) | ⟨rfl, rfl⟩
  · interval_cases cr
    · exact key .v1_0 channel_defs_V1_0 (by simp [registered_schemas]) rfl rfl
    · exact key .v1_1 channel_defs_V1_1 (by simp [registered_schemas]) rfl rfl
    · exact key .v1_2 channel_defs_V1_1 (by simp [registered_schemas]) rfl rfl
    · exact key .v1_3 channel_defs_V1_1 (by simp [registered_schemas]) rfl rfl
    · exact key .v1_4 channel_defs_V1_4 (by simp [registered_schemas]) rfl rfl
    · exact key .v1_5 channel_defs_V1_4 (by simp [registered_schemas]) rfl rfl
    · exact key .v1_6 channel_defs_V1_4 (by simp [registered_schemas]) rfl rfl
    · exact key .v1_7 channel_defs_V1_4 (by simp [registered_schemas]) rfl rfl
    · exact key .v1_8 channel_defs_V1_4 (by simp [registered_schemas]) rfl rfl
  · interval_cases cr
    · exact key .v2_0 channel_defs_V2_0 (by simp [registered_schemas]) rfl rfl
    · exact key .v2_1 channel_defs_V2_0 (by simp [registered_schemas]) rfl rfl
    · exact key .v2_2 channel_defs_V2_0 (by simp [registered_schemas]) rfl rfl
    · exact key .v2_3 channel_defs_V2_0 (by simp [registered_schemas]) rfl rfl
    · exact key .v2_4 channel_defs_V2_0 (by simp [registered_schemas]) rfl rfl
  · exact key .v3_0 channel_defs_V3_0 (by simp [registered_schemas]) rfl rfl

/-- The temperature slots the initialisers of each registered revision name:
`DEF_CHANNEL_TEMP_V1_0` for 1.0, `DEF_CHANNEL_TEMP_V1_1` for 1.1 to 1.3,
`DEF_CHANNEL_TEMP_V1_COMMON1` for 1.4 to 1.8, `DEF_CHANNEL_TEMP_V2` for 2.0 to
2.4. -/
theorem temp_slot_names_eq :
    temp_slot_names 1 0 = [1, 2, 4, 0, 3, 5]
    ∧ (∀ cr, 1 ≤ cr → cr ≤ 3 → temp_slot_names 1 cr = [1, 2, 4, 0, 3, 5, 6, 7, 8, 9])
    ∧ (∀ cr, 4 ≤ cr → cr ≤ 8 → temp_slot_names 1 cr = [1, 2, 4])
    ∧ (∀ cr, cr ≤ 4 →
        temp_slot_names 2 cr = [10, 11, 12, 13, 14, 15, 16, 17, 18, 19, 28, 29]) := by
  refine ⟨by decide, ?_, ?_, ?_⟩
  · intro cr h1 h2
    interval_cases cr <;> decide
  · intro cr h1 h2
    interval_cases cr <;> decide
  · intro cr h1
    interval_cases cr <;> decide

set_option maxRecDepth 100000 in
/-- C27, as stated, fails: over the sample layout, which respects the
invariant of the spec, the revisions 1.3 and 1.4 are registered, revision 1.3
populates the edge temperature slot and revision 1.4 does not. In revision 1.4
no initialiser names the slot, whatever the vendor layout. -/
theorem temp_slots_monotone_spec_counterexample :
    vendor_ok sample_layout = true
    ∧ registered_revision 1 3 = true ∧ registered_revision 1 4 = true ∧ 3 < 4
    ∧ temp_populated sample_layout 1 3 TEMP_EDGE = true
    ∧ temp_populated sample_layout 1 4 TEMP_EDGE = false
    ∧ TEMP_EDGE ∉ temp_slot_names 1 4
    ∧ ¬ (∀ i, temp_populated sample_layout 1 3 i = true →
          temp_populated sample_layout 1 4 i = true) := by
  refine ⟨by decide, by decide, by decide, by decide, by decide, by decide, by decide, ?_⟩
  intro h
  exact absurd (h TEMP_EDGE (by decide)) (by decide)

/-- C27, amended: over a vendor layout that respects the invariant of the
spec, for registered minor revisions `m < n` of one major line, every
temperature slot populated by revision `m` is populated by revision `n`,
except when `m` is one of 1.0 to 1.3 and `n` one of 1.4 to 1.8: revisions 1.4
to 1.8 populate the slots hotspot, mem and vrsoc only, all of which revision
`m` populates, and they drop the slots edge, vrgfx and vrmem that revision `m`
populates and, for `m` from 1.1 on, the four slots `hbm[]`. -/
theorem temp_slots_by_revision (L : gpu_metrics_version → vendor_struct)
    (hL : vendor_ok L = true) (fr m n : Nat) (hm : registered_revision fr m = true)
    (hn : registered_revision fr n = true) (hmn : m < n) :
    (¬ (fr = 1 ∧ m ≤ 3 ∧ 4 ≤ n) →
      ∀ i, temp_populated L fr m i = true → temp_populated L fr n i = true)
    ∧ (fr = 1 ∧ m ≤ 3 ∧ 4 ≤ n →
      (∀ i, temp_populated L fr n i = true
        ↔ (i = TEMP_HOTSPOT ∨ i = TEMP_MEM ∨ i = TEMP_VRSOC))
      ∧ (∀ i, temp_populated L fr n i = true → temp_populated L fr m i = true)
      ∧ (temp_populated L fr m TEMP_EDGE = true ∧ temp_populated L fr n TEMP_EDGE = false)
      ∧ (temp_populated L fr m TEMP_VRGFX = true ∧ temp_populated L fr n TEMP_VRGFX = false)
      ∧ (temp_populated L fr m TEMP_VRMEM = true ∧ temp_populated L fr n TEMP_VRMEM = false)
      ∧ (1 ≤ m → ∀ j, j < NHBM →
        temp_populated L fr m (TEMP_HBM + j) = true
        ∧ temp_populated L fr n (TEMP_HBM + j) = false)) := by
  have pm := temp_populated_iff L hL fr m hm
  have pn := temp_populated_iff L hL fr n hn
  have fm : ∀ i, temp_populated L fr m i = false ↔ i ∉ temp_slot_names fr m := by
    intro i
    rw [← pm i]
    simp
  have fn : ∀ i, temp_populated L fr n i = false ↔ i ∉ temp_slot_names fr n := by
    intro i
    rw [← pn i]
    simp
  simp only [pm, pn, fm, fn]
  obtain ⟨e10, e11, e14, e2⟩ := temp_slot_names_eq
  unfold registered_revision at hm hn
  simp only [Bool.or_eq_true, Bool.and_eq_true, beq_iff_eq, decide_eq_true_eq] at hm hn
  simp only [TEMP_EDGE, TEMP_HOTSPOT, TEMP_MEM, TEMP_VRGFX, TEMP_VRSOC, TEMP_VRMEM, TEMP_HBM,
    NHBM]
  rcases hm with (⟨rfl, hm⟩ | ⟨rfl, hm⟩) | ⟨rfl, rfl⟩
  · have hn8 : n ≤ 8 := by omega
    by_cases h4 : 4 ≤ n
    · rw [e14 n h4 hn8]
      by_cases hm3 : m ≤ 3
      · by_cases hm0 : m = 0
        · subst hm0
          rw [e10]
          refine ⟨fun hne => absurd ⟨rfl, hm3, h4⟩ hne, fun _ => ?_⟩
          refine ⟨?_, ?_, ?_, ?_, ?_, ?_⟩
          · intro i
            simp
          · intro i hi
            simp only [List.mem_cons, List.mem_singleton, List.not_mem_nil, or_false] at hi ⊢
            omega
          · simp
          · simp
          · simp
          · intro h1
            omega
        · rw [e11 m (by omega) hm3]
          refine ⟨fun hne => absurd ⟨rfl, hm3, h4⟩ hne, fun _ => ?_⟩
          refine ⟨?_, ?_, ?_, ?_, ?_, ?_⟩
          · intro i
            simp
          · intro i hi
            simp only [List.mem_cons, List.mem_singleton, List.not_mem_nil, or_false] at hi ⊢
            omega
          · simp
          · simp
          · simp
          · intro _ j hj
            simp only [List.mem_cons, List.mem_singleton, List.not_mem_nil, or_false]
            omega
      · rw [e14 m (by omega) (by omega)]
        exact ⟨fun _ i hi => hi, fun h => absurd h.2.1 hm3⟩
    · refine ⟨fun _ => ?_, fun h => absurd h.2.2 h4⟩
      rw [e11 n (by omega) (by omega)]
      by_cases hm0 : m = 0
      · subst hm0
        rw [e10]
        intro i hi
        simp only [List.mem_cons, List.mem_singleton, List.not_mem_nil, or_false] at hi ⊢
        omega
      · rw [e11 m (by omega) (by omega)]
        exact fun i hi => hi
  · refine ⟨fun _ => ?_, fun h => absurd h.1 (by decide)⟩
    rw [e2 m hm, e2 n (by omega)]
    exact fun i hi => hi
  · omega

set_option maxRecDepth 100000 in
/-- C27, amended, at the sample layout: from revision 1.0 to 1.1 the edge slot
stays populated and `hbm[0]` is added; from 1.1 to 1.4 the hotspot slot stays
populated, the edge slot and `hbm[0]` are dropped. -/
theorem temp_slots_by_revision_witness :
    vendor_ok sample_layout = true
    ∧ registered_revision 1 0 = true ∧ registered_revision 1 1 = true
    ∧ registered_revision 1 4 = true
    ∧ temp_populated sample_layout 1 0 TEMP_EDGE = true
    ∧ temp_populated sample_layout 1 1 TEMP_EDGE = true
    ∧ temp_populated sample_layout 1 0 TEMP_HBM = false
    ∧ temp_populated sample_layout 1 1 TEMP_HBM = true
    ∧ temp_populated sample_layout 1 4 TEMP_HOTSPOT = true
    ∧ temp_populated sample_layout 1 4 TEMP_EDGE = false
    ∧ temp_populated sample_layout 1 4 (TEMP_HBM + 0) = false :=
  have hL : vendor_ok sample_layout = true := by decide
  have h01 := temp_slots_by_revision sample_layout hL 1 0 1 (by decide) (by decide) (by decide)
  have h14 := temp_slots_by_revision sample_layout hL 1 1 4 (by decide) (by decide) (by decide)
  ⟨hL, by decide, by decide, by decide, by decide,
    h01.1 (by decide) TEMP_EDGE (by decide),
    by decide, by decide,
    ((h14.2 ⟨rfl, by decide, by decide⟩).1 TEMP_HOTSPOT).2 (Or.inl rfl),
    (h14.2 ⟨rfl, by decide, by decide⟩).2.2.1.2,
    ((h14.2 ⟨rfl, by decide, by decide⟩).2.2.2.2.2 (by decide) 0 (by decide)).2⟩

/-! ## Termination -/

/-- A counted loop whose state after `n` passes is `F n` runs to its bound
when the executions allowed cover the passes left, and stops short
otherwise. -/
theorem for_loop_run {σ : Type} (bound : Nat) (body : σ → Nat → σ) (F : Nat → σ)
    (hF : ∀ n, F (n + 1) = body (F n) n) :
    ∀ (fuel i : Nat), i ≤ bound →
      (bound - i ≤ fuel → for_loop bound body fuel i (F i) = some (F bound))
      ∧ (fuel < bound - i → for_loop bound body fuel i (F i) = none) := by
  intro fuel
  induction fuel with
  | zero =>
    intro i hi
    constructor
    · intro h
      have e : i = bound := by omega
      subst e
      simp [for_loop]
    · intro h
      have hlt : i < bound := by omega
      simp [for_loop, hlt]
  | succ n ih =>
    intro i hi
    by_cases hlt : i < bound
    · have step := ih (i + 1) (by omega)
      rw [hF i] at step
      constructor
      · intro h
        simp only [for_loop, if_pos hlt]
        exact step.1 (by omega)
      · intro h
        simp only [for_loop, if_pos hlt]
        exact step.2 (by omega)
    · have e : i = bound := by omega
      subst e
      constructor
      · intro _
        simp [for_loop]
      · intro h
        omega

/-- A pass of the decoder that asks for another one hands over the fallback
field. -/
theorem get_val_pass_again_fb (be : Bool) (priv : amdgpu_metrics_private_common)
    (channel : channel_t) (offset type : Nat) (retrying : Bool) (o t : Nat) (r : Bool)
    (h : get_val_pass be priv channel offset type retrying = .again o t r) :
    o = channel.fb.offset ∧ t = channel.fb.type ∧ r = true ∧ retrying = false := by
  unfold get_val_pass at h
  split at h
  · cases h
  · split at h
    · cases h
    · split at h
      · cases h
      · split at h
        · cases h
        · rename_i hr
          cases h
          cases retrying
          · exact ⟨rfl, rfl, rfl, rfl⟩
          · simp at hr

/-- C28: on every input the loop of `amdgpu_metrics_get_val` returns within
two passes, each of which reads at most one field: with any allowance of at
least two passes it returns the result of the function; the first pass reads
the primary field, and when it does not return, the second pass reads the
fallback field with `retrying` set and returns. The loop of the validator
makes exactly `size` passes, 31, 24 and 43 in the three runs of the
initialisation, and the loop of the core detector exactly `NCORES = 16`
passes, and they end in the states the functions return. -/
theorem decoder_and_loops_terminate (be : Bool) (priv : amdgpu_metrics_private_common) :
    (∀ (channel : channel_t) (fuel : Nat), 2 ≤ fuel →
      get_val_loop be priv channel fuel channel.offset channel.type false
        = some (amdgpu_metrics_get_val be priv channel))
    ∧ (∀ (channel : channel_t) (o t : Nat) (r : Bool),
      get_val_pass be priv channel channel.offset channel.type false = .again o t r →
      o = channel.fb.offset ∧ t = channel.fb.type ∧ r = true
      ∧ ∃ code val, get_val_pass be priv channel o t r = .ret code val)
    ∧ (∀ (channels : Nat → channel_t) (remaps : Nat → remap_t) (size : Nat)
        (zero_is_invalid : Bool) (fuel : Nat),
      (size ≤ fuel →
        for_loop size (validate_channels_body be priv channels zero_is_invalid) fuel 0 remaps
          = some (__amdgpu_metrics_validate_channels be priv channels remaps size
              zero_is_invalid))
      ∧ (fuel < size →
        for_loop size (validate_channels_body be priv channels zero_is_invalid) fuel 0 remaps
          = none))
    ∧ (∀ fuel : Nat,
      (NCORES ≤ fuel →
        for_loop NCORES (validate_core_pass be) fuel 0 (validate_core_loop be priv 0)
          = some (validate_core_loop be priv NCORES))
      ∧ (fuel < NCORES →
        for_loop NCORES (validate_core_pass be) fuel 0 (validate_core_loop be priv 0) = none))
    ∧ NCHANNELS_TEMP = 31 ∧ NCHANNELS_POWER = 24 ∧ NCHANNELS_FREQ = 43 ∧ NCORES = 16 := by
  refine ⟨?_, ?_, ?_, ?_, rfl, rfl, rfl, rfl⟩
  · intro channel fuel h
    exact get_val_loop_fuel be priv channel fuel h
  · intro channel o t r h
    obtain ⟨h1, h2, h3, _⟩ := get_val_pass_again_fb be priv channel _ _ _ o t r h
    subst h3
    exact ⟨h1, h2, rfl, get_val_pass_retrying be priv channel o t⟩
  · intro channels remaps size zero_is_invalid fuel
    have h := for_loop_run size (validate_channels_body be priv channels zero_is_invalid)
      (fun n => __amdgpu_metrics_validate_channels be priv channels remaps n zero_is_invalid)
      (fun _ => rfl) fuel 0 (Nat.zero_le _)
    exact ⟨fun hf => h.1 (by omega), fun hf => h.2 (by omega)⟩
  · intro fuel
    have h := for_loop_run NCORES (validate_core_pass be)
      (fun n => validate_core_loop be priv n) (fun _ => rfl) fuel 0 (Nat.zero_le _)
    exact ⟨fun hf => h.1 (by omega), fun hf => h.2 (by omega)⟩

set_option maxRecDepth 100000 in
/-- C28 at the 12-byte sample: the descriptor with a fallback returns 800
after two passes and not after one; the descriptor whose fallback holds the
sentinel too returns `-ENODEV` after two passes; the validator run over the 31
temperature slots ends after 31 passes and not after 30, the detector after 16
passes and not after 15. -/
theorem decoder_and_loops_terminate_witness :
    get_val_loop false sample_priv sample_with_fb 2 sample_with_fb.offset sample_with_fb.type
        false = some (0, some 800)
    ∧ get_val_loop false sample_priv sample_with_fb 1 sample_with_fb.offset sample_with_fb.type
        false = none
    ∧ get_val_loop false sample_priv sample_fb_sentinel 2 sample_fb_sentinel.offset
        sample_fb_sentinel.type false = some (-ENODEV, none)
    ∧ (for_loop 31 (validate_channels_body false sample_priv sample_priv.channels.temp true) 31
        0 sample_priv.remap.temp).isSome = true
    ∧ for_loop 31 (validate_channels_body false sample_priv sample_priv.channels.temp true) 30
        0 sample_priv.remap.temp = none
    ∧ (for_loop NCORES (validate_core_pass false) 16 0
        (validate_core_loop false sample_core_priv 0)).isSome = true
    ∧ for_loop NCORES (validate_core_pass false) 15 0
        (validate_core_loop false sample_core_priv 0) = none :=
  have h := decoder_and_loops_terminate false sample_priv
  have hc := decoder_and_loops_terminate false sample_core_priv
  ⟨(h.1 sample_with_fb 2 (by decide)).trans (by decide),
    by decide,
    (h.1 sample_fb_sentinel 2 (by decide)).trans (by decide),
    by rw [(h.2.2.1 sample_priv.channels.temp sample_priv.remap.temp 31 true 31).1 (by decide)]
       rfl,
    (h.2.2.1 sample_priv.channels.temp sample_priv.remap.temp 31 true 30).2 (by decide),
    by rw [(hc.2.2.2.1 16).1 (by decide)]
       rfl,
    (hc.2.2.2.1 15).2 (by decide)⟩

/-! ## Order of the lock and the source read -/

/-- C29, as stated, fails: with `HZ = 1000` the refresh of the sample at
`jiffies = 5000` acquires the semaphore for writing first, then reads the
source, then releases the semaphore: the read happens while the semaphore is
held for writing. -/
theorem source_read_unlocked_spec_counterexample :
    update_gpu_metrics_events 1000 5000 sample_source sample_private
        = [.down_write, .source_read 0, .up_write]
    ∧ reads_outside_write_lock
        (update_gpu_metrics_events 1000 5000 sample_source sample_private) false = false := by
  refine ⟨by decide, by decide⟩

/-- C29, amended: a call of `amdgpu_metrics_update_gpu_metrics` before the
interval has elapsed neither takes the semaphore nor reads the source. Every
other call acquires the semaphore for writing first, reads the source once
while the semaphore is held, and releases the semaphore after the read. The
number of reads in the trace is the number by which the call advances the
read count of the source. -/
theorem source_read_under_write_lock (HZ : Nat) (be : Bool) (hdr : metrics_table_header)
    (sizes : vendor_sizes) (jiffies : Nat) (source : snapshot_source)
    (priv : amdgpu_metrics_private) :
    (time_before jiffies
        ((priv.last_update_jiffies + UPDATE_INTERVAL_JIFFIES HZ) % 2 ^ BITS_PER_LONG) = true →
      update_gpu_metrics_events HZ jiffies source priv = []
      ∧ (amdgpu_metrics_update_gpu_metrics HZ be hdr sizes jiffies source priv).2.2.reads
          = source.reads)
    ∧ (time_before jiffies
        ((priv.last_update_jiffies + UPDATE_INTERVAL_JIFFIES HZ) % 2 ^ BITS_PER_LONG) = false →
      update_gpu_metrics_events HZ jiffies source priv
          = [.down_write, .source_read source.reads, .up_write]
      ∧ reads_outside_write_lock (update_gpu_metrics_events HZ jiffies source priv) false
          = false
      ∧ (amdgpu_metrics_update_gpu_metrics HZ be hdr sizes jiffies source priv).2.2.reads
          = source.reads + 1)
    ∧ (amdgpu_metrics_update_gpu_metrics HZ be hdr sizes jiffies source priv).2.2.reads
        = source.reads + source_reads (update_gpu_metrics_events HZ jiffies source priv) := by
  have hclosed : time_before jiffies
        ((priv.last_update_jiffies + UPDATE_INTERVAL_JIFFIES HZ) % 2 ^ BITS_PER_LONG) = true →
      update_gpu_metrics_events HZ jiffies source priv = []
      ∧ (amdgpu_metrics_update_gpu_metrics HZ be hdr sizes jiffies source priv).2.2.reads
          = source.reads := by
    intro h
    rw [update_gate_closed HZ be hdr sizes jiffies source priv h]
    unfold update_gpu_metrics_events
    rw [if_pos h]
    exact ⟨rfl, rfl⟩
  have hopen : time_before jiffies
        ((priv.last_update_jiffies + UPDATE_INTERVAL_JIFFIES HZ) % 2 ^ BITS_PER_LONG) = false →
      update_gpu_metrics_events HZ jiffies source priv
          = [.down_write, .source_read source.reads, .up_write]
      ∧ reads_outside_write_lock (update_gpu_metrics_events HZ jiffies source priv) false
          = false
      ∧ (amdgpu_metrics_update_gpu_metrics HZ be hdr sizes jiffies source priv).2.2.reads
          = source.reads + 1 := by
    intro h
    have e : update_gpu_metrics_events HZ jiffies source priv
        = [.down_write, .source_read source.reads, .up_write] := by
      unfold update_gpu_metrics_events
      rw [h]
      simp
    rw [e, update_reads_open HZ be hdr sizes jiffies source priv h]
    exact ⟨rfl, rfl, rfl⟩
  refine ⟨hclosed, hopen, ?_⟩
  cases h : time_before jiffies
      ((priv.last_update_jiffies + UPDATE_INTERVAL_JIFFIES HZ) % 2 ^ BITS_PER_LONG) with
  | true =>
    rw [(hclosed h).1, (hclosed h).2]
    rfl
  | false =>
    rw [(hopen h).1, (hopen h).2.2]
    rfl

set_option maxRecDepth 100000 in
/-- C29, amended, at the samples with `HZ = 1000`: the refresh at
`jiffies = 5000` takes the semaphore, reads and releases; a call at
`jiffies = 5050` after it does nothing. -/
theorem source_read_under_write_lock_witness :
    update_gpu_metrics_events 1000 5000 sample_source sample_private
        = [.down_write, .source_read 0, .up_write]
    ∧ (amdgpu_metrics_update_gpu_metrics 1000 false sample_hdr sample_sizes 5000 sample_source
        sample_private).2.2.reads = 1
    ∧ update_gpu_metrics_events 1000 5050 sample_refreshed.2.2 sample_refreshed.2.1 = []
    ∧ (amdgpu_metrics_update_gpu_metrics 1000 false sample_hdr sample_sizes 5050
        sample_refreshed.2.2 sample_refreshed.2.1).2.2.reads = 1 :=
  have h1 := (source_read_under_write_lock 1000 false sample_hdr sample_sizes 5000
    sample_source sample_private).2.1 (by decide)
  have h2 := (source_read_under_write_lock 1000 false sample_hdr sample_sizes 5050
    sample_refreshed.2.2 sample_refreshed.2.1).1 (by decide)
  ⟨h1.1, h1.2.2, h2.1, h2.2.trans (by decide)⟩

/-! ## Cores with a zero reading -/

/-- A core whose valid power entry decodes to 0, or whose valid frequency
entry decodes to 0, does not satisfy the condition of the detector. -/
theorem zero_reading_not_functional (be : Bool) (Q : amdgpu_metrics_private_common) (k : Nat)
    (h : ((Q.remap.power (POWER_CORE + k)).valid = true
          ∧ amdgpu_metrics_get_val be Q (Q.channels.power (POWER_CORE + k)) = (0, some 0))
        ∨ ((Q.remap.freq (FREQ_CORECLK + k)).valid = true
          ∧ amdgpu_metrics_get_val be Q (Q.channels.freq (FREQ_CORECLK + k)) = (0, some 0))) :
    any_core_entry_valid Q k = true ∧ spec_core_functional be Q k = false := by
  rcases h with ⟨hv, hz⟩ | ⟨hv, hz⟩
  · constructor
    · unfold any_core_entry_valid
      rw [hv]
      simp
    · unfold spec_core_functional slot_positive slot_unavailable
      rw [hv, hz]
      simp
  · constructor
    · unfold any_core_entry_valid
      rw [hv]
      simp
    · unfold spec_core_functional slot_positive slot_unavailable
      rw [hv, hz]
      simp

/-- C30: after `amdgpu_metrics_init_priv_common` returned 0, for every core
`k < NCORES` whose per-core power slot decodes to exactly 0, or whose per-core
frequency slot decodes to exactly 0, whatever the other slot holds, the
detector counted core `k` as dummy and not as functional, and the temperature,
power and frequency entries of core `k` are all invalid. -/
theorem zero_reading_dummy (be : Bool) (hdr : metrics_table_header) (tables : def_tables)
    (priv P : amdgpu_metrics_private_common) (k : Nat)
    (h : amdgpu_metrics_init_priv_common be hdr tables priv = (0, P)) (hk : k < NCORES)
    (hz : amdgpu_metrics_get_val be P (P.channels.power (POWER_CORE + k)) = (0, some 0)
      ∨ amdgpu_metrics_get_val be P (P.channels.freq (FREQ_CORECLK + k)) = (0, some 0)) :
    classified_dummy be (validate_all_channels be { priv with channels := P.channels }) k = true
    ∧ classified_functional be (validate_all_channels be { priv with channels := P.channels }) k
        = false
    ∧ (P.remap.temp (TEMP_CORE + k)).valid = false
    ∧ (P.remap.power (POWER_CORE + k)).valid = false
    ∧ (P.remap.freq (FREQ_CORECLK + k)).valid = false := by
  obtain ⟨_, hm, hr⟩ := init_success be hdr tables priv P h
  have hk2 : k < 16 := hk
  have hg : ∀ c, amdgpu_metrics_get_val be { priv with channels := P.channels } c
      = amdgpu_metrics_get_val be P c := fun c => get_val_congr be P _ c rfl hm.symm
  have hgq : ∀ c, amdgpu_metrics_get_val be
      (validate_all_channels be { priv with channels := P.channels }) c
      = amdgpu_metrics_get_val be P c := fun c => get_val_congr be P _ c rfl hm.symm
  have hvc : ∀ (channels : Nat → channel_t) (i : Nat),
      amdgpu_metrics_get_val be P (channels i) = (0, some 0) →
      (validate_channel be { priv with channels := P.channels } channels false i).valid
        = true := by
    intro channels i hz1
    have hty := get_val_ok_typed be P (channels i) (by rw [hz1])
    unfold validate_channel
    rw [hg, hz1, hty]
    simp
  have hq : ((validate_all_channels be { priv with channels := P.channels }).remap.power
        (POWER_CORE + k)).valid = true
        ∧ amdgpu_metrics_get_val be
            (validate_all_channels be { priv with channels := P.channels })
            ((validate_all_channels be { priv with channels := P.channels }).channels.power
              (POWER_CORE + k)) = (0, some 0)
      ∨ ((validate_all_channels be { priv with channels := P.channels }).remap.freq
        (FREQ_CORECLK + k)).valid = true
        ∧ amdgpu_metrics_get_val be
            (validate_all_channels be { priv with channels := P.channels })
            ((validate_all_channels be { priv with channels := P.channels }).channels.freq
              (FREQ_CORECLK + k)) = (0, some 0) := by
    rcases hz with hz1 | hz1
    · left
      constructor
      · rw [validate_all_power, if_pos (by simp only [NCHANNELS_POWER, POWER_CORE]; omega)]
        exact hvc _ _ hz1
      · rw [hgq]
        exact hz1
    · right
      constructor
      · rw [validate_all_freq, if_pos (by simp only [NCHANNELS_FREQ, FREQ_CORECLK]; omega)]
        exact hvc _ _ hz1
      · rw [hgq]
        exact hz1
  obtain ⟨hany, hs⟩ := zero_reading_not_functional be _ k hq
  have hf : core_is_functional be
      (validate_all_channels be { priv with channels := P.channels }) k = false := by
    simp [core_is_functional, hs]
  have hd : core_is_dummy be
      (validate_all_channels be { priv with channels := P.channels }) k = true := by
    simp [core_is_dummy, hany, hs]
  rw [classified_dummy_iff be _ k hk, classified_functional_iff be _ k hk, hr]
  refine ⟨hd, hf, ?_, ?_, ?_⟩
  · rw [validate_core_temp, if_pos (by simp only [NCORES]; omega), Nat.add_sub_cancel_left]
    simp [core_entry_after, hf, hd]
  · rw [validate_core_power, if_pos (by simp only [NCORES]; omega), Nat.add_sub_cancel_left]
    simp [core_entry_after, hf, hd]
  · rw [validate_core_freq, if_pos (by simp only [NCORES]; omega), Nat.add_sub_cancel_left]
    simp [core_entry_after, hf, hd]

set_option maxRecDepth 100000 in
/-- C30 at a 30-byte sample: core 3 has power 0 and frequency 900, core 4 has
power 1000 and frequency 0, core 5 has power 0 and no frequency reading; after
the initialisation the temperature, power and frequency entries of the three
cores are invalid, while core 6, with a temperature only, keeps its valid
temperature entry. -/
theorem zero_reading_dummy_witness :
    sample_gated_init.1 = 0
    ∧ amdgpu_metrics_get_val false sample_gated_init.2
        (sample_gated_init.2.channels.power (POWER_CORE + 3)) = (0, some 0)
    ∧ amdgpu_metrics_get_val false sample_gated_init.2
        (sample_gated_init.2.channels.freq (FREQ_CORECLK + 3)) = (0, some 900)
    ∧ (sample_gated_init.2.remap.temp (TEMP_CORE + 3)).valid = false
    ∧ (sample_gated_init.2.remap.power (POWER_CORE + 3)).valid = false
    ∧ (sample_gated_init.2.remap.freq (FREQ_CORECLK + 3)).valid = false
    ∧ amdgpu_metrics_get_val false sample_gated_init.2
        (sample_gated_init.2.channels.power (POWER_CORE + 4)) = (0, some 1000)
    ∧ amdgpu_metrics_get_val false sample_gated_init.2
        (sample_gated_init.2.channels.freq (FREQ_CORECLK + 4)) = (0, some 0)
    ∧ (sample_gated_init.2.remap.temp (TEMP_CORE + 4)).valid = false
    ∧ (sample_gated_init.2.remap.power (POWER_CORE + 4)).valid = false
    ∧ (sample_gated_init.2.remap.freq (FREQ_CORECLK + 4)).valid = false
    ∧ amdgpu_metrics_get_val false sample_gated_init.2
        (sample_gated_init.2.channels.power (POWER_CORE + 5)) = (0, some 0)
    ∧ amdgpu_metrics_get_val false sample_gated_init.2
        (sample_gated_init.2.channels.freq (FREQ_CORECLK + 5)) = (-ENODEV, none)
    ∧ (sample_gated_init.2.remap.temp (TEMP_CORE + 5)).valid = false
    ∧ (sample_gated_init.2.remap.power (POWER_CORE + 5)).valid = false
    ∧ (sample_gated_init.2.remap.freq (FREQ_CORECLK + 5)).valid = false
    ∧ (sample_gated_init.2.remap.temp (TEMP_CORE + 6)).valid = true :=
  have hinit : amdgpu_metrics_init_priv_common false sample_hdr sample_tables sample_gated_fresh
      = (0, sample_gated_init.2) := Prod.ext (by decide) rfl
  have h3 := zero_reading_dummy false sample_hdr sample_tables sample_gated_fresh
    sample_gated_init.2 3 hinit (by decide) (Or.inl (by decide))
  have h4 := zero_reading_dummy false sample_hdr sample_tables sample_gated_fresh
    sample_gated_init.2 4 hinit (by decide) (Or.inr (by decide))
  have h5 := zero_reading_dummy false sample_hdr sample_tables sample_gated_fresh
    sample_gated_init.2 5 hinit (by decide) (Or.inl (by decide))
  ⟨by decide, by decide, by decide, h3.2.2.1, h3.2.2.2.1, h3.2.2.2.2,
    by decide, by decide, h4.2.2.1, h4.2.2.2.1, h4.2.2.2.2,
    by decide, by decide, h5.2.2.1, h5.2.2.2.1, h5.2.2.2.2, by decide⟩

/-! ## Return code of the initialisation -/

/-- C31: for every snapshot whose header carries a registered revision,
`amdgpu_metrics_init_priv_common` returns 0; for every other snapshot it
returns the lookup error `-ENOSYS` and leaves `*priv` as it was. It returns
nothing else: the detector returns 0 or `-ENODEV` on every input, so the branch
`else if (err) return err;` after it is never taken. -/
theorem init_return_code (be : Bool) (hdr : metrics_table_header) (tables : def_tables)
    (priv : amdgpu_metrics_private_common) :
    (registered_revision (header_field be priv.metrics hdr.format_revision)
        (header_field be priv.metrics hdr.content_revision) = true →
      (amdgpu_metrics_init_priv_common be hdr tables priv).1 = 0)
    ∧ (registered_revision (header_field be priv.metrics hdr.format_revision)
        (header_field be priv.metrics hdr.content_revision) = false →
      amdgpu_metrics_init_priv_common be hdr tables priv = (-ENOSYS, priv))
    ∧ ((amdgpu_metrics_init_priv_common be hdr tables priv).1 = 0
      ∨ (amdgpu_metrics_init_priv_common be hdr tables priv).1 = -ENOSYS)
    ∧ (∀ q : amdgpu_metrics_private_common,
      (_amdgpu_metrics_validate_core be q).1 = 0
      ∨ (_amdgpu_metrics_validate_core be q).1 = -ENODEV)
    ∧ (∀ q : amdgpu_metrics_private_common,
      ¬ ((_amdgpu_metrics_validate_core be q).1 ≠ -ENODEV
        ∧ (_amdgpu_metrics_validate_core be q).1 ≠ 0)) := by
  have hreg : registered_revision (header_field be priv.metrics hdr.format_revision)
        (header_field be priv.metrics hdr.content_revision) = true →
      (amdgpu_metrics_init_priv_common be hdr tables priv).1 = 0 := by
    intro h
    have hc := get_channels_eq tables (header_field be priv.metrics hdr.format_revision)
      (header_field be priv.metrics hdr.content_revision)
    rw [if_pos h] at hc
    rw [init_lookup_ok be hdr tables priv _ hc]
  have hunreg : registered_revision (header_field be priv.metrics hdr.format_revision)
        (header_field be priv.metrics hdr.content_revision) = false →
      amdgpu_metrics_init_priv_common be hdr tables priv = (-ENOSYS, priv) := by
    intro h
    have hc := get_channels_eq tables (header_field be priv.metrics hdr.format_revision)
      (header_field be priv.metrics hdr.content_revision)
    rw [if_neg (by rw [h]; decide)] at hc
    exact init_lookup_fail be hdr tables priv hc
  refine ⟨hreg, hunreg, ?_, fun q => validate_core_ret be q, ?_⟩
  · cases h : registered_revision (header_field be priv.metrics hdr.format_revision)
        (header_field be priv.metrics hdr.content_revision) with
    | true => exact Or.inl (hreg h)
    | false =>
      right
      rw [hunreg h]
  · intro q hq
    rcases validate_core_ret be q with h | h
    · exact hq.2 h
    · exact hq.1 h

set_option maxRecDepth 100000 in
/-- C31 at the samples: the 30-byte snapshot carries revision 3.0 and its
initialisation returns 0, also when no core is functional as in the 12-byte
snapshot of revision 1.0; the snapshot of revision 1.9 gives `-ENOSYS`. -/
theorem init_return_code_witness :
    registered_revision (header_field false sample_core_fresh.metrics sample_hdr.format_revision)
        (header_field false sample_core_fresh.metrics sample_hdr.content_revision) = true
    ∧ (amdgpu_metrics_init_priv_common false sample_hdr sample_tables sample_core_fresh).1 = 0
    ∧ (_amdgpu_metrics_validate_core false (validate_all_channels false sample_priv)).1
        = -ENODEV
    ∧ (amdgpu_metrics_init_priv_common false sample_hdr sample_tables sample_priv).1 = 0
    ∧ registered_revision
        (header_field false sample_unregistered.metrics sample_hdr.format_revision)
        (header_field false sample_unregistered.metrics sample_hdr.content_revision) = false
    ∧ (amdgpu_metrics_init_priv_common false sample_hdr sample_tables sample_unregistered).1
        = -ENOSYS :=
  ⟨by decide,
    (init_return_code false sample_hdr sample_tables sample_core_fresh).1 (by decide),
    by decide,
    (init_return_code false sample_hdr sample_tables sample_priv).1 (by decide),
    by decide,
    congrArg (fun r => r.1)
      ((init_return_code false sample_hdr sample_tables sample_unregistered).2.1 (by decide))⟩

/-! ## Label indices -/

/-- The label index of a per-core entry after the detector. -/
theorem core_entry_after_idx (be : Bool) (priv : amdgpu_metrics_private_common) (k : Nat)
    (e : remap_t) (label0 : Nat) :
    (core_entry_after be priv k e label0).idx
      = if core_is_functional be priv k = true then
          (label0 % 256 + functional_below be priv k) % 256 % 64
        else e.idx := by
  unfold core_entry_after
  split_ifs <;> rfl

/-- The label indices of the temperature table after a successful
initialisation. -/
theorem init_temp_idx (be : Bool) (hdr : metrics_table_header) (tables : def_tables)
    (priv P : amdgpu_metrics_private_common)
    (h : amdgpu_metrics_init_priv_common be hdr tables priv = (0, P)) (i : Nat)
    (hi : i < NCHANNELS_TEMP) :
    (P.remap.temp i).idx
      = if TEMP_CORE ≤ i ∧ i < TEMP_CORE + NCORES
            ∧ core_is_functional be
                (validate_all_channels be { priv with channels := P.channels })
                (i - TEMP_CORE) = true
        then TEMP_CORE + functional_below be
          (validate_all_channels be { priv with channels := P.channels }) (i - TEMP_CORE)
        else i := by
  obtain ⟨_, _, hr⟩ := init_success be hdr tables priv P h
  have hle := functional_below_le be
    (validate_all_channels be { priv with channels := P.channels }) (i - TEMP_CORE)
  have hv : ∀ j, j < NCHANNELS_TEMP →
      ((validate_all_channels be { priv with channels := P.channels }).remap.temp j).idx
        = j % 64 := by
    intro j hj
    rw [validate_all_temp, if_pos hj]
    rfl
  rw [hr, validate_core_temp]
  simp only [NCHANNELS_TEMP, TEMP_CORE, NCORES] at hi hv hle ⊢
  by_cases hc : 12 ≤ i ∧ i < 12 + 16
  · rw [if_pos hc, core_entry_after_idx, hv 12 (by omega), hv i hi]
    by_cases hf : core_is_functional be
        (validate_all_channels be { priv with channels := P.channels }) (i - 12) = true
    · rw [if_pos hf, if_pos ⟨hc.1, hc.2, hf⟩]
      omega
    · rw [if_neg hf, if_neg (fun hx => hf hx.2.2)]
      omega
  · rw [if_neg hc, if_neg (fun hx => hc ⟨hx.1, hx.2.1⟩), hv i hi]
    omega

/-- The label indices of the power table after a successful initialisation. -/
theorem init_power_idx (be : Bool) (hdr : metrics_table_header) (tables : def_tables)
    (priv P : amdgpu_metrics_private_common)
    (h : amdgpu_metrics_init_priv_common be hdr tables priv = (0, P)) (i : Nat)
    (hi : i < NCHANNELS_POWER) :
    (P.remap.power i).idx
      = if POWER_CORE ≤ i ∧ i < POWER_CORE + NCORES
            ∧ core_is_functional be
                (validate_all_channels be { priv with channels := P.channels })
                (i - POWER_CORE) = true
        then POWER_CORE + functional_below be
          (validate_all_channels be { priv with channels := P.channels }) (i - POWER_CORE)
        else i := by
  obtain ⟨_, _, hr⟩ := init_success be hdr tables priv P h
  have hle := functional_below_le be
    (validate_all_channels be { priv with channels := P.channels }) (i - POWER_CORE)
  have hv : ∀ j, j < NCHANNELS_POWER →
      ((validate_all_channels be { priv with channels := P.channels }).remap.power j).idx
        = j % 64 := by
    intro j hj
    rw [validate_all_power, if_pos hj]
    rfl
  rw [hr, validate_core_power]
  simp only [NCHANNELS_POWER, POWER_CORE, NCORES] at hi hv hle ⊢
  by_cases hc : 4 ≤ i ∧ i < 4 + 16
  · rw [if_pos hc, core_entry_after_idx, hv 4 (by omega), hv i hi]
    by_cases hf : core_is_functional be
        (validate_all_channels be { priv with channels := P.channels }) (i - 4) = true
    · rw [if_pos hf, if_pos ⟨hc.1, hc.2, hf⟩]
      omega
    · rw [if_neg hf, if_neg (fun hx => hf hx.2.2)]
      omega
  · rw [if_neg hc, if_neg (fun hx => hc ⟨hx.1, hx.2.1⟩), hv i hi]
    omega

/-- The label indices of the frequency table after a successful
initialisation. -/
theorem init_freq_idx (be : Bool) (hdr : metrics_table_header) (tables : def_tables)
    (priv P : amdgpu_metrics_private_common)
    (h : amdgpu_metrics_init_priv_common be hdr tables priv = (0, P)) (i : Nat)
    (hi : i < NCHANNELS_FREQ) :
    (P.remap.freq i).idx
      = if FREQ_CORECLK ≤ i ∧ i < FREQ_CORECLK + NCORES
            ∧ core_is_functional be
                (validate_all_channels be { priv with channels := P.channels })
                (i - FREQ_CORECLK) = true
        then FREQ_CORECLK + functional_below be
          (validate_all_channels be { priv with channels := P.channels }) (i - FREQ_CORECLK)
        else i := by
  obtain ⟨_, _, hr⟩ := init_success be hdr tables priv P h
  have hle := functional_below_le be
    (validate_all_channels be { priv with channels := P.channels }) (i - FREQ_CORECLK)
  have hv : ∀ j, j < NCHANNELS_FREQ →
      ((validate_all_channels be { priv with channels := P.channels }).remap.freq j).idx
        = j % 64 := by
    intro j hj
    rw [validate_all_freq, if_pos hj]
    rfl
  rw [hr, validate_core_freq]
  simp only [NCHANNELS_FREQ, FREQ_CORECLK, NCORES] at hi hv hle ⊢
  by_cases hc : 22 ≤ i ∧ i < 22 + 16
  · rw [if_pos hc, core_entry_after_idx, hv 22 (by omega), hv i hi]
    by_cases hf : core_is_functional be
        (validate_all_channels be { priv with channels := P.channels }) (i - 22) = true
    · rw [if_pos hf, if_pos ⟨hc.1, hc.2, hf⟩]
      omega
    · rw [if_neg hf, if_neg (fun hx => hf hx.2.2)]
      omega
  · rw [if_neg hc, if_neg (fun hx => hc ⟨hx.1, hx.2.1⟩), hv i hi]
    omega

/-! ## The per-core device -/

/-- The counter of cores with a valid entry is monotone in the bound. -/
theorem cores_below_mono (c : amdgpu_metrics_private_common) (a b : Nat) (h : a ≤ b) :
    cores_below c a ≤ cores_below c b := by
  induction b with
  | zero =>
    have : a = 0 := by omega
    subst this
    exact le_refl _
  | succ n ih =>
    by_cases hab : a = n + 1
    · subst hab
      exact le_refl _
    · have e : cores_below c (n + 1)
          = cores_below c n + if any_core_entry_valid c n then 1 else 0 := rfl
      have := ih (by omega)
      omega

/-- A core with a valid entry is counted before every later core. -/
theorem cores_below_lt (c : amdgpu_metrics_private_common) (a b : Nat) (h : a < b)
    (hv : any_core_entry_valid c a = true) : cores_below c a < cores_below c b := by
  have e : cores_below c (a + 1)
      = cores_below c a + if any_core_entry_valid c a then 1 else 0 := rfl
  rw [hv] at e
  simp only [if_true] at e
  have := cores_below_mono c (a + 1) b (by omega)
  omega

/-- The counter counts at most the cores passed. -/
theorem cores_below_le (c : amdgpu_metrics_private_common) (n : Nat) : cores_below c n ≤ n := by
  induction n with
  | zero => exact le_refl _
  | succ n ih =>
    have e : cores_below c (n + 1)
        = cores_below c n + if any_core_entry_valid c n then 1 else 0 := rfl
    rw [e]
    split <;> omega

/-- Every value below the counter is the count at a core with a valid
entry. -/
theorem cores_below_surj (c : amdgpu_metrics_private_common) (n j : Nat)
    (h : j < cores_below c n) :
    ∃ k, k < n ∧ any_core_entry_valid c k = true ∧ cores_below c k = j := by
  induction n with
  | zero => exact absurd h (Nat.not_lt_zero _)
  | succ n ih =>
    have e : cores_below c (n + 1)
        = cores_below c n + if any_core_entry_valid c n then 1 else 0 := rfl
    by_cases hj : j < cores_below c n
    · obtain ⟨k, hk, hv, hc⟩ := ih hj
      exact ⟨k, by omega, hv, hc⟩
    · cases hv : any_core_entry_valid c n with
      | true =>
        rw [hv] at e
        simp only [if_true] at e
        exact ⟨n, by omega, hv, by omega⟩
      | false =>
        rw [hv] at e
        simp only [Bool.false_eq_true, if_false] at e
        omega

/-- Two cores with a valid entry and the same count are the same core. -/
theorem cores_below_inj (c : amdgpu_metrics_private_common) (a b : Nat)
    (ha : any_core_entry_valid c a = true) (hb : any_core_entry_valid c b = true)
    (h : cores_below c a = cores_below c b) : a = b := by
  by_contra hne
  rcases Nat.lt_or_gt_of_ne hne with hlt | hgt
  · have := cores_below_lt c a b hlt ha
    omega
  · have := cores_below_lt c b a hgt hb
    omega

/-- The counter depends on the valid flags of the per-core entries only. -/
theorem cores_below_congr (c d : amdgpu_metrics_private_common)
    (h : ∀ k, any_core_entry_valid c k = any_core_entry_valid d k) (n : Nat) :
    cores_below c n = cores_below d n := by
  induction n with
  | zero => rfl
  | succ n ih =>
    show cores_below c n + (if any_core_entry_valid c n then 1 else 0)
      = cores_below d n + (if any_core_entry_valid d n then 1 else 0)
    rw [ih, h n]

/-- The loop `while (core < NCORES)` of `amdgpu_metrics_init_priv`: the
positions from `core` up to `NCORES` that the iterations reach are cleared, the
others are untouched. -/
theorem init_priv_fill_apply (fuel : Nat) :
    ∀ (remap : Nat → remap_t) (core j : Nat),
      init_priv_fill fuel remap core j
        = if core ≤ j ∧ j < NCORES ∧ j < core + fuel then
            { valid := false, ext := false, idx := 0 }
          else remap j := by
  induction fuel with
  | zero =>
    intro remap core j
    rw [if_neg (by omega)]
    rfl
  | succ n ih =>
    intro remap core j
    unfold init_priv_fill
    by_cases hc : core < NCORES
    · rw [if_pos hc, ih]
      by_cases hj : j = core
      · subst hj
        rw [if_neg (by omega), Function.update_same, if_pos ⟨le_refl _, hc, by omega⟩]
      · rw [Function.update_noteq hj]
        by_cases h1 : core + 1 ≤ j ∧ j < NCORES ∧ j < core + 1 + n
        · rw [if_pos h1, if_pos ⟨by omega, h1.2.1, by omega⟩]
        · rw [if_neg h1, if_neg (fun hx => h1 ⟨by omega, hx.2.1, by omega⟩)]
    · rw [if_neg hc, if_neg (fun hx => hc (by omega))]

/-- The invariant of the separation loop holds before the first turn. -/
theorem separate_inv_zero (priv : amdgpu_metrics_private) :
    separate_inv priv 0 (init_priv_loop priv 0) := by
  unfold separate_inv init_priv_loop
  refine ⟨rfl, rfl, rfl, rfl, rfl, ?_, ?_, ?_, ?_, ?_⟩
  · intro x; rw [if_neg (by omega)]
  · intro x; rw [if_neg (by omega)]
  · intro x; rw [if_neg (by omega)]
  · intro k hk; omega
  · intro j _; rfl

/-- Marking the entry of core `n` extends the description of the entries from
the cores below `n` to the cores below `n + 1`. -/
theorem ext_entries_step (c : amdgpu_metrics_private_common) (base n : Nat)
    (f orig : Nat → remap_t)
    (hf : ∀ x, f x = if base ≤ x ∧ x < base + n then ext_marked c (x - base) (orig x)
      else orig x)
    (hv : any_core_entry_valid c n = true) :
    ∀ x, Function.update f (base + n) { f (base + n) with ext := true } x
      = if base ≤ x ∧ x < base + (n + 1) then ext_marked c (x - base) (orig x) else orig x := by
  intro x
  by_cases hx : x = base + n
  · subst hx
    rw [Function.update_same, if_pos (by omega), hf, if_neg (by omega), Nat.add_sub_cancel_left]
    unfold ext_marked
    rw [hv]
    rfl
  · rw [Function.update_noteq hx, hf]
    by_cases h1 : base ≤ x ∧ x < base + n
    · rw [if_pos h1, if_pos (by omega)]
    · rw [if_neg h1, if_neg (by omega)]

/-- Passing a core without a valid entry extends the description too. -/
theorem ext_entries_skip (c : amdgpu_metrics_private_common) (base n : Nat)
    (f orig : Nat → remap_t)
    (hf : ∀ x, f x = if base ≤ x ∧ x < base + n then ext_marked c (x - base) (orig x)
      else orig x)
    (hv : any_core_entry_valid c n = false) :
    ∀ x, f x
      = if base ≤ x ∧ x < base + (n + 1) then ext_marked c (x - base) (orig x) else orig x := by
  intro x
  rw [hf]
  by_cases hx : x = base + n
  · subst hx
    rw [if_neg (by omega), if_pos (by omega), Nat.add_sub_cancel_left]
    unfold ext_marked
    rw [hv]
    rfl
  · by_cases h1 : base ≤ x ∧ x < base + n
    · rw [if_pos h1, if_pos (by omega)]
    · rw [if_neg h1, if_neg (by omega)]

/-- One iteration of the loop of `amdgpu_metrics_init_priv` keeps the
description of the state. -/
theorem separate_inv_step (priv : amdgpu_metrics_private) (n : Nat) (s : init_priv_state)
    (h : separate_inv priv n s) : separate_inv priv (n + 1) (init_priv_pass s n) := by
  obtain ⟨hcore, hch, hme, hhp, hlu, htemp, hpower, hfreq, hrec, hrest⟩ := h
  have et : s.priv.common.remap.temp (TEMP_CORE + n) = priv.common.remap.temp (TEMP_CORE + n) := by
    rw [htemp, if_neg (by omega)]
  have ep : s.priv.common.remap.power (POWER_CORE + n)
      = priv.common.remap.power (POWER_CORE + n) := by
    rw [hpower, if_neg (by omega)]
  have ef : s.priv.common.remap.freq (FREQ_CORECLK + n)
      = priv.common.remap.freq (FREQ_CORECLK + n) := by
    rw [hfreq, if_neg (by omega)]
  have estep : cores_below priv.common (n + 1)
      = cores_below priv.common n + if any_core_entry_valid priv.common n then 1 else 0 := rfl
  cases hv : any_core_entry_valid priv.common n with
  | false =>
    have hskip : init_priv_pass s n = s := by
      unfold init_priv_pass
      simp only [et, ep, ef]
      unfold any_core_entry_valid at hv
      simp only [Bool.or_eq_false_iff] at hv
      rw [hv.1.1, hv.1.2, hv.2]
      simp
    rw [hskip]
    rw [hv] at estep
    simp only [Bool.false_eq_true, if_false, Nat.add_zero] at estep
    refine ⟨by rw [estep]; exact hcore, hch, hme, hhp, hlu,
      ext_entries_skip priv.common TEMP_CORE n _ _ htemp hv,
      ext_entries_skip priv.common POWER_CORE n _ _ hpower hv,
      ext_entries_skip priv.common FREQ_CORECLK n _ _ hfreq hv, ?_, ?_⟩
    · intro k hk hkv
      by_cases hkn : k = n
      · subst hkn
        rw [hv] at hkv
        cases hkv
      · exact hrec k (by omega) hkv
    · intro j hj
      rw [estep] at hj
      exact hrest j hj
  | true =>
    have hgo : (!(s.priv.common.remap.temp (TEMP_CORE + n)).valid
        && !(s.priv.common.remap.power (POWER_CORE + n)).valid
        && !(s.priv.common.remap.freq (FREQ_CORECLK + n)).valid) = false := by
      rw [et, ep, ef]
      unfold any_core_entry_valid at hv
      revert hv
      cases (priv.common.remap.temp (TEMP_CORE + n)).valid <;>
        cases (priv.common.remap.power (POWER_CORE + n)).valid <;>
        cases (priv.common.remap.freq (FREQ_CORECLK + n)).valid <;> simp
    rw [hv] at estep
    simp only [if_true] at estep
    unfold init_priv_pass
    simp only [hgo, Bool.false_eq_true, if_false]
    refine ⟨by rw [estep, hcore], hch, hme, hhp, hlu,
      ext_entries_step priv.common TEMP_CORE n _ _ htemp hv,
      ext_entries_step priv.common POWER_CORE n _ _ hpower hv,
      ext_entries_step priv.common FREQ_CORECLK n _ _ hfreq hv, ?_, ?_⟩
    · intro k hk hkv
      show Function.update s.priv.per_core_channel_remap s.core _ _ = _
      by_cases hkn : k = n
      · subst hkn
        rw [hcore, Function.update_same]
      · have hlt := cores_below_lt priv.common k n (by omega) hkv
        rw [hcore, Function.update_noteq (by omega)]
        exact hrec k (by omega) hkv
    · intro j hj
      show Function.update s.priv.per_core_channel_remap s.core _ _ = _
      rw [estep] at hj
      rw [hcore, Function.update_noteq (by omega)]
      exact hrest j (by omega)

/-- The description holds after every number of iterations. -/
theorem init_priv_loop_inv (priv : amdgpu_metrics_private) (n : Nat) :
    separate_inv priv n (init_priv_loop priv n) := by
  induction n with
  | zero => exact separate_inv_zero priv
  | succ n ih => exact separate_inv_step priv n _ ih

/-- The private data `amdgpu_metrics_init_priv` leaves when it separates the
per-core channels, described from the tables `C` the common initialisation
produced: valid flags and label indices are those of `C`, the entries of the
cores with a valid entry are marked `ext`, core `k` with a valid entry is
recorded at position `cores_below C k`, and the positions from
`cores_below C NCORES` on are cleared. -/
theorem init_priv_separated (be : Bool) (hdr : metrics_table_header) (tables : def_tables)
    (priv P : amdgpu_metrics_private)
    (h : amdgpu_metrics_init_priv be hdr tables priv true = (0, P))
    (hpc : P.common.has_per_core = true) :
    ∃ C : amdgpu_metrics_private_common,
      amdgpu_metrics_init_priv_common be hdr tables priv.common = (0, C)
      ∧ (∀ x, P.common.remap.temp x
          = if TEMP_CORE ≤ x ∧ x < TEMP_CORE + NCORES then
              ext_marked C (x - TEMP_CORE) (C.remap.temp x)
            else C.remap.temp x)
      ∧ (∀ x, P.common.remap.power x
          = if POWER_CORE ≤ x ∧ x < POWER_CORE + NCORES then
              ext_marked C (x - POWER_CORE) (C.remap.power x)
            else C.remap.power x)
      ∧ (∀ x, P.common.remap.freq x
          = if FREQ_CORECLK ≤ x ∧ x < FREQ_CORECLK + NCORES then
              ext_marked C (x - FREQ_CORECLK) (C.remap.freq x)
            else C.remap.freq x)
      ∧ (∀ k, k < NCORES → any_core_entry_valid C k = true →
          P.per_core_channel_remap (cores_below C k) = { valid := true, ext := false, idx := k })
      ∧ (∀ j, cores_below C NCORES ≤ j → j < NCORES →
          P.per_core_channel_remap j = { valid := false, ext := false, idx := 0 }) := by
  unfold amdgpu_metrics_init_priv at h
  simp only at h
  split_ifs at h with h1 h2
  · exact absurd (Prod.mk.inj h).1 h1
  · have hP := (Prod.mk.inj h).2
    simp only [Bool.not_true, Bool.false_or, Bool.not_eq_true', ] at h2
    rw [← hP] at hpc
    simp only at hpc
    rw [h2] at hpc
    cases hpc
  · have h0 : (amdgpu_metrics_init_priv_common be hdr tables priv.common).1 = 0 := by
      by_contra hc
      exact h1 hc
    have hP := (Prod.mk.inj h).2
    have hinv := init_priv_loop_inv
      { priv with common := (amdgpu_metrics_init_priv_common be hdr tables priv.common).2 }
      NCORES
    unfold separate_inv at hinv
    simp only at hinv
    obtain ⟨hcore, _, _, _, _, htemp, hpower, hfreq, hrec, hrest⟩ := hinv
    refine ⟨(amdgpu_metrics_init_priv_common be hdr tables priv.common).2,
      Prod.ext h0 rfl, ?_, ?_, ?_, ?_, ?_⟩
    · intro x
      rw [← hP]
      exact htemp x
    · intro x
      rw [← hP]
      exact hpower x
    · intro x
      rw [← hP]
      exact hfreq x
    · intro k hk hv
      have hlt := cores_below_lt _ k NCORES hk hv
      have hr := hrec k hk hv
      rw [← hP]
      show init_priv_fill NCORES _ _ _ = _
      rw [init_priv_fill_apply, hcore, if_neg (by intro hx; exact absurd hx.1 (by omega))]
      simp only at hr hlt ⊢
      rw [hr, Nat.mod_eq_of_lt (by simp only [NCORES] at hk; omega)]
    · intro j hj hj2
      rw [← hP]
      show init_priv_fill NCORES _ _ _ = _
      rw [init_priv_fill_apply, hcore, if_pos ⟨hj, hj2, by omega⟩]

/-- A table of recorded cores as `init_priv_separated` describes it: each core
with a valid entry is recorded once, the valid positions are those below the
number of such cores, and the recorded cores increase with the position. -/
theorem recorded_cores (C : amdgpu_metrics_private_common) (pcr : Nat → remap_t)
    (hrec : ∀ k, k < NCORES → any_core_entry_valid C k = true →
      pcr (cores_below C k) = { valid := true, ext := false, idx := k })
    (hclr : ∀ j, cores_below C NCORES ≤ j → j < NCORES →
      pcr j = { valid := false, ext := false, idx := 0 }) :
    (∀ i, i < NCORES → any_core_entry_valid C i = true →
      (cores_below C i < NCORES ∧ (pcr (cores_below C i)).valid = true
        ∧ (pcr (cores_below C i)).idx = i)
      ∧ ∀ j2, j2 < NCORES → (pcr j2).valid = true → (pcr j2).idx = i → j2 = cores_below C i)
    ∧ cores_below C NCORES ≤ NCORES
    ∧ (∀ j, j < NCORES → ((pcr j).valid = true ↔ j < cores_below C NCORES))
    ∧ (∀ j j2, j < j2 → j2 < cores_below C NCORES → (pcr j).idx < (pcr j2).idx) := by
  have hle := cores_below_le C NCORES
  have hvalid : ∀ j, j < NCORES → (pcr j).valid = true → j < cores_below C NCORES := by
    intro j hj hv
    by_contra hn
    rw [hclr j (by omega) hj] at hv
    cases hv
  have hat : ∀ j, j < cores_below C NCORES →
      ∃ k, k < NCORES ∧ any_core_entry_valid C k = true ∧ cores_below C k = j
        ∧ pcr j = { valid := true, ext := false, idx := k } := by
    intro j hj
    obtain ⟨k, hk, hv, hc⟩ := cores_below_surj C NCORES j hj
    exact ⟨k, hk, hv, hc, by rw [← hc]; exact hrec k hk hv⟩
  refine ⟨?_, hle, ?_, ?_⟩
  · intro i hi hv
    have hr := hrec i hi hv
    have hlt := cores_below_lt C i NCORES hi hv
    refine ⟨⟨by omega, by rw [hr], by rw [hr]⟩, ?_⟩
    intro j2 hj2 hv2 hidx
    obtain ⟨k, _, hkv, hc, hp⟩ := hat j2 (hvalid j2 hj2 hv2)
    rw [hp] at hidx
    simp only at hidx
    subst hidx
    exact hc.symm
  · intro j hj
    constructor
    · exact hvalid j hj
    · intro hlt
      obtain ⟨k, _, _, _, hp⟩ := hat j hlt
      rw [hp]
  · intro j j2 hjj hj2
    obtain ⟨k, hk, hkv, hc, hp⟩ := hat j (by omega)
    obtain ⟨k2, hk2, hkv2, hc2, hp2⟩ := hat j2 hj2
    rw [hp, hp2]
    simp only
    by_contra hn
    have := cores_below_mono C k2 k (by omega)
    omega

/-- An entry marked `ext` is hidden from the main device. -/
theorem hwmon_is_visible_ext (P : amdgpu_metrics_private) (i : Nat) :
    ((P.common.remap.temp (TEMP_CORE + i)).ext = true →
      amdgpu_metrics_hwmon_is_visible P .hwmon_temp ((TEMP_CORE + i : Nat) : Int) = 0)
    ∧ ((P.common.remap.power (POWER_CORE + i)).ext = true →
      amdgpu_metrics_hwmon_is_visible P .hwmon_power ((POWER_CORE + i : Nat) : Int) = 0)
    ∧ ((P.common.remap.freq (FREQ_CORECLK + i)).ext = true →
      amdgpu_metrics_hwmon_is_visible P hwmon_magic_freq ((FREQ_CORECLK + i : Nat) : Int)
        = 0) := by
  have e : ∀ n : Nat, ((n : Nat) : Int).toNat = n := fun n => by omega
  refine ⟨?_, ?_, ?_⟩
  · intro h
    unfold amdgpu_metrics_hwmon_is_visible
    simp only [e, h]
    simp
  · intro h
    unfold amdgpu_metrics_hwmon_is_visible
    simp only [e, h]
    simp
  · intro h
    unfold amdgpu_metrics_hwmon_is_visible
    simp only [e, h]
    simp [hwmon_magic_freq]

/-- The per-core device shows a valid position when the entry of the recorded
core is valid in the category asked for. -/
theorem per_core_is_visible_valid (P : amdgpu_metrics_private) (j : Nat) (hj : j < NCORES)
    (hv : (P.per_core_channel_remap j).valid = true) :
    ((P.common.remap.temp (TEMP_CORE + (P.per_core_channel_remap j).idx)).valid = true →
      amdgpu_metrics_per_core_is_visible P .hwmon_temp j = 0o444)
    ∧ ((P.common.remap.power (POWER_CORE + (P.per_core_channel_remap j).idx)).valid = true →
      amdgpu_metrics_per_core_is_visible P .hwmon_power j = 0o444)
    ∧ ((P.common.remap.freq (FREQ_CORECLK + (P.per_core_channel_remap j).idx)).valid = true →
      amdgpu_metrics_per_core_is_visible P hwmon_magic_freq j = 0o444) := by
  have hn : ¬ (j ≥ NCORES ∨ (P.per_core_channel_remap j).valid = false) := by
    rintro (h | h)
    · omega
    · rw [hv] at h
      cases h
  refine ⟨?_, ?_, ?_⟩
  · intro h
    unfold amdgpu_metrics_per_core_is_visible
    simp only [if_neg hn]
    simp [h, S_0444]
  · intro h
    unfold amdgpu_metrics_per_core_is_visible
    simp only [if_neg hn]
    simp [h, S_0444]
  · intro h
    unfold amdgpu_metrics_per_core_is_visible
    simp only [if_neg hn]
    simp [h, S_0444, hwmon_magic_freq]

/-- C32: after `amdgpu_metrics_init_priv` with `separate_per_core = true`
returned 0 with `has_per_core` set, for every core `i < NCORES` and each of
the three categories, a valid per-core entry of core `i` is marked `ext`,
`amdgpu_metrics_hwmon_is_visible` returns 0 for its slot, and exactly one
`j < NCORES` has a valid entry of `per_core_channel_remap` with `idx = i`, for
which `amdgpu_metrics_per_core_is_visible` returns `0444`; the valid entries
of `per_core_channel_remap` are those at the positions below some `n`, and
their `idx` values increase strictly with the position. -/
theorem per_core_exposed_once (be : Bool) (hdr : metrics_table_header) (tables : def_tables)
    (priv P : amdgpu_metrics_private)
    (h : amdgpu_metrics_init_priv be hdr tables priv true = (0, P))
    (hpc : P.common.has_per_core = true) :
    (∀ i, i < NCORES →
      ((P.common.remap.temp (TEMP_CORE + i)).valid = true →
        exposed_once P .hwmon_temp TEMP_CORE i (P.common.remap.temp (TEMP_CORE + i)))
      ∧ ((P.common.remap.power (POWER_CORE + i)).valid = true →
        exposed_once P .hwmon_power POWER_CORE i (P.common.remap.power (POWER_CORE + i)))
      ∧ ((P.common.remap.freq (FREQ_CORECLK + i)).valid = true →
        exposed_once P hwmon_magic_freq FREQ_CORECLK i
          (P.common.remap.freq (FREQ_CORECLK + i))))
    ∧ (∃ n, n ≤ NCORES
      ∧ (∀ j, j < NCORES → ((P.per_core_channel_remap j).valid = true ↔ j < n))
      ∧ (∀ j j2, j < j2 → j2 < n →
        (P.per_core_channel_remap j).idx < (P.per_core_channel_remap j2).idx)) := by
  obtain ⟨C, _, htemp, hpower, hfreq, hrec, hclr⟩ :=
    init_priv_separated be hdr tables priv P h hpc
  obtain ⟨hone, hle, hpre, hinc⟩ := recorded_cores C P.per_core_channel_remap hrec hclr
  have hmark : ∀ (e : remap_t) (k : Nat), (ext_marked C k e).valid = e.valid := by
    intro e k
    unfold ext_marked
    split <;> rfl
  have hmarked : ∀ (e : remap_t) (k : Nat), any_core_entry_valid C k = true →
      (ext_marked C k e).ext = true := by
    intro e k hv
    unfold ext_marked
    rw [hv]
    rfl
  refine ⟨?_, ⟨cores_below C NCORES, hle, hpre, hinc⟩⟩
  intro i hi
  have et := htemp (TEMP_CORE + i)
  have ep := hpower (POWER_CORE + i)
  have ef := hfreq (FREQ_CORECLK + i)
  rw [if_pos (by omega), Nat.add_sub_cancel_left] at et ep ef
  refine ⟨?_, ?_, ?_⟩
  · intro hv
    have hany : any_core_entry_valid C i = true := by
      rw [et, hmark] at hv
      unfold any_core_entry_valid
      rw [hv]
      simp
    obtain ⟨⟨hj, hjv, hji⟩, huniq⟩ := hone i hi hany
    have hext : (P.common.remap.temp (TEMP_CORE + i)).ext = true := by
      rw [et]
      exact hmarked _ _ hany
    refine ⟨hext, (hwmon_is_visible_ext P i).1 hext, cores_below C i,
      ⟨hj, hjv, hji, ?_⟩, huniq⟩
    exact (per_core_is_visible_valid P _ hj hjv).1 (by rw [hji]; exact hv)
  · intro hv
    have hany : any_core_entry_valid C i = true := by
      rw [ep, hmark] at hv
      unfold any_core_entry_valid
      rw [hv]
      simp
    obtain ⟨⟨hj, hjv, hji⟩, huniq⟩ := hone i hi hany
    have hext : (P.common.remap.power (POWER_CORE + i)).ext = true := by
      rw [ep]
      exact hmarked _ _ hany
    refine ⟨hext, (hwmon_is_visible_ext P i).2.1 hext, cores_below C i,
      ⟨hj, hjv, hji, ?_⟩, huniq⟩
    exact (per_core_is_visible_valid P _ hj hjv).2.1 (by rw [hji]; exact hv)
  · intro hv
    have hany : any_core_entry_valid C i = true := by
      rw [ef, hmark] at hv
      unfold any_core_entry_valid
      rw [hv]
      simp
    obtain ⟨⟨hj, hjv, hji⟩, huniq⟩ := hone i hi hany
    have hext : (P.common.remap.freq (FREQ_CORECLK + i)).ext = true := by
      rw [ef]
      exact hmarked _ _ hany
    refine ⟨hext, (hwmon_is_visible_ext P i).2.2 hext, cores_below C i,
      ⟨hj, hjv, hji, ?_⟩, huniq⟩
    exact (per_core_is_visible_valid P _ hj hjv).2.2 (by rw [hji]; exact hv)

set_option maxRecDepth 100000 in
/-- C32 at the 30-byte sample: cores 4, 5 and 6 have a valid entry; they are
recorded at the positions 0, 1 and 2 of `per_core_channel_remap` and position
3 is invalid; the temperature entry of core 4 is valid and marked `ext`, the
main device hides its slot 16 and the per-core device shows its position 0;
the temperature entry of core 5 is invalid and the per-core device hides it,
while it shows the power of core 5. -/
theorem per_core_exposed_once_witness :
    (amdgpu_metrics_init_priv false sample_hdr sample_tables sample_fresh_private true).1 = 0
    ∧ sample_separated.common.has_per_core = true
    ∧ (sample_separated.common.remap.temp (TEMP_CORE + 4)).valid = true
    ∧ (sample_separated.common.remap.temp (TEMP_CORE + 4)).ext = true
    ∧ amdgpu_metrics_hwmon_is_visible sample_separated .hwmon_temp ((TEMP_CORE + 4 : Nat) : Int)
        = 0
    ∧ (sample_separated.per_core_channel_remap 0).valid = true
    ∧ (sample_separated.per_core_channel_remap 0).idx = 4
    ∧ (sample_separated.per_core_channel_remap 1).idx = 5
    ∧ (sample_separated.per_core_channel_remap 2).idx = 6
    ∧ (sample_separated.per_core_channel_remap 3).valid = false
    ∧ amdgpu_metrics_per_core_is_visible sample_separated .hwmon_temp 0 = 0o444
    ∧ (sample_separated.common.remap.temp (TEMP_CORE + 5)).valid = false
    ∧ amdgpu_metrics_per_core_is_visible sample_separated .hwmon_temp 1 = 0
    ∧ amdgpu_metrics_per_core_is_visible sample_separated .hwmon_power 1 = 0o444 :=
  have h := per_core_exposed_once false sample_hdr sample_tables sample_fresh_private
    sample_separated (Prod.ext (by decide) rfl) (by decide)
  have h4 := (h.1 4 (by decide)).1 (by decide)
  ⟨by decide, by decide, by decide, h4.1, h4.2.1, by decide, by decide, by decide, by decide,
    by decide, by decide, by decide, by decide, by decide⟩

/-- The label indices `amdgpu_metrics_init_priv` leaves are those of the
common initialisation, whether or not it separates the per-core channels. -/
theorem init_priv_keeps_idx (be : Bool) (hdr : metrics_table_header) (tables : def_tables)
    (priv pr : amdgpu_metrics_private) (separate_per_core : Bool)
    (h : amdgpu_metrics_init_priv be hdr tables priv separate_per_core = (0, pr)) :
    ∃ C : amdgpu_metrics_private_common,
      amdgpu_metrics_init_priv_common be hdr tables priv.common = (0, C)
      ∧ (∀ x, (pr.common.remap.temp x).idx = (C.remap.temp x).idx)
      ∧ (∀ x, (pr.common.remap.power x).idx = (C.remap.power x).idx)
      ∧ (∀ x, (pr.common.remap.freq x).idx = (C.remap.freq x).idx) := by
  have hmark : ∀ (c : amdgpu_metrics_private_common) (e : remap_t) (k : Nat),
      (ext_marked c k e).idx = e.idx := by
    intro c e k
    unfold ext_marked
    split <;> rfl
  unfold amdgpu_metrics_init_priv at h
  simp only at h
  split_ifs at h with h1 h2
  · exact absurd (Prod.mk.inj h).1 h1
  · have h0 : (amdgpu_metrics_init_priv_common be hdr tables priv.common).1 = 0 := by
      by_contra hc
      exact h1 hc
    have hP := (Prod.mk.inj h).2
    refine ⟨_, Prod.ext h0 rfl, ?_, ?_, ?_⟩ <;>
    · intro x
      rw [← hP]
  · have h0 : (amdgpu_metrics_init_priv_common be hdr tables priv.common).1 = 0 := by
      by_contra hc
      exact h1 hc
    have hP := (Prod.mk.inj h).2
    have hinv := init_priv_loop_inv
      { priv with common := (amdgpu_metrics_init_priv_common be hdr tables priv.common).2 }
      NCORES
    unfold separate_inv at hinv
    simp only at hinv
    obtain ⟨_, _, _, _, _, htemp, hpower, hfreq, _, _⟩ := hinv
    refine ⟨_, Prod.ext h0 rfl, ?_, ?_, ?_⟩
    · intro x
      rw [← hP]
      refine (congrArg remap_t.idx (htemp x)).trans ?_
      split
      · exact hmark _ _ _
      · rfl
    · intro x
      rw [← hP]
      refine (congrArg remap_t.idx (hpower x)).trans ?_
      split
      · exact hmark _ _ _
      · rfl
    · intro x
      rw [← hP]
      refine (congrArg remap_t.idx (hfreq x)).trans ?_
      split
      · exact hmark _ _ _
      · rfl

/-- C33: after `amdgpu_metrics_init_priv_common` returned 0, every entry of
the three remap tables, valid or not, holds a label index below the number of
labels of its category, 31, 24 and 43. The index is the one assigned, not a
truncation of it: it is the slot number the validator assigned, or, for the
entries of a core the detector counted as functional, the base of the
per-core labels plus the number of functional cores below that core. So for
every channel of a category, on the private data `amdgpu_metrics_init_priv`
leaves, `amdgpu_metrics_hwmon_read_string` returns 0 and a label of the label
array. -/
theorem label_index_in_bounds (be : Bool) (hdr : metrics_table_header) (tables : def_tables)
    (priv P : amdgpu_metrics_private_common)
    (h : amdgpu_metrics_init_priv_common be hdr tables priv = (0, P)) :
    (∀ i, i < NCHANNELS_TEMP →
      (P.remap.temp i).idx < 31
      ∧ ((P.remap.temp i).idx = i
        ∨ ∃ k, k < NCORES ∧ i = TEMP_CORE + k
          ∧ classified_functional be
              (validate_all_channels be { priv with channels := P.channels }) k = true
          ∧ (P.remap.temp i).idx = TEMP_CORE + functional_rank be
              (validate_all_channels be { priv with channels := P.channels }) k))
    ∧ (∀ i, i < NCHANNELS_POWER →
      (P.remap.power i).idx < 24
      ∧ ((P.remap.power i).idx = i
        ∨ ∃ k, k < NCORES ∧ i = POWER_CORE + k
          ∧ classified_functional be
              (validate_all_channels be { priv with channels := P.channels }) k = true
          ∧ (P.remap.power i).idx = POWER_CORE + functional_rank be
              (validate_all_channels be { priv with channels := P.channels }) k))
    ∧ (∀ i, i < NCHANNELS_FREQ →
      (P.remap.freq i).idx < 43
      ∧ ((P.remap.freq i).idx = i
        ∨ ∃ k, k < NCORES ∧ i = FREQ_CORECLK + k
          ∧ classified_functional be
              (validate_all_channels be { priv with channels := P.channels }) k = true
          ∧ (P.remap.freq i).idx = FREQ_CORECLK + functional_rank be
              (validate_all_channels be { priv with channels := P.channels }) k))
    ∧ (∀ (A : hwmon_attributes) (priv0 pr : amdgpu_metrics_private) (separate_per_core : Bool),
      priv0.common = priv →
      amdgpu_metrics_init_priv be hdr tables priv0 separate_per_core = (0, pr) →
      (∀ channel, channel < NCHANNELS_TEMP →
        ∃ label, amdgpu_metrics_hwmon_read_string A pr .hwmon_temp A.hwmon_temp_label channel
          = (0, some label))
      ∧ (∀ channel, channel < NCHANNELS_POWER →
        ∃ label, amdgpu_metrics_hwmon_read_string A pr .hwmon_power A.hwmon_power_label channel
          = (0, some label))
      ∧ (∀ channel, channel < NCHANNELS_FREQ →
        ∃ label, amdgpu_metrics_hwmon_read_string A pr hwmon_magic_freq hwmon_magic_freq_label
          channel = (0, some label)))
    ∧ amdgpu_metrics_labels_temp.length = 31 ∧ amdgpu_metrics_labels_power.length = 24
    ∧ amdgpu_metrics_labels_freq.length = 43 := by
  have ht : ∀ i, i < NCHANNELS_TEMP →
      (P.remap.temp i).idx < 31
      ∧ ((P.remap.temp i).idx = i
        ∨ ∃ k, k < NCORES ∧ i = TEMP_CORE + k
          ∧ classified_functional be
              (validate_all_channels be { priv with channels := P.channels }) k = true
          ∧ (P.remap.temp i).idx = TEMP_CORE + functional_rank be
              (validate_all_channels be { priv with channels := P.channels }) k) := by
    intro i hi
    have e := init_temp_idx be hdr tables priv P h i hi
    have hle := functional_below_le be
      (validate_all_channels be { priv with channels := P.channels }) (i - TEMP_CORE)
    simp only [NCHANNELS_TEMP, TEMP_CORE, NCORES] at hi e hle ⊢
    split_ifs at e with hc
    · refine ⟨by omega, Or.inr ⟨i - 12, by omega, by omega, ?_, ?_⟩⟩
      · rw [classified_functional_iff be _ _ (by simp only [NCORES]; omega)]
        exact hc.2.2
      · rw [functional_rank_eq be _ _ (by simp only [NCORES]; omega)]
        exact e
    · exact ⟨by omega, Or.inl e⟩
  have hp : ∀ i, i < NCHANNELS_POWER →
      (P.remap.power i).idx < 24
      ∧ ((P.remap.power i).idx = i
        ∨ ∃ k, k < NCORES ∧ i = POWER_CORE + k
          ∧ classified_functional be
              (validate_all_channels be { priv with channels := P.channels }) k = true
          ∧ (P.remap.power i).idx = POWER_CORE + functional_rank be
              (validate_all_channels be { priv with channels := P.channels }) k) := by
    intro i hi
    have e := init_power_idx be hdr tables priv P h i hi
    have hle := functional_below_le be
      (validate_all_channels be { priv with channels := P.channels }) (i - POWER_CORE)
    simp only [NCHANNELS_POWER, POWER_CORE, NCORES] at hi e hle ⊢
    split_ifs at e with hc
    · refine ⟨by omega, Or.inr ⟨i - 4, by omega, by omega, ?_, ?_⟩⟩
      · rw [classified_functional_iff be _ _ (by simp only [NCORES]; omega)]
        exact hc.2.2
      · rw [functional_rank_eq be _ _ (by simp only [NCORES]; omega)]
        exact e
    · exact ⟨by omega, Or.inl e⟩
  have hf : ∀ i, i < NCHANNELS_FREQ →
      (P.remap.freq i).idx < 43
      ∧ ((P.remap.freq i).idx = i
        ∨ ∃ k, k < NCORES ∧ i = FREQ_CORECLK + k
          ∧ classified_functional be
              (validate_all_channels be { priv with channels := P.channels }) k = true
          ∧ (P.remap.freq i).idx = FREQ_CORECLK + functional_rank be
              (validate_all_channels be { priv with channels := P.channels }) k) := by
    intro i hi
    have e := init_freq_idx be hdr tables priv P h i hi
    have hle := functional_below_le be
      (validate_all_channels be { priv with channels := P.channels }) (i - FREQ_CORECLK)
    simp only [NCHANNELS_FREQ, FREQ_CORECLK, NCORES] at hi e hle ⊢
    split_ifs at e with hc
    · refine ⟨by omega, Or.inr ⟨i - 22, by omega, by omega, ?_, ?_⟩⟩
      · rw [classified_functional_iff be _ _ (by simp only [NCORES]; omega)]
        exact hc.2.2
      · rw [functional_rank_eq be _ _ (by simp only [NCORES]; omega)]
        exact e
    · exact ⟨by omega, Or.inl e⟩
  have hget : ∀ (labels : List String) (idx : Nat), idx < labels.length →
      ∃ label, labels.get? idx = some label := by
    intro labels idx hlt
    exact ⟨labels.get ⟨idx, hlt⟩, List.get?_eq_get hlt⟩
  refine ⟨ht, hp, hf, ?_, rfl, rfl, rfl⟩
  intro A priv0 pr separate_per_core hpr hinit
  obtain ⟨C, hC, it, ip, ifr⟩ := init_priv_keeps_idx be hdr tables priv0 pr separate_per_core
    hinit
  rw [hpr, h] at hC
  have hCP : P = C := (Prod.mk.inj hC).2
  subst hCP
  refine ⟨?_, ?_, ?_⟩
  · intro channel hc
    obtain ⟨label, hl⟩ := hget amdgpu_metrics_labels_temp (P.remap.temp channel).idx
      (ht channel hc).1
    refine ⟨label, ?_⟩
    unfold amdgpu_metrics_hwmon_read_string
    rw [if_pos ⟨rfl, rfl⟩, it, hl]
  · intro channel hc
    obtain ⟨label, hl⟩ := hget amdgpu_metrics_labels_power (P.remap.power channel).idx
      (hp channel hc).1
    refine ⟨label, ?_⟩
    unfold amdgpu_metrics_hwmon_read_string
    rw [if_neg (by simp), if_pos ⟨rfl, rfl⟩, ip, hl]
  · intro channel hc
    obtain ⟨label, hl⟩ := hget amdgpu_metrics_labels_freq (P.remap.freq channel).idx
      (hf channel hc).1
    refine ⟨label, ?_⟩
    unfold amdgpu_metrics_hwmon_read_string
    rw [if_neg (by simp [hwmon_magic_freq]), if_neg (by simp [hwmon_magic_freq]),
      if_pos ⟨rfl, rfl⟩, ifr, hl]

set_option maxRecDepth 100000 in
/-- C33 at the 30-byte sample: after the initialisation the temperature entry
of core 4 (slot 16) holds the label index 12 and reads `Core 0`, the one of
the dummy core 3 (slot 15) holds 15, the last frequency slot holds 42 and reads
`MPIPUCLK`. -/
theorem label_index_in_bounds_witness :
    sample_core_init.1 = 0
    ∧ (sample_core_init.2.remap.temp 16).idx = 12
    ∧ (sample_core_init.2.remap.temp 16).idx < 31
    ∧ (sample_core_init.2.remap.temp 15).idx = 15
    ∧ (sample_core_init.2.remap.freq 42).idx < 43
    ∧ amdgpu_metrics_hwmon_read_string sample_attrs sample_separated .hwmon_temp 21 16
        = (0, some "Core 0")
    ∧ amdgpu_metrics_hwmon_read_string sample_attrs sample_separated hwmon_magic_freq
        hwmon_magic_freq_label 42 = (0, some "MPIPUCLK") :=
  have h := label_index_in_bounds false sample_hdr sample_tables sample_core_fresh
    sample_core_init.2 (Prod.ext (by decide) rfl)
  ⟨by decide, by decide, (h.1 16 (by decide)).1, by decide, (h.2.2.1 42 (by decide)).1,
    by decide, by decide⟩

/-! ## Scaled readings of narrow fields -/

/-- A pass of the decoder that returns a value returns the field it loaded,
which is below `256 ^ size` for the size of the type of the pass. -/
theorem get_val_pass_lt (be : Bool) (priv : amdgpu_metrics_private_common)
    (channel : channel_t) (offset type : Nat) (retrying : Bool) (code : Int) (v : Nat)
    (h : get_val_pass be priv channel offset type retrying = .ret code (some v)) :
    v < 256 ^ data_type_enum_to_size type := by
  unfold get_val_pass at h
  split at h
  · cases h
  · have hr : ∀ raw max, read_raw be priv.metrics offset type = some (raw, max) →
        raw < 256 ^ data_type_enum_to_size type := by
      intro raw max hrm
      unfold read_raw at hrm
      unfold data_type_enum_to_size
      split at hrm
      · rename_i h1
        cases hrm
        rw [if_pos h1]
        exact load_lt be priv.metrics 1 offset
      · rename_i h1
        rw [if_neg h1]
        split at hrm
        · rename_i h2
          cases hrm
          rw [if_pos h2]
          exact load_lt be priv.metrics 2 offset
        · rename_i h2
          rw [if_neg h2]
          split at hrm
          · rename_i h3
            cases hrm
            rw [if_pos h3]
            exact load_lt be priv.metrics 4 offset
          · rename_i h3
            rw [if_neg h3]
            split at hrm
            · rename_i h4
              cases hrm
              rw [if_pos h4]
              exact load_lt be priv.metrics 8 offset
            · cases hrm
    split at h
    · cases h
    · rename_i raw max hrm
      split at h
      · cases h
        exact hr _ _ hrm
      · split at h
        · cases h
        · cases h

/-- A value of a field of at most four bytes is below `2 ^ 32`. -/
theorem narrow_lt (w v : Nat) (hw : w ≤ 4) (h : v < 256 ^ w) : v < 2 ^ 32 := by
  have h4 : (256 : Nat) ^ w ≤ 256 ^ 4 := Nat.pow_le_pow_right (by decide) hw
  have e : (256 : Nat) ^ 4 = 2 ^ 32 := by decide
  omega

/-- The decoder on a descriptor whose primary and fallback fields are at most
four bytes wide stores a value below `2 ^ 32`. -/
theorem get_val_narrow (be : Bool) (priv : amdgpu_metrics_private_common) (channel : channel_t)
    (v : Nat) (h1 : data_type_enum_to_size channel.type ≤ 4)
    (h2 : data_type_enum_to_size channel.fb.type ≤ 4)
    (h : amdgpu_metrics_get_val be priv channel = (0, some v)) : v < 2 ^ 32 := by
  rw [get_val_two_passes] at h
  split at h
  · rename_i code val hp
    cases h
    exact narrow_lt _ _ h1 (get_val_pass_lt be priv channel _ _ _ _ _ hp)
  · rename_i o t r hp
    obtain ⟨ho, ht, hr, -⟩ := get_val_pass_again_fb be priv channel _ _ _ _ _ _ hp
    subst ho ht hr
    split at h
    · rename_i code val hq
      cases h
      exact narrow_lt _ _ h2 (get_val_pass_lt be priv channel _ _ _ _ _ hq)
    · cases h

/-- The multiplier is 10, 1000 or 1000000 when it is not 0. -/
theorem GET_MULTIPLIER_cases (type : hwmon_sensor_types) (h : GET_MULTIPLIER type ≠ 0) :
    GET_MULTIPLIER type = 10 ∨ GET_MULTIPLIER type = 1000 ∨ GET_MULTIPLIER type = 1000000 := by
  unfold GET_MULTIPLIER at h ⊢
  split
  · exact Or.inl rfl
  · split
    · exact Or.inr (Or.inl rfl)
    · split
      · exact Or.inr (Or.inr rfl)
      · rename_i h1 h2 h3
        rw [if_neg h1, if_neg h2, if_neg h3] at h
        exact absurd rfl h

/-- The tail of the read functions on a raw value below `2 ^ 32` and a
multiplier of at most 1000000: the product does not wrap in `uint64_t`, is
below `2 ^ 63`, and is what is stored. -/
theorem read_result_narrow (v m : Nat) (hv : v < 2 ^ 32) (hm : m ≤ 1000000) :
    v * m < 2 ^ 63 ∧ v * m % 2 ^ 64 = v * m
    ∧ u64_to_long (v * m % 2 ^ 64) = ((v * m : Nat) : Int)
    ∧ read_result (0, some v) m = (0, some ((v * m : Nat) : Int)) := by
  have h1 : v * m ≤ 2 ^ 32 * 1000000 := Nat.mul_le_mul (Nat.le_of_lt hv) hm
  have h2 : (2 : Nat) ^ 32 * 1000000 < 2 ^ 63 := by decide
  have h3 : v * m < 2 ^ 63 := lt_of_le_of_lt h1 h2
  have h4 : (2 : Nat) ^ 63 < 2 ^ 64 := by decide
  refine ⟨h3, Nat.mod_eq_of_lt (by omega), u64_to_long_small _ h3, ?_⟩
  rw [(read_result_eq (0, some v) m).1 v rfl, u64_to_long_small _ h3]

/-- The per-core read past the refresh step, for each of the three inputs: the
tail of the function applied to the decoder result of the recorded core. -/
theorem per_core_read_decoded (HZ : Nat) (be : Bool) (hdr : metrics_table_header)
    (sizes : vendor_sizes) (A : hwmon_attributes) (jiffies : Nat) (source : snapshot_source)
    (priv : amdgpu_metrics_private) (channel : Nat) (ret : Int) (U : amdgpu_metrics_private)
    (src : snapshot_source)
    (hU : amdgpu_metrics_update_gpu_metrics HZ be hdr sizes jiffies source priv = (ret, U, src))
    (hok : 0 ≤ ret) (hc : channel < NCORES) :
    amdgpu_metrics_per_core_read HZ be hdr sizes A jiffies source priv .hwmon_temp
        A.hwmon_temp_input channel
      = ((read_result (GET_CORE_TEMP be U.common (U.per_core_channel_remap channel).idx) 10).1,
         (read_result (GET_CORE_TEMP be U.common (U.per_core_channel_remap channel).idx) 10).2,
         U, src)
    ∧ amdgpu_metrics_per_core_read HZ be hdr sizes A jiffies source priv .hwmon_power
        A.hwmon_power_input channel
      = ((read_result (GET_CORE_POWER be U.common (U.per_core_channel_remap channel).idx)
            1000).1,
         (read_result (GET_CORE_POWER be U.common (U.per_core_channel_remap channel).idx)
            1000).2, U, src)
    ∧ amdgpu_metrics_per_core_read HZ be hdr sizes A jiffies source priv hwmon_magic_freq
        hwmon_magic_freq_input channel
      = ((read_result (GET_CORE_FREQ be U.common (U.per_core_channel_remap channel).idx)
            1000000).1,
         (read_result (GET_CORE_FREQ be U.common (U.per_core_channel_remap channel).idx)
            1000000).2, U, src) := by
  have hneg : ¬ ret < 0 := by omega
  have hc1 : ¬ channel ≥ NCORES := by omega
  refine ⟨?_, ?_, ?_⟩
  · have hm : GET_MULTIPLIER .hwmon_temp = 10 := rfl
    unfold amdgpu_metrics_per_core_read
    rw [hU]
    simp [hm, hneg, hc1]
  · have hm : GET_MULTIPLIER .hwmon_power = 1000 := rfl
    unfold amdgpu_metrics_per_core_read
    rw [hU]
    simp [hm, hneg, hc1]
  · have hm : GET_MULTIPLIER .hwmon_intrusion = 1000000 := rfl
    unfold amdgpu_metrics_per_core_read
    rw [hU]
    simp [hm, hneg, hc1, hwmon_magic_freq]

/-- C34: a raw value `v` below `2 ^ 32` times a multiplier that is not 0 (10,
1000 or 1000000) does not wrap in `uint64_t` and is below `2 ^ 63`, so its
conversion to `long` is the product itself and is not negative; the decoder
stores a value below `2 ^ 32` for every descriptor whose primary and fallback
fields are 8, 16 or 32 bits wide; and when the refresh step does not fail
(`ret` is its return value, `U` is `*priv` after it) and the decoder stores
such a `v` for the requested slot, `amdgpu_metrics_hwmon_read` and
`amdgpu_metrics_per_core_read` return 0 and store the exact product of `v` and
10, 1000 or 1000000. -/
theorem narrow_product_exact :
    (∀ (v : Nat) (type : hwmon_sensor_types), v < 2 ^ 32 → GET_MULTIPLIER type ≠ 0 →
      (GET_MULTIPLIER type = 10 ∨ GET_MULTIPLIER type = 1000
        ∨ GET_MULTIPLIER type = 1000000)
      ∧ v * GET_MULTIPLIER type < 2 ^ 63
      ∧ v * GET_MULTIPLIER type % 2 ^ 64 = v * GET_MULTIPLIER type
      ∧ u64_to_long (v * GET_MULTIPLIER type % 2 ^ 64) = ((v * GET_MULTIPLIER type : Nat) : Int)
      ∧ 0 ≤ u64_to_long (v * GET_MULTIPLIER type % 2 ^ 64)
      ∧ read_result (0, some v) (GET_MULTIPLIER type)
          = (0, some ((v * GET_MULTIPLIER type : Nat) : Int)))
    ∧ (∀ (be : Bool) (priv : amdgpu_metrics_private_common) (channel : channel_t) (v : Nat),
      (channel.type = channel_u8 ∨ channel.type = channel_u16 ∨ channel.type = channel_u32) →
      (channel.fb.type = channel_null ∨ channel.fb.type = channel_u8
        ∨ channel.fb.type = channel_u16 ∨ channel.fb.type = channel_u32) →
      amdgpu_metrics_get_val be priv channel = (0, some v) → v < 2 ^ 32)
    ∧ (∀ (HZ : Nat) (be : Bool) (hdr : metrics_table_header) (sizes : vendor_sizes)
        (A : hwmon_attributes) (jiffies : Nat) (source : snapshot_source)
        (priv : amdgpu_metrics_private) (channel : Int) (ret : Int)
        (U : amdgpu_metrics_private) (src : snapshot_source) (v : Nat),
      amdgpu_metrics_update_gpu_metrics HZ be hdr sizes jiffies source priv = (ret, U, src) →
      0 ≤ ret → 0 ≤ channel → v < 2 ^ 32 →
      (channel < 31 →
        amdgpu_metrics_get_val be U.common (U.common.channels.temp channel.toNat)
          = (0, some v) →
        amdgpu_metrics_hwmon_read HZ be hdr sizes A jiffies source priv .hwmon_temp
            A.hwmon_temp_input channel
          = (0, some ((v * 10 : Nat) : Int), U, src))
      ∧ (channel < 24 →
        amdgpu_metrics_get_val be U.common (U.common.channels.power channel.toNat)
          = (0, some v) →
        amdgpu_metrics_hwmon_read HZ be hdr sizes A jiffies source priv .hwmon_power
            A.hwmon_power_input channel
          = (0, some ((v * 1000 : Nat) : Int), U, src))
      ∧ (channel < 43 →
        amdgpu_metrics_get_val be U.common (U.common.channels.freq channel.toNat)
          = (0, some v) →
        amdgpu_metrics_hwmon_read HZ be hdr sizes A jiffies source priv hwmon_magic_freq
            hwmon_magic_freq_input channel
          = (0, some ((v * 1000000 : Nat) : Int), U, src)))
    ∧ (∀ (HZ : Nat) (be : Bool) (hdr : metrics_table_header) (sizes : vendor_sizes)
        (A : hwmon_attributes) (jiffies : Nat) (source : snapshot_source)
        (priv : amdgpu_metrics_private) (channel : Nat) (ret : Int)
        (U : amdgpu_metrics_private) (src : snapshot_source) (v : Nat),
      amdgpu_metrics_update_gpu_metrics HZ be hdr sizes jiffies source priv = (ret, U, src) →
      0 ≤ ret → channel < NCORES → v < 2 ^ 32 →
      (GET_CORE_TEMP be U.common (U.per_core_channel_remap channel).idx = (0, some v) →
        amdgpu_metrics_per_core_read HZ be hdr sizes A jiffies source priv .hwmon_temp
            A.hwmon_temp_input channel
          = (0, some ((v * 10 : Nat) : Int), U, src))
      ∧ (GET_CORE_POWER be U.common (U.per_core_channel_remap channel).idx = (0, some v) →
        amdgpu_metrics_per_core_read HZ be hdr sizes A jiffies source priv .hwmon_power
            A.hwmon_power_input channel
          = (0, some ((v * 1000 : Nat) : Int), U, src))
      ∧ (GET_CORE_FREQ be U.common (U.per_core_channel_remap channel).idx = (0, some v) →
        amdgpu_metrics_per_core_read HZ be hdr sizes A jiffies source priv hwmon_magic_freq
            hwmon_magic_freq_input channel
          = (0, some ((v * 1000000 : Nat) : Int), U, src))) := by
  refine ⟨?_, ?_, ?_, ?_⟩
  · intro v type hv hm
    have hc := GET_MULTIPLIER_cases type hm
    have hle : GET_MULTIPLIER type ≤ 1000000 := by
      rcases hc with h | h | h <;> rw [h] <;> decide
    obtain ⟨h1, h2, h3, h4⟩ := read_result_narrow v (GET_MULTIPLIER type) hv hle
    refine ⟨hc, h1, h2, h3, ?_, h4⟩
    rw [h3]
    exact Int.ofNat_nonneg _
  · intro be priv channel v h1 h2 h
    refine get_val_narrow be priv channel v ?_ ?_ h
    · rcases h1 with e | e | e <;> rw [e] <;> decide
    · rcases h2 with e | e | e | e <;> rw [e] <;> decide
  · intro HZ be hdr sizes A jiffies source priv channel ret U src v hU hok h0 hv
    obtain ⟨ht, hp, hf⟩ :=
      hwmon_read_decoded HZ be hdr sizes A jiffies source priv channel ret U src hU hok h0
    refine ⟨?_, ?_, ?_⟩
    · intro hc hg
      rw [ht hc, hg, (read_result_narrow v 10 hv (by decide)).2.2.2]
    · intro hc hg
      rw [hp hc, hg, (read_result_narrow v 1000 hv (by decide)).2.2.2]
    · intro hc hg
      rw [hf hc, hg, (read_result_narrow v 1000000 hv (by decide)).2.2.2]
  · intro HZ be hdr sizes A jiffies source priv channel ret U src v hU hok hc hv
    obtain ⟨ht, hp, hf⟩ :=
      per_core_read_decoded HZ be hdr sizes A jiffies source priv channel ret U src hU hok hc
    refine ⟨?_, ?_, ?_⟩
    · intro hg
      rw [ht, hg, (read_result_narrow v 10 hv (by decide)).2.2.2]
    · intro hg
      rw [hp, hg, (read_result_narrow v 1000 hv (by decide)).2.2.2]
    · intro hg
      rw [hf, hg, (read_result_narrow v 1000000 hv (by decide)).2.2.2]

set_option maxRecDepth 100000 in
/-- C34 at the 30-byte sample with `HZ = 1000` and `jiffies = 5000`: the
largest 32-bit value times 1000000 is 4294967295000000 and is stored as it is;
the 16-bit temperature field of core 4 decodes to 4500, below `2 ^ 32`; the
main read of the frequency slot 26 stores 800000000; and the per-core reads of
channel 0 of `sample_separated`, which is core 4, store 45000, 1000000 and
800000000. -/
theorem narrow_product_exact_witness :
    u64_to_long (4294967295 * GET_MULTIPLIER hwmon_magic_freq % 2 ^ 64) = 4294967295000000
    ∧ 0 ≤ u64_to_long (4294967295 * GET_MULTIPLIER hwmon_magic_freq % 2 ^ 64)
    ∧ amdgpu_metrics_get_val false sample_refreshed.2.1.common
        (sample_refreshed.2.1.common.channels.temp 16) = (0, some 4500)
    ∧ 4500 < 2 ^ 32
    ∧ (amdgpu_metrics_hwmon_read 1000 false sample_hdr sample_sizes sample_attrs 5000
        sample_source sample_private hwmon_magic_freq hwmon_magic_freq_input 26).1 = 0
    ∧ (amdgpu_metrics_hwmon_read 1000 false sample_hdr sample_sizes sample_attrs 5000
        sample_source sample_private hwmon_magic_freq hwmon_magic_freq_input 26).2.1
        = some 800000000
    ∧ (amdgpu_metrics_per_core_read 1000 false sample_hdr sample_sizes sample_attrs 5000
        sample_source sample_separated .hwmon_temp 1 0).1 = 0
    ∧ (amdgpu_metrics_per_core_read 1000 false sample_hdr sample_sizes sample_attrs 5000
        sample_source sample_separated .hwmon_temp 1 0).2.1 = some 45000
    ∧ (amdgpu_metrics_per_core_read 1000 false sample_hdr sample_sizes sample_attrs 5000
        sample_source sample_separated .hwmon_power 9 0).2.1 = some 1000000
    ∧ (amdgpu_metrics_per_core_read 1000 false sample_hdr sample_sizes sample_attrs 5000
        sample_source sample_separated hwmon_magic_freq hwmon_magic_freq_input 0).2.1
        = some 800000000 :=
  have hU : amdgpu_metrics_update_gpu_metrics 1000 false sample_hdr sample_sizes 5000
      sample_source sample_private
      = (sample_refreshed.1, sample_refreshed.2.1, sample_refreshed.2.2) := rfl
  have hV : amdgpu_metrics_update_gpu_metrics 1000 false sample_hdr sample_sizes 5000
      sample_source sample_separated
      = ((amdgpu_metrics_update_gpu_metrics 1000 false sample_hdr sample_sizes 5000
          sample_source sample_separated).1,
         (amdgpu_metrics_update_gpu_metrics 1000 false sample_hdr sample_sizes 5000
          sample_source sample_separated).2.1,
         (amdgpu_metrics_update_gpu_metrics 1000 false sample_hdr sample_sizes 5000
          sample_source sample_separated).2.2) := rfl
  have ha := narrow_product_exact.1 4294967295 hwmon_magic_freq (by decide) (by decide)
  have hg : amdgpu_metrics_get_val false sample_refreshed.2.1.common
      (sample_refreshed.2.1.common.channels.temp 16) = (0, some 4500) := by decide
  have hb := narrow_product_exact.2.1 false sample_refreshed.2.1.common
    (sample_refreshed.2.1.common.channels.temp 16) 4500 (by decide) (by decide) hg
  have hc := (narrow_product_exact.2.2.1 1000 false sample_hdr sample_sizes sample_attrs 5000
    sample_source sample_private 26 _ _ _ 800 hU (by decide) (by decide) (by decide)).2.2
    (by decide) (by decide)
  have hd := narrow_product_exact.2.2.2 1000 false sample_hdr sample_sizes sample_attrs 5000
    sample_source sample_separated 0 _ _ _ 4500 hV (by decide) (by decide) (by decide)
  have hd1 := (narrow_product_exact.2.2.2 1000 false sample_hdr sample_sizes sample_attrs 5000
    sample_source sample_separated 0 _ _ _ 1000 hV (by decide) (by decide) (by decide)).2.1
    (by decide)
  have hd2 := (narrow_product_exact.2.2.2 1000 false sample_hdr sample_sizes sample_attrs 5000
    sample_source sample_separated 0 _ _ _ 800 hV (by decide) (by decide) (by decide)).2.2
    (by decide)
  ⟨ha.2.2.2.1.trans (by decide), ha.2.2.2.2.1, hg, hb,
    congrArg (fun r => r.1) hc, congrArg (fun r => r.2.1) hc,
    congrArg (fun r => r.1) (hd.1 (by decide)),
    congrArg (fun r => r.2.1) (hd.1 (by decide)),
    congrArg (fun r => r.2.1) hd1, congrArg (fun r => r.2.1) hd2⟩

/-! ## Frequency fallbacks of the revisions 1.0 to 1.3 -/

set_option maxRecDepth 100000 in
/-- C35, the code at the failing input: `DEF_CHANNEL_FREQ_V1_0`, which the
table entries of the revisions 1.0 to 1.3 share, gives `vclk[1]` (slot 14,
primary `current_vclk1`) the fallback `average_dclk0_frequency` and `dclk[0]`
(slot 17, primary `current_dclk0`) the fallback `average_vclk1_frequency`;
the other five initialisers name the average of their own clock. On the
revision 1.0 snapshot `sample_clock_metrics`, where both primaries hold the
all-ones value, `average_vclk1_frequency` is 600 and
`average_dclk0_frequency` is 400, the initialisation returns 0, the slot
labelled `VCLK 1` decodes to 400 and the slot labelled `DCLK 0` to 600, and
`amdgpu_metrics_hwmon_read` stores 400000000 for `VCLK 1` and 600000000 for
`DCLK 0`. -/
theorem freq_fallback_swapped :
    DEF_CHANNEL_FREQ_V1_0.map (fun c => (c.slot, c.mbr, c.fb))
      = [(FREQ_GFXCLK + 0, .current_gfxclk, some .average_gfxclk_frequency),
         (FREQ_SOCCLK + 0, .current_socclk, some .average_socclk_frequency),
         (FREQ_UCLK, .current_uclk, some .average_uclk_frequency),
         (FREQ_VCLK + 0, .current_vclk0, some .average_vclk0_frequency),
         (FREQ_VCLK + 1, .current_vclk1, some .average_dclk0_frequency),
         (FREQ_DCLK + 0, .current_dclk0, some .average_vclk1_frequency),
         (FREQ_DCLK + 1, .current_dclk1, some .average_dclk1_frequency)]
    ∧ (DEF_CHANNEL_FREQ_V1_0.filter (fun c => decide (c.fb ≠ same_clock_average c.mbr))).map
        (fun c => c.slot) = [FREQ_VCLK + 1, FREQ_DCLK + 0]
    ∧ (∀ S : vendor_struct,
        (channels_of S DEF_CHANNEL_FREQ_V1_0 (FREQ_VCLK + 1)).fb
          = { offset := (S.member .average_dclk0_frequency).offset % 2 ^ 13
              type := (S.member .average_dclk0_frequency).type % 2 ^ 3 }
        ∧ (channels_of S DEF_CHANNEL_FREQ_V1_0 (FREQ_DCLK + 0)).fb
          = { offset := (S.member .average_vclk1_frequency).offset % 2 ^ 13
              type := (S.member .average_vclk1_frequency).type % 2 ^ 3 })
    ∧ (∀ L : gpu_metrics_version → vendor_struct,
        (amdgpu_metric_def_table_v1 L 0).freq = channels_of (L .v1_0) DEF_CHANNEL_FREQ_V1_0
        ∧ (amdgpu_metric_def_table_v1 L 1).freq = channels_of (L .v1_1) DEF_CHANNEL_FREQ_V1_0
        ∧ (amdgpu_metric_def_table_v1 L 2).freq = channels_of (L .v1_2) DEF_CHANNEL_FREQ_V1_0
        ∧ (amdgpu_metric_def_table_v1 L 3).freq = channels_of (L .v1_3) DEF_CHANNEL_FREQ_V1_0)
    ∧ sample_clock_metrics.length = 1540
    ∧ header_structure_size false sample_hdr sample_clock_metrics = 1540
    ∧ header_field false sample_clock_metrics sample_hdr.format_revision = 1
    ∧ header_field false sample_clock_metrics sample_hdr.content_revision = 0
    ∧ load false sample_clock_metrics
        ((sample_layout .v1_0).member .current_vclk1).offset 2 = 0xffff
    ∧ load false sample_clock_metrics
        ((sample_layout .v1_0).member .current_dclk0).offset 2 = 0xffff
    ∧ load false sample_clock_metrics
        ((sample_layout .v1_0).member .average_vclk1_frequency).offset 2 = 600
    ∧ load false sample_clock_metrics
        ((sample_layout .v1_0).member .average_dclk0_frequency).offset 2 = 400
    ∧ sample_clock_init.1 = 0
    ∧ amdgpu_metrics_labels_freq.get? (FREQ_VCLK + 1) = some "VCLK 1"
    ∧ amdgpu_metrics_labels_freq.get? (FREQ_DCLK + 0) = some "DCLK 0"
    ∧ amdgpu_metrics_get_val false sample_clock_init.2
        (sample_clock_init.2.channels.freq (FREQ_VCLK + 1)) = (0, some 400)
    ∧ amdgpu_metrics_get_val false sample_clock_init.2
        (sample_clock_init.2.channels.freq (FREQ_DCLK + 0)) = (0, some 600)
    ∧ (amdgpu_metrics_hwmon_read 1000 false sample_hdr sample_layout_sizes sample_attrs 5000
        sample_clock_source sample_clock_private hwmon_magic_freq hwmon_magic_freq_input
        ((FREQ_VCLK + 1 : Nat) : Int)).1 = 0
    ∧ (amdgpu_metrics_hwmon_read 1000 false sample_hdr sample_layout_sizes sample_attrs 5000
        sample_clock_source sample_clock_private hwmon_magic_freq hwmon_magic_freq_input
        ((FREQ_VCLK + 1 : Nat) : Int)).2.1 = some 400000000
    ∧ (amdgpu_metrics_hwmon_read 1000 false sample_hdr sample_layout_sizes sample_attrs 5000
        sample_clock_source sample_clock_private hwmon_magic_freq hwmon_magic_freq_input
        ((FREQ_DCLK + 0 : Nat) : Int)).2.1 = some 600000000 := by
  refine ⟨by decide, by decide, fun S => ⟨rfl, rfl⟩, fun L => ⟨rfl, rfl, rfl, rfl⟩, ?_⟩
  have hheader : sample_clock_metrics.length = 1540
      ∧ header_structure_size false sample_hdr sample_clock_metrics = 1540
      ∧ header_field false sample_clock_metrics sample_hdr.format_revision = 1
      ∧ header_field false sample_clock_metrics sample_hdr.content_revision = 0 :=
    ⟨by decide, by decide, by decide, by decide⟩
  obtain ⟨h1, h2, h3, h4⟩ := hheader
  refine ⟨h1, h2, h3, h4, by decide, by decide, by decide, by decide, ?_⟩
  refine ⟨by decide, by decide, by decide, by decide, by decide, ?_⟩
  exact ⟨by decide, by decide, by decide⟩

/-! ## Scaled readings under the tables of the source -/

end AmdgpuMetrics
